import Mathlib

/-!
# Routing-resource graph, device grid, cost map, routing annotation and median move

A shallow embedding of

* `vpr/src/tileable_rr_graph/tileable_rr_graph_node_builder.cpp`
  (node-count estimation, grid node loading, channel node loading),
* `libs/librrgraph/src/base/rr_graph_utils.cpp` (`set_sink_locs`),
* `vpr/src/base/SetupGrid.cpp` (`create_device_grid`, `auto_size_device_grid`,
  `build_device_grid`, `set_grid_block_type`, `CheckGrid`),
* `vpr/src/route/router_lookahead_map.h` (`Cost_Entry`, `t_wire_cost_map`),
* `vpr/src/route/annotate_routing.cpp` (`annotate_rr_node_nets`), and
* `vpr/src/place/median_move_generator.cpp` (`propose_move`,
  `get_bb_from_scratch_excluding_block`, `get_bb_incrementally`).

Stateful code is written as explicit state passing over `RRBuildState` and
`GridBuildState`. Code that aborts (`VTR_ASSERT`, `exit`) returns `Option`; the grid
set-up, whose fatal errors carry a kind and a message, returns `Except SetupError`.
Helpers whose bodies are declared elsewhere are either fields of a parameter
record (`GridHelpers`, `ChanHelpers`) or carry a doc comment that starts with
`Modelled from the spec:`.
-/

namespace Vtr

/-! ## Basic types -/

/-- Kind of a routing-resource node (`t_rr_type`). -/
inductive t_rr_type where
  | SOURCE | SINK | IPIN | OPIN | CHANX | CHANY
  deriving DecidableEq, Repr

/-- Side of a tile (`e_side`); `NUM_SIDES` is the "no side" value. -/
inductive e_side where
  | TOP | RIGHT | BOTTOM | LEFT | NUM_SIDES
  deriving DecidableEq, Repr

/-- The four real sides, in the order the loaders enumerate them. -/
def SIDES : List e_side := [.TOP, .RIGHT, .BOTTOM, .LEFT]

/-- The value of `SIDES[0]`, the side under which nodes without a side are indexed. -/
def SIDES_0 : e_side := SIDES.headD .TOP

/-- Travel direction of a wire (`Direction`). -/
inductive Direction where
  | INC | DEC | BIDIR | NONE
  deriving DecidableEq, Repr

/-- Kind of a pin or of a pin class (`e_pin_type`). -/
inductive e_pin_type where
  | OPEN | DRIVER | RECEIVER
  deriving DecidableEq, Repr

/-- One electrical class of a tile type (`t_class`). -/
structure t_class where
  type : e_pin_type
  num_pins : Nat
  deriving DecidableEq, Repr

/-- A physical tile type (`t_physical_tile_type`); `index` is its identity. -/
structure t_physical_tile_type where
  index : Nat
  width : Nat
  height : Nat
  num_pins : Nat
  class_inf : List t_class
  deriving DecidableEq, Repr

/-- Location of a grid cell (`t_physical_tile_loc`). -/
structure t_physical_tile_loc where
  x : Nat
  y : Nat
  layer_num : Nat
  deriving DecidableEq, Repr

/-- The query surface of the device grid that the node builder uses. -/
structure DeviceGrid where
  width : Nat
  height : Nat
  get_physical_type : t_physical_tile_loc → t_physical_tile_type
  get_width_offset : t_physical_tile_loc → Nat
  get_height_offset : t_physical_tile_loc → Nat

/-- Subtraction of two `size_t` values (wraps modulo 2^64). -/
def size_t_sub (a b : Nat) : Nat := (a + 2 ^ 64 - b % 2 ^ 64) % 2 ^ 64

/-! ## Nodes, spatial index, builder state -/

/-- A routing-resource node as stored by the graph. -/
structure t_rr_node where
  type : t_rr_type
  layer : Nat
  xlow : Nat
  ylow : Nat
  xhigh : Nat
  yhigh : Nat
  ptc_num : Nat
  capacity : Nat
  direction : Direction
  cost_index : Nat
  sides : List e_side
  deriving DecidableEq, Repr

/-- Modelled from the spec: the spatial index (`RRSpatialLookup`), which "maps a
coordinate/type/ptc/side tuple to a node identity"; its class is not among the
sources. The table is indexed `[type][layer][x][y][side][ptc]`; an absent or
invalid entry is `none`. -/
def RRSpatialLookup : Type := t_rr_type → Nat → Nat → Nat → e_side → Nat → Option Nat

/-- Modelled from the spec: the empty spatial index. -/
def RRSpatialLookup.empty : RRSpatialLookup := fun _ _ _ _ _ _ => none

/-- Modelled from the spec: `RRSpatialLookup::add_node`, "insert/associate(coordinate,
type, ptc, side, node) — records a lookup entry". -/
def RRSpatialLookup.add_node (l : RRSpatialLookup) (node layer x y : Nat) (type : t_rr_type)
    (ptc : Nat) (side : e_side) : RRSpatialLookup :=
  fun t la i j s p =>
    if t = type ∧ la = layer ∧ i = x ∧ j = y ∧ s = side ∧ p = ptc then some node
    else l t la i j s p

/-- Modelled from the spec: `RRSpatialLookup::mirror_nodes`, "mirror(source-coordinate,
destination-coordinate, type, side)": the entries of the source cell, for every ptc
number, become the entries of the destination cell. -/
def RRSpatialLookup.mirror_nodes (l : RRSpatialLookup) (layer : Nat) (src des : Nat × Nat)
    (type : t_rr_type) (side : e_side) : RRSpatialLookup :=
  fun t la i j s p =>
    if t = type ∧ la = layer ∧ i = des.1 ∧ j = des.2 ∧ s = side then l type layer src.1 src.2 side p
    else l t la i j s p

/-- Modelled from the spec: `RRSpatialLookup::remove_node`, "remove(coordinate, layer,
type, ptc) — deletes one entry": the entry of `node` at that cell, indexed under
`SIDES[0]` as every node without a side is. -/
def RRSpatialLookup.remove_node (l : RRSpatialLookup) (node layer x y : Nat) (type : t_rr_type)
    (ptc : Nat) : RRSpatialLookup :=
  fun t la i j s p =>
    if t = type ∧ la = layer ∧ i = x ∧ j = y ∧ s = SIDES_0 ∧ p = ptc ∧ l t la i j s p = some node
    then none
    else l t la i j s p

/-- Modelled from the spec: `RRSpatialLookup::find_node`, the lookup from (layer, x, y,
type, ptc, side) to a node identity; only pins are indexed by their side, every other
kind under `SIDES[0]`. -/
def RRSpatialLookup.find_node (l : RRSpatialLookup) (layer x y : Nat) (type : t_rr_type)
    (ptc : Nat) (side : e_side) : Option Nat :=
  l type layer x y (if type = .IPIN ∨ type = .OPIN then side else SIDES_0) ptc

/-- One call of `add_node_track_num(node, chan_coordinate, itrack)`: the wire `node`
occupies track slot `track` at channel position `(x, y)`. -/
structure t_track_num where
  node : Nat
  x : Nat
  y : Nat
  track : Nat
  deriving DecidableEq, Repr

/-- The state the builders work on: the node storage and spatial index of
`RRGraphBuilder` (read back through `RRGraphView`), the edges of the graph as
(source node, sink node) pairs, and the two side tables the node builder is handed,
`rr_node_driver_switches` and `rr_node_track_ids`. A node identity is an index into
`nodes`. -/
structure RRBuildState where
  nodes : List t_rr_node
  node_lookup : RRSpatialLookup
  edges : List (Nat × Nat)
  node_track_nums : List t_track_num
  rr_node_driver_switches : Nat → Nat
  rr_node_track_ids : Nat → List Nat

/-- A state without nodes, edges or index entries. -/
def RRBuildState.empty : RRBuildState :=
  { nodes := [], node_lookup := RRSpatialLookup.empty, edges := [], node_track_nums := [],
    rr_node_driver_switches := fun _ => 0, rr_node_track_ids := fun _ => [] }

/-- Modelled from the spec: `RRGraphBuilder::create_node(layer, x, y, type, ptc, side)`:
a new node of the given kind and ptc number whose "initial bounding box [is] this single
position", entered into the spatial index (pins under their side, the other kinds under
`SIDES[0]`). Returns the new identity, the next free index. -/
def create_node (st : RRBuildState) (layer x y : Nat) (type : t_rr_type) (ptc : Nat)
    (side : e_side) : Nat × RRBuildState :=
  let is_pin : Bool := decide (type = .OPIN ∨ type = .IPIN)
  let node_side := if is_pin then side else SIDES_0
  let new_node := st.nodes.length
  (new_node,
   { st with
     nodes := st.nodes ++ [{ type := type, layer := layer, xlow := x, ylow := y, xhigh := x,
                             yhigh := y, ptc_num := ptc, capacity := 0, direction := .NONE,
                             cost_index := 0, sides := if is_pin then [side] else [] }]
     node_lookup := st.node_lookup.add_node new_node layer x y type ptc node_side })

/-- Apply `f` to the stored node `node`. -/
def modify_node (st : RRBuildState) (node : Nat) (f : t_rr_node → t_rr_node) : RRBuildState :=
  { st with nodes := st.nodes.modify f node }

/-- Modelled from the spec: `set_node_coordinates(node, x1, y1, x2, y2)` stores the
bounding box (xlow, ylow, xhigh, yhigh). -/
def set_node_coordinates (st : RRBuildState) (node x1 y1 x2 y2 : Nat) : RRBuildState :=
  modify_node st node (fun n => { n with xlow := x1, ylow := y1, xhigh := x2, yhigh := y2 })

/-- The builder call `add_node_side(node, side)`. -/
def add_node_side (st : RRBuildState) (node : Nat) (side : e_side) : RRBuildState :=
  modify_node st node (fun n => { n with sides := if side ∈ n.sides then n.sides else n.sides ++ [side] })

/-- The builder calls `set_node_pin_num` and `set_node_class_num`: both store the ptc number. -/
def set_node_ptc_num (st : RRBuildState) (node ptc : Nat) : RRBuildState :=
  modify_node st node (fun n => { n with ptc_num := ptc })

/-- The builder call `set_node_capacity(node, capacity)`. -/
def set_node_capacity (st : RRBuildState) (node capacity : Nat) : RRBuildState :=
  modify_node st node (fun n => { n with capacity := capacity })

/-- The builder call `set_node_layer(node, layer)`. -/
def set_node_layer (st : RRBuildState) (node layer : Nat) : RRBuildState :=
  modify_node st node (fun n => { n with layer := layer })

/-- The builder call `set_node_cost_index(node, cost_index)`. -/
def set_node_cost_index (st : RRBuildState) (node cost_index : Nat) : RRBuildState :=
  modify_node st node (fun n => { n with cost_index := cost_index })

/-- The builder call `set_node_direction(node, direction)`. -/
def set_node_direction (st : RRBuildState) (node : Nat) (d : Direction) : RRBuildState :=
  modify_node st node (fun n => { n with direction := d })

/-- The assignment `rr_node_driver_switches[node] = sw`. -/
def set_driver_switch (st : RRBuildState) (node sw : Nat) : RRBuildState :=
  { st with rr_node_driver_switches := Function.update st.rr_node_driver_switches node sw }

/-! ## Grid side: helpers taken as parameters -/

/-- Helpers of the grid loader whose bodies are outside the sources at hand, taken as
parameters, together with the fixed cost indices of the four grid node kinds. -/
structure GridHelpers where
  is_empty_type : t_physical_tile_type → Bool
  is_io_type : t_physical_tile_type → Bool
  /-- Arguments: (device width - 1, device height - 1), (x, y). -/
  determine_io_grid_pin_side : Nat × Nat → Nat × Nat → e_side
  /-- Arguments: grid, layer, x, y, pin kind, side, width offset, height offset. -/
  get_grid_side_pins : DeviceGrid → Nat → Nat → Nat → e_pin_type → e_side → Nat → Nat → List Nat
  /-- Arguments: grid, layer, x, y, pin kind, io side. -/
  get_grid_num_pins : DeviceGrid → Nat → Nat → Nat → e_pin_type → e_side → Nat
  SOURCE_COST_INDEX : Nat
  SINK_COST_INDEX : Nat
  OPIN_COST_INDEX : Nat
  IPIN_COST_INDEX : Nat

/-- Modelled from the spec: `get_grid_num_classes(grids, layer, x, y, pin_type)`, which the
estimator documents as the "number of classes whose type is" `pin_type` in the tile type
at that cell. -/
def get_grid_num_classes (grids : DeviceGrid) (layer x y : Nat) (pin_type : e_pin_type) : Nat :=
  ((grids.get_physical_type ⟨x, y, layer⟩).class_inf.filter (fun c => c.type = pin_type)).length

/-! ## Node count estimation for grid nodes -/

/-- The side of an IO tile, `NUM_SIDES` for any other tile: the `io_side` that the
estimator and the loader compute for a cell. -/
def grid_io_side (H : GridHelpers) (grids : DeviceGrid) (layer ix iy : Nat) : e_side :=
  if H.is_io_type (grids.get_physical_type ⟨ix, iy, layer⟩) then
    H.determine_io_grid_pin_side (size_t_sub grids.width 1, size_t_sub grids.height 1) (ix, iy)
  else .NUM_SIDES

/-- The body of the two loops of `estimate_num_grid_rr_nodes_by_type` at cell (ix, iy);
`none` is the `exit(1)` of the `default` branch. -/
def estimate_num_grid_rr_nodes_cell (H : GridHelpers) (grids : DeviceGrid) (layer : Nat)
    (node_type : t_rr_type) (num_grid_rr_nodes ix iy : Nat) : Option Nat :=
  /- Skip EMPTY tiles -/
  if H.is_empty_type (grids.get_physical_type ⟨ix, iy, layer⟩) then some num_grid_rr_nodes
  /- Skip height > 1 or width > 1 tiles -/
  else if 0 < grids.get_width_offset ⟨ix, iy, layer⟩ ∨ 0 < grids.get_height_offset ⟨ix, iy, layer⟩ then
    some num_grid_rr_nodes
  else
    let io_side := grid_io_side H grids layer ix iy
    match node_type with
    | .OPIN => some (num_grid_rr_nodes + H.get_grid_num_pins grids layer ix iy .DRIVER io_side)
    | .IPIN => some (num_grid_rr_nodes + H.get_grid_num_pins grids layer ix iy .RECEIVER io_side)
    | .SOURCE => some (num_grid_rr_nodes + get_grid_num_classes grids layer ix iy .DRIVER)
    | .SINK => some (num_grid_rr_nodes + get_grid_num_classes grids layer ix iy .RECEIVER)
    | _ => none

/-- The function `estimate_num_grid_rr_nodes_by_type(grids, layer, node_type)`. -/
def estimate_num_grid_rr_nodes_by_type (H : GridHelpers) (grids : DeviceGrid) (layer : Nat)
    (node_type : t_rr_type) : Option Nat :=
  (List.range grids.width).foldlM
    (fun num ix =>
      (List.range grids.height).foldlM
        (fun num iy => estimate_num_grid_rr_nodes_cell H grids layer node_type num ix iy) num)
    0

/-! ## Grid node loader -/

/-- The body of the pin loop of `load_one_grid_opin_nodes_basic_info`: one OPIN node. -/
def load_one_opin_node (H : GridHelpers) (st : RRBuildState) (layer gx gy width height : Nat)
    (side : e_side) (delayless_switch pin_num : Nat) : RRBuildState :=
  /- Create a new node and fill information -/
  let (node, st) := create_node st layer (gx + width) (gy + height) .OPIN pin_num side
  /- node bounding box -/
  let st := set_node_coordinates st node (gx + width) (gy + height) (gx + width) (gy + height)
  let st := add_node_side st node side
  let st := set_node_ptc_num st node pin_num
  let st := set_node_capacity st node 1
  let st := set_node_layer st node layer
  /- cost index is a FIXED value for OPIN -/
  let st := set_node_cost_index st node H.OPIN_COST_INDEX
  /- Switch info -/
  set_driver_switch st node delayless_switch

/-- The function `load_one_grid_opin_nodes_basic_info`; `(gx, gy)` is `grid_coordinate`. -/
def load_one_grid_opin_nodes_basic_info (H : GridHelpers) (st : RRBuildState) (layer gx gy : Nat)
    (grids : DeviceGrid) (io_side : e_side) (delayless_switch : Nat) : RRBuildState :=
  let phy_tile_type := grids.get_physical_type ⟨gx, gy, layer⟩
  (List.range phy_tile_type.width).foldl
    (fun st width =>
      (List.range phy_tile_type.height).foldl
        (fun st height =>
          SIDES.foldl
            (fun st side =>
              /- skip unwanted sides -/
              if H.is_io_type phy_tile_type = true ∧ side ≠ io_side ∧ e_side.NUM_SIDES ≠ io_side then st
              else
                (H.get_grid_side_pins grids layer gx gy .DRIVER side width height).foldl
                  (fun st pin_num =>
                    load_one_opin_node H st layer gx gy width height side delayless_switch pin_num)
                  st)
            st)
        st)
    st

/-- The body of the pin loop of `load_one_grid_ipin_nodes_basic_info`: one IPIN node. -/
def load_one_ipin_node (H : GridHelpers) (st : RRBuildState) (layer gx gy width height : Nat)
    (side : e_side) (wire_to_ipin_switch pin_num : Nat) : RRBuildState :=
  let (node, st) := create_node st layer (gx + width) (gy + height) .IPIN pin_num side
  let st := set_node_coordinates st node (gx + width) (gy + height) (gx + width) (gy + height)
  let st := add_node_side st node side
  let st := set_node_ptc_num st node pin_num
  let st := set_node_capacity st node 1
  let st := set_node_layer st node layer
  let st := set_node_cost_index st node H.IPIN_COST_INDEX
  /- Switch info -/
  set_driver_switch st node wire_to_ipin_switch

/-- The function `load_one_grid_ipin_nodes_basic_info`. -/
def load_one_grid_ipin_nodes_basic_info (H : GridHelpers) (st : RRBuildState) (layer gx gy : Nat)
    (grids : DeviceGrid) (io_side : e_side) (wire_to_ipin_switch : Nat) : RRBuildState :=
  let phy_tile_type := grids.get_physical_type ⟨gx, gy, layer⟩
  (List.range phy_tile_type.width).foldl
    (fun st width =>
      (List.range phy_tile_type.height).foldl
        (fun st height =>
          SIDES.foldl
            (fun st side =>
              if H.is_io_type phy_tile_type = true ∧ side ≠ io_side ∧ e_side.NUM_SIDES ≠ io_side then st
              else
                (H.get_grid_side_pins grids layer gx gy .RECEIVER side width height).foldl
                  (fun st pin_num =>
                    load_one_ipin_node H st layer gx gy width height side wire_to_ipin_switch pin_num)
                  st)
            st)
        st)
    st

/-- The class entry `class_inf[iclass]`. -/
def class_at (t : t_physical_tile_type) (iclass : Nat) : t_class :=
  t.class_inf.getD iclass { type := .OPEN, num_pins := 0 }

/-- The body of the class loop of `load_one_grid_source_nodes_basic_info`. -/
def load_one_source_node (H : GridHelpers) (st : RRBuildState) (layer gx gy : Nat)
    (phy_tile_type : t_physical_tile_type) (delayless_switch iclass : Nat) : RRBuildState :=
  if e_pin_type.DRIVER ≠ (class_at phy_tile_type iclass).type then st
  else
    /- Create a new node and fill information -/
    let (node, st) := create_node st layer gx gy .SOURCE iclass .NUM_SIDES
    /- node bounding box -/
    let st := set_node_coordinates st node gx gy (gx + phy_tile_type.width - 1)
                (gy + phy_tile_type.height - 1)
    let st := set_node_ptc_num st node iclass
    let st := set_node_layer st node layer
    /- The capacity should be the number of pins in this class -/
    let st := set_node_capacity st node (class_at phy_tile_type iclass).num_pins
    /- cost index is a FIXED value for SOURCE -/
    let st := set_node_cost_index st node H.SOURCE_COST_INDEX
    /- Switch info -/
    set_driver_switch st node delayless_switch

/-- The function `load_one_grid_source_nodes_basic_info`: a SOURCE node for each DRIVER class. -/
def load_one_grid_source_nodes_basic_info (H : GridHelpers) (st : RRBuildState) (layer gx gy : Nat)
    (grids : DeviceGrid) (delayless_switch : Nat) : RRBuildState :=
  let phy_tile_type := grids.get_physical_type ⟨gx, gy, layer⟩
  (List.range phy_tile_type.class_inf.length).foldl
    (fun st iclass => load_one_source_node H st layer gx gy phy_tile_type delayless_switch iclass) st

/-- The body of the class loop of `load_one_grid_sink_nodes_basic_info`. -/
def load_one_sink_node (H : GridHelpers) (st : RRBuildState) (layer gx gy : Nat)
    (phy_tile_type : t_physical_tile_type) (delayless_switch iclass : Nat) : RRBuildState :=
  if e_pin_type.RECEIVER ≠ (class_at phy_tile_type iclass).type then st
  else
    let (node, st) := create_node st layer gx gy .SINK iclass .NUM_SIDES
    let st := set_node_coordinates st node gx gy (gx + phy_tile_type.width - 1)
                (gy + phy_tile_type.height - 1)
    let st := set_node_ptc_num st node iclass
    let st := set_node_layer st node layer
    let st := set_node_capacity st node 1
    /- The capacity should be the number of pins in this class -/
    let st := set_node_capacity st node (class_at phy_tile_type iclass).num_pins
    /- cost index is a FIXED value for SINK -/
    let st := set_node_cost_index st node H.SINK_COST_INDEX
    /- Switch info -/
    set_driver_switch st node delayless_switch

/-- The function `load_one_grid_sink_nodes_basic_info`: a SINK node for each RECEIVER class. -/
def load_one_grid_sink_nodes_basic_info (H : GridHelpers) (st : RRBuildState) (layer gx gy : Nat)
    (grids : DeviceGrid) (delayless_switch : Nat) : RRBuildState :=
  let phy_tile_type := grids.get_physical_type ⟨gx, gy, layer⟩
  (List.range phy_tile_type.class_inf.length).foldl
    (fun st iclass => load_one_sink_node H st layer gx gy phy_tile_type delayless_switch iclass) st

/-- The body of the first pair of loops of `load_grid_nodes_basic_info` at cell (ix, iy).
The `reserve_nodes` calls pre-size the index and leave its entries as they are. -/
def load_grid_nodes_cell (H : GridHelpers) (st : RRBuildState) (grids : DeviceGrid) (layer : Nat)
    (wire_to_ipin_switch delayless_switch ix iy : Nat) : RRBuildState :=
  /- Skip EMPTY tiles -/
  if H.is_empty_type (grids.get_physical_type ⟨ix, iy, layer⟩) then st
  /- We only build rr_nodes for grids with width_offset = 0 and height_offset = 0 -/
  else if 0 < grids.get_width_offset ⟨ix, iy, layer⟩ ∨ 0 < grids.get_height_offset ⟨ix, iy, layer⟩ then st
  else
    let io_side := grid_io_side H grids layer ix iy
    let st := load_one_grid_source_nodes_basic_info H st layer ix iy grids delayless_switch
    let st := load_one_grid_sink_nodes_basic_info H st layer ix iy grids delayless_switch
    let st := load_one_grid_opin_nodes_basic_info H st layer ix iy grids io_side delayless_switch
    load_one_grid_ipin_nodes_basic_info H st layer ix iy grids io_side wire_to_ipin_switch

/-- The body of the second pair of loops of `load_grid_nodes_basic_info` at cell (x, y):
the SOURCE and SINK entries of the root cell are copied to an offset cell. The tile
location and the index layer are the constant 0, as in the source. -/
def mirror_grid_nodes_cell (st : RRBuildState) (grids : DeviceGrid) (x y : Nat) : RRBuildState :=
  let width_offset := grids.get_width_offset ⟨x, y, 0⟩
  let height_offset := grids.get_height_offset ⟨x, y, 0⟩
  if width_offset ≠ 0 ∨ height_offset ≠ 0 then
    let root_x := x - width_offset
    let root_y := y - height_offset
    let l := st.node_lookup.mirror_nodes 0 (root_x, root_y) (x, y) .SOURCE SIDES_0
    let l := l.mirror_nodes 0 (root_x, root_y) (x, y) .SINK SIDES_0
    { st with node_lookup := l }
  else st

/-- The function `load_grid_nodes_basic_info`: create all the rr_nodes for grids. -/
def load_grid_nodes_basic_info (H : GridHelpers) (st : RRBuildState) (grids : DeviceGrid)
    (layer wire_to_ipin_switch delayless_switch : Nat) : RRBuildState :=
  let st := (List.range grids.height).foldl
    (fun st iy =>
      (List.range grids.width).foldl
        (fun st ix => load_grid_nodes_cell H st grids layer wire_to_ipin_switch delayless_switch ix iy)
        st)
    st
  /- Copy the SOURCE/SINK nodes to all offset positions for blocks with width > 1 and/or height > 1 -/
  (List.range grids.width).foldl
    (fun st x => (List.range grids.height).foldl (fun st y => mirror_grid_nodes_cell st grids x y) st)
    st

/-! ## Sink compaction (`set_sink_locs`) -/

/-- The node with identity `node` (`rr_graph.node_*(node)`); an identity outside the
storage reads as a unit SOURCE at the origin. -/
def node_at (st : RRBuildState) (node : Nat) : t_rr_node :=
  st.nodes.getD node
    { type := .SOURCE, layer := 0, xlow := 0, ylow := 0, xhigh := 0, yhigh := 0, ptc_num := 0,
      capacity := 0, direction := .NONE, cost_index := 0, sides := [] }

/-- The sources of the fan-in edges of `node`: `get_fan_in_list` collects, for every node,
the edges whose sink it is, and `edge_src_node` gives the source of each. -/
def fan_in_sources (st : RRBuildState) (node : Nat) : List Nat :=
  (st.edges.filter (fun e => e.2 = node)).map (fun e => e.1)

/-- The set `sink_ipins` of `set_sink_locs`: the distinct fan-in sources of `node` whose
low corner lies inside the tile footprint. The order in which the code walks the
`std::unordered_set` is left open by the language; the list fixes one order. Where the
`float` sums are exact the order is without effect (`float_avg_eq_round_avg`); the
examples with sums that are not exact have all pins of a sink at one location. -/
def sink_ipins (st : RRBuildState) (node tile_xlow tile_ylow tile_xhigh tile_yhigh : Nat) : List Nat :=
  ((fan_in_sources st node).filter (fun pin =>
      let curr_x := (node_at st pin).xlow
      let curr_y := (node_at st pin).ylow
      ¬ (curr_x < tile_xlow ∨ curr_x > tile_xhigh ∨ curr_y < tile_ylow ∨ curr_y > tile_yhigh))).dedup

/-- The candidate that a search for the least `e` with `p e` reaches when it starts at `e`
and looks at `fuel + 1` candidates at most. -/
def least_from (p : Nat → Bool) (fuel e : Nat) : Nat :=
  match fuel with
  | 0 => e
  | fuel + 1 => if p e then e else least_from p fuel (e + 1)

/-- The `float` nearest to the natural number `n`: a `float` has 24 significant bits, and a
conversion or a sum is rounded to the nearest value, a tie to the even significand. The
exponent `e` is the least one with `n < 2 ^ (24 + e)` (the search ends, since `n < 2 ^ n`).
The overflow of `float`, at 2^128, is left out. -/
def float_round (n : Nat) : Nat :=
  if n < 2 ^ 24 then n
  else
    let e := least_from (fun e => decide (n < 2 ^ (24 + e))) n 1
    let q := n / 2 ^ e
    let r := n % 2 ^ e
    if 2 * r < 2 ^ e ∨ (2 * r = 2 ^ e ∧ q % 2 = 0) then q * 2 ^ e else (q + 1) * 2 ^ e

/-- The value `std::accumulate(coords.begin(), coords.end(), 0.f)` for the vector of `float`
that holds `(float)c` for every coordinate `c`, in the order of the list: every partial sum
is rounded to a `float`. -/
def float_accumulate (coords : List Nat) : Nat :=
  coords.foldl (fun acc x => float_round (acc + float_round x)) 0

/-- The value `round(s / (double)n)` for a `float` `s` that holds a natural number and a
size `n`: the quotient is rounded to a `double` (53 significant bits, to the nearest value,
a tie to the even significand) and `round` takes the nearest integer, a half away from zero.
The significand `m` is the quotient scaled by `2 ^ t`, with `t` the least exponent for which
the scaled quotient is at least 2^52 (the search ends, since `n < 2 ^ n`); the quotient of
two values that occur is below 2^53. A zero `n` does not occur: the loop body skips an empty
set of pins. -/
def round_double_div (s n : Nat) : Nat :=
  if s = 0 ∨ n = 0 then 0
  else
    let t := least_from (fun t => decide (n * 2 ^ 52 ≤ s * 2 ^ t)) (n + 52) 0
    let q := s * 2 ^ t / n
    let r := s * 2 ^ t % n
    let m := if 2 * r < n ∨ (2 * r = n ∧ q % 2 = 0) then q else q + 1
    (2 * m + 2 ^ t) / 2 ^ (t + 1)

/-- The value `(short)round(accumulate(coords, 0.f) / (double)coords.size())` of
`set_sink_locs` for a list of grid coordinates. The cast to `short` keeps every value below
2^15; a larger value does not fit a `short` and is not modelled. -/
def float_avg (coords : List Nat) : Nat :=
  round_double_div (float_accumulate coords) coords.length

/-- The mean of the coordinates rounded to the nearest integer, a half rounded up: the
"rounded average" of the pins, in exact arithmetic. `float_avg` is what the code computes. -/
def round_avg (coords : List Nat) : Nat :=
  (2 * coords.sum + coords.length) / (2 * coords.length)

/-- The removal loops of `set_sink_locs`: `remove_node` for the sink at every cell of the
footprint other than `(x_avg, y_avg)`. -/
def remove_old_indices (l : RRSpatialLookup) (node_id tile_layer tile_xlow tile_ylow tile_xhigh
    tile_yhigh x_avg y_avg sink_ptc : Nat) : RRSpatialLookup :=
  (List.range' tile_xlow (tile_xhigh + 1 - tile_xlow)).foldl
    (fun l x =>
      (List.range' tile_ylow (tile_yhigh + 1 - tile_ylow)).foldl
        (fun l y =>
          if x = x_avg ∧ y = y_avg then l
          else l.remove_node node_id tile_layer x y .SINK sink_ptc)
        l)
    l

/-- The state of the loop of `set_sink_locs`: the graph and the memo
`physical_type_offsets`, which maps a tile type and a sink ptc number to an offset. -/
structure SinkLocState where
  st : RRBuildState
  physical_type_offsets : t_physical_tile_type → Nat → Option (Nat × Nat)

/-- The body of the loop of `set_sink_locs` for the node identity `node`. -/
def set_sink_locs_node (grid : DeviceGrid) (s : SinkLocState) (node : Nat) : SinkLocState :=
  let n := node_at s.st node
  if n.type ≠ .SINK then s
  else
    /- Skip 1x1 tiles -/
    let tile_xlow := n.xlow
    let tile_ylow := n.ylow
    let tile_xhigh := n.xhigh
    let tile_yhigh := n.yhigh
    let tile_width := size_t_sub tile_xhigh tile_xlow
    let tile_height := size_t_sub tile_yhigh tile_ylow
    if tile_width = 0 ∧ tile_height = 0 then s
    else
      /- See if we have encountered this tile type/ptc combo before, and used saved offset if so -/
      let tile_layer := n.layer
      let tile_type := grid.get_physical_type ⟨tile_xlow, tile_ylow, tile_layer⟩
      let sink_ptc := n.ptc_num
      match s.physical_type_offsets tile_type sink_ptc with
      | some offset =>
        let new_x := (tile_xlow + offset.1) % 2 ^ 64
        let new_y := (tile_ylow + offset.2) % 2 ^ 64
        /- Set new coordinates -/
        { s with st := set_node_coordinates s.st node new_x new_y new_x new_y }
      | none =>
        /- We have not seen this tile type/ptc combo before -/
        let pins := sink_ipins s.st node tile_xlow tile_ylow tile_xhigh tile_yhigh
        /- Set SINK locations as average of collected IPINs -/
        if pins = [] then s
        else
          let x_coords := pins.map (fun pin => (node_at s.st pin).xlow)
          let y_coords := pins.map (fun pin => (node_at s.st pin).ylow)
          let x_avg := float_avg x_coords
          let y_avg := float_avg y_coords
          /- Remove old indices from RRSpatialLookup -/
          let l := remove_old_indices s.st.node_lookup node tile_layer tile_xlow tile_ylow tile_xhigh
                     tile_yhigh x_avg y_avg sink_ptc
          /- Save offset for this tile/ptc combo -/
          let offsets := fun t p =>
            if t = tile_type ∧ p = sink_ptc then
              some (size_t_sub x_avg tile_xlow, size_t_sub y_avg tile_ylow)
            else s.physical_type_offsets t p
          /- Set new coordinates -/
          { st := set_node_coordinates { s.st with node_lookup := l } node x_avg y_avg x_avg y_avg
            physical_type_offsets := offsets }

/-- The function `set_sink_locs(rr_graph, rr_graph_builder, grid)`. -/
def set_sink_locs (st : RRBuildState) (grid : DeviceGrid) : RRBuildState :=
  ((List.range st.nodes.length).foldl (set_sink_locs_node grid)
    { st := st, physical_type_offsets := fun _ _ => none }).st

/-! ## Channel details -/

/-- Modelled from the spec: one track of a channel detail, "per track: segment catalog
index, direction, start/end flags, and (once created) its node identity". -/
structure t_chan_track where
  node_id : Nat
  direction : Direction
  seg_id : Nat
  is_start : Bool
  is_end : Bool
  deriving DecidableEq, Repr

/-- Modelled from the spec: the channel detail of one channel position
(`ChanNodeDetails`), an "ordered list of tracks"; the class is not among the sources. -/
structure ChanNodeDetails where
  tracks : List t_chan_track
  deriving DecidableEq, Repr

namespace ChanNodeDetails

/-- Track `itrack`; a slot outside the channel reads as a track that is nothing. -/
def track (cd : ChanNodeDetails) (itrack : Nat) : t_chan_track :=
  cd.tracks.getD itrack { node_id := 0, direction := .NONE, seg_id := 0, is_start := false, is_end := false }

/-- Modelled from the spec: `get_chan_width()`, the number of tracks. -/
def get_chan_width (cd : ChanNodeDetails) : Nat := cd.tracks.length

/-- Modelled from the spec: `is_track_start(itrack)`. -/
def is_track_start (cd : ChanNodeDetails) (itrack : Nat) : Bool := (cd.track itrack).is_start

/-- Modelled from the spec: `is_track_end(itrack)`. -/
def is_track_end (cd : ChanNodeDetails) (itrack : Nat) : Bool := (cd.track itrack).is_end

/-- Modelled from the spec: `get_track_direction(itrack)`. -/
def get_track_direction (cd : ChanNodeDetails) (itrack : Nat) : Direction := (cd.track itrack).direction

/-- Modelled from the spec: `get_track_node_id(itrack)`. -/
def get_track_node_id (cd : ChanNodeDetails) (itrack : Nat) : Nat := (cd.track itrack).node_id

/-- Modelled from the spec: `get_track_segment_id(itrack)`. -/
def get_track_segment_id (cd : ChanNodeDetails) (itrack : Nat) : Nat := (cd.track itrack).seg_id

/-- Modelled from the spec: `get_track_node_ids()`, the node identity of every track. -/
def get_track_node_ids (cd : ChanNodeDetails) : List Nat := cd.tracks.map (fun t => t.node_id)

/-- Modelled from the spec: `set_track_node_id(itrack, node)`. -/
def set_track_node_id (cd : ChanNodeDetails) (itrack node : Nat) : ChanNodeDetails :=
  { tracks := cd.tracks.modify (fun t => { t with node_id := node }) itrack }

/-- Track-by-track transplant of node identities. -/
def transplant : List t_chan_track → List Nat → List t_chan_track
  | [], _ => []
  | ts, [] => ts
  | t :: ts, id :: ids => { t with node_id := id } :: transplant ts ids

/-- Modelled from the spec: `set_track_node_ids(track_node_ids)`, which "transplant[s]"
the identities of a previous position into this detail, track by track. -/
def set_track_node_ids (cd : ChanNodeDetails) (track_node_ids : List Nat) : ChanNodeDetails :=
  { tracks := transplant cd.tracks track_node_ids }

/-- Modelled from the spec: `get_num_starting_tracks(direction)`, the number of tracks of
that direction that start at this position. -/
def get_num_starting_tracks (cd : ChanNodeDetails) (d : Direction) : Nat :=
  (cd.tracks.filter (fun t => decide (t.direction = d) && t.is_start)).length

/-- Modelled from the spec: `get_num_ending_tracks(direction)`, the number of tracks of
that direction that end at this position. -/
def get_num_ending_tracks (cd : ChanNodeDetails) (d : Direction) : Nat :=
  (cd.tracks.filter (fun t => decide (t.direction = d) && t.is_end)).length

end ChanNodeDetails

/-- The fields of a segment catalog entry (`t_segment_inf`) that the node builder reads
or hands on. -/
structure t_segment_inf where
  length : Nat
  frequency : Nat
  arch_opin_switch : Nat
  deriving DecidableEq, Repr

/-- Axis of a channel (`e_parallel_axis`). -/
inductive e_parallel_axis where
  | X_AXIS | Y_AXIS | BOTH_AXIS
  deriving DecidableEq, Repr

/-- The map `t_unified_to_parallel_seg_index`, handed on to `find_parallel_seg_index`. -/
abbrev t_unified_to_parallel_seg_index : Type := List (Nat × Nat × e_parallel_axis)

/-- The queries of `DeviceGridAnnotation` used under a shrink boundary. -/
structure DeviceGridAnnotation where
  is_chanx_exist : Nat × Nat → Bool
  is_chanx_start : Nat × Nat → Bool
  is_chanx_end : Nat × Nat → Bool
  is_chany_exist : Nat × Nat → Bool
  is_chany_start : Nat × Nat → Bool
  is_chany_end : Nat × Nat → Bool

/-- Helpers of the channel estimator and loader whose bodies are outside the sources at
hand, taken as parameters. A coordinate is the pair (x, y). -/
structure ChanHelpers where
  /-- Call `is_chanx_exist(grids, layer, coord)`. -/
  is_chanx_exist : DeviceGrid → Nat → Nat × Nat → Bool
  /-- Call `is_chanx_exist(grids, layer, coord, through_channel)`. -/
  is_chanx_exist_through : DeviceGrid → Nat → Nat × Nat → Bool → Bool
  /-- Call `is_chany_exist(grids, layer, coord)`. -/
  is_chany_exist : DeviceGrid → Nat → Nat × Nat → Bool
  /-- Call `is_chany_exist(grids, layer, coord, through_channel)`. -/
  is_chany_exist_through : DeviceGrid → Nat → Nat × Nat → Bool → Bool
  is_chanx_right_to_multi_height_grid : DeviceGrid → Nat → Nat × Nat → Bool → Bool
  is_chanx_left_to_multi_height_grid : DeviceGrid → Nat → Nat × Nat → Bool → Bool
  is_chany_top_to_multi_width_grid : DeviceGrid → Nat → Nat × Nat → Bool → Bool
  is_chany_bottom_to_multi_width_grid : DeviceGrid → Nat → Nat × Nat → Bool → Bool
  /-- Arguments: chan_width, max_seg_length, force_start, force_end, segment_infs. -/
  build_unidir_chan_node_details : Nat → Nat → Bool → Bool → List t_segment_inf → ChanNodeDetails
  /-- Method `rotate_track_node_id(offset, track_direction, counter_rotate)`. -/
  rotate_track_node_id : ChanNodeDetails → Nat → Direction → Bool → ChanNodeDetails
  find_parallel_seg_index : Nat → t_unified_to_parallel_seg_index → e_parallel_axis → Nat
  CHANX_COST_INDEX_START : Nat

/-! ## Node count estimation for channel nodes -/

/-- The `force_start` flag that the estimator and the loader compute at a CHANX position. -/
def chanx_force_start (C : ChanHelpers) (grids : DeviceGrid) (layer : Nat) (chanx_coord : Nat × Nat)
    ( device_grid_annotation : DeviceGridAnnotation) (shrink_boundary through_channel : Bool) : Bool :=
  let force_start := false
  let force_start :=
    if C.is_chanx_right_to_multi_height_grid grids layer chanx_coord through_channel = true then true
    else force_start
  if shrink_boundary && device_grid_annotation.is_chanx_start chanx_coord then true else force_start

/-- The `force_end` flag that the estimator and the loader compute at a CHANX position. -/
def chanx_force_end (C : ChanHelpers) (grids : DeviceGrid) (layer : Nat) (chanx_coord : Nat × Nat)
    ( device_grid_annotation : DeviceGridAnnotation) (shrink_boundary through_channel : Bool) : Bool :=
  let force_end := false
  let force_end :=
    if C.is_chanx_left_to_multi_height_grid grids layer chanx_coord through_channel = true then true
    else force_end
  if shrink_boundary && device_grid_annotation.is_chanx_end chanx_coord then true else force_end

/-- The two bypass tests at a CHANX position: the channel does not exist. -/
def chanx_bypass (C : ChanHelpers) (grids : DeviceGrid) (layer : Nat) (chanx_coord : Nat × Nat)
    ( device_grid_annotation : DeviceGridAnnotation) (shrink_boundary through_channel : Bool) : Bool :=
  (through_channel == false && C.is_chanx_exist grids layer chanx_coord == false)
    || (shrink_boundary && ! device_grid_annotation.is_chanx_exist chanx_coord)

/-- The function `estimate_num_chanx_rr_nodes`. -/
def estimate_num_chanx_rr_nodes (C : ChanHelpers) (grids : DeviceGrid) (layer chan_width : Nat)
    (segment_infs : List t_segment_inf) ( device_grid_annotation : DeviceGridAnnotation)
    (shrink_boundary through_channel : Bool) : Nat :=
  (List.range (size_t_sub grids.height 1)).foldl
    (fun num_chanx_rr_nodes iy =>
      (List.range' 1 (size_t_sub grids.width 1 - 1)).foldl
        (fun num_chanx_rr_nodes ix =>
          let chanx_coord := (ix, iy)
          if chanx_bypass C grids layer chanx_coord device_grid_annotation shrink_boundary through_channel
          then num_chanx_rr_nodes
          else
            let force_start := chanx_force_start C grids layer chanx_coord device_grid_annotation
                                 shrink_boundary through_channel
            let force_end := chanx_force_end C grids layer chanx_coord device_grid_annotation
                               shrink_boundary through_channel
            let chanx_details := C.build_unidir_chan_node_details chan_width
                                   (size_t_sub grids.width 2) force_start force_end segment_infs
            /- When an INC_DIRECTION CHANX starts, we need a new rr_node -/
            /- When an DEC_DIRECTION CHANX ends, we need a new rr_node -/
            num_chanx_rr_nodes + chanx_details.get_num_starting_tracks .INC
              + chanx_details.get_num_ending_tracks .DEC)
        num_chanx_rr_nodes)
    0

/-- The `force_start` flag at a CHANY position. -/
def chany_force_start (C : ChanHelpers) (grids : DeviceGrid) (layer : Nat) (chany_coord : Nat × Nat)
    ( device_grid_annotation : DeviceGridAnnotation) (shrink_boundary through_channel : Bool) : Bool :=
  let force_start := false
  let force_start :=
    if C.is_chany_top_to_multi_width_grid grids layer chany_coord through_channel = true then true
    else force_start
  if shrink_boundary && device_grid_annotation.is_chany_start chany_coord then true else force_start

/-- The `force_end` flag at a CHANY position. -/
def chany_force_end (C : ChanHelpers) (grids : DeviceGrid) (layer : Nat) (chany_coord : Nat × Nat)
    ( device_grid_annotation : DeviceGridAnnotation) (shrink_boundary through_channel : Bool) : Bool :=
  let force_end := false
  let force_end :=
    if C.is_chany_bottom_to_multi_width_grid grids layer chany_coord through_channel = true then true
    else force_end
  if shrink_boundary && device_grid_annotation.is_chany_end chany_coord then true else force_end

/-- The two bypass tests at a CHANY position. -/
def chany_bypass (C : ChanHelpers) (grids : DeviceGrid) (layer : Nat) (chany_coord : Nat × Nat)
    ( device_grid_annotation : DeviceGridAnnotation) (shrink_boundary through_channel : Bool) : Bool :=
  (through_channel == false && C.is_chany_exist grids layer chany_coord == false)
    || (shrink_boundary && ! device_grid_annotation.is_chany_exist chany_coord)

/-- The function `estimate_num_chany_rr_nodes`. -/
def estimate_num_chany_rr_nodes (C : ChanHelpers) (grids : DeviceGrid) (layer chan_width : Nat)
    (segment_infs : List t_segment_inf) ( device_grid_annotation : DeviceGridAnnotation)
    (shrink_boundary through_channel : Bool) : Nat :=
  (List.range (size_t_sub grids.width 1)).foldl
    (fun num_chany_rr_nodes ix =>
      (List.range' 1 (size_t_sub grids.height 1 - 1)).foldl
        (fun num_chany_rr_nodes iy =>
          let chany_coord := (ix, iy)
          if chany_bypass C grids layer chany_coord device_grid_annotation shrink_boundary through_channel
          then num_chany_rr_nodes
          else
            let force_start := chany_force_start C grids layer chany_coord device_grid_annotation
                                 shrink_boundary through_channel
            let force_end := chany_force_end C grids layer chany_coord device_grid_annotation
                               shrink_boundary through_channel
            let chany_details := C.build_unidir_chan_node_details chan_width
                                   (size_t_sub grids.height 2) force_start force_end segment_infs
            num_chany_rr_nodes + chany_details.get_num_starting_tracks .INC
              + chany_details.get_num_ending_tracks .DEC)
        num_chany_rr_nodes)
    0

/-! ## Channel node loader -/

/-- The builder call `add_node_track_num(node, chan_coordinate, itrack)`, recorded in
`node_track_nums`. -/
def add_node_track_num (st : RRBuildState) (node : Nat) (chan_coordinate : Nat × Nat) (itrack : Nat) :
    RRBuildState :=
  { st with node_track_nums := st.node_track_nums ++ [⟨node, chan_coordinate.1, chan_coordinate.2, itrack⟩] }

/-- The statement `rr_node_track_ids[node].push_back(itrack)`. -/
def push_track_id (st : RRBuildState) (node itrack : Nat) : RRBuildState :=
  { st with rr_node_track_ids :=
      Function.update st.rr_node_track_ids node (st.rr_node_track_ids node ++ [itrack]) }

/-- The arguments of `load_one_chan_rr_nodes_basic_info` that stay fixed over its loop. -/
structure ChanArgs where
  layer : Nat
  chan_coordinate : Nat × Nat
  chan_type : t_rr_type
  segment_infs : List t_segment_inf
  seg_index_map : t_unified_to_parallel_seg_index
  cost_index_offset : Nat

/-- The test of the first `if` of the track loop: a new node is required. -/
def track_needs_node (cd : ChanNodeDetails) (itrack : Nat) : Bool :=
  (cd.is_track_start itrack && decide (cd.get_track_direction itrack = .INC))
    || (cd.is_track_end itrack && decide (cd.get_track_direction itrack = .DEC))

/-- The test of the second `if` of the track loop: the far corner is to be updated. -/
def track_closes_node (cd : ChanNodeDetails) (itrack : Nat) : Bool :=
  (cd.is_track_end itrack && decide (cd.get_track_direction itrack = .INC))
    || (cd.is_track_start itrack && decide (cd.get_track_direction itrack = .DEC))

/-- First block of the track loop: create a new chan rr_node. -/
def chan_create_track_node (C : ChanHelpers) (a : ChanArgs) (st : RRBuildState) (cd : ChanNodeDetails)
    (itrack : Nat) : RRBuildState × ChanNodeDetails :=
  let (node, st) := create_node st a.layer a.chan_coordinate.1 a.chan_coordinate.2 a.chan_type itrack
                      .NUM_SIDES
  let st := set_node_direction st node (cd.get_track_direction itrack)
  let st := add_node_track_num st node a.chan_coordinate itrack
  let st := push_track_id st node itrack
  let st := set_node_capacity st node 1
  let st := set_node_layer st node a.layer
  /- assign switch id -/
  let seg_id := cd.get_track_segment_id itrack
  let wanted_axis := if a.chan_type = .CHANX then e_parallel_axis.X_AXIS else e_parallel_axis.Y_AXIS
  let parallel_seg_id := C.find_parallel_seg_index seg_id a.seg_index_map wanted_axis
  let st := set_driver_switch st node
              (a.segment_infs.getD parallel_seg_id ⟨0, 0, 0⟩).arch_opin_switch
  /- Update chan_details with node_id -/
  let cd := cd.set_track_node_id itrack node
  /- cost index depends on the segment index -/
  let st := set_node_cost_index st node (a.cost_index_offset + parallel_seg_id)
  (st, cd)

/-- The two checks made before a node is updated: the identity names a node, of the
channel's kind and of the track's direction. `none` is the failed `VTR_ASSERT`. -/
def chan_checked_node (a : ChanArgs) (st : RRBuildState) (cd : ChanNodeDetails) (itrack : Nat) :
    Option Nat :=
  let rr_node_id := cd.get_track_node_id itrack
  match st.nodes[rr_node_id]? with
  | none => none
  | some n =>
    if a.chan_type = n.type ∧ cd.get_track_direction itrack = n.direction then some rr_node_id
    else none

/-- Second block of the track loop: set xhigh/yhigh and push changes to track_ids. -/
def chan_close_track_node (a : ChanArgs) (st : RRBuildState) (cd : ChanNodeDetails) (itrack : Nat) :
    Option RRBuildState :=
  match chan_checked_node a st cd itrack with
  | none => none
  | some rr_node_id =>
    let st := set_node_coordinates st rr_node_id (node_at st rr_node_id).xlow
                (node_at st rr_node_id).ylow a.chan_coordinate.1 a.chan_coordinate.2
    /- Do not update track_ids for length-1 wires, they should have only 1 track_id -/
    if (node_at st rr_node_id).xhigh > (node_at st rr_node_id).xlow
        ∨ (node_at st rr_node_id).yhigh > (node_at st rr_node_id).ylow then
      let st := push_track_id st rr_node_id itrack
      some (add_node_track_num st rr_node_id a.chan_coordinate itrack)
    else some st

/-- Last block of the track loop, for a track that neither starts nor ends here. -/
def chan_pass_track_node (a : ChanArgs) (st : RRBuildState) (cd : ChanNodeDetails) (itrack : Nat) :
    Option RRBuildState :=
  match chan_checked_node a st cd itrack with
  | none => none
  | some rr_node_id =>
    /- Deposit xhigh and yhigh using the current chan_coordinate -/
    let st := set_node_coordinates st rr_node_id (node_at st rr_node_id).xlow
                (node_at st rr_node_id).ylow a.chan_coordinate.1 a.chan_coordinate.2
    /- Update track_ids -/
    let st := push_track_id st rr_node_id itrack
    some (add_node_track_num st rr_node_id a.chan_coordinate itrack)

/-- The body of the track loop of `load_one_chan_rr_nodes_basic_info` for `itrack`. -/
def load_one_chan_track (C : ChanHelpers) (a : ChanArgs) (s : RRBuildState × ChanNodeDetails)
    (itrack : Nat) : Option (RRBuildState × ChanNodeDetails) :=
  /- For INC direction, a starting point requires a new chan rr_node;
     for DEC direction, an ending point requires a new chan rr_node -/
  let s1 := if track_needs_node s.2 itrack then chan_create_track_node C a s.1 s.2 itrack else s
  /- For INC direction, an ending point requires an update on xhigh and yhigh;
     for DEC direction, a starting point requires an update on xlow and ylow -/
  match (if track_closes_node s1.2 itrack then chan_close_track_node a s1.1 s1.2 itrack
         else some s1.1) with
  | none => none
  | some st2 =>
    /- Finish processing starting and ending tracks -/
    if s1.2.is_track_start itrack || s1.2.is_track_end itrack then some (st2, s1.2)
    else
      /- For other nodes, we get the node_id and just update track_ids -/
      match chan_pass_track_node a st2 s1.2 itrack with
      | none => none
      | some st3 => some (st3, s1.2)

/-- The function `load_one_chan_rr_nodes_basic_info`; the channel detail is an in-out argument. -/
def load_one_chan_rr_nodes_basic_info (C : ChanHelpers) (a : ChanArgs) (st : RRBuildState)
    (chan_details : ChanNodeDetails) : Option (RRBuildState × ChanNodeDetails) :=
  (List.range chan_details.get_chan_width).foldlM (load_one_chan_track C a) (st, chan_details)

/-- The block "Force node_ids from the previous chanx": the identities of the previous
position, rotated when the channel exists here, as they are handed to this position. -/
def chanx_forced_node_ids (C : ChanHelpers) (grids : DeviceGrid) (layer chan_width : Nat)
    (segment_infs : List t_segment_inf) (through_channel : Bool) (chanx_coord : Nat × Nat)
    (track_node_ids : List Nat) : List Nat :=
  /- Rotate should be done based on a typical case of routing tracks. -/
  let chanx_details_tt := C.build_unidir_chan_node_details chan_width (size_t_sub grids.width 2)
                            false false segment_infs
  let chanx_details_tt := chanx_details_tt.set_track_node_ids track_node_ids
  let chanx_details_tt :=
    if C.is_chanx_exist_through grids layer chanx_coord through_channel = true then
      /- For INC_DIRECTION, we use clockwise rotation -/
      let tt := C.rotate_track_node_id chanx_details_tt 1 .INC true
      /- For DEC_DIRECTION, we use clockwise rotation -/
      C.rotate_track_node_id tt 1 .DEC false
    else chanx_details_tt
  chanx_details_tt.get_track_node_ids

/-- The channel detail built at a CHANX position, with the identities of the previous
position forced into it when there are any; returns the handed-on identities too. -/
def chanx_details_at (C : ChanHelpers) (grids : DeviceGrid) (layer chan_width : Nat)
    (segment_infs : List t_segment_inf) ( device_grid_annotation : DeviceGridAnnotation)
    (shrink_boundary through_channel : Bool) (chanx_coord : Nat × Nat) (track_node_ids : List Nat) :
    ChanNodeDetails :=
  let force_start := chanx_force_start C grids layer chanx_coord device_grid_annotation
                       shrink_boundary through_channel
  let force_end := chanx_force_end C grids layer chanx_coord device_grid_annotation
                     shrink_boundary through_channel
  let chanx_details := C.build_unidir_chan_node_details chan_width (size_t_sub grids.width 2)
                         force_start force_end segment_infs
  /- Force node_ids from the previous chanx -/
  if 0 < track_node_ids.length then
    chanx_details.set_track_node_ids
      (chanx_forced_node_ids C grids layer chan_width segment_infs through_channel chanx_coord
        track_node_ids)
  else chanx_details

/-- The body of the `ix` loop of `load_chanx_rr_nodes_basic_info` at row `iy`; the state of
the loop is the graph and the vector `track_node_ids`. -/
def load_chanx_position (C : ChanHelpers) (grids : DeviceGrid) (layer chan_width : Nat)
    (segment_infs : List t_segment_inf) (segment_index_map : t_unified_to_parallel_seg_index)
    ( device_grid_annotation : DeviceGridAnnotation) (shrink_boundary through_channel : Bool)
    (iy : Nat) (s : RRBuildState × List Nat) (ix : Nat) : Option (RRBuildState × List Nat) :=
  let chanx_coord := (ix, iy)
  if chanx_bypass C grids layer chanx_coord device_grid_annotation shrink_boundary through_channel
  then some s
  else
    let chanx_details := chanx_details_at C grids layer chan_width segment_infs device_grid_annotation
                           shrink_boundary through_channel chanx_coord s.2
    /- Configure CHANX in this channel -/
    match load_one_chan_rr_nodes_basic_info C
            ⟨layer, chanx_coord, .CHANX, segment_infs, segment_index_map, C.CHANX_COST_INDEX_START⟩
            s.1 chanx_details with
    | none => none
    /- Get a copy of node_ids -/
    | some r => some (r.1, r.2.get_track_node_ids)

/-- The body of the `iy` loop of `load_chanx_rr_nodes_basic_info`: one channel row, walked
from x = 1 upwards with a fresh vector `track_node_ids`. -/
def load_chanx_row (C : ChanHelpers) (grids : DeviceGrid)
    (layer chan_width : Nat) (segment_infs : List t_segment_inf)
    (segment_index_map : t_unified_to_parallel_seg_index)
    ( device_grid_annotation : DeviceGridAnnotation) (shrink_boundary through_channel : Bool)
    (st : RRBuildState) (iy : Nat) : Option RRBuildState :=
  /- Keep a vector of node_ids for the channels, because we will rotate them when walking through ix -/
  ((List.range' 1 (size_t_sub grids.width 1 - 1)).foldlM
      (load_chanx_position C grids layer chan_width segment_infs segment_index_map
        device_grid_annotation shrink_boundary through_channel iy) (st, [])).map (fun r => r.1)

/-- The function `load_chanx_rr_nodes_basic_info`. -/
def load_chanx_rr_nodes_basic_info (C : ChanHelpers) (st : RRBuildState) (grids : DeviceGrid)
    (layer chan_width : Nat) (segment_infs : List t_segment_inf)
    (segment_index_map : t_unified_to_parallel_seg_index)
    ( device_grid_annotation : DeviceGridAnnotation) (shrink_boundary through_channel : Bool) :
    Option RRBuildState :=
  (List.range (size_t_sub grids.height 1)).foldlM
    (load_chanx_row C grids layer chan_width segment_infs segment_index_map device_grid_annotation
      shrink_boundary through_channel)
    st

/-- The block "Force node_ids from the previous chany". -/
def chany_forced_node_ids (C : ChanHelpers) (grids : DeviceGrid) (layer chan_width : Nat)
    (segment_infs : List t_segment_inf) (through_channel : Bool) (chany_coord : Nat × Nat)
    (track_node_ids : List Nat) : List Nat :=
  let chany_details_tt := C.build_unidir_chan_node_details chan_width (size_t_sub grids.height 2)
                            false false segment_infs
  let chany_details_tt := chany_details_tt.set_track_node_ids track_node_ids
  let chany_details_tt :=
    if C.is_chany_exist_through grids layer chany_coord through_channel = true then
      /- Rotate the chany_details by an offset of 1 -/
      let tt := C.rotate_track_node_id chany_details_tt 1 .INC true
      C.rotate_track_node_id tt 1 .DEC false
    else chany_details_tt
  chany_details_tt.get_track_node_ids

/-- The channel detail built at a CHANY position, with the identities of the previous
position forced into it when there are any. -/
def chany_details_at (C : ChanHelpers) (grids : DeviceGrid) (layer chan_width : Nat)
    (segment_infs : List t_segment_inf) ( device_grid_annotation : DeviceGridAnnotation)
    (shrink_boundary through_channel : Bool) (chany_coord : Nat × Nat) (track_node_ids : List Nat) :
    ChanNodeDetails :=
  let force_start := chany_force_start C grids layer chany_coord device_grid_annotation
                       shrink_boundary through_channel
  let force_end := chany_force_end C grids layer chany_coord device_grid_annotation
                     shrink_boundary through_channel
  let chany_details := C.build_unidir_chan_node_details chan_width (size_t_sub grids.height 2)
                         force_start force_end segment_infs
  if 0 < track_node_ids.length then
    chany_details.set_track_node_ids
      (chany_forced_node_ids C grids layer chan_width segment_infs through_channel chany_coord
        track_node_ids)
  else chany_details

/-- The body of the `iy` loop of `load_chany_rr_nodes_basic_info` at column `ix`. -/
def load_chany_position (C : ChanHelpers) (grids : DeviceGrid) (layer chan_width : Nat)
    (segment_infs : List t_segment_inf) (num_segment_x : Nat)
    (seg_index_map : t_unified_to_parallel_seg_index)
    ( device_grid_annotation : DeviceGridAnnotation) (shrink_boundary through_channel : Bool)
    (ix : Nat) (s : RRBuildState × List Nat) (iy : Nat) : Option (RRBuildState × List Nat) :=
  let chany_coord := (ix, iy)
  if chany_bypass C grids layer chany_coord device_grid_annotation shrink_boundary through_channel
  then some s
  else
    let chany_details := chany_details_at C grids layer chan_width segment_infs device_grid_annotation
                           shrink_boundary through_channel chany_coord s.2
    match load_one_chan_rr_nodes_basic_info C
            ⟨layer, chany_coord, .CHANY, segment_infs, seg_index_map,
             C.CHANX_COST_INDEX_START + num_segment_x⟩
            s.1 chany_details with
    | none => none
    | some r => some (r.1, r.2.get_track_node_ids)

/-- The body of the `ix` loop of `load_chany_rr_nodes_basic_info`: one channel column,
walked from y = 1 upwards with a fresh vector `track_node_ids`. -/
def load_chany_column (C : ChanHelpers) (grids : DeviceGrid)
    (layer chan_width : Nat) (segment_infs : List t_segment_inf) (num_segment_x : Nat)
    (seg_index_map : t_unified_to_parallel_seg_index)
    ( device_grid_annotation : DeviceGridAnnotation) (shrink_boundary through_channel : Bool)
    (st : RRBuildState) (ix : Nat) : Option RRBuildState :=
  ((List.range' 1 (size_t_sub grids.height 1 - 1)).foldlM
      (load_chany_position C grids layer chan_width segment_infs num_segment_x seg_index_map
        device_grid_annotation shrink_boundary through_channel ix) (st, [])).map (fun r => r.1)

/-- The function `load_chany_rr_nodes_basic_info`. -/
def load_chany_rr_nodes_basic_info (C : ChanHelpers) (st : RRBuildState) (grids : DeviceGrid)
    (layer chan_width : Nat) (segment_infs : List t_segment_inf) (num_segment_x : Nat)
    (seg_index_map : t_unified_to_parallel_seg_index)
    ( device_grid_annotation : DeviceGridAnnotation) (shrink_boundary through_channel : Bool) :
    Option RRBuildState :=
  (List.range (size_t_sub grids.width 1)).foldlM
    (load_chany_column C grids layer chan_width segment_infs num_segment_x seg_index_map
      device_grid_annotation shrink_boundary through_channel)
    st

/-- The body of the loop of `reverse_dec_chan_rr_node_track_ids` for the node `node`. -/
def reverse_dec_chan_node (st : RRBuildState) (node : Nat) : RRBuildState :=
  /- Bypass condition: only focus on CHANX and CHANY in DEC_DIRECTION -/
  if t_rr_type.CHANX ≠ (node_at st node).type ∧ t_rr_type.CHANY ≠ (node_at st node).type then st
  else if Direction.DEC ≠ (node_at st node).direction then st
  else
    { st with rr_node_track_ids :=
        Function.update st.rr_node_track_ids node (st.rr_node_track_ids node).reverse }

/-- The function `reverse_dec_chan_rr_node_track_ids`. -/
def reverse_dec_chan_rr_node_track_ids (st : RRBuildState) : RRBuildState :=
  (List.range st.nodes.length).foldl reverse_dec_chan_node st

/-- The function `create_tileable_rr_graph_nodes`, up to and including the reversal of the
track ids. What follows it in the source, the pre-sizing `resize_nodes` before it and the
final `add_track_node_to_lookup` loop, works on the storage of the spatial index of the
wire nodes and leaves the node table and `rr_node_track_ids` as they are. -/
def create_tileable_rr_graph_nodes (H : GridHelpers) (C : ChanHelpers) (st : RRBuildState)
    (grids : DeviceGrid) (layer : Nat) (chan_width : Nat × Nat)
    (segment_inf_x segment_inf_y : List t_segment_inf)
    (segment_index_map : t_unified_to_parallel_seg_index)
    (wire_to_ipin_switch delayless_switch : Nat)
    ( device_grid_annotation : DeviceGridAnnotation) (shrink_boundary through_channel : Bool) :
    Option RRBuildState :=
  (load_chanx_rr_nodes_basic_info C
      (load_grid_nodes_basic_info H st grids layer wire_to_ipin_switch delayless_switch)
      grids layer chan_width.1 segment_inf_x segment_index_map device_grid_annotation
      shrink_boundary through_channel).bind
    (fun st =>
      (load_chany_rr_nodes_basic_info C st grids layer chan_width.2 segment_inf_y
          segment_inf_x.length segment_index_map device_grid_annotation shrink_boundary
          through_channel).map
        reverse_dec_chan_rr_node_track_ids)

/-! ## What the grid node loader stores, as lists of nodes -/

/-- The SOURCE node that the loader stores for class `iclass` of the tile `t` rooted at (gx, gy). -/
def source_node (H : GridHelpers) (layer gx gy : Nat) (t : t_physical_tile_type) (iclass : Nat) :
    t_rr_node :=
  { type := .SOURCE, layer := layer, xlow := gx, ylow := gy, xhigh := gx + t.width - 1,
    yhigh := gy + t.height - 1, ptc_num := iclass, capacity := (class_at t iclass).num_pins,
    direction := .NONE, cost_index := H.SOURCE_COST_INDEX, sides := [] }

/-- The SINK node that the loader stores for class `iclass` of the tile `t` rooted at (gx, gy). -/
def sink_node (H : GridHelpers) (layer gx gy : Nat) (t : t_physical_tile_type) (iclass : Nat) :
    t_rr_node :=
  { type := .SINK, layer := layer, xlow := gx, ylow := gy, xhigh := gx + t.width - 1,
    yhigh := gy + t.height - 1, ptc_num := iclass, capacity := (class_at t iclass).num_pins,
    direction := .NONE, cost_index := H.SINK_COST_INDEX, sides := [] }

/-- The pin node that the loader stores for pin `pin_num` on `side` of cell (x, y). -/
def pin_node (type : t_rr_type) (cost_index layer x y : Nat) (side : e_side) (pin_num : Nat) :
    t_rr_node :=
  { type := type, layer := layer, xlow := x, ylow := y, xhigh := x, yhigh := y, ptc_num := pin_num,
    capacity := 1, direction := .NONE, cost_index := cost_index, sides := [side] }

/-- The SOURCE nodes of the tile rooted at (gx, gy), in creation order. -/
def cell_source_nodes (H : GridHelpers) (grids : DeviceGrid) (layer gx gy : Nat) : List t_rr_node :=
  let t := grids.get_physical_type ⟨gx, gy, layer⟩
  (List.range t.class_inf.length).flatMap
    (fun iclass => if (class_at t iclass).type = .DRIVER then [source_node H layer gx gy t iclass] else [])

/-- The SINK nodes of the tile rooted at (gx, gy), in creation order. -/
def cell_sink_nodes (H : GridHelpers) (grids : DeviceGrid) (layer gx gy : Nat) : List t_rr_node :=
  let t := grids.get_physical_type ⟨gx, gy, layer⟩
  (List.range t.class_inf.length).flatMap
    (fun iclass => if (class_at t iclass).type = .RECEIVER then [sink_node H layer gx gy t iclass] else [])

/-- The pin nodes of one kind of the tile rooted at (gx, gy), in creation order. -/
def cell_pin_nodes (H : GridHelpers) (grids : DeviceGrid) (layer gx gy : Nat) (io_side : e_side)
    (pin_type : e_pin_type) (type : t_rr_type) (cost_index : Nat) : List t_rr_node :=
  let t := grids.get_physical_type ⟨gx, gy, layer⟩
  (List.range t.width).flatMap (fun width =>
    (List.range t.height).flatMap (fun height =>
      SIDES.flatMap (fun side =>
        if H.is_io_type t = true ∧ side ≠ io_side ∧ e_side.NUM_SIDES ≠ io_side then []
        else
          (H.get_grid_side_pins grids layer gx gy pin_type side width height).flatMap
            (fun pin_num => [pin_node type cost_index layer (gx + width) (gy + height) side pin_num]))))

/-- The nodes that the loader creates at cell (ix, iy), in creation order. -/
def cell_nodes (H : GridHelpers) (grids : DeviceGrid) (layer ix iy : Nat) : List t_rr_node :=
  if H.is_empty_type (grids.get_physical_type ⟨ix, iy, layer⟩) then []
  else if 0 < grids.get_width_offset ⟨ix, iy, layer⟩ ∨ 0 < grids.get_height_offset ⟨ix, iy, layer⟩ then []
  else
    cell_source_nodes H grids layer ix iy ++ cell_sink_nodes H grids layer ix iy
      ++ cell_pin_nodes H grids layer ix iy (grid_io_side H grids layer ix iy) .DRIVER .OPIN
           H.OPIN_COST_INDEX
      ++ cell_pin_nodes H grids layer ix iy (grid_io_side H grids layer ix iy) .RECEIVER .IPIN
           H.IPIN_COST_INDEX

/-- The nodes that `load_grid_nodes_basic_info` creates, in creation order. -/
def grid_nodes (H : GridHelpers) (grids : DeviceGrid) (layer : Nat) : List t_rr_node :=
  (List.range grids.height).flatMap (fun iy =>
    (List.range grids.width).flatMap (fun ix => cell_nodes H grids layer ix iy))

/-- The count that the specification gives for SOURCE (`pin_type` DRIVER) and SINK
(`pin_type` RECEIVER) nodes: "the sum, over every non-EMPTY cell with zero width offset and
zero height offset, of the number of classes of that cell's tile type whose type is"
`pin_type`; the other cells contribute nothing. -/
def spec_num_class_nodes (H : GridHelpers) (grids : DeviceGrid) (layer : Nat) (pin_type : e_pin_type) :
    Nat :=
  ((List.range grids.width).map (fun x =>
    ((List.range grids.height).map (fun y =>
      if H.is_empty_type (grids.get_physical_type ⟨x, y, layer⟩) = false
          ∧ grids.get_width_offset ⟨x, y, layer⟩ = 0 ∧ grids.get_height_offset ⟨x, y, layer⟩ = 0 then
        (grids.get_physical_type ⟨x, y, layer⟩).class_inf.countP (fun c => c.type = pin_type)
      else 0)).sum)).sum

/-- The driver switch that the loader assigns to a grid node of the given kind: the
wire-to-pin switch for an IPIN, the delayless switch for SOURCE, SINK and OPIN. -/
def grid_node_driver_switch (wire_to_ipin_switch delayless_switch : Nat) (type : t_rr_type) : Nat :=
  if type = .IPIN then wire_to_ipin_switch else delayless_switch

/-- Every node with identity at least `base` carries the driver switch of its kind. -/
def switches_assigned (wire_to_ipin_switch delayless_switch base : Nat) (s : RRBuildState) : Prop :=
  ∀ k n, base ≤ k → s.nodes[k]? = some n →
    s.rr_node_driver_switches k = grid_node_driver_switch wire_to_ipin_switch delayless_switch n.type

/-! ## Example fabrics -/

/-- A tile type two cells wide with one DRIVER class and one RECEIVER class. -/
def ex_wide_tile : t_physical_tile_type :=
  { index := 1, width := 2, height := 1, num_pins := 2,
    class_inf := [⟨.DRIVER, 1⟩, ⟨.RECEIVER, 1⟩] }

/-- A grid of two cells on every layer, both covered by one `ex_wide_tile` rooted at (0, 0). -/
def ex_wide_grid : DeviceGrid :=
  { width := 2, height := 1,
    get_physical_type := fun _ => ex_wide_tile,
    get_width_offset := fun loc => loc.x,
    get_height_offset := fun _ => 0 }

/-- Grid helpers of a fabric without empty or IO tiles and without pins. -/
def ex_grid_helpers : GridHelpers :=
  { is_empty_type := fun _ => false, is_io_type := fun _ => false,
    determine_io_grid_pin_side := fun _ _ => .NUM_SIDES,
    get_grid_side_pins := fun _ _ _ _ _ _ _ _ => [],
    get_grid_num_pins := fun _ _ _ _ _ _ => 0,
    SOURCE_COST_INDEX := 0, SINK_COST_INDEX := 1, OPIN_COST_INDEX := 2, IPIN_COST_INDEX := 3 }

/-- A single-cell logic tile: class 0 is a RECEIVER class of two pins (pins 0 and 1),
class 1 a DRIVER class of one pin (pin 2). -/
def ex_clb_tile : t_physical_tile_type :=
  { index := 2, width := 1, height := 1, num_pins := 3,
    class_inf := [⟨.RECEIVER, 2⟩, ⟨.DRIVER, 1⟩] }

/-- A grid of one cell holding an `ex_clb_tile`. -/
def ex_clb_grid : DeviceGrid :=
  { width := 1, height := 1,
    get_physical_type := fun _ => ex_clb_tile,
    get_width_offset := fun _ => 0,
    get_height_offset := fun _ => 0 }

/-- Grid helpers for `ex_clb_grid`: the two input pins are on the TOP side, the output
pin is on the RIGHT side. -/
def ex_clb_helpers : GridHelpers :=
  { is_empty_type := fun _ => false, is_io_type := fun _ => false,
    determine_io_grid_pin_side := fun _ _ => .NUM_SIDES,
    get_grid_side_pins := fun _ _ _ _ pin_type side _ _ =>
      if pin_type = .RECEIVER ∧ side = .TOP then [0, 1]
      else if pin_type = .DRIVER ∧ side = .RIGHT then [2]
      else [],
    get_grid_num_pins := fun _ _ _ _ pin_type _ => if pin_type = .RECEIVER then 2 else 1,
    SOURCE_COST_INDEX := 0, SINK_COST_INDEX := 1, OPIN_COST_INDEX := 2, IPIN_COST_INDEX := 3 }

/-- A tile type two cells wide with one RECEIVER class of one pin. -/
def ex_sink_tile : t_physical_tile_type :=
  { index := 3, width := 2, height := 1, num_pins := 1, class_inf := [⟨.RECEIVER, 1⟩] }

/-- A grid of four cells on layer 0 holding two `ex_sink_tile` instances, rooted at (0, 0)
and at (2, 0). -/
def ex_sink_grid : DeviceGrid :=
  { width := 4, height := 1,
    get_physical_type := fun _ => ex_sink_tile,
    get_width_offset := fun loc => loc.x % 2,
    get_height_offset := fun _ => 0 }

/-- Grid helpers for `ex_sink_grid`: the input pin 0 of a tile sits on the TOP side of the
tile's second cell. -/
def ex_sink_helpers : GridHelpers :=
  { is_empty_type := fun _ => false, is_io_type := fun _ => false,
    determine_io_grid_pin_side := fun _ _ => .NUM_SIDES,
    get_grid_side_pins := fun _ _ _ _ pin_type side width height =>
      if pin_type = .RECEIVER ∧ side = .TOP ∧ width = 1 ∧ height = 0 then [0] else [],
    get_grid_num_pins := fun _ _ _ _ pin_type _ => if pin_type = .RECEIVER then 1 else 0,
    SOURCE_COST_INDEX := 0, SINK_COST_INDEX := 1, OPIN_COST_INDEX := 2, IPIN_COST_INDEX := 3 }

/-- The graph of `ex_sink_grid` as the grid node loader builds it on layer 0 (nodes 0 and 2
are the SINKs of the two tiles, nodes 1 and 3 their IPINs), with the pin-to-sink edges. -/
def ex_sink_graph : RRBuildState :=
  { load_grid_nodes_basic_info ex_sink_helpers RRBuildState.empty ex_sink_grid 0 7 9 with
    edges := [(1, 0), (3, 2)] }

/-- The empty tile type of the example fabrics. -/
def ex_empty_tile : t_physical_tile_type :=
  { index := 0, width := 1, height := 1, num_pins := 0, class_inf := [] }

/-- A tile type of 2x2 cells with one RECEIVER class of two pins. -/
def ex_quad_tile : t_physical_tile_type :=
  { index := 4, width := 2, height := 2, num_pins := 2, class_inf := [⟨.RECEIVER, 2⟩] }

/-- A 4x4 grid that holds one `ex_quad_tile` rooted at (1, 1); every other cell is empty. -/
def ex_quad_grid : DeviceGrid :=
  { width := 4, height := 4,
    get_physical_type := fun loc =>
      if 1 ≤ loc.x ∧ loc.x ≤ 2 ∧ 1 ≤ loc.y ∧ loc.y ≤ 2 then ex_quad_tile else ex_empty_tile,
    get_width_offset := fun loc => if 1 ≤ loc.x ∧ loc.x ≤ 2 ∧ 1 ≤ loc.y ∧ loc.y ≤ 2 then loc.x - 1 else 0,
    get_height_offset := fun loc => if 1 ≤ loc.x ∧ loc.x ≤ 2 ∧ 1 ≤ loc.y ∧ loc.y ≤ 2 then loc.y - 1 else 0 }

/-- Grid helpers for `ex_quad_grid`: input pin 0 sits at local offset (0, 0), input pin 1
at local offset (1, 1), both on the TOP side. -/
def ex_quad_helpers : GridHelpers :=
  { is_empty_type := fun t => decide (t.index = 0), is_io_type := fun _ => false,
    determine_io_grid_pin_side := fun _ _ => .NUM_SIDES,
    get_grid_side_pins := fun _ _ _ _ pin_type side width height =>
      if pin_type = .RECEIVER ∧ side = .TOP ∧ width = 0 ∧ height = 0 then [0]
      else if pin_type = .RECEIVER ∧ side = .TOP ∧ width = 1 ∧ height = 1 then [1]
      else [],
    get_grid_num_pins := fun _ _ _ _ pin_type _ => if pin_type = .RECEIVER then 2 else 0,
    SOURCE_COST_INDEX := 0, SINK_COST_INDEX := 1, OPIN_COST_INDEX := 2, IPIN_COST_INDEX := 3 }

/-- The graph of `ex_quad_grid` as the grid node loader builds it on layer 0 (node 0 is the
SINK of the tile, nodes 1 and 2 are its IPINs at (1, 1) and (2, 2)), with the pin-to-sink
edges. -/
def ex_quad_graph : RRBuildState :=
  { load_grid_nodes_basic_info ex_quad_helpers RRBuildState.empty ex_quad_grid 0 7 9 with
    edges := [(1, 0), (2, 0)] }

/-! ## What the channel node loader does, block by block -/

/-- The fields of a track other than its node identity. -/
def t_chan_track.flags (t : t_chan_track) : Direction × Nat × Bool × Bool :=
  (t.direction, t.seg_id, t.is_start, t.is_end)

/-- The flags of every track of a channel detail. -/
def ChanNodeDetails.flags (cd : ChanNodeDetails) : List (Direction × Nat × Bool × Bool) :=
  cd.tracks.map t_chan_track.flags

/-- The node that the first block of the track loop stores for track `itrack`. -/
def chan_new_node (C : ChanHelpers) (a : ChanArgs) (cd : ChanNodeDetails) (itrack : Nat) : t_rr_node :=
  { type := a.chan_type, layer := a.layer, xlow := a.chan_coordinate.1, ylow := a.chan_coordinate.2,
    xhigh := a.chan_coordinate.1, yhigh := a.chan_coordinate.2, ptc_num := itrack, capacity := 1,
    direction := cd.get_track_direction itrack,
    cost_index := a.cost_index_offset
      + C.find_parallel_seg_index (cd.get_track_segment_id itrack) a.seg_index_map
          (if a.chan_type = .CHANX then e_parallel_axis.X_AXIS else e_parallel_axis.Y_AXIS),
    sides := if decide (a.chan_type = .OPIN ∨ a.chan_type = .IPIN) then [e_side.NUM_SIDES] else [] }

/-- What the second and the last block of the track loop do to the node `rr_node_id` once
the checks have passed: the far corner moves to the channel position and, when `push`
holds, the track slot is recorded. -/
def chan_touch_node (st : RRBuildState) (rr_node_id : Nat) (chan_coordinate : Nat × Nat)
    (itrack : Nat) (push : Bool) : RRBuildState :=
  let st := set_node_coordinates st rr_node_id (node_at st rr_node_id).xlow
              (node_at st rr_node_id).ylow chan_coordinate.1 chan_coordinate.2
  if push then add_node_track_num (push_track_id st rr_node_id itrack) rr_node_id chan_coordinate itrack
  else st

/-- The number of tracks of a channel detail for which the loader creates a node. -/
def num_new_tracks (cd : ChanNodeDetails) : Nat :=
  cd.tracks.countP (fun t => (t.is_start && decide (t.direction = .INC))
                              || (t.is_end && decide (t.direction = .DEC)))

/-- The number of nodes that a CHANX position requires: none when the channel is bypassed,
else one per INC track that starts and per DEC track that ends in the detail built with
the position's force flags. -/
def chanx_nodes_at (C : ChanHelpers) (grids : DeviceGrid) (layer chan_width : Nat)
    (segment_infs : List t_segment_inf) ( device_grid_annotation : DeviceGridAnnotation)
    (shrink_boundary through_channel : Bool) (ix iy : Nat) : Nat :=
  if chanx_bypass C grids layer (ix, iy) device_grid_annotation shrink_boundary through_channel then 0
  else
    let cd := C.build_unidir_chan_node_details chan_width (size_t_sub grids.width 2)
      (chanx_force_start C grids layer (ix, iy) device_grid_annotation shrink_boundary through_channel)
      (chanx_force_end C grids layer (ix, iy) device_grid_annotation shrink_boundary through_channel)
      segment_infs
    cd.get_num_starting_tracks .INC + cd.get_num_ending_tracks .DEC

/-- The number of nodes that a CHANY position requires. -/
def chany_nodes_at (C : ChanHelpers) (grids : DeviceGrid) (layer chan_width : Nat)
    (segment_infs : List t_segment_inf) ( device_grid_annotation : DeviceGridAnnotation)
    (shrink_boundary through_channel : Bool) (ix iy : Nat) : Nat :=
  if chany_bypass C grids layer (ix, iy) device_grid_annotation shrink_boundary through_channel then 0
  else
    let cd := C.build_unidir_chan_node_details chan_width (size_t_sub grids.height 2)
      (chany_force_start C grids layer (ix, iy) device_grid_annotation shrink_boundary through_channel)
      (chany_force_end C grids layer (ix, iy) device_grid_annotation shrink_boundary through_channel)
      segment_infs
    cd.get_num_starting_tracks .INC + cd.get_num_ending_tracks .DEC

/-- Every node with identity at least `base` is of kind `T`. -/
def nodes_from_of_type (base : Nat) (T : t_rr_type) (st : RRBuildState) : Prop :=
  ∀ k n, base ≤ k → st.nodes[k]? = some n → n.type = T

/-! ## An example channel fabric -/

/-- Modelled from the spec: an instance of `build_unidir_chan_node_details` for a channel
with one segment type: "build the channel detail for this position from the segment
catalog and channel width, honoring the forced flags". Tracks come in INC/DEC pairs; pair
`p` starts a wire when `p` is a multiple of the segment length and ends one on the last
slot of a group; a forced start makes every INC track start and every DEC track end, a
forced end makes every INC track end and every DEC track start. -/
def ex_build_unidir_chan_node_details (chan_width _max_seg_length : Nat) (force_start force_end : Bool)
    (segment_infs : List t_segment_inf) : ChanNodeDetails :=
  let seg_len := (segment_infs.headD ⟨1, 1, 0⟩).length
  let num_pairs := chan_width / 2
  { tracks := (List.range num_pairs).flatMap (fun p =>
      let seg_start := decide (p % seg_len = 0)
      let seg_end := decide (p % seg_len = seg_len - 1) || decide (p = num_pairs - 1)
      [ { node_id := 0, direction := .INC, seg_id := 0,
          is_start := seg_start || force_start, is_end := seg_end || force_end },
        { node_id := 0, direction := .DEC, seg_id := 0,
          is_start := seg_start || force_end, is_end := seg_end || force_start } ]) }

/-- Write the identities `ids`, in order, into the tracks of direction `d`. -/
def ex_put_node_ids : List t_chan_track → Direction → List Nat → List t_chan_track
  | [], _, _ => []
  | t :: ts, d, ids =>
    if t.direction = d then
      match ids with
      | [] => t :: ts
      | id :: rest => { t with node_id := id } :: ex_put_node_ids ts d rest
    else t :: ex_put_node_ids ts d ids

/-- Modelled from the spec: an instance of `rotate_track_node_id(offset, direction,
counter_rotate)`: "increasing-direction identities rotate one step in one direction,
decreasing-direction identities rotate one step in the other". As the source pictures it,
a counter rotation turns the identities (A, B, C, D) of the tracks of that direction into
(D, A, B, C), a rotation into (B, C, D, A). -/
def ex_rotate_track_node_id (cd : ChanNodeDetails) (offset : Nat) (d : Direction)
    (counter_rotate : Bool) : ChanNodeDetails :=
  let ids := (cd.tracks.filter (fun t => decide (t.direction = d))).map (fun t => t.node_id)
  let k := if ids.length = 0 then 0 else offset % ids.length
  let rotated := if counter_rotate then ids.drop (ids.length - k) ++ ids.take (ids.length - k)
                 else ids.drop k ++ ids.take k
  { tracks := ex_put_node_ids cd.tracks d rotated }

/-- Channel helpers of a fabric without multi-cell tiles: every channel exists; tracks are
forced to start at the left/bottom border (x = 1 for CHANX, y = 1 for CHANY) and to end at
the right/top border (x = width - 2, y = height - 2). -/
def ex_chan_helpers : ChanHelpers :=
  { is_chanx_exist := fun _ _ _ => true,
    is_chanx_exist_through := fun _ _ _ _ => true,
    is_chany_exist := fun _ _ _ => true,
    is_chany_exist_through := fun _ _ _ _ => true,
    is_chanx_right_to_multi_height_grid := fun _ _ c _ => decide (c.1 = 1),
    is_chanx_left_to_multi_height_grid := fun g _ c _ => decide (c.1 = g.width - 2),
    is_chany_top_to_multi_width_grid := fun _ _ c _ => decide (c.2 = 1),
    is_chany_bottom_to_multi_width_grid := fun g _ c _ => decide (c.2 = g.height - 2),
    build_unidir_chan_node_details := ex_build_unidir_chan_node_details,
    rotate_track_node_id := ex_rotate_track_node_id,
    find_parallel_seg_index := fun seg_id _ _ => seg_id,
    CHANX_COST_INDEX_START := 4 }

/-- A 4x3 grid of empty tiles: CHANX positions x = 1, 2 in rows y = 0, 1 and CHANY
positions y = 1 in columns x = 0, 1, 2. -/
def ex_chan_grid : DeviceGrid :=
  { width := 4, height := 3,
    get_physical_type := fun _ => ex_empty_tile,
    get_width_offset := fun _ => 0,
    get_height_offset := fun _ => 0 }

/-- A segment catalog with one type of length-2 wires driven through switch 5. -/
def ex_segment_infs : List t_segment_inf := [⟨2, 1, 5⟩]

/-- An annotation that is not consulted (no shrink boundary). -/
def ex_device_grid_annot : DeviceGridAnnotation :=
  { is_chanx_exist := fun _ => true, is_chanx_start := fun _ => false, is_chanx_end := fun _ => false,
    is_chany_exist := fun _ => true, is_chany_start := fun _ => false, is_chany_end := fun _ => false }

/-- A segment catalog with one type of length-3 wires driven through switch 5. -/
def ex_long_segment_infs : List t_segment_inf := [⟨3, 1, 5⟩]

/-- A 5x2 grid of empty tiles: CHANX positions x = 1, 2, 3 in row y = 0. -/
def ex_long_chan_grid : DeviceGrid :=
  { width := 5, height := 2,
    get_physical_type := fun _ => ex_empty_tile,
    get_width_offset := fun _ => 0,
    get_height_offset := fun _ => 0 }

/-- The loop state of `load_chanx_rr_nodes_basic_info` on `ex_long_chan_grid` (channel
width 6, length-3 wires) after the first position (1, 0) of row 0: six nodes, one per track. -/
def ex_after_first_position : RRBuildState × List Nat :=
  (load_chanx_position ex_chan_helpers ex_long_chan_grid 0 6 ex_long_segment_infs []
    ex_device_grid_annot false false 0 (RRBuildState.empty, []) 1).getD (RRBuildState.empty, [])

/-! ## Track-id bookkeeping of the channel loader -/

/-- The track slots recorded for `node` by `add_node_track_num`, in the order of the calls. -/
def recorded_track_nums (st : RRBuildState) (node : Nat) : List t_track_num :=
  st.node_track_nums.filter (fun e => decide (e.node = node))

/-- `rr_node_track_ids` lists, for every node, the track slots recorded for it, in the
order of the calls. -/
def track_ids_match (st : RRBuildState) : Prop :=
  ∀ n, st.rr_node_track_ids n = (recorded_track_nums st n).map (fun e => e.track)

/-- The order in which `load_chanx_rr_nodes_basic_info` visits channel positions: row after
row, ascending x within a row. -/
def chanx_visit_order (e1 e2 : t_track_num) : Prop :=
  e1.y < e2.y ∨ (e1.y = e2.y ∧ e1.x ≤ e2.x)

/-- The order in which `load_chany_rr_nodes_basic_info` visits channel positions: column
after column, ascending y within a column. -/
def chany_visit_order (e1 e2 : t_track_num) : Prop :=
  e1.x < e2.x ∨ (e1.x = e2.x ∧ e1.y ≤ e2.y)

/-- What every step of the channel loader keeps: nodes are only added, stored nodes keep
kind and direction, and the track-id bookkeeping stays matched. -/
def chan_frame (st st' : RRBuildState) : Prop :=
  st.nodes.length ≤ st'.nodes.length
    ∧ (∀ m, m < st.nodes.length →
        (node_at st' m).type = (node_at st m).type
          ∧ (node_at st' m).direction = (node_at st m).direction)
    ∧ (track_ids_match st → track_ids_match st')

/-- The slots recorded between two states: `new` was appended, every entry satisfies `R`
and names a node of kind `T`. -/
def chan_recorded (T : t_rr_type) (R : t_track_num → Prop) (st st' : RRBuildState)
    (new : List t_track_num) : Prop :=
  st'.node_track_nums = st.node_track_nums ++ new
    ∧ ∀ e ∈ new, R e ∧ e.node < st'.nodes.length ∧ (node_at st' e.node).type = T

/-! ## Example graphs for the sink compaction -/

/-- The graph of `ex_sink_grid` with a pin-to-sink edge in the first tile only: the SINK of
the second tile (node 2) has no fan-in pin. -/
def ex_lone_sink_graph : RRBuildState :=
  { load_grid_nodes_basic_info ex_sink_helpers RRBuildState.empty ex_sink_grid 0 7 9 with
    edges := [(1, 0)] }

/-- The graph of `ex_sink_grid` with a pin-to-sink edge in the second tile only: the SINK of
the first tile (node 0) has no fan-in pin. -/
def ex_late_pin_graph : RRBuildState :=
  { load_grid_nodes_basic_info ex_sink_helpers RRBuildState.empty ex_sink_grid 0 7 9 with
    edges := [(3, 2)] }

/-! ## Device grid construction (`vpr/src/base/SetupGrid.cpp`)

Code that aborts returns `Except SetupError`: `VPR_FATAL_ERROR` is `fatal`, a failed
`VTR_ASSERT` is `assert_failed`, and a loop that has not ended when the fuel of the model
is used up is `out_of_fuel`. The grid under construction is the matrix `grid` with the
matrix `grid_priorities`; the per-die copies `grid_z_coord` (written, never read) and
`grid_priorities_z_coord` (handed over by value) do not reach the result and are left out.
A pointer to a tile type is the tile type, `nullptr` is `none`; two pointers are equal when
the tile types are (`index` is the identity of a tile type). -/

/-- The error classes of `VPR_FATAL_ERROR` that the grid set-up raises. -/
inductive e_vpr_error where
  | VPR_ERROR_ARCH | VPR_ERROR_OTHER
  deriving DecidableEq, Repr

/-- The ways the grid set-up stops without a result. -/
inductive SetupError where
  | fatal (kind : e_vpr_error) (msg : String)
  | assert_failed (what : String)
  | out_of_fuel
  deriving DecidableEq, Repr

/-- One cell of the grid matrix (`t_grid_tile`). -/
structure t_grid_tile where
  type : Option t_physical_tile_type
  width_offset : Nat
  height_offset : Nat
  meta : Option Nat
  deriving DecidableEq, Repr

/-- The two matrices `set_grid_block_type` works on, indexed `[x][y]`. -/
structure GridBuildState where
  grid : Nat → Nat → t_grid_tile
  grid_priorities : Nat → Nat → Int

/-- The value `std::numeric_limits<int>::lowest()`. -/
def int_lowest : Int := -(2 ^ 31)

/-- An element of the sets of `set_grid_block_type` (`TypeLocation`). -/
structure TypeLocation where
  x : Nat
  y : Nat
  type : Option t_physical_tile_type
  priority : Int
  deriving DecidableEq, Repr

/-- The cells visited by `for (x = x_root; x < x_root + width; ++x) for (y = y_root;
y < y_root + height; ++y)`, in that order; the bounds are `size_t` sums. -/
def footprint_cells (x_root y_root width height : Nat) : List (Nat × Nat) :=
  (List.range' x_root ((x_root + width) % 2 ^ 64 - x_root)).flatMap
    (fun x => (List.range' y_root ((y_root + height) % 2 ^ 64 - y_root)).map (fun y => (x, y)))

/-- The priority of `max_priority_type_loc`: the highest priority among the affected
cells. The cells are collected in a `std::set` whose order (`x < x' || y < y' ||
type < type'`) is not a strict weak order; the loop over the set starts from its first
element and keeps the higher priority, so the priority found is the maximum over the cells
kept. The cells are inserted by ascending x, then ascending y, so the insertion never finds
an earlier cell that is not below the new one, and every cell is kept. An empty footprint
dereferences the end of the set: `none`. -/
def max_priority (s : GridBuildState) (cells : List (Nat × Nat)) : Option Int :=
  match cells with
  | [] => none
  | c :: cs =>
    some (cs.foldl (fun m c => if s.grid_priorities c.1 c.2 > m then s.grid_priorities c.1 c.2 else m)
      (s.grid_priorities c.1 c.2))

/-- Insertion into `root_blocks_to_rip_up`. Which of several distinct roots the `std::set`
keeps under the order of the source is left open by the language; the model keeps every
root that differs from the roots already kept in x, y or type, which is certain for the
first root inserted. -/
def insert_root (roots : List TypeLocation) (r : TypeLocation) : List TypeLocation :=
  if roots.any (fun q => decide (q.x = r.x ∧ q.y = r.y ∧ q.type = r.type)) then roots
  else roots ++ [r]

/-- The body of the marking loops of `set_grid_block_type` at the cell (x, y). -/
def mark_cell (empty_type : Option t_physical_tile_type) (priority : Int)
    (type : t_physical_tile_type) (x_root y_root : Nat) (meta : Option Nat) (grid_width grid_height : Nat)
    (acc : GridBuildState × List TypeLocation) (c : Nat × Nat) :
    Except SetupError (GridBuildState × List TypeLocation) :=
  let x := c.1
  let y := c.2
  if ¬ x < grid_width then .error (.assert_failed "x < grid.end_index(0)")
  else if ¬ y < grid_height then .error (.assert_failed "y < grid.end_index(1)")
  else
    let x_offset := size_t_sub x x_root
    let y_offset := size_t_sub y y_root
    let grid_tile := acc.1.grid x y
    if ¬ acc.1.grid_priorities x y ≤ priority then
      .error (.assert_failed "grid_priorities[x][y] <= priority")
    else
      /- We are overriding a non-empty block: remember its root -/
      let roots :=
        if grid_tile.type ≠ none ∧ grid_tile.type ≠ empty_type then
          insert_root acc.2
            ⟨size_t_sub x grid_tile.width_offset, size_t_sub y grid_tile.height_offset,
             grid_tile.type, acc.1.grid_priorities x y⟩
        else acc.2
      .ok ({ grid := fun i j =>
               if i = x ∧ j = y then
                 { type := some type, width_offset := x_offset, height_offset := y_offset, meta := meta }
               else acc.1.grid i j,
             grid_priorities := fun i j => if i = x ∧ j = y then priority else acc.1.grid_priorities i j },
           roots)

/-- The body of the rip-up loops of `set_grid_block_type` for the root `r` at the cell
(x, y): a left-over cell of the invalidated block is marked as empty. -/
def rip_up_cell (empty_type : Option t_physical_tile_type) (r : TypeLocation)
    (s : GridBuildState) (c : Nat × Nat) : Except SetupError GridBuildState :=
  let x := c.1
  let y := c.2
  let x_offset := size_t_sub x r.x
  let y_offset := size_t_sub y r.y
  if (s.grid x y).type = r.type ∧ (s.grid x y).width_offset = x_offset
      ∧ (s.grid x y).height_offset = y_offset then
    if ¬ (empty_type.map (fun t => t.width)) = some 1 then
      .error (.assert_failed "EMPTY_PHYSICAL_TILE_TYPE->width == 1")
    else if ¬ (empty_type.map (fun t => t.height)) = some 1 then
      .error (.assert_failed "EMPTY_PHYSICAL_TILE_TYPE->height == 1")
    else
      .ok { grid := fun i j =>
              if i = x ∧ j = y then
                { s.grid x y with type := empty_type, width_offset := 0, height_offset := 0 }
              else s.grid i j,
            grid_priorities := fun i j => if i = x ∧ j = y then int_lowest else s.grid_priorities i j }
  else .ok s

/-- The rip-up loops of `set_grid_block_type` for one invalidated root. -/
def rip_up_root (empty_type : Option t_physical_tile_type) (s : GridBuildState) (r : TypeLocation) :
    Except SetupError GridBuildState :=
  (footprint_cells r.x r.y ((r.type.map (fun t => t.width)).getD 0)
      ((r.type.map (fun t => t.height)).getD 0)).foldlM (rip_up_cell empty_type r) s

/-- The function `set_grid_block_type(priority, type, x_root, y_root, ..., meta)`;
`grid_width` and `grid_height` are `grid.end_index(0)` and `grid.end_index(1)`. -/
def set_grid_block_type (empty_type : Option t_physical_tile_type) (grid_width grid_height : Nat)
    (priority : Int) (type : t_physical_tile_type) (x_root y_root : Nat) (meta : Option Nat)
    (s : GridBuildState) : Except SetupError GridBuildState :=
  /- Collect locations effected by this block -/
  let target_locations := footprint_cells x_root y_root type.width type.height
  /- Record the highest priority of all effected locations -/
  match max_priority s target_locations with
  | none => .error (.assert_failed "target_locations is empty")
  | some max_priority_type_loc =>
    if priority < max_priority_type_loc then
      /- Lower priority, do not override -/
      .ok s
    else
      /- Mark all the grid tiles covered by this block with the appropriate type
         and width/height offsets -/
      (target_locations.foldlM
          (mark_cell empty_type priority type x_root y_root meta grid_width grid_height) (s, [])).bind
        (fun marked =>
          /- Rip-up any invalidated blocks -/
          marked.2.foldlM (rip_up_root empty_type) marked.1)

/-- One axis of a grid location specification (`t_grid_loc_spec`): four expressions. -/
structure t_grid_loc_spec where
  start_expr : String
  end_expr : String
  incr_expr : String
  repeat_expr : String
  deriving DecidableEq, Repr

/-- A grid location specification (`t_grid_loc_def`). -/
structure t_grid_loc_def where
  block_type : String
  priority : Int
  x : t_grid_loc_spec
  y : t_grid_loc_spec
  meta : Option Nat
  deriving DecidableEq, Repr

/-- Kind of a grid definition (`GridDefType`). -/
inductive GridDefType where
  | AUTO | FIXED
  deriving DecidableEq, Repr

/-- A grid layout of the catalog (`t_grid_def`). -/
structure t_grid_def where
  grid_type : GridDefType
  width : Int
  height : Int
  name : String
  loc_defs : List t_grid_loc_def
  deriving DecidableEq, Repr

/-- The variables handed to the formula parser (`t_formula_data` after the four
`set_var_value` calls). -/
structure t_formula_data where
  W : Int
  H : Int
  w : Int
  h : Int
  deriving DecidableEq, Repr

/-- What the grid set-up takes from outside `SetupGrid.cpp`: the empty tile type of the
device context, `find_tile_type_by_name` over its tile types, and
`FormulaParser::parse_formula`, which yields an `int`. -/
structure SetupCtx where
  EMPTY_PHYSICAL_TILE_TYPE : Option t_physical_tile_type
  find_tile_type_by_name : String → Option t_physical_tile_type
  parse_formula : String → t_formula_data → Int

/-- The conversion of an `int` to `size_t`. -/
def size_t_of_int (v : Int) : Nat := (v % 2 ^ 64).toNat

/-- The conversion `int(n)` of a `size_t`. -/
def int_of_size_t (n : Nat) : Int :=
  if n % 2 ^ 32 < 2 ^ 31 then ((n % 2 ^ 32 : Nat) : Int) else ((n % 2 ^ 32 : Nat) : Int) - 2 ^ 32

/-- The eight evaluated values of a grid location specification. -/
structure t_loc_values where
  startx : Nat
  endx : Nat
  incrx : Nat
  repeatx : Nat
  starty : Nat
  endy : Nat
  incry : Nat
  repeaty : Nat
  deriving DecidableEq, Repr

/-- The block "Load the x specification" and "Load the y specification" of
`build_device_grid`: the expressions must be there, and each is evaluated to a `size_t`. -/
def eval_grid_loc_def (ctx : SetupCtx) (grid_width grid_height : Nat) (type : t_physical_tile_type)
    (d : t_grid_loc_def) : Except SetupError t_loc_values :=
  let vars : t_formula_data :=
    ⟨int_of_size_t grid_width, int_of_size_t grid_height, type.width, type.height⟩
  if d.x.start_expr = "" then .error (.assert_failed "x start position must be specified")
  else if d.x.end_expr = "" then .error (.assert_failed "x end position must be specified")
  else if d.x.incr_expr = "" then .error (.assert_failed "x increment must be specified")
  else if d.x.repeat_expr = "" then .error (.assert_failed "x repeat must be specified")
  else if d.y.start_expr = "" then .error (.assert_failed "y start position must be specified")
  else if d.y.end_expr = "" then .error (.assert_failed "y end position must be specified")
  else if d.y.incr_expr = "" then .error (.assert_failed "y increment must be specified")
  else if d.y.repeat_expr = "" then .error (.assert_failed "y repeat must be specified")
  else
    .ok { startx := size_t_of_int (ctx.parse_formula d.x.start_expr vars),
          endx := size_t_of_int (ctx.parse_formula d.x.end_expr vars),
          incrx := size_t_of_int (ctx.parse_formula d.x.incr_expr vars),
          repeatx := size_t_of_int (ctx.parse_formula d.x.repeat_expr vars),
          starty := size_t_of_int (ctx.parse_formula d.y.start_expr vars),
          endy := size_t_of_int (ctx.parse_formula d.y.end_expr vars),
          incry := size_t_of_int (ctx.parse_formula d.y.incr_expr vars),
          repeaty := size_t_of_int (ctx.parse_formula d.y.repeat_expr vars) }

/-- The checks of `build_device_grid` between the range warnings and the fill loops; the
message of a fatal error is its format string, the arguments are not expanded. -/
def check_grid_loc_def (type : t_physical_tile_type) (v : t_loc_values) : Except SetupError Unit :=
  /- The end must fall after (or equal) to the start -/
  if v.endx < v.startx then
    .error (.fatal .VPR_ERROR_ARCH
      "Grid location specification endx (%s = %d) can not come before startx (%s = %d) for block type '%s'")
  else if v.endy < v.starty then
    .error (.fatal .VPR_ERROR_ARCH
      "Grid location specification endy (%s = %d) can not come before starty (%s = %d) for block type '%s'")
  /- The minimum increment is the block dimension -/
  else if ¬ 0 < type.width then .error (.assert_failed "type->width > 0")
  else if v.incrx < type.width then
    .error (.fatal .VPR_ERROR_ARCH
      "Grid location specification incrx for block type '%s' must be at least block width (%d) to avoid overlapping instances (was %s = %d)")
  else if ¬ 0 < type.height then .error (.assert_failed "type->height > 0")
  else if v.incry < type.height then
    .error (.fatal .VPR_ERROR_ARCH
      "Grid location specification incry for block type '%s' must be at least block height (%d) to avoid overlapping instances (was %s = %d)")
  /- The minimum repeat is the region dimension -/
  else if v.repeatx < (size_t_sub v.endx v.startx + 1) % 2 ^ 64 then
    .error (.fatal .VPR_ERROR_ARCH
      "Grid location specification repeatx for block type '%s' must be at least the region width (%d) to avoid overlapping instances (was %s = %d)")
  else if v.repeaty < (size_t_sub v.endy v.starty + 1) % 2 ^ 64 then
    .error (.fatal .VPR_ERROR_ARCH
      "Grid location specification repeaty for block type '%s' must be at least the region height (%d) to avoid overlapping instances (was %s = %d)")
  else .ok ()

/-- The values of `v` in `for (size_t v = v_start; v + (extent - 1) <= v_max; v += incr)`,
in order; `none` when the loop has not ended after `fuel` tests. -/
def stepped_positions (extent incr v_max : Nat) : Nat → Nat → Option (List Nat)
  | 0, _ => none
  | fuel + 1, v =>
    if (v + (extent - 1)) % 2 ^ 64 ≤ v_max then
      (stepped_positions extent incr v_max fuel ((v + incr) % 2 ^ 64)).map (fun l => v :: l)
    else some []

/-- The pairs (v_start, v_end) of the iterations of `for (size_t k = 0; v_end < limit; ++k)`
with `v_start = start + k * repeat` and `v_end = end + k * repeat` set in the body; `v_end`
is the value left by the iteration before (0 at first). -/
def repeat_regions (start stop rep limit : Nat) : Nat → Nat → Nat → Option (List (Nat × Nat))
  | 0, _, _ => none
  | fuel + 1, k, v_end =>
    if v_end < limit then
      (repeat_regions start stop rep limit fuel ((k + 1) % 2 ^ 64) ((stop + k * rep) % 2 ^ 64)).map
        (fun l => ((start + k * rep) % 2 ^ 64, (stop + k * rep) % 2 ^ 64) :: l)
    else some []

/-- Concatenation of the lists `f a`, `none` as soon as one of them is. -/
def option_flat_map {α β : Type} (f : α → Option (List β)) : List α → Option (List β)
  | [] => some []
  | a :: as =>
    match f a with
    | none => none
    | some bs => (option_flat_map f as).map (fun l => bs ++ l)

/-- The roots (x, y) at which the block "Fill in the region" calls `set_grid_block_type`
in the repetition (x_start, x_end), (y_start, y_end), in order. -/
def region_roots (fuel grid_width grid_height : Nat) (type : t_physical_tile_type)
    (v : t_loc_values) (xr yr : Nat × Nat) : Option (List (Nat × Nat)) :=
  let x_max := min xr.2 (size_t_sub grid_width 1)
  let y_max := min yr.2 (size_t_sub grid_height 1)
  match stepped_positions type.width v.incrx x_max fuel xr.1 with
  | none => none
  | some xs =>
    option_flat_map
      (fun x => (stepped_positions type.height v.incry y_max fuel yr.1).map
        (fun ys => ys.map (fun y => (x, y))))
      xs

/-- The roots at which the four fill loops of `build_device_grid` call
`set_grid_block_type` for one location specification, in order. Which positions the loops
visit does not depend on the grid. -/
def fill_roots (fuel grid_width grid_height : Nat) (type : t_physical_tile_type)
    (v : t_loc_values) : Option (List (Nat × Nat)) :=
  match repeat_regions v.startx v.endx v.repeatx grid_width fuel 0 0 with
  | none => none
  | some xrs =>
    option_flat_map
      (fun xr =>
        match repeat_regions v.starty v.endy v.repeaty grid_height fuel 0 0 with
        | none => none
        | some yrs => option_flat_map (fun yr => region_roots fuel grid_width grid_height type v xr yr) yrs)
      xrs

/-- The four fill loops of `build_device_grid` for one location specification: the calls of
`set_grid_block_type` are made at the roots of `fill_roots`, in their order. -/
def fill_grid_loc_def (ctx : SetupCtx) (fuel grid_width grid_height : Nat) (s : GridBuildState)
    (d : t_grid_loc_def) (type : t_physical_tile_type) (v : t_loc_values) :
    Except SetupError GridBuildState :=
  match fill_roots fuel grid_width grid_height type v with
  | none => .error .out_of_fuel
  | some roots =>
    roots.foldlM
      (fun s r => set_grid_block_type ctx.EMPTY_PHYSICAL_TILE_TYPE grid_width grid_height
        d.priority type r.1 r.2 d.meta s)
      s

/-- The body of the loop over `grid_def.loc_defs` in `build_device_grid`: fill in the block
types according to one specification. -/
def build_grid_loc_def (ctx : SetupCtx) (fuel grid_width grid_height : Nat) (s : GridBuildState)
    (d : t_grid_loc_def) : Except SetupError GridBuildState :=
  match ctx.find_tile_type_by_name d.block_type with
  | none =>
    .error (.fatal .VPR_ERROR_ARCH "Failed to find block type '%s' for grid location specification")
  | some type =>
    (eval_grid_loc_def ctx grid_width grid_height type d).bind (fun v =>
      /- Start locations outside the device will never create block instances -/
      if v.startx > size_t_sub grid_width 1 then .ok s
      else if v.starty > size_t_sub grid_height 1 then .ok s
      else
        (check_grid_loc_def type v).bind (fun _ =>
          fill_grid_loc_def ctx fuel grid_width grid_height s d type v))

/-- The matrices as `build_device_grid` allocates them: default tiles, lowest priority. -/
def GridBuildState.init : GridBuildState :=
  { grid := fun _ _ => { type := none, width_offset := 0, height_offset := 0, meta := none },
    grid_priorities := fun _ _ => int_lowest }

/-- The loops "Initialize the device to all empty blocks" of `build_device_grid`. -/
def fill_empty (empty_type : t_physical_tile_type) (grid_width grid_height number_of_available_dies : Nat)
    (s : GridBuildState) : Except SetupError GridBuildState :=
  (List.range number_of_available_dies).foldlM
    (fun s _ =>
      (List.range grid_width).foldlM
        (fun s x =>
          (List.range grid_height).foldlM
            (fun s y =>
              /- +1 so it overrides without warning -/
              set_grid_block_type (some empty_type) grid_width grid_height (int_lowest + 1) empty_type
                x y none s)
            s)
        s)
    s

/-- The device grid that `build_device_grid` returns: the name of the layout and the tile
matrix (`DeviceGrid(grid_def.name, {grid}, limiting_resources)`). -/
structure t_device_grid where
  name : String
  width : Nat
  height : Nat
  tiles : Nat → Nat → t_grid_tile

/-- The checks of `CheckGrid` for a root cell (i, j) of type `type` at the covered cell
(x, y); the message of a fatal error is its format string. -/
def check_grid_covered (grid : t_device_grid) (type : t_physical_tile_type) (i j : Nat)
    (c : Nat × Nat) : Except SetupError Unit :=
  let x_offset := size_t_sub c.1 i
  let y_offset := size_t_sub c.2 j
  if (grid.tiles c.1 c.2).type ≠ some type then
    .error (.fatal .VPR_ERROR_OTHER
      "Grid Location (%d,%d) should have type '%s' (based on root location) but has type '%s'\n")
  else if (grid.tiles c.1 c.2).width_offset ≠ x_offset then
    .error (.fatal .VPR_ERROR_OTHER
      "Grid Location (%d,%d) of type '%s' should have width offset '%d' (based on root location) but has '%d'\n")
  else if (grid.tiles c.1 c.2).height_offset ≠ y_offset then
    .error (.fatal .VPR_ERROR_OTHER
      "Grid Location (%d,%d)  of type '%s' should have height offset '%d' (based on root location) but has '%d'\n")
  else .ok ()

/-- The body of the loops of `CheckGrid` at the cell (i, j). -/
def check_grid_cell (grid : t_device_grid) (c : Nat × Nat) : Except SetupError Unit :=
  let i := c.1
  let j := c.2
  match (grid.tiles i j).type with
  | none => .error (.fatal .VPR_ERROR_OTHER "Grid Location (%d,%d) has no type.\n")
  | some type =>
    let width_offset := (grid.tiles i j).width_offset
    let height_offset := (grid.tiles i j).height_offset
    if width_offset ≥ type.width then
      .error (.fatal .VPR_ERROR_OTHER "Grid Location (%d,%d) has invalid width offset (%d).\n")
    else if height_offset ≥ type.height then
      .error (.fatal .VPR_ERROR_OTHER "Grid Location (%d,%d) has invalid height offset (%d).\n")
    /- Verify that type and width/height offsets are correct (e.g. for dimension > 1 blocks) -/
    else if width_offset = 0 ∧ height_offset = 0 then
      /- From the root block check that all other blocks are correct -/
      (footprint_cells i j type.width type.height).foldlM
        (fun _ c => check_grid_covered grid type i j c) ()
    else .ok ()

/-- The function `CheckGrid`: check grid is valid. -/
def CheckGrid (grid : t_device_grid) : Except SetupError Unit :=
  ((List.range grid.width).flatMap (fun i => (List.range grid.height).map (fun j => (i, j)))).foldlM
    (fun _ c => check_grid_cell grid c) ()

/-- The function `build_device_grid(grid_def, grid_width, grid_height,
number_of_available_dies, ...)`: build the specified device grid. The warnings and
`limiting_resources` do not bear on the tiles and are left out. -/
def build_device_grid (ctx : SetupCtx) (fuel : Nat) (grid_def : t_grid_def)
    (grid_width grid_height number_of_available_dies : Nat) : Except SetupError t_device_grid :=
  if grid_def.grid_type = .FIXED
      ∧ (grid_def.width ≠ int_of_size_t grid_width ∨ grid_def.height ≠ int_of_size_t grid_height) then
    .error (.fatal .VPR_ERROR_OTHER
      "Requested grid size (%zu%zu) does not match fixed device size (%dx%d)")
  else
    /- Initialize the device to all empty blocks -/
    match ctx.EMPTY_PHYSICAL_TILE_TYPE with
    | none => .error (.assert_failed "empty_type != nullptr")
    | some empty_type =>
      (fill_empty empty_type grid_width grid_height number_of_available_dies GridBuildState.init).bind
        (fun s0 =>
          /- Fill in the block types according to the specification -/
          (grid_def.loc_defs.foldlM (build_grid_loc_def ctx fuel grid_width grid_height) s0).bind
            (fun s =>
              let device_grid : t_device_grid :=
                { name := grid_def.name, width := grid_width, height := grid_height, tiles := s.grid }
              (CheckGrid device_grid).bind (fun _ => .ok device_grid)))

/-- The text `valid_names` after the entries of the catalog from index `i` on have been
appended to `acc`: the `for` loop of the branch "Not found" of `create_device_grid`. -/
def valid_names_from : Nat → String → List t_grid_def → String
  | _, acc, [] => acc
  | i, acc, g :: gs =>
    valid_names_from (i + 1) ((if i ≠ 0 then acc ++ ", " else acc) ++ ("'" ++ g.name ++ "'")) gs

/-- The branch "Use the specified device" of both overloads of `create_device_grid`: find
the grid definition named `layout_name` and build it, or fail with the list of the valid
names. The message is the expansion of the format
`"Failed to find grid layout named '%s' (valid grid layouts: %s)\n"`. -/
def create_device_grid_named (ctx : SetupCtx) (fuel : Nat) (layout_name : String)
    (grid_layouts : List t_grid_def) (number_of_avail_dies : Nat) : Except SetupError t_device_grid :=
  /- Find the matching grid definition -/
  match grid_layouts.find? (fun grid_def => grid_def.name == layout_name) with
  | none =>
    /- Not found -/
    .error (.fatal .VPR_ERROR_ARCH
      ("Failed to find grid layout named '" ++ layout_name ++ "' (valid grid layouts: "
        ++ valid_names_from 0 "" grid_layouts ++ ")\n"))
  | some grid_def =>
    build_device_grid ctx fuel grid_def (size_t_of_int grid_def.width) (size_t_of_int grid_def.height)
      number_of_avail_dies

/-- The overload `create_device_grid(layout_name, grid_layouts, minimum_instance_counts,
number_of_avail_dies, target_device_utilization)`; `auto_sized` is the value of
`auto_size_device_grid(...)` for the arguments, which no other branch uses. -/
def create_device_grid (ctx : SetupCtx) (fuel : Nat) (layout_name : String)
    (grid_layouts : List t_grid_def) (auto_sized : Except SetupError t_device_grid)
    (number_of_avail_dies : Nat) : Except SetupError t_device_grid :=
  if layout_name = "auto" then
    /- Auto-size the device -/
    auto_sized
  else
    /- Use the specified device -/
    create_device_grid_named ctx fuel layout_name grid_layouts number_of_avail_dies

/-- The overload `create_device_grid(layout_name, grid_layouts, width, height,
number_of_avail_dies)`; `auto_layout` is the value of its branch for the name "auto",
which takes `width` and `height`. -/
def create_device_grid_dims (ctx : SetupCtx) (fuel : Nat) (layout_name : String)
    (grid_layouts : List t_grid_def) (auto_layout : Except SetupError t_device_grid)
    (number_of_avail_dies : Nat) : Except SetupError t_device_grid :=
  if layout_name = "auto" then auto_layout
  else
    /- Use the specified device -/
    create_device_grid_named ctx fuel layout_name grid_layouts number_of_avail_dies

/-! ## Example layouts for the grid set-up -/

/-- A formula evaluator for the examples: the variables W and H, a few differences and a
few numerals. -/
def ex_parse_formula (e : String) (vars : t_formula_data) : Int :=
  if e = "W" then vars.W
  else if e = "H" then vars.H
  else if e = "W - 1" then vars.W - 1
  else if e = "H - 1" then vars.H - 1
  else if e = "W - 6" then vars.W - 6
  else if e = "W - 11" then vars.W - 11
  else
    ([("0", 0), ("1", 1), ("2", 2), ("3", 3), ("4", 4), ("5", 5), ("7", 7), ("10", 10)].lookup e).getD 0

/-- A device context for the examples: the empty tile and the tiles "clb" (1x1) and "wide"
(2x1). -/
def ex_setup_ctx : SetupCtx :=
  { EMPTY_PHYSICAL_TILE_TYPE := some ex_empty_tile,
    find_tile_type_by_name := fun name =>
      if name = "clb" then some ex_clb_tile
      else if name = "wide" then some ex_wide_tile
      else none,
    parse_formula := ex_parse_formula }

/-- The index of the tile type and the offsets of every cell, column by column. -/
def GridBuildState.cells (s : GridBuildState) (grid_width grid_height : Nat) :
    List (List (Option Nat × Nat × Nat)) :=
  (List.range grid_width).map (fun x => (List.range grid_height).map (fun y =>
    ((s.grid x y).type.map (fun t => t.index), (s.grid x y).width_offset, (s.grid x y).height_offset)))

/-- The matrices of a device of `grid_width` by `grid_height` empty tiles, as the loops
"Initialize the device to all empty blocks" leave them. -/
def ex_empty_device (grid_width grid_height : Nat) : GridBuildState :=
  { grid := fun x y =>
      if x < grid_width ∧ y < grid_height then
        { type := some ex_empty_tile, width_offset := 0, height_offset := 0, meta := none }
      else { type := none, width_offset := 0, height_offset := 0, meta := none },
    grid_priorities := fun x y => if x < grid_width ∧ y < grid_height then int_lowest + 1 else int_lowest }

/-- A column of "clb" whose start (10) lies outside a device five cells wide and whose end
(5) comes before its start. -/
def ex_outside_loc_def : t_grid_loc_def :=
  { block_type := "clb", priority := 1, x := ⟨"10", "5", "1", "10"⟩, y := ⟨"0", "H - 1", "1", "H"⟩,
    meta := none }

/-- A column of "clb" whose start (3) lies inside a device five cells wide and whose end
(1) comes before its start. -/
def ex_backward_loc_def : t_grid_loc_def :=
  { block_type := "clb", priority := 1, x := ⟨"3", "1", "1", "10"⟩, y := ⟨"0", "H - 1", "1", "H"⟩,
    meta := none }

/-- An automatic layout that holds `ex_outside_loc_def` only. -/
def ex_outside_grid_def : t_grid_def :=
  { grid_type := .AUTO, width := 0, height := 0, name := "tiny", loc_defs := [ex_outside_loc_def] }

/-- An automatic layout that holds `ex_backward_loc_def` only. -/
def ex_backward_grid_def : t_grid_def :=
  { grid_type := .AUTO, width := 0, height := 0, name := "tiny", loc_defs := [ex_backward_loc_def] }

/-- A catalog of two fixed layouts without location specifications. -/
def ex_grid_layouts : List t_grid_def :=
  [{ grid_type := .FIXED, width := 3, height := 3, name := "small", loc_defs := [] },
   { grid_type := .FIXED, width := 5, height := 5, name := "big", loc_defs := [] }]

/-- The specification `<fill type="clb" priority="1"/>`: every cell of the device. -/
def ex_fill_clb_loc_def : t_grid_loc_def :=
  { block_type := "clb", priority := 1, x := ⟨"0", "W - 1", "1", "W"⟩, y := ⟨"0", "H - 1", "1", "H"⟩,
    meta := none }

/-- The specification `<col type="clb" startx="1" priority="2"/>`: the column x = 1. -/
def ex_col_clb_loc_def : t_grid_loc_def :=
  { block_type := "clb", priority := 2, x := ⟨"1", "1", "1", "W"⟩, y := ⟨"0", "H - 1", "1", "H"⟩,
    meta := none }

/-- An automatic layout that fills the device with "clb" and then places a column of "clb"
of higher priority at x = 1. -/
def ex_refill_grid_def : t_grid_def :=
  { grid_type := .AUTO, width := 0, height := 0, name := "refill",
    loc_defs := [ex_fill_clb_loc_def, ex_col_clb_loc_def] }

/-- The matrices of a device of 3 by 1 empty tiles after "clb" has been placed at (1, 0)
with priority 1. -/
def ex_clb_device : GridBuildState :=
  { grid := fun x y =>
      if x = 1 ∧ y = 0 then
        { type := some ex_clb_tile, width_offset := 0, height_offset := 0, meta := none }
      else (ex_empty_device 3 1).grid x y,
    grid_priorities := fun x y => if x = 1 ∧ y = 0 then 1 else (ex_empty_device 3 1).grid_priorities x y }

/-- A region of "clb" from x = 1 whose end (10) lies beyond a device five cells wide. -/
def ex_beyond_loc_def : t_grid_loc_def :=
  { block_type := "clb", priority := 1, x := ⟨"1", "10", "1", "10"⟩, y := ⟨"0", "H - 1", "1", "H"⟩,
    meta := none }

/-- A region of "wide" over x = 4..7, stepped by the tile width, whose repeat expression
"W - 11" evaluates to -3 on a device eight cells wide. -/
def ex_backstep_loc_def : t_grid_loc_def :=
  { block_type := "wide", priority := 1, x := ⟨"4", "7", "2", "W - 11"⟩, y := ⟨"0", "0", "1", "1"⟩,
    meta := none }

/-- The values of `ex_backstep_loc_def` on a device of 8 by 1: the repeat -3 is stored in a
`size_t`. -/
def ex_backstep_values : t_loc_values :=
  { startx := 4, endx := 7, incrx := 2, repeatx := 18446744073709551613,
    starty := 0, endy := 0, incry := 1, repeaty := 1 }

/-- The dimensions and the evaluated values are those of non-negative `int` values: the
`size_t` arithmetic of the fill loops does not wrap. -/
def loc_values_in_int_range (grid_width grid_height : Nat) (type : t_physical_tile_type)
    (v : t_loc_values) : Prop :=
  grid_width < 2 ^ 31 ∧ grid_height < 2 ^ 31 ∧ type.width < 2 ^ 31 ∧ type.height < 2 ^ 31
    ∧ v.startx < 2 ^ 31 ∧ v.endx < 2 ^ 31 ∧ v.incrx < 2 ^ 31 ∧ v.repeatx < 2 ^ 31
    ∧ v.starty < 2 ^ 31 ∧ v.endy < 2 ^ 31 ∧ v.incry < 2 ^ 31 ∧ v.repeaty < 2 ^ 31

/-! ## The lookahead cost map (`vpr/src/route/router_lookahead_map.h`) -/

/-- A `float`, held as the 32 bits of its IEEE-754 single-precision representation: one
sign bit, eight exponent bits, 23 fraction bits. -/
structure float where
  bits : Nat
  deriving DecidableEq, Repr

/-- The value of `std::numeric_limits<float>::quiet_NaN()`: sign 0, exponent all ones, and
of the fraction only the top bit (the quiet bit) set. -/
def quiet_NaN : float := ⟨0x7FC00000⟩

/-- The test `std::isnan`: the exponent is all ones and the fraction is not zero. -/
def isnan (f : float) : Bool :=
  decide ((f.bits / 2 ^ 23) % 2 ^ 8 = 255 ∧ f.bits % 2 ^ 23 ≠ 0)

/-- The class `Cost_Entry`: the delay and congestion estimates to travel a relative x/y
distance. -/
structure Cost_Entry where
  delay : float
  congestion : float
  deriving DecidableEq, Repr

/-- The constructor `Cost_Entry(float set_delay, float set_congestion)`. -/
def Cost_Entry.ctor (set_delay set_congestion : float) : Cost_Entry :=
  { delay := set_delay, congestion := set_congestion }

/-- The constructor `Cost_Entry()`, which delegates to `Cost_Entry(quiet_NaN, quiet_NaN)`. -/
def Cost_Entry.ctor_default : Cost_Entry :=
  Cost_Entry.ctor quiet_NaN quiet_NaN

/-- Modelled from the spec: `vtr::NdMatrix<T, N>`, "a multi-dimensional table ... indexed
by originating layer, channel orientation, segment catalog entry, destination layer, and
(dx, dy) displacement": the sizes of the dimensions and the entry at every key, a key being
the list of the indices. -/
structure NdMatrix (T : Type) where
  dim_sizes : List Nat
  data : List Nat → T

/-- Modelled from the spec: the constructor `NdMatrix(dim_sizes, value)`, every entry is
`value`; the default of `value` is `T()`. -/
def NdMatrix.alloc {T : Type} (dim_sizes : List Nat) (value : T) : NdMatrix T :=
  { dim_sizes := dim_sizes, data := fun _ => value }

/-- Modelled from the spec: reading `matrix[i0][i1]...`. -/
def NdMatrix.get {T : Type} (m : NdMatrix T) (key : List Nat) : T :=
  m.data key

/-- Modelled from the spec: the assignment `matrix[i0][i1]... = value`. -/
def NdMatrix.set {T : Type} (m : NdMatrix T) (key : List Nat) (value : T) : NdMatrix T :=
  { m with data := fun k => if k = key then value else m.data k }

/-- The keys of a matrix of the given sizes, the last index running fastest. -/
def NdMatrix.keys : List Nat → List (List Nat)
  | [] => [[]]
  | d :: ds => (List.range d).flatMap (fun i => (NdMatrix.keys ds).map (fun k => i :: k))

/-- A key lies inside a matrix of the given sizes: one index per dimension, each below the
size. -/
def NdMatrix.in_bounds : List Nat → List Nat → Bool
  | [], [] => true
  | i :: key, d :: dim_sizes => decide (i < d) && NdMatrix.in_bounds key dim_sizes
  | _, _ => false

/-- The type `t_wire_cost_map`, `vtr::NdMatrix<Cost_Entry, 6>`, indexed
[from layer][CHANX/CHANY][segment type][to layer][dx][dy]. -/
abbrev t_wire_cost_map : Type := NdMatrix Cost_Entry

/-- Modelled from the spec: the lookahead cache file. The spec fixes no layout ("the
lookahead cache file format is an external interface whose only hard contract is round-trip
fidelity"); the file holds what the spec names: the architecture fingerprint the table is
"keyed by", the sizes of the table, and for every key the bits of its (delay, congestion)
pair. -/
structure LookaheadFile where
  fingerprint : String
  dim_sizes : List Nat
  records : List (List Nat × Nat × Nat)
  deriving DecidableEq, Repr

/-- Modelled from the spec: `write_router_lookahead` (`MapLookahead::write`), "persist ...
the table keyed by architecture fingerprint": one record per key of the table. -/
def write_router_lookahead (fingerprint : String) (t : t_wire_cost_map) : LookaheadFile :=
  { fingerprint := fingerprint,
    dim_sizes := t.dim_sizes,
    records := (NdMatrix.keys t.dim_sizes).map
      (fun k => (k, (t.data k).delay.bits, (t.data k).congestion.bits)) }

/-- Modelled from the spec: `read_router_lookahead` (`MapLookahead::read`), "restore the
table"; the operation is "all-or-nothing (a partial or mismatched cache file is discarded,
not partially trusted)": a file of another fingerprint, or whose records are not exactly
those of the keys of its sizes, gives no table. -/
def read_router_lookahead (fingerprint : String) (f : LookaheadFile) : Option t_wire_cost_map :=
  if f.fingerprint ≠ fingerprint then none
  else if f.records.map (fun r => r.1) ≠ NdMatrix.keys f.dim_sizes then none
  else
    some { dim_sizes := f.dim_sizes,
           data := fun k =>
             match f.records.lookup k with
             | some (d, c) => Cost_Entry.ctor ⟨d⟩ ⟨c⟩
             | none => Cost_Entry.ctor_default }

/-- A cost map of sizes [1, 2, 1, 1, 2, 2] with two entries written. -/
def ex_cost_map : t_wire_cost_map :=
  ((NdMatrix.alloc [1, 2, 1, 1, 2, 2] Cost_Entry.ctor_default).set [0, 0, 0, 0, 1, 0]
      (Cost_Entry.ctor ⟨0x3F800000⟩ ⟨0x40000000⟩)).set [0, 1, 0, 0, 1, 1]
    (Cost_Entry.ctor ⟨0x2EDBE6FF⟩ ⟨0x3F000000⟩)

/-! ## Annotation of the routed nets (`vpr/src/route/annotate_routing.cpp`) -/

/-- What `annotate_rr_node_nets` reads: of the netlist the nets, `net_is_ignored` and
`net_sinks`; of the routing context the trace of every net, as the list of the node indices
met from `head` along `next`; of the graph `num_nodes`, `node_type` and `node_capacity`. A
net id in the list of the nets is valid. -/
structure AnnotateCtx where
  nets : List Nat
  net_is_ignored : Nat → Bool
  net_sinks : Nat → List Nat
  trace : Nat → List Nat
  num_nodes : Nat
  node_type : Nat → t_rr_type
  node_capacity : Nat → Int

/-- The fatal error of `annotate_rr_node_nets`, a `VPR_FATAL_ERROR(VPR_ERROR_ANALYSIS, ...)`:
the net being annotated, the net found at the node, and the node, which its message
"Detect two nets '%s' and '%s' that are mapped to the same rr_node '%ld'!" names. -/
structure AnnotateFatal where
  net_id : Nat
  mapped_net : Nat
  rr_node : Nat
  deriving DecidableEq, Repr

/-- The body of the loop along the trace of `net_id` in `annotate_rr_node_nets`, at the
node `rr_node`; `rr_node_nets` holds `none` for `ParentNetId::INVALID()`. The counter of
the annotated nodes is only logged and is left out. An index outside the vector is
undefined in the source; the model leaves the vector as it is. -/
def annotate_trace_node (ctx : AnnotateCtx) (net_id : Nat) (rr_node_nets : List (Option Nat))
    (rr_node : Nat) : Except AnnotateFatal (List (Option Nat)) :=
  /- Ignore source and sink nodes, they are the common node multiple starting and ending points -/
  if ctx.node_type rr_node ≠ .SOURCE ∧ ctx.node_type rr_node ≠ .SINK then
    /- Sanity check: ensure we do not revoke any net mapping -/
    match rr_node_nets.getD rr_node none with
    | some mapped_net =>
      if 1 = ctx.node_capacity rr_node ∧ net_id ≠ mapped_net then
        .error ⟨net_id, mapped_net, rr_node⟩
      else .ok (rr_node_nets.set rr_node (some net_id))
    | none => .ok (rr_node_nets.set rr_node (some net_id))
  else .ok rr_node_nets

/-- The body of the loop over the nets in `annotate_rr_node_nets`. -/
def annotate_net (ctx : AnnotateCtx) (rr_node_nets : List (Option Nat)) (net_id : Nat) :
    Except AnnotateFatal (List (Option Nat)) :=
  if ctx.net_is_ignored net_id then .ok rr_node_nets
  /- Ignore used in local cluster only, reserved one CLB pin -/
  else if ctx.net_sinks net_id = [] then .ok rr_node_nets
  else (ctx.trace net_id).foldlM (annotate_trace_node ctx net_id) rr_node_nets

/-- The function `annotate_rr_node_nets`: create a mapping between each rr_node and its
mapped nets based on the routing results. -/
def annotate_rr_node_nets (ctx : AnnotateCtx) : Except AnnotateFatal (List (Option Nat)) :=
  ctx.nets.foldlM (annotate_net ctx) (List.replicate ctx.num_nodes none)

/-- A net whose trace `annotate_rr_node_nets` walks: not ignored, with at least one sink. -/
def AnnotateCtx.routed (ctx : AnnotateCtx) (net_id : Nat) : Prop :=
  ctx.net_is_ignored net_id = false ∧ ctx.net_sinks net_id ≠ []

/-- A node that `annotate_rr_node_nets` annotates: neither SOURCE nor SINK. -/
def AnnotateCtx.annotated (ctx : AnnotateCtx) (rr_node : Nat) : Prop :=
  ctx.node_type rr_node ≠ .SOURCE ∧ ctx.node_type rr_node ≠ .SINK

/-- The pairs (net, node) that the loops of `annotate_rr_node_nets` have annotated when the
nets of `done` are finished and the nodes `seen` of the trace of `cur` have been visited. -/
def AnnotateCtx.walked (ctx : AnnotateCtx) (done : List Nat) (cur : Nat) (seen : List Nat)
    (c n : Nat) : Prop :=
  ctx.annotated n ∧ ((c ∈ done ∧ ctx.routed c ∧ n ∈ ctx.trace c) ∨ (c = cur ∧ n ∈ seen))

/-- What holds of `rr_node_nets` during the loops of `annotate_rr_node_nets`: it has one
entry per node, a net found at a node has been annotated there, and a node where a net has
been annotated holds a net, that very net when the node has capacity 1. -/
def annotate_inv (ctx : AnnotateCtx) (done : List Nat) (cur : Nat) (seen : List Nat)
    (v : List (Option Nat)) : Prop :=
  v.length = ctx.num_nodes
    ∧ (∀ n c, v.getD n none = some c → ctx.walked done cur seen c n)
    ∧ ∀ c n, ctx.walked done cur seen c n →
        ∃ c', v.getD n none = some c' ∧ (ctx.node_capacity n = 1 → c' = c)

/-- A graph of five nodes (SOURCE, OPIN of capacity 2, CHANX, IPIN, SINK, the last three of
capacity 1) with three nets: the nets 0 and 1 both use the CHANX node 2, and net 2 is
ignored. -/
def ex_annotate_conflict : AnnotateCtx :=
  { nets := [0, 1, 2],
    net_is_ignored := fun n => n == 2,
    net_sinks := fun _ => [7],
    trace := fun n => if n = 0 then [0, 1, 2, 3, 4] else if n = 1 then [0, 1, 2, 4] else [2],
    num_nodes := 5,
    node_type := fun n => [t_rr_type.SOURCE, .OPIN, .CHANX, .IPIN, .SINK].getD n .SOURCE,
    node_capacity := fun n => if n = 1 then 2 else 1 }

/-- The graph of `ex_annotate_conflict` with the nets 0 and 1 sharing only the OPIN node 1,
of capacity 2, the SOURCE and the SINK; net 2, which uses the CHANX node 2, is ignored. -/
def ex_annotate_routed : AnnotateCtx :=
  { ex_annotate_conflict with
    trace := fun n => if n = 0 then [0, 1, 2, 4] else if n = 1 then [0, 1, 3, 4] else [2] }

/-! ## Choice of a fixed layout (`create_device_grid`, `auto_size_device_grid`) -/

/-- The algorithm `std::stable_sort(first, last, comp)`, as the stable insertion sort: an
element is placed before the first element of the sorted rest that `comp` does not put
before it. For a strict weak order `comp` (`area_cmp`) every stable sort gives this list,
and so it does for two elements whatever `comp` is: the second comes first exactly when
`comp(second, first)` holds. For a `comp` that is no strict weak order (`sort_cmp`) and
three elements or more the language leaves the result of `std::stable_sort` open, and a
library may return another order than this one. -/
def stable_sort {α : Type} (comp : α → α → Bool) (l : List α) : List α :=
  l.insertionSort (fun a b => comp b a = false)

/-- The product of two `int` values, held in an `int` (two's complement). -/
def int_mul (a b : Int) : Int := (a * b + 2 ^ 31) % 2 ^ 32 - 2 ^ 31

/-- The lambda `area_cmp` of `auto_size_device_grid`. Its two assertions, that both layouts
are fixed, hold where it is used: in the branch taken when no layout is AUTO. -/
def area_cmp (lhs rhs : t_grid_def) : Bool :=
  let lhs_area := int_mul lhs.width lhs.height
  let rhs_area := int_mul rhs.width rhs.height
  decide (lhs_area < rhs_area)

/-- The value of a default-constructed `DeviceGrid`. -/
def t_device_grid.empty : t_device_grid :=
  { name := "", width := 0, height := 0,
    tiles := fun _ _ => { type := none, width_offset := 0, height_offset := 0, meta := none } }

/-- What `auto_size_device_grid` takes from outside the part modelled: the value of
`grid_satisfies_instance_counts(grid, minimum_instance_counts, maximum_device_utilization)`
for the arguments of the call, which compares a `float` utilization and reads of the grid
its tiles only, and the branch for an automatic layout, which scales the grid by a `float`
aspect ratio. -/
structure AutoSizeCtx where
  grid_satisfies_instance_counts : t_device_grid → Bool
  auto_layout_branch : t_grid_def → Except SetupError t_device_grid

/-- The loop "Try all the fixed devices in order from smallest to largest" of
`auto_size_device_grid` with the `return grid` that follows it; `grid` is the grid built
last. -/
def try_fixed_layouts (ctx : SetupCtx) (actx : AutoSizeCtx) (fuel number_of_avail_dies : Nat) :
    List t_grid_def → t_device_grid → Except SetupError t_device_grid
  | [], grid => .ok grid
  | grid_def :: rest, _ =>
    /- Build the grid -/
    (build_device_grid ctx fuel grid_def (size_t_of_int grid_def.width)
        (size_t_of_int grid_def.height) number_of_avail_dies).bind
      (fun grid =>
        if actx.grid_satisfies_instance_counts grid then .ok grid
        else try_fixed_layouts ctx actx fuel number_of_avail_dies rest grid)

/-- The function `auto_size_device_grid`: create a device grid which satisfies the minimum
block counts. -/
def auto_size_device_grid (ctx : SetupCtx) (actx : AutoSizeCtx) (fuel : Nat)
    (grid_layouts : List t_grid_def) (number_of_avail_dies : Nat) :
    Except SetupError t_device_grid :=
  if ¬ grid_layouts.length > 0 then .error (.assert_failed "grid_layouts.size() > 0")
  else
    match grid_layouts.find? (fun grid_def => grid_def.grid_type == .AUTO) with
    | some grid_def =>
      /- Automatic grid layout, find the smallest height/width -/
      actx.auto_layout_branch grid_def
    | none =>
      /- Fixed grid layouts, find the smallest of the fixed layouts -/
      /- Sort the grid layouts from smallest to largest -/
      let grid_layouts_view := stable_sort area_cmp grid_layouts
      /- Try all the fixed devices in order from smallest to largest -/
      try_fixed_layouts ctx actx fuel number_of_avail_dies grid_layouts_view t_device_grid.empty

/-- The lambda `sort_cmp` of `create_device_grid`; the second comparison is between the
height of `lhs` and the width of `rhs`, as in the source. -/
def sort_cmp (lhs rhs : t_grid_def) : Bool :=
  decide (lhs.width < rhs.width ∨ lhs.height < rhs.width)

/-- The search in the sorted view of `create_device_grid`: the first layout of the view that
is large enough (`std::find_if`), or the last layout of the view when none is (`--iter`). -/
def find_in_view (grid_layouts_view : List t_grid_def) (width height : Nat) : Option t_grid_def :=
  match grid_layouts_view.find?
      (fun grid_def => decide (grid_def.width ≥ int_of_size_t width ∧ grid_def.height ≥ int_of_size_t height)) with
  | some layout => some layout
  | none =>
    /- No device larger than specified width/height, so choose largest possible -/
    grid_layouts_view.getLast?

/-- The block "Find the fixed layout close to the target size" of `create_device_grid`: the
view is the catalog sorted with `sort_cmp`, then `find_in_view`. The order of the view is
that of `stable_sort`, which is the order of the code for a catalog of two layouts at most;
for a longer catalog the order of the code depends on the library, as `sort_cmp` is no
strict weak order (`find_in_view_large_enough` holds for every order). -/
def find_fixed_layout (grid_layouts : List t_grid_def) (width height : Nat) : Option t_grid_def :=
  let grid_layouts_view := stable_sort sort_cmp grid_layouts
  find_in_view grid_layouts_view width height

/-- The branch of `create_device_grid(layout_name, grid_layouts, width, height,
number_of_avail_dies)` for the layout name "auto". The view of a catalog that is not empty
is not empty, so `find_fixed_layout` yields a layout where it is called. -/
def create_device_grid_auto (ctx : SetupCtx) (fuel : Nat) (grid_layouts : List t_grid_def)
    (width height number_of_avail_dies : Nat) : Except SetupError t_device_grid :=
  match grid_layouts with
  | [] => .error (.assert_failed "grid_layouts.size() > 0")
  | first :: _ =>
    /- Auto-size -/
    if first.grid_type = .AUTO then
      /- Auto layout of the specified dimensions -/
      build_device_grid ctx fuel first width height number_of_avail_dies
    else
      /- Find the fixed layout close to the target size -/
      match find_fixed_layout grid_layouts width height with
      | none => .error (.assert_failed "grid_layouts.size() > 0")
      | some layout =>
        build_device_grid ctx fuel layout (size_t_of_int layout.width) (size_t_of_int layout.height)
          number_of_avail_dies

/-- A catalog of two fixed layouts without location specifications: "tall" of 2 by 5 and
"low" of 2 by 3. -/
def ex_tall_low_layouts : List t_grid_def :=
  [{ grid_type := .FIXED, width := 2, height := 5, name := "tall", loc_defs := [] },
   { grid_type := .FIXED, width := 2, height := 3, name := "low", loc_defs := [] }]

/-- A catalog of three fixed layouts without location specifications, of areas 12, 4 and
12. -/
def ex_area_layouts : List t_grid_def :=
  [{ grid_type := .FIXED, width := 4, height := 3, name := "wide12", loc_defs := [] },
   { grid_type := .FIXED, width := 2, height := 2, name := "small4", loc_defs := [] },
   { grid_type := .FIXED, width := 3, height := 4, name := "tall12", loc_defs := [] }]

/-- A context in which a grid satisfies the instance counts when it has at least twelve
cells. -/
def ex_auto_size_ctx : AutoSizeCtx :=
  { grid_satisfies_instance_counts := fun grid => decide (12 ≤ grid.width * grid.height),
    auto_layout_branch := fun _ => .error .out_of_fuel }

/-! ## Median move generator (`vpr/src/place/median_move_generator.cpp`)

Coordinates are `int` values; their sums are taken in `Int`, the overflow of a signed sum
being undefined in the source. -/

/-- The constant `OPEN`. -/
def OPEN : Int := -1

/-- A bounding box (`t_bb`), in the order of its constructor
`t_bb(xmin, xmax, ymin, ymax, layer_min, layer_max)`. -/
structure t_bb where
  xmin : Int
  xmax : Int
  ymin : Int
  ymax : Int
  layer_min : Int
  layer_max : Int
  deriving DecidableEq, Repr

/-- What the median move generator reads of the clustered netlist, the placement, the
device and the placer options. -/
structure MedianCtx where
  /-- The values `device_ctx.grid.width()` and `device_ctx.grid.height()`. -/
  grid_width : Nat
  grid_height : Nat
  net_is_ignored : Nat → Bool
  net_pins : Nat → List Nat
  net_sinks : Nat → List Nat
  net_driver_block : Nat → Nat
  block_pins : Nat → List Nat
  pin_net : Nat → Nat
  pin_block : Nat → Nat
  /-- The functions `tile_pin_index(pin)` and `net_pin_to_tile_pin_index(net_id, 0)`. -/
  tile_pin_index : Nat → Int
  net_pin_to_tile_pin_index : Nat → Nat → Int
  /-- The fields `place_ctx.block_locs[bnum].loc.x`, `.y` and `.layer`. -/
  block_loc_x : Nat → Int
  block_loc_y : Nat → Int
  block_loc_layer : Nat → Int
  /-- The entries `physical_tile_type(bnum)->pin_width_offset[pnum]` and
  `pin_height_offset[pnum]`. -/
  pin_width_offset : Nat → Int → Int
  pin_height_offset : Nat → Int → Int
  /-- The tables `place_move_ctx.bb_coords` and `place_move_ctx.bb_num_on_edges`. -/
  bb_coords : Nat → t_bb
  bb_num_on_edges : Nat → t_bb
  SMALL_NET : Nat
  place_high_fanout_net : Int

/-- The clip `std::max(std::min<int>(v, dim - 2), 1)` with `dim` a `size_t`: the difference
is taken in `size_t` and converted to `int`. -/
def clip_to_channels (v : Int) (dim : Nat) : Int :=
  max (min v (int_of_size_t (size_t_sub dim 2))) 1

/-- The local variables of `get_bb_from_scratch_excluding_block`. -/
structure BbScratch where
  xmin : Int
  xmax : Int
  ymin : Int
  ymax : Int
  first_block : Bool
  skip_net : Bool
  deriving DecidableEq, Repr

/-- The location of the pin `pnum` of the block `bnum`. -/
def MedianCtx.pin_x (ctx : MedianCtx) (bnum : Nat) (pnum : Int) : Int :=
  ctx.block_loc_x bnum + ctx.pin_width_offset bnum pnum

/-- The location of the pin `pnum` of the block `bnum`. -/
def MedianCtx.pin_y (ctx : MedianCtx) (bnum : Nat) (pnum : Int) : Int :=
  ctx.block_loc_y bnum + ctx.pin_height_offset bnum pnum

/-- The block of `get_bb_from_scratch_excluding_block` before the loop: the driver. -/
def bb_scratch_driver (ctx : MedianCtx) (net_id block_id : Nat) : BbScratch :=
  let bnum := ctx.net_driver_block net_id
  if bnum ≠ block_id then
    let pnum := ctx.net_pin_to_tile_pin_index net_id 0
    let src_x := ctx.pin_x bnum pnum
    let src_y := ctx.pin_y bnum pnum
    { xmin := src_x, xmax := src_x, ymin := src_y, ymax := src_y, first_block := true,
      skip_net := false }
  else
    { xmin := OPEN, xmax := OPEN, ymin := OPEN, ymax := OPEN, first_block := false, skip_net := true }

/-- The body of the loop over the sinks in `get_bb_from_scratch_excluding_block`. -/
def bb_scratch_sink (ctx : MedianCtx) (block_id : Nat) (s : BbScratch) (pin_id : Nat) : BbScratch :=
  let bnum := ctx.pin_block pin_id
  let pnum := ctx.tile_pin_index pin_id
  if bnum = block_id then s
  else
    let x := ctx.pin_x bnum pnum
    let y := ctx.pin_y bnum pnum
    if ¬ s.first_block then
      { xmin := x, xmax := x, ymin := y, ymax := y, first_block := true, skip_net := false }
    else
      let xmin := if x < s.xmin then x else s.xmin
      let xmax := if x < s.xmin then s.xmax else if x > s.xmax then x else s.xmax
      let ymin := if y < s.ymin then y else s.ymin
      let ymax := if y < s.ymin then s.ymax else if y > s.ymax then y else s.ymax
      { xmin := xmin, xmax := xmax, ymin := ymin, ymax := ymax, first_block := s.first_block,
        skip_net := false }

/-- The local variables of `get_bb_from_scratch_excluding_block` after the loop over the
sinks. -/
def bb_scratch_scan (ctx : MedianCtx) (net_id block_id : Nat) : BbScratch :=
  (ctx.net_sinks net_id).foldl (bb_scratch_sink ctx block_id) (bb_scratch_driver ctx net_id block_id)

/-- The function `get_bb_from_scratch_excluding_block(net_id, bb_coord_new, block_id,
skip_net)`: the new value of `bb_coord_new` and the value of `skip_net`. -/
def get_bb_from_scratch_excluding_block (ctx : MedianCtx) (net_id : Nat) (bb_coord_new : t_bb)
    (block_id : Nat) : t_bb × Bool :=
  let s := bb_scratch_scan ctx net_id block_id
  ({ bb_coord_new with
      xmin := clip_to_channels s.xmin ctx.grid_width,
      ymin := clip_to_channels s.ymin ctx.grid_height,
      xmax := clip_to_channels s.xmax ctx.grid_width,
      ymax := clip_to_channels s.ymax ctx.grid_height },
   s.skip_net)

/-- The x part of `get_bb_incrementally` for clipped positions: the new xmin and xmax, or
`none` where the function returns false. -/
def bb_incr_x (curr_bb_edge curr_bb_coord bb_coord_new : t_bb) (xold xnew : Int) : Option t_bb :=
  if xnew < xold then
    /- Move to left. -/
    if xold = curr_bb_coord.xmax ∧ curr_bb_edge.xmax = 1 then none
    else
      some { bb_coord_new with
        xmax := curr_bb_coord.xmax,
        xmin := if xnew < curr_bb_coord.xmin then xnew
                else if xnew = curr_bb_coord.xmin then xnew
                else curr_bb_coord.xmin }
  else if xnew > xold then
    /- Move to right. -/
    if xold = curr_bb_coord.xmin ∧ curr_bb_edge.xmin = 1 then none
    else
      some { bb_coord_new with
        xmin := curr_bb_coord.xmin,
        xmax := if xnew > curr_bb_coord.xmax then xnew
                else if xnew = curr_bb_coord.xmax then xnew
                else curr_bb_coord.xmax }
  else
    /- xnew == xold -- no x motion. -/
    some { bb_coord_new with xmin := curr_bb_coord.xmin, xmax := curr_bb_coord.xmax }

/-- The y part of `get_bb_incrementally` for clipped positions. -/
def bb_incr_y (curr_bb_edge curr_bb_coord bb_coord_new : t_bb) (yold ynew : Int) : Option t_bb :=
  if ynew < yold then
    /- Move down. -/
    if yold = curr_bb_coord.ymax ∧ curr_bb_edge.ymax = 1 then none
    else
      some { bb_coord_new with
        ymax := curr_bb_coord.ymax,
        ymin := if ynew < curr_bb_coord.ymin then ynew
                else if ynew = curr_bb_coord.ymin then ynew
                else curr_bb_coord.ymin }
  else if ynew > yold then
    /- Moved up. -/
    if yold = curr_bb_coord.ymin ∧ curr_bb_edge.ymin = 1 then none
    else
      some { bb_coord_new with
        ymin := curr_bb_coord.ymin,
        ymax := if ynew > curr_bb_coord.ymax then ynew
                else if ynew = curr_bb_coord.ymax then ynew
                else curr_bb_coord.ymax }
  else
    /- ynew == yold -- no y motion. -/
    some { bb_coord_new with ymin := curr_bb_coord.ymin, ymax := curr_bb_coord.ymax }

/-- The part "Check if I can update the bounding box incrementally" of
`get_bb_incrementally`, for clipped positions: the value returned and the new value of
`bb_coord_new`, which keeps the x fields written before a `return false` of the y part. -/
def bb_incr (curr_bb_edge curr_bb_coord bb_coord_new : t_bb) (xold yold xnew ynew : Int) :
    Bool × t_bb :=
  match bb_incr_x curr_bb_edge curr_bb_coord bb_coord_new xold xnew with
  | none => (false, bb_coord_new)
  | some bb_x =>
    /- Now account for the y-direction motion. -/
    match bb_incr_y curr_bb_edge curr_bb_coord bb_x yold ynew with
    | none => (false, bb_x)
    | some bb_xy => (true, bb_xy)

/-- The function `get_bb_incrementally(net_id, bb_coord_new, xold, yold, xnew, ynew,
layer)`: the value returned and the new value of `bb_coord_new`. -/
def get_bb_incrementally (ctx : MedianCtx) (net_id : Nat) (bb_coord_new : t_bb)
    (xold yold xnew ynew : Int) : Bool × t_bb :=
  /- The net had NOT been updated before, could use the old values -/
  bb_incr (ctx.bb_num_on_edges net_id) (ctx.bb_coords net_id) bb_coord_new
    (clip_to_channels xold ctx.grid_width) (clip_to_channels yold ctx.grid_height)
    (clip_to_channels xnew ctx.grid_width) (clip_to_channels ynew ctx.grid_height)

/-- The state of the loop over the pins of the block in `MedianMoveGenerator::propose_move`:
the box `coords` and the vectors `X_coord` and `Y_coord`. -/
structure MedianScan where
  coords : t_bb
  X_coord : List Int
  Y_coord : List Int
  deriving DecidableEq, Repr

/-- The statements "push the calculated coordinates into X,Y coord vectors". -/
def MedianScan.push (s : MedianScan) (coords : t_bb) : MedianScan :=
  { coords := coords,
    X_coord := s.X_coord ++ [coords.xmin, coords.xmax],
    Y_coord := s.Y_coord ++ [coords.ymin, coords.ymax] }

/-- The body of the loop "iterate over block pins" of `propose_move`; `none` is the failed
assertion `pnum >= 0`. -/
def propose_move_pin (ctx : MedianCtx) (b_from : Nat) (s : MedianScan) (pin_id : Nat) :
    Option MedianScan :=
  let net_id := ctx.pin_net pin_id
  if ctx.net_is_ignored net_id then some s
  /- ignore high fanout nets -/
  else if int_of_size_t (ctx.net_pins net_id).length > ctx.place_high_fanout_net then some s
  else if (ctx.net_sinks net_id).length < ctx.SMALL_NET then
    /- calculate the bb from scratch -/
    let r := get_bb_from_scratch_excluding_block ctx net_id s.coords b_from
    if r.2 then some { s with coords := r.1 }
    else some (s.push r.1)
  else
    let net_bb_coords := ctx.bb_coords net_id
    /- use the incremental update of the bb -/
    let bnum := ctx.pin_block pin_id
    let pnum := ctx.tile_pin_index pin_id
    if ¬ pnum ≥ 0 then none
    else
      let xold := ctx.block_loc_x bnum + ctx.pin_width_offset bnum pnum
      let yold := ctx.block_loc_y bnum + ctx.pin_height_offset bnum pnum
      let xold := max (min xold (int_of_size_t ctx.grid_width - 2)) 1
      let yold := max (min yold (int_of_size_t ctx.grid_height - 2)) 1
      /- assume that the moving block is moved to a non-critical coord of the bb -/
      let xnew := if net_bb_coords.xmin = xold then net_bb_coords.xmax else net_bb_coords.xmin
      let ynew := if net_bb_coords.ymin = yold then net_bb_coords.ymax else net_bb_coords.ymin
      let r := get_bb_incrementally ctx net_id s.coords xold yold xnew ynew
      if ¬ r.1 then
        let r' := get_bb_from_scratch_excluding_block ctx net_id r.2 b_from
        if r'.2 then some { s with coords := r'.1 }
        else some (s.push r'.1)
      else some (s.push r.2)

/-- The vectors `X_coord` and `Y_coord` of `propose_move` after the loop over the pins of
`b_from`. -/
def propose_move_coords (ctx : MedianCtx) (b_from : Nat) : Option MedianScan :=
  (ctx.block_pins b_from).foldlM (propose_move_pin ctx b_from)
    { coords := ⟨OPEN, OPEN, OPEN, OPEN, OPEN, OPEN⟩, X_coord := [], Y_coord := [] }

/-- The median region of `propose_move`: the sorted vectors, `limit_coords` (its x and y
fields) and the x and y of `median_point`. -/
structure MedianRegion where
  X_coord : List Int
  Y_coord : List Int
  xmin : Int
  xmax : Int
  ymin : Int
  ymax : Int
  median_x : Int
  median_y : Int
  deriving DecidableEq, Repr

/-- The index `floor((v.size() - 1) / 2)` of `propose_move`: the quotient is taken in
`size_t`. -/
def median_index (size : Nat) : Nat := size_t_sub size 1 / 2

/-- The part "calculate the median region" of `propose_move` for vectors that are not
empty; `none` is an index outside a vector. -/
def median_region (X_coord Y_coord : List Int) : Option MedianRegion :=
  let X_coord := X_coord.insertionSort (fun a b => a ≤ b)
  let Y_coord := Y_coord.insertionSort (fun a b => a ≤ b)
  (X_coord.get? (median_index X_coord.length)).bind (fun xmin =>
    (X_coord.get? (median_index X_coord.length + 1)).bind (fun xmax =>
      (Y_coord.get? (median_index Y_coord.length)).bind (fun ymin =>
        (Y_coord.get? (median_index Y_coord.length + 1)).map (fun ymax =>
          { X_coord := X_coord, Y_coord := Y_coord, xmin := xmin, xmax := xmax, ymin := ymin,
            ymax := ymax, median_x := (xmin + xmax).tdiv 2, median_y := (ymin + ymax).tdiv 2 }))))

/-- The outcomes of the part of `propose_move` from the clearing of the coordinate vectors
to the median point. -/
inductive MedianOutcome where
  /-- The failed assertion `pnum >= 0`. -/
  | assert_failed
  /-- The move is aborted: "X_coord and y_coord are empty". -/
  | ABORT
  /-- An index outside a vector. -/
  | out_of_range
  /-- The median region is handed to `find_to_loc_centroid`. -/
  | region (r : MedianRegion)
  deriving DecidableEq, Repr

/-- The part of `MedianMoveGenerator::propose_move` from the clearing of the coordinate
vectors to the median point, for the block `b_from` that was chosen. -/
def propose_move_median (ctx : MedianCtx) (b_from : Nat) : MedianOutcome :=
  match propose_move_coords ctx b_from with
  | none => .assert_failed
  | some s =>
    if s.X_coord = [] ∨ s.Y_coord = [] then .ABORT
    else
      match median_region s.X_coord s.Y_coord with
      | none => .out_of_range
      | some r => .region r

/-- The pin locations of all the pins of the net on blocks other than `block_id`: the
driver first, then the sinks in their order. -/
def other_pin_locations (ctx : MedianCtx) (net_id block_id : Nat) : List (Int × Int) :=
  (if ctx.net_driver_block net_id ≠ block_id then
      [(ctx.pin_x (ctx.net_driver_block net_id) (ctx.net_pin_to_tile_pin_index net_id 0),
        ctx.pin_y (ctx.net_driver_block net_id) (ctx.net_pin_to_tile_pin_index net_id 0))]
    else [])
  ++ ((ctx.net_sinks net_id).filter (fun pin_id => decide (ctx.pin_block pin_id ≠ block_id))).map
      (fun pin_id => (ctx.pin_x (ctx.pin_block pin_id) (ctx.tile_pin_index pin_id),
                      ctx.pin_y (ctx.pin_block pin_id) (ctx.tile_pin_index pin_id)))

/-- The box (xmin, xmax, ymin, ymax) is the exact bounding box of the locations `locs`:
every location lies in it and each of its four edges holds a location. -/
def exact_bounding_box (locs : List (Int × Int)) (xmin xmax ymin ymax : Int) : Prop :=
  (∀ p ∈ locs, xmin ≤ p.1 ∧ p.1 ≤ xmax ∧ ymin ≤ p.2 ∧ p.2 ≤ ymax)
    ∧ (∃ p ∈ locs, p.1 = xmin) ∧ (∃ p ∈ locs, p.1 = xmax)
    ∧ (∃ p ∈ locs, p.2 = ymin) ∧ (∃ p ∈ locs, p.2 = ymax)

/-- What holds of the local variables of `get_bb_from_scratch_excluding_block` when the
pins at the locations `locs` have been taken into the box. -/
def bb_scratch_inv (s : BbScratch) (locs : List (Int × Int)) : Prop :=
  (locs = [] → s.first_block = false ∧ s.skip_net = true)
    ∧ (locs ≠ [] → s.first_block = true ∧ s.skip_net = false
        ∧ exact_bounding_box locs s.xmin s.xmax s.ymin s.ymax)

/-! ## An example placement for the median move generator -/

/-- A placement on a device of 6 by 6. Block 0 sits at (2, 2), the blocks 1 to 4 at (1, 3),
(4, 1), (3, 4) and (4, 4); every pin sits at the location of its block. Net 0 is driven by
block 1 and has sinks on the blocks 0 and 2; net 1 goes from block 0 to block 0; net 2 is
driven by block 0 and has sinks on the blocks 1 to 4, and its stored box spans 1..4 in x
and in y with one pin on the edges xmin and ymin and two on the edges xmax and ymax. -/
def ex_median_ctx : MedianCtx :=
  { grid_width := 6, grid_height := 6,
    net_is_ignored := fun _ => false,
    net_pins := fun n => ([[9, 10, 11], [12, 13], [14, 15, 16, 17, 18]].getD n []),
    net_sinks := fun n => ([[10, 11], [13], [15, 16, 17, 18]].getD n []),
    net_driver_block := fun n => ([1, 0, 0].getD n 0),
    block_pins := fun b => if b = 0 then [10, 12, 13, 14] else [],
    pin_net := fun p => if p ≤ 11 then 0 else if p ≤ 13 then 1 else 2,
    pin_block := fun p =>
      ([(9, 1), (10, 0), (11, 2), (12, 0), (13, 0), (14, 0), (15, 1), (16, 2), (17, 3), (18, 4)].lookup p).getD 0,
    tile_pin_index := fun _ => 0,
    net_pin_to_tile_pin_index := fun _ _ => 0,
    block_loc_x := fun b => ([2, 1, 4, 3, 4].getD b 0),
    block_loc_y := fun b => ([2, 3, 1, 4, 4].getD b 0),
    block_loc_layer := fun _ => 0,
    pin_width_offset := fun _ _ => 0,
    pin_height_offset := fun _ _ => 0,
    bb_coords := fun _ => ⟨1, 4, 1, 4, 0, 0⟩,
    bb_num_on_edges := fun _ => ⟨1, 2, 1, 2, 1, 1⟩,
    SMALL_NET := 4,
    place_high_fanout_net := 10 }

/-! ## Validity of the grid under construction -/

/-- What `CheckGrid` checks at the cell (i, j): the cell has a type, its offsets are below
the dimensions of the type, and when it is a root (both offsets zero) every cell of its
footprint carries the type of the root and the offsets from the root. -/
def grid_cell_valid (s : GridBuildState) (i j : Nat) : Prop :=
  ∃ type, (s.grid i j).type = some type
    ∧ (s.grid i j).width_offset < type.width ∧ (s.grid i j).height_offset < type.height
    ∧ ((s.grid i j).width_offset = 0 ∧ (s.grid i j).height_offset = 0 →
        ∀ c ∈ footprint_cells i j type.width type.height,
          (s.grid c.1 c.2).type = some type ∧ (s.grid c.1 c.2).width_offset = c.1 - i
            ∧ (s.grid c.1 c.2).height_offset = c.2 - j)

/-- The grid validity that `CheckGrid` checks, for the matrix under construction. -/
def grid_valid (grid_width grid_height : Nat) (s : GridBuildState) : Prop :=
  ∀ i j, i < grid_width → j < grid_height → grid_cell_valid s i j

/-- The test of the rip-up loop of `set_grid_block_type` at the cell `c` for the root `r`:
the cell holds the type of the root and the offsets from the root. -/
def rip_up_matches (s : GridBuildState) (r : TypeLocation) (c : Nat × Nat) : Prop :=
  (s.grid c.1 c.2).type = r.type ∧ (s.grid c.1 c.2).width_offset = size_t_sub c.1 r.x
    ∧ (s.grid c.1 c.2).height_offset = size_t_sub c.2 r.y

/-- A cell as the rip-up loop leaves it: the empty type with zero offsets. -/
def ripped_tile (empty_type : t_physical_tile_type) (t : t_grid_tile) : t_grid_tile :=
  { t with type := some empty_type, width_offset := 0, height_offset := 0 }

/-- The footprint of a root recorded for rip-up. -/
def TypeLocation.footprint (r : TypeLocation) : List (Nat × Nat) :=
  footprint_cells r.x r.y ((r.type.map (fun t => t.width)).getD 0)
    ((r.type.map (fun t => t.height)).getD 0)

/-- A device of 3 by 1 that holds one "wide" block rooted at (0, 0) with priority 1 and an
empty cell at (2, 0). -/
def ex_wide_device : GridBuildState :=
  { grid := fun x y =>
      if x < 2 ∧ y = 0 then
        { type := some ex_wide_tile, width_offset := x, height_offset := 0, meta := none }
      else (ex_empty_device 3 1).grid x y,
    grid_priorities := fun x y => if x < 2 ∧ y = 0 then 1 else (ex_empty_device 3 1).grid_priorities x y }

/-! ## A tile with many input pins far from the origin -/

/-- A tile type two cells wide with one RECEIVER class of 1400 pins. -/
def ex_fanin_tile : t_physical_tile_type :=
  { index := 6, width := 2, height := 1, num_pins := 1400, class_inf := [⟨.RECEIVER, 1400⟩] }

/-- A grid of 24576 by 1 cells on layer 0 covered by instances of `ex_fanin_tile`, rooted at
the even columns. -/
def ex_fanin_grid : DeviceGrid :=
  { width := 24576, height := 1,
    get_physical_type := fun _ => ex_fanin_tile,
    get_width_offset := fun loc => loc.x % 2,
    get_height_offset := fun _ => 0 }

/-- The SINK of a tile two cells wide rooted at (x0, 0) with `k` input pins, as the grid
node loader leaves it: its box covers both cells of the tile. -/
def ex_fanin_sink (k x0 : Nat) : t_rr_node :=
  { type := .SINK, layer := 0, xlow := x0, ylow := 0, xhigh := x0 + 1, yhigh := 0, ptc_num := 0,
    capacity := k, direction := .NONE, cost_index := 1, sides := [] }

/-- The input pin `ptc` of a tile two cells wide rooted at (x0, 0): every input pin sits on
the TOP side of the second cell of the tile. -/
def ex_fanin_ipin (x0 ptc : Nat) : t_rr_node :=
  { type := .IPIN, layer := 0, xlow := x0 + 1, ylow := 0, xhigh := x0 + 1, yhigh := 0,
    ptc_num := ptc, capacity := 1, direction := .NONE, cost_index := 3, sides := [.TOP] }

/-- The graph of one tile two cells wide rooted at (x0, 0) with `k` input pins: node 0 is
its SINK, indexed at both cells of the tile, the nodes 1 to k are its input pins at
(x0 + 1, 0), and every pin has an edge to the SINK. With k = 1400 and x0 = 24574 it is the
part of the graph of `ex_fanin_grid` that belongs to the instance rooted at (24574, 0). -/
def ex_fanin_graph (k x0 : Nat) : RRBuildState :=
  { RRBuildState.empty with
    nodes := ex_fanin_sink k x0 :: (List.range k).map (ex_fanin_ipin x0),
    node_lookup := fun t la i j s p =>
      if t = .SINK ∧ la = 0 ∧ (i = x0 ∨ i = x0 + 1) ∧ j = 0 ∧ s = SIDES_0 ∧ p = 0 then some 0
      else if t = .IPIN ∧ la = 0 ∧ i = x0 + 1 ∧ j = 0 ∧ s = .TOP ∧ p < k then some (p + 1)
      else none,
    edges := (List.range k).map (fun i => (i + 1, 0)) }

/-- The graph of two tiles two cells wide rooted at (xa, 0) and at (xb, 0), each with `k`
input pins on its second cell: the nodes 0 and 1 are the SINKs, the nodes 2 to k + 1 the
pins of the first tile, the nodes k + 2 to 2 k + 1 those of the second; every pin has an
edge to the SINK of its tile. With k = 1400, xa = 0 and xb = 24574 it is the part of the
graph of `ex_fanin_grid` that belongs to the instances rooted at (0, 0) and (24574, 0). -/
def ex_twin_graph (k xa xb : Nat) : RRBuildState :=
  { RRBuildState.empty with
    nodes := ex_fanin_sink k xa :: ex_fanin_sink k xb
      :: ((List.range k).map (ex_fanin_ipin xa) ++ (List.range k).map (ex_fanin_ipin xb)),
    node_lookup := fun t la i j s p =>
      if t = .SINK ∧ la = 0 ∧ (i = xa ∨ i = xa + 1) ∧ j = 0 ∧ s = SIDES_0 ∧ p = 0 then some 0
      else if t = .SINK ∧ la = 0 ∧ (i = xb ∨ i = xb + 1) ∧ j = 0 ∧ s = SIDES_0 ∧ p = 0 then some 1
      else if t = .IPIN ∧ la = 0 ∧ i = xa + 1 ∧ j = 0 ∧ s = .TOP ∧ p < k then some (p + 2)
      else if t = .IPIN ∧ la = 0 ∧ i = xb + 1 ∧ j = 0 ∧ s = .TOP ∧ p < k then some (p + k + 2)
      else none,
    edges := (List.range k).map (fun i => (i + 2, 0))
      ++ (List.range k).map (fun i => (i + k + 2, 1)) }

/-! # Theorems -/
theorem modify_append_length {α : Type} (f : α → α) (l : List α) (a : α) :
    List.modify f l.length (l ++ [a]) = l ++ [f a] := by
  induction l with
  | nil => rfl
  | cons x xs ih => simp [List.modify_succ_cons, ih]

theorem foldl_invariant {σ ι : Type} (P : σ → Prop) (step : σ → ι → σ)
    (h : ∀ s i, P s → P (step s i)) (l : List ι) (s : σ) (hs : P s) : P (l.foldl step s) := by
  induction l generalizing s with
  | nil => exact hs
  | cons i is ih => exact ih _ (h s i hs)

theorem foldl_nodes_append {ι : Type} (step : RRBuildState → ι → RRBuildState)
    (g : ι → List t_rr_node) (h : ∀ s i, (step s i).nodes = s.nodes ++ g i)
    (l : List ι) (s : RRBuildState) : (l.foldl step s).nodes = s.nodes ++ l.flatMap g := by
  induction l generalizing s with
  | nil => simp
  | cons i is ih => simp [List.foldl_cons, ih, h, List.flatMap_cons, List.append_assoc]

theorem load_one_source_node_nodes (H : GridHelpers) (st : RRBuildState) (layer gx gy : Nat)
    (t : t_physical_tile_type) (sw iclass : Nat) :
    (load_one_source_node H st layer gx gy t sw iclass).nodes
      = st.nodes ++ (if (class_at t iclass).type = .DRIVER then [source_node H layer gx gy t iclass] else []) := by
  unfold load_one_source_node
  by_cases h : (class_at t iclass).type = .DRIVER
  · simp [h, create_node, set_node_coordinates, set_node_ptc_num, set_node_layer, set_node_capacity,
      set_node_cost_index, set_driver_switch, modify_node, modify_append_length, source_node]
  · have h' : e_pin_type.DRIVER ≠ (class_at t iclass).type := fun e => h e.symm
    simp [h, h']

theorem load_one_sink_node_nodes (H : GridHelpers) (st : RRBuildState) (layer gx gy : Nat)
    (t : t_physical_tile_type) (sw iclass : Nat) :
    (load_one_sink_node H st layer gx gy t sw iclass).nodes
      = st.nodes ++ (if (class_at t iclass).type = .RECEIVER then [sink_node H layer gx gy t iclass] else []) := by
  unfold load_one_sink_node
  by_cases h : (class_at t iclass).type = .RECEIVER
  · simp [h, create_node, set_node_coordinates, set_node_ptc_num, set_node_layer, set_node_capacity,
      set_node_cost_index, set_driver_switch, modify_node, modify_append_length, sink_node]
  · have h' : e_pin_type.RECEIVER ≠ (class_at t iclass).type := fun e => h e.symm
    simp [h, h']

theorem load_one_opin_node_nodes (H : GridHelpers) (st : RRBuildState) (layer gx gy width height : Nat)
    (side : e_side) (sw pin_num : Nat) :
    (load_one_opin_node H st layer gx gy width height side sw pin_num).nodes
      = st.nodes ++ [pin_node .OPIN H.OPIN_COST_INDEX layer (gx + width) (gy + height) side pin_num] := by
  simp [load_one_opin_node, create_node, set_node_coordinates, set_node_ptc_num, set_node_layer,
    set_node_capacity, set_node_cost_index, set_driver_switch, add_node_side, modify_node,
    modify_append_length, pin_node]

theorem load_one_ipin_node_nodes (H : GridHelpers) (st : RRBuildState) (layer gx gy width height : Nat)
    (side : e_side) (sw pin_num : Nat) :
    (load_one_ipin_node H st layer gx gy width height side sw pin_num).nodes
      = st.nodes ++ [pin_node .IPIN H.IPIN_COST_INDEX layer (gx + width) (gy + height) side pin_num] := by
  simp [load_one_ipin_node, create_node, set_node_coordinates, set_node_ptc_num, set_node_layer,
    set_node_capacity, set_node_cost_index, set_driver_switch, add_node_side, modify_node,
    modify_append_length, pin_node]

theorem load_one_grid_source_nodes_basic_info_nodes (H : GridHelpers) (st : RRBuildState)
    (layer gx gy : Nat) (grids : DeviceGrid) (sw : Nat) :
    (load_one_grid_source_nodes_basic_info H st layer gx gy grids sw).nodes
      = st.nodes ++ cell_source_nodes H grids layer gx gy := by
  unfold load_one_grid_source_nodes_basic_info cell_source_nodes
  exact foldl_nodes_append _ _ (fun s i => load_one_source_node_nodes H s layer gx gy _ sw i) _ _

theorem load_one_grid_sink_nodes_basic_info_nodes (H : GridHelpers) (st : RRBuildState)
    (layer gx gy : Nat) (grids : DeviceGrid) (sw : Nat) :
    (load_one_grid_sink_nodes_basic_info H st layer gx gy grids sw).nodes
      = st.nodes ++ cell_sink_nodes H grids layer gx gy := by
  unfold load_one_grid_sink_nodes_basic_info cell_sink_nodes
  exact foldl_nodes_append _ _ (fun s i => load_one_sink_node_nodes H s layer gx gy _ sw i) _ _

theorem load_one_grid_opin_nodes_basic_info_nodes (H : GridHelpers) (st : RRBuildState)
    (layer gx gy : Nat) (grids : DeviceGrid) (io_side : e_side) (sw : Nat) :
    (load_one_grid_opin_nodes_basic_info H st layer gx gy grids io_side sw).nodes
      = st.nodes ++ cell_pin_nodes H grids layer gx gy io_side .DRIVER .OPIN H.OPIN_COST_INDEX := by
  unfold load_one_grid_opin_nodes_basic_info cell_pin_nodes
  refine foldl_nodes_append _ _ (fun s width => ?_) _ _
  refine foldl_nodes_append _ _ (fun s height => ?_) _ _
  refine foldl_nodes_append _ _ (fun s side => ?_) _ _
  split
  · simp
  · exact foldl_nodes_append _ _
      (fun s p => load_one_opin_node_nodes H s layer gx gy width height side sw p) _ _

theorem load_one_grid_ipin_nodes_basic_info_nodes (H : GridHelpers) (st : RRBuildState)
    (layer gx gy : Nat) (grids : DeviceGrid) (io_side : e_side) (sw : Nat) :
    (load_one_grid_ipin_nodes_basic_info H st layer gx gy grids io_side sw).nodes
      = st.nodes ++ cell_pin_nodes H grids layer gx gy io_side .RECEIVER .IPIN H.IPIN_COST_INDEX := by
  unfold load_one_grid_ipin_nodes_basic_info cell_pin_nodes
  refine foldl_nodes_append _ _ (fun s width => ?_) _ _
  refine foldl_nodes_append _ _ (fun s height => ?_) _ _
  refine foldl_nodes_append _ _ (fun s side => ?_) _ _
  split
  · simp
  · exact foldl_nodes_append _ _
      (fun s p => load_one_ipin_node_nodes H s layer gx gy width height side sw p) _ _

theorem load_grid_nodes_cell_nodes (H : GridHelpers) (st : RRBuildState) (grids : DeviceGrid)
    (layer w d ix iy : Nat) :
    (load_grid_nodes_cell H st grids layer w d ix iy).nodes = st.nodes ++ cell_nodes H grids layer ix iy := by
  unfold load_grid_nodes_cell cell_nodes
  split
  · simp
  · split
    · simp
    · simp only [load_one_grid_ipin_nodes_basic_info_nodes, load_one_grid_opin_nodes_basic_info_nodes,
        load_one_grid_sink_nodes_basic_info_nodes, load_one_grid_source_nodes_basic_info_nodes,
        List.append_assoc]

theorem mirror_grid_nodes_cell_nodes (st : RRBuildState) (grids : DeviceGrid) (x y : Nat) :
    (mirror_grid_nodes_cell st grids x y).nodes = st.nodes := by
  unfold mirror_grid_nodes_cell
  dsimp only
  split <;> rfl

theorem mirror_grid_nodes_cell_switches (st : RRBuildState) (grids : DeviceGrid) (x y : Nat) :
    (mirror_grid_nodes_cell st grids x y).rr_node_driver_switches = st.rr_node_driver_switches := by
  unfold mirror_grid_nodes_cell
  dsimp only
  split <;> rfl

theorem mirror_loops_nodes_switches (grids : DeviceGrid) (s : RRBuildState) :
    ((List.range grids.width).foldl
        (fun st x => (List.range grids.height).foldl (fun st y => mirror_grid_nodes_cell st grids x y) st)
        s).nodes = s.nodes
    ∧ ((List.range grids.width).foldl
        (fun st x => (List.range grids.height).foldl (fun st y => mirror_grid_nodes_cell st grids x y) st)
        s).rr_node_driver_switches = s.rr_node_driver_switches := by
  refine foldl_invariant
    (fun s' : RRBuildState => s'.nodes = s.nodes ∧ s'.rr_node_driver_switches = s.rr_node_driver_switches)
    _ (fun s1 x h1 => ?_) _ s ⟨rfl, rfl⟩
  refine foldl_invariant
    (fun s' : RRBuildState => s'.nodes = s.nodes ∧ s'.rr_node_driver_switches = s.rr_node_driver_switches)
    _ (fun s2 y h2 => ?_) _ s1 h1
  exact ⟨(mirror_grid_nodes_cell_nodes s2 grids x y).trans h2.1,
    (mirror_grid_nodes_cell_switches s2 grids x y).trans h2.2⟩

theorem load_grid_nodes_basic_info_nodes (H : GridHelpers) (st : RRBuildState) (grids : DeviceGrid)
    (layer w d : Nat) :
    (load_grid_nodes_basic_info H st grids layer w d).nodes = st.nodes ++ grid_nodes H grids layer := by
  unfold load_grid_nodes_basic_info
  simp only [(mirror_loops_nodes_switches grids _).1]
  unfold grid_nodes
  refine foldl_nodes_append _ _ (fun s iy => ?_) _ _
  exact foldl_nodes_append _ _ (fun s ix => load_grid_nodes_cell_nodes H s grids layer w d ix iy) _ _

theorem countP_flatMap_sum {α β : Type} (p : β → Bool) (g : α → List β) (l : List α) :
    (l.flatMap g).countP p = (l.map (fun a => (g a).countP p)).sum := by
  induction l with
  | nil => rfl
  | cons a as ih => simp [List.flatMap_cons, ih]

theorem sum_map_swap {α β : Type} (f : α → β → Nat) (l1 : List α) (l2 : List β) :
    (l1.map (fun a => (l2.map (fun b => f a b)).sum)).sum
      = (l2.map (fun b => (l1.map (fun a => f a b)).sum)).sum := by
  induction l1 with
  | nil => simp
  | cons a as ih =>
    simp only [List.map_cons, List.sum_cons, ih, List.sum_map_add]

theorem sum_range_getD_countP {α : Type} (p : α → Bool) (d : α) (l : List α) :
    ((List.range l.length).map (fun i => if p (l.getD i d) = true then 1 else 0)).sum = l.countP p := by
  induction l using List.reverseRecOn with
  | nil => rfl
  | append_singleton l a ih =>
    rw [List.length_append, List.length_singleton, List.range_succ, List.map_append, List.sum_append,
      List.countP_append]
    congr 1
    · rw [← ih]
      congr 1
      apply List.map_congr_left
      intro i hi
      rw [List.getD_append _ _ _ _ (List.mem_range.mp hi)]
    · simp [List.getD_append_right, List.countP_cons]

theorem foldlM_some_add {ι : Type} (c : ι → Nat) (l : List ι) (a : Nat) :
    l.foldlM (fun acc i => (some (acc + c i) : Option Nat)) a = some (a + (l.map c).sum) := by
  induction l generalizing a with
  | nil => simp
  | cons i is ih => simp [List.foldlM_cons, ih, Nat.add_assoc]

/-- The number of nodes of class kind `pin_type` that cell (ix, iy) contributes. -/
theorem estimate_cell_source (H : GridHelpers) (grids : DeviceGrid) (layer num ix iy : Nat) :
    estimate_num_grid_rr_nodes_cell H grids layer .SOURCE num ix iy
      = some (num + (if H.is_empty_type (grids.get_physical_type ⟨ix, iy, layer⟩) = false
          ∧ grids.get_width_offset ⟨ix, iy, layer⟩ = 0 ∧ grids.get_height_offset ⟨ix, iy, layer⟩ = 0 then
        (grids.get_physical_type ⟨ix, iy, layer⟩).class_inf.countP (fun c => c.type = .DRIVER)
      else 0)) := by
  unfold estimate_num_grid_rr_nodes_cell
  by_cases h1 : H.is_empty_type (grids.get_physical_type ⟨ix, iy, layer⟩) = true
  · simp [h1]
  · by_cases h2 : 0 < grids.get_width_offset ⟨ix, iy, layer⟩ ∨ 0 < grids.get_height_offset ⟨ix, iy, layer⟩
    · have : ¬ (grids.get_width_offset ⟨ix, iy, layer⟩ = 0 ∧ grids.get_height_offset ⟨ix, iy, layer⟩ = 0) := by
        omega
      simp [h1, h2, this]
    · have : grids.get_width_offset ⟨ix, iy, layer⟩ = 0 ∧ grids.get_height_offset ⟨ix, iy, layer⟩ = 0 := by
        omega
      simp [h1, h2, this, get_grid_num_classes, List.countP_eq_length_filter]

theorem estimate_cell_sink (H : GridHelpers) (grids : DeviceGrid) (layer num ix iy : Nat) :
    estimate_num_grid_rr_nodes_cell H grids layer .SINK num ix iy
      = some (num + (if H.is_empty_type (grids.get_physical_type ⟨ix, iy, layer⟩) = false
          ∧ grids.get_width_offset ⟨ix, iy, layer⟩ = 0 ∧ grids.get_height_offset ⟨ix, iy, layer⟩ = 0 then
        (grids.get_physical_type ⟨ix, iy, layer⟩).class_inf.countP (fun c => c.type = .RECEIVER)
      else 0)) := by
  unfold estimate_num_grid_rr_nodes_cell
  by_cases h1 : H.is_empty_type (grids.get_physical_type ⟨ix, iy, layer⟩) = true
  · simp [h1]
  · by_cases h2 : 0 < grids.get_width_offset ⟨ix, iy, layer⟩ ∨ 0 < grids.get_height_offset ⟨ix, iy, layer⟩
    · have : ¬ (grids.get_width_offset ⟨ix, iy, layer⟩ = 0 ∧ grids.get_height_offset ⟨ix, iy, layer⟩ = 0) := by
        omega
      simp [h1, h2, this]
    · have : grids.get_width_offset ⟨ix, iy, layer⟩ = 0 ∧ grids.get_height_offset ⟨ix, iy, layer⟩ = 0 := by
        omega
      simp [h1, h2, this, get_grid_num_classes, List.countP_eq_length_filter]

theorem estimate_source_eq_spec (H : GridHelpers) (grids : DeviceGrid) (layer : Nat) :
    estimate_num_grid_rr_nodes_by_type H grids layer .SOURCE
      = some (spec_num_class_nodes H grids layer .DRIVER) := by
  unfold estimate_num_grid_rr_nodes_by_type spec_num_class_nodes
  simp only [estimate_cell_source, foldlM_some_add, Nat.zero_add]

theorem estimate_sink_eq_spec (H : GridHelpers) (grids : DeviceGrid) (layer : Nat) :
    estimate_num_grid_rr_nodes_by_type H grids layer .SINK
      = some (spec_num_class_nodes H grids layer .RECEIVER) := by
  unfold estimate_num_grid_rr_nodes_by_type spec_num_class_nodes
  simp only [estimate_cell_sink, foldlM_some_add, Nat.zero_add]

theorem mem_cell_source_nodes_type {H : GridHelpers} {grids : DeviceGrid} {layer gx gy : Nat}
    {n : t_rr_node} (h : n ∈ cell_source_nodes H grids layer gx gy) :
    n = source_node H layer gx gy (grids.get_physical_type ⟨gx, gy, layer⟩) n.ptc_num
      ∧ (class_at (grids.get_physical_type ⟨gx, gy, layer⟩) n.ptc_num).type = .DRIVER
      ∧ n.ptc_num < (grids.get_physical_type ⟨gx, gy, layer⟩).class_inf.length := by
  unfold cell_source_nodes at h
  simp only [List.mem_flatMap, List.mem_range] at h
  obtain ⟨i, hi, hn⟩ := h
  split at hn
  · rename_i hd
    simp only [List.mem_singleton] at hn
    subst hn
    exact ⟨rfl, hd, hi⟩
  · simp at hn

theorem mem_cell_sink_nodes_type {H : GridHelpers} {grids : DeviceGrid} {layer gx gy : Nat}
    {n : t_rr_node} (h : n ∈ cell_sink_nodes H grids layer gx gy) :
    n = sink_node H layer gx gy (grids.get_physical_type ⟨gx, gy, layer⟩) n.ptc_num
      ∧ (class_at (grids.get_physical_type ⟨gx, gy, layer⟩) n.ptc_num).type = .RECEIVER
      ∧ n.ptc_num < (grids.get_physical_type ⟨gx, gy, layer⟩).class_inf.length := by
  unfold cell_sink_nodes at h
  simp only [List.mem_flatMap, List.mem_range] at h
  obtain ⟨i, hi, hn⟩ := h
  split at hn
  · rename_i hd
    simp only [List.mem_singleton] at hn
    subst hn
    exact ⟨rfl, hd, hi⟩
  · simp at hn

theorem mem_cell_pin_nodes_type {H : GridHelpers} {grids : DeviceGrid} {layer gx gy : Nat}
    {io_side : e_side} {pin_type : e_pin_type} {type : t_rr_type} {ci : Nat}
    {n : t_rr_node} (h : n ∈ cell_pin_nodes H grids layer gx gy io_side pin_type type ci) :
    n.type = type := by
  unfold cell_pin_nodes at h
  simp only [List.mem_flatMap, List.mem_range] at h
  obtain ⟨w, _, hh, _, s, _, hn⟩ := h
  split at hn
  · simp at hn
  · simp only [List.mem_flatMap, List.mem_singleton] at hn
    obtain ⟨p, _, rfl⟩ := hn
    rfl

theorem countP_cell_source_nodes (H : GridHelpers) (grids : DeviceGrid) (layer gx gy : Nat) :
    (cell_source_nodes H grids layer gx gy).countP (fun n => n.type = .SOURCE)
      = (grids.get_physical_type ⟨gx, gy, layer⟩).class_inf.countP (fun c => c.type = .DRIVER) := by
  unfold cell_source_nodes
  rw [countP_flatMap_sum]
  rw [← sum_range_getD_countP (fun c : t_class => decide (c.type = .DRIVER)) ⟨.OPEN, 0⟩]
  congr 1
  apply List.map_congr_left
  intro i _
  by_cases h : (class_at (grids.get_physical_type ⟨gx, gy, layer⟩) i).type = .DRIVER
  · have h' := h
    simp only [class_at, List.getD_eq_getElem?_getD] at h'
    simp [h, h', source_node]
  · have h' := h
    simp only [class_at, List.getD_eq_getElem?_getD] at h'
    simp [h, h']

theorem countP_cell_sink_nodes (H : GridHelpers) (grids : DeviceGrid) (layer gx gy : Nat) :
    (cell_sink_nodes H grids layer gx gy).countP (fun n => n.type = .SINK)
      = (grids.get_physical_type ⟨gx, gy, layer⟩).class_inf.countP (fun c => c.type = .RECEIVER) := by
  unfold cell_sink_nodes
  rw [countP_flatMap_sum]
  rw [← sum_range_getD_countP (fun c : t_class => decide (c.type = .RECEIVER)) ⟨.OPEN, 0⟩]
  congr 1
  apply List.map_congr_left
  intro i _
  by_cases h : (class_at (grids.get_physical_type ⟨gx, gy, layer⟩) i).type = .RECEIVER
  · have h' := h
    simp only [class_at, List.getD_eq_getElem?_getD] at h'
    simp [h, h', sink_node]
  · have h' := h
    simp only [class_at, List.getD_eq_getElem?_getD] at h'
    simp [h, h']

theorem countP_cell_nodes_source (H : GridHelpers) (grids : DeviceGrid) (layer ix iy : Nat) :
    (cell_nodes H grids layer ix iy).countP (fun n => n.type = .SOURCE)
      = (if H.is_empty_type (grids.get_physical_type ⟨ix, iy, layer⟩) = false
          ∧ grids.get_width_offset ⟨ix, iy, layer⟩ = 0 ∧ grids.get_height_offset ⟨ix, iy, layer⟩ = 0 then
        (grids.get_physical_type ⟨ix, iy, layer⟩).class_inf.countP (fun c => c.type = .DRIVER)
      else 0) := by
  unfold cell_nodes
  by_cases h1 : H.is_empty_type (grids.get_physical_type ⟨ix, iy, layer⟩) = true
  · simp [h1]
  · by_cases h2 : 0 < grids.get_width_offset ⟨ix, iy, layer⟩ ∨ 0 < grids.get_height_offset ⟨ix, iy, layer⟩
    · have : ¬ (grids.get_width_offset ⟨ix, iy, layer⟩ = 0 ∧ grids.get_height_offset ⟨ix, iy, layer⟩ = 0) := by
        omega
      simp [h1, h2, this]
    · have h3 : grids.get_width_offset ⟨ix, iy, layer⟩ = 0 ∧ grids.get_height_offset ⟨ix, iy, layer⟩ = 0 := by
        omega
      have e1 : (cell_sink_nodes H grids layer ix iy).countP (fun n => n.type = .SOURCE) = 0 := by
        rw [List.countP_eq_zero]
        intro n hn
        rw [(mem_cell_sink_nodes_type hn).1]
        simp [sink_node]
      have e2 : ∀ s pt ci, (cell_pin_nodes H grids layer ix iy s pt .OPIN ci).countP
          (fun n => n.type = .SOURCE) = 0 := by
        intro s pt ci
        rw [List.countP_eq_zero]
        intro n hn
        rw [mem_cell_pin_nodes_type hn]
        simp
      have e3 : ∀ s pt ci, (cell_pin_nodes H grids layer ix iy s pt .IPIN ci).countP
          (fun n => n.type = .SOURCE) = 0 := by
        intro s pt ci
        rw [List.countP_eq_zero]
        intro n hn
        rw [mem_cell_pin_nodes_type hn]
        simp
      simp [h1, h2, h3, e1, e2, e3, countP_cell_source_nodes]

theorem countP_cell_nodes_sink (H : GridHelpers) (grids : DeviceGrid) (layer ix iy : Nat) :
    (cell_nodes H grids layer ix iy).countP (fun n => n.type = .SINK)
      = (if H.is_empty_type (grids.get_physical_type ⟨ix, iy, layer⟩) = false
          ∧ grids.get_width_offset ⟨ix, iy, layer⟩ = 0 ∧ grids.get_height_offset ⟨ix, iy, layer⟩ = 0 then
        (grids.get_physical_type ⟨ix, iy, layer⟩).class_inf.countP (fun c => c.type = .RECEIVER)
      else 0) := by
  unfold cell_nodes
  by_cases h1 : H.is_empty_type (grids.get_physical_type ⟨ix, iy, layer⟩) = true
  · simp [h1]
  · by_cases h2 : 0 < grids.get_width_offset ⟨ix, iy, layer⟩ ∨ 0 < grids.get_height_offset ⟨ix, iy, layer⟩
    · have : ¬ (grids.get_width_offset ⟨ix, iy, layer⟩ = 0 ∧ grids.get_height_offset ⟨ix, iy, layer⟩ = 0) := by
        omega
      simp [h1, h2, this]
    · have h3 : grids.get_width_offset ⟨ix, iy, layer⟩ = 0 ∧ grids.get_height_offset ⟨ix, iy, layer⟩ = 0 := by
        omega
      have e1 : (cell_source_nodes H grids layer ix iy).countP (fun n => n.type = .SINK) = 0 := by
        rw [List.countP_eq_zero]
        intro n hn
        rw [(mem_cell_source_nodes_type hn).1]
        simp [source_node]
      have e2 : ∀ s pt ci, (cell_pin_nodes H grids layer ix iy s pt .OPIN ci).countP
          (fun n => n.type = .SINK) = 0 := by
        intro s pt ci
        rw [List.countP_eq_zero]
        intro n hn
        rw [mem_cell_pin_nodes_type hn]
        simp
      have e3 : ∀ s pt ci, (cell_pin_nodes H grids layer ix iy s pt .IPIN ci).countP
          (fun n => n.type = .SINK) = 0 := by
        intro s pt ci
        rw [List.countP_eq_zero]
        intro n hn
        rw [mem_cell_pin_nodes_type hn]
        simp
      simp [h1, h2, h3, e1, e2, e3, countP_cell_sink_nodes]

theorem countP_grid_nodes_source (H : GridHelpers) (grids : DeviceGrid) (layer : Nat) :
    (grid_nodes H grids layer).countP (fun n => n.type = .SOURCE)
      = spec_num_class_nodes H grids layer .DRIVER := by
  unfold grid_nodes spec_num_class_nodes
  rw [countP_flatMap_sum]
  simp only [countP_flatMap_sum, countP_cell_nodes_source]
  exact sum_map_swap _ _ _

theorem countP_grid_nodes_sink (H : GridHelpers) (grids : DeviceGrid) (layer : Nat) :
    (grid_nodes H grids layer).countP (fun n => n.type = .SINK)
      = spec_num_class_nodes H grids layer .RECEIVER := by
  unfold grid_nodes spec_num_class_nodes
  rw [countP_flatMap_sum]
  simp only [countP_flatMap_sum, countP_cell_nodes_sink]
  exact sum_map_swap _ _ _

/-- C10. For every grid and layer, `estimate_num_grid_rr_nodes_by_type` for SOURCE (resp.
SINK) returns the number of SOURCE (resp. SINK) nodes that `load_grid_nodes_basic_info`
creates, and both equal the sum, over the non-EMPTY cells with zero width and height
offset, of the number of DRIVER (resp. RECEIVER) classes of the cell's tile type; the
other cells contribute nothing. -/
theorem estimate_num_grid_rr_nodes_by_type_eq_loaded (H : GridHelpers) (st : RRBuildState)
    (grids : DeviceGrid) (layer wire_to_ipin_switch delayless_switch : Nat) :
    estimate_num_grid_rr_nodes_by_type H grids layer .SOURCE
        = some (((load_grid_nodes_basic_info H st grids layer wire_to_ipin_switch
                    delayless_switch).nodes.drop st.nodes.length).countP (fun n => n.type = .SOURCE))
      ∧ estimate_num_grid_rr_nodes_by_type H grids layer .SINK
        = some (((load_grid_nodes_basic_info H st grids layer wire_to_ipin_switch
                    delayless_switch).nodes.drop st.nodes.length).countP (fun n => n.type = .SINK))
      ∧ estimate_num_grid_rr_nodes_by_type H grids layer .SOURCE
        = some (spec_num_class_nodes H grids layer .DRIVER)
      ∧ estimate_num_grid_rr_nodes_by_type H grids layer .SINK
        = some (spec_num_class_nodes H grids layer .RECEIVER) := by
  rw [load_grid_nodes_basic_info_nodes, List.drop_left, countP_grid_nodes_source,
    countP_grid_nodes_sink]
  exact ⟨estimate_source_eq_spec H grids layer, estimate_sink_eq_spec H grids layer,
    estimate_source_eq_spec H grids layer, estimate_sink_eq_spec H grids layer⟩

theorem filter_flatMap_eq_nil {α β : Type} (p : β → Bool) (g : α → List β) (l : List α)
    (h : ∀ i ∈ l, (g i).filter p = []) : (l.flatMap g).filter p = [] := by
  induction l with
  | nil => rfl
  | cons b bs ih =>
    rw [List.flatMap_cons, List.filter_append, h b (List.mem_cons_self _ _),
      ih (fun i hi => h i (List.mem_cons_of_mem _ hi))]
    rfl

theorem filter_flatMap_of_unique {α β : Type} (p : β → Bool) (g : α → List β) (l : List α) (a : α)
    (hnd : l.Nodup) (ha : a ∈ l) (h : ∀ i ∈ l, i ≠ a → (g i).filter p = []) :
    (l.flatMap g).filter p = (g a).filter p := by
  induction l with
  | nil => cases ha
  | cons b bs ih =>
    rw [List.flatMap_cons, List.filter_append]
    rw [List.nodup_cons] at hnd
    by_cases hab : b = a
    · subst hab
      rw [filter_flatMap_eq_nil p g bs (fun i hi => h i (List.mem_cons_of_mem _ hi)
        (fun e => hnd.1 (e ▸ hi)))]
      simp
    · have ha' : a ∈ bs := by
        rcases List.mem_cons.mp ha with e | e
        · exact absurd e.symm hab
        · exact e
      rw [h b (List.mem_cons_self _ _) hab, ih hnd.2 ha' (fun i hi => h i (List.mem_cons_of_mem _ hi))]
      rfl

theorem mem_cell_nodes_low_corner {H : GridHelpers} {grids : DeviceGrid} {layer ix iy : Nat}
    {n : t_rr_node} (h : n ∈ cell_nodes H grids layer ix iy)
    (ht : n.type = .SOURCE ∨ n.type = .SINK) : n.xlow = ix ∧ n.ylow = iy := by
  unfold cell_nodes at h
  split at h
  · cases h
  · split at h
    · cases h
    · simp only [List.mem_append] at h
      rcases h with ((h | h) | h) | h
      · rw [(mem_cell_source_nodes_type h).1]
        exact ⟨rfl, rfl⟩
      · rw [(mem_cell_sink_nodes_type h).1]
        exact ⟨rfl, rfl⟩
      · rw [mem_cell_pin_nodes_type h] at ht
        simp at ht
      · rw [mem_cell_pin_nodes_type h] at ht
        simp at ht

/-- The filter that selects the SOURCE or SINK node of class `c` rooted at cell (x, y). -/
theorem filter_cell_nodes_class (H : GridHelpers) (grids : DeviceGrid) (layer x y c : Nat)
    (hne : H.is_empty_type (grids.get_physical_type ⟨x, y, layer⟩) = false)
    (hwo : grids.get_width_offset ⟨x, y, layer⟩ = 0)
    (hho : grids.get_height_offset ⟨x, y, layer⟩ = 0)
    (hc : c < (grids.get_physical_type ⟨x, y, layer⟩).class_inf.length) :
    (cell_nodes H grids layer x y).filter
        (fun n => decide ((n.type = .SOURCE ∨ n.type = .SINK) ∧ n.xlow = x ∧ n.ylow = y ∧ n.ptc_num = c))
      = (if (class_at (grids.get_physical_type ⟨x, y, layer⟩) c).type = .DRIVER then
            [source_node H layer x y (grids.get_physical_type ⟨x, y, layer⟩) c] else [])
        ++ (if (class_at (grids.get_physical_type ⟨x, y, layer⟩) c).type = .RECEIVER then
            [sink_node H layer x y (grids.get_physical_type ⟨x, y, layer⟩) c] else []) := by
  unfold cell_nodes
  simp only [hne, hwo, hho, Nat.lt_irrefl, or_self, if_false, Bool.false_eq_true, List.filter_append]
  have e3 : ∀ s pt ty ci, (ty = t_rr_type.OPIN ∨ ty = t_rr_type.IPIN) →
      (cell_pin_nodes H grids layer x y s pt ty ci).filter
        (fun n => decide ((n.type = .SOURCE ∨ n.type = .SINK) ∧ n.xlow = x ∧ n.ylow = y ∧ n.ptc_num = c))
      = [] := by
    intro s pt ty ci hty
    rw [List.filter_eq_nil_iff]
    intro n hn
    rw [decide_eq_true_eq, mem_cell_pin_nodes_type hn]
    rcases hty with e | e <;> simp [e]
  rw [e3 _ _ _ _ (Or.inl rfl), e3 _ _ _ _ (Or.inr rfl), List.append_nil, List.append_nil]
  congr 1
  · unfold cell_source_nodes
    rw [filter_flatMap_of_unique _ _ _ c (List.nodup_range _) (List.mem_range.mpr hc)]
    · split <;> simp [source_node]
    · intro i _ hic
      split <;> simp [source_node, hic]
  · unfold cell_sink_nodes
    rw [filter_flatMap_of_unique _ _ _ c (List.nodup_range _) (List.mem_range.mpr hc)]
    · split <;> simp [sink_node]
    · intro i _ hic
      split <;> simp [sink_node, hic]

theorem filter_grid_nodes_class (H : GridHelpers) (grids : DeviceGrid) (layer x y c : Nat)
    (hx : x < grids.width) (hy : y < grids.height) :
    (grid_nodes H grids layer).filter
        (fun n => decide ((n.type = .SOURCE ∨ n.type = .SINK) ∧ n.xlow = x ∧ n.ylow = y ∧ n.ptc_num = c))
      = (cell_nodes H grids layer x y).filter
        (fun n => decide ((n.type = .SOURCE ∨ n.type = .SINK) ∧ n.xlow = x ∧ n.ylow = y ∧ n.ptc_num = c)) := by
  unfold grid_nodes
  rw [filter_flatMap_of_unique _ _ _ y (List.nodup_range _) (List.mem_range.mpr hy)]
  · rw [filter_flatMap_of_unique _ _ _ x (List.nodup_range _) (List.mem_range.mpr hx)]
    intro ix _ hix
    rw [List.filter_eq_nil_iff]
    intro n hn
    rw [decide_eq_true_eq]
    rintro ⟨ht, hxl, _, _⟩
    exact hix ((mem_cell_nodes_low_corner hn ht).1.symm.trans hxl)
  · intro iy _ hiy
    apply filter_flatMap_eq_nil
    intro ix _
    rw [List.filter_eq_nil_iff]
    intro n hn
    rw [decide_eq_true_eq]
    rintro ⟨ht, _, hyl, _⟩
    exact hiy ((mem_cell_nodes_low_corner hn ht).2.symm.trans hyl)

/-- C8. For every non-empty origin cell (x, y) whose tile type has width w and height h,
and for every class c of that type, the grid node loader creates exactly one node for c:
a SOURCE if the class type is DRIVER, a SINK if it is RECEIVER, with class number c,
bounding box (x, y, x+w-1, y+h-1) and capacity equal to the class's num_pins. The nodes
for c are the created SOURCE and SINK nodes rooted at (x, y) with ptc number c. -/
theorem load_grid_nodes_basic_info_one_node_per_class (H : GridHelpers) (st : RRBuildState)
    (grids : DeviceGrid) (layer wire_to_ipin_switch delayless_switch x y c : Nat)
    (hx : x < grids.width) (hy : y < grids.height)
    (hne : H.is_empty_type (grids.get_physical_type ⟨x, y, layer⟩) = false)
    (hwo : grids.get_width_offset ⟨x, y, layer⟩ = 0)
    (hho : grids.get_height_offset ⟨x, y, layer⟩ = 0)
    (hc : c < (grids.get_physical_type ⟨x, y, layer⟩).class_inf.length) :
    ((class_at (grids.get_physical_type ⟨x, y, layer⟩) c).type = .DRIVER →
      ((load_grid_nodes_basic_info H st grids layer wire_to_ipin_switch delayless_switch).nodes.drop
          st.nodes.length).filter
        (fun n => decide ((n.type = .SOURCE ∨ n.type = .SINK) ∧ n.xlow = x ∧ n.ylow = y ∧ n.ptc_num = c))
      = [{ type := .SOURCE, layer := layer, xlow := x, ylow := y,
           xhigh := x + (grids.get_physical_type ⟨x, y, layer⟩).width - 1,
           yhigh := y + (grids.get_physical_type ⟨x, y, layer⟩).height - 1,
           ptc_num := c, capacity := (class_at (grids.get_physical_type ⟨x, y, layer⟩) c).num_pins,
           direction := .NONE, cost_index := H.SOURCE_COST_INDEX, sides := [] }])
    ∧ ((class_at (grids.get_physical_type ⟨x, y, layer⟩) c).type = .RECEIVER →
      ((load_grid_nodes_basic_info H st grids layer wire_to_ipin_switch delayless_switch).nodes.drop
          st.nodes.length).filter
        (fun n => decide ((n.type = .SOURCE ∨ n.type = .SINK) ∧ n.xlow = x ∧ n.ylow = y ∧ n.ptc_num = c))
      = [{ type := .SINK, layer := layer, xlow := x, ylow := y,
           xhigh := x + (grids.get_physical_type ⟨x, y, layer⟩).width - 1,
           yhigh := y + (grids.get_physical_type ⟨x, y, layer⟩).height - 1,
           ptc_num := c, capacity := (class_at (grids.get_physical_type ⟨x, y, layer⟩) c).num_pins,
           direction := .NONE, cost_index := H.SINK_COST_INDEX, sides := [] }]) := by
  rw [load_grid_nodes_basic_info_nodes, List.drop_left, filter_grid_nodes_class H grids layer x y c hx hy,
    filter_cell_nodes_class H grids layer x y c hne hwo hho hc]
  constructor
  · intro hd
    simp [hd, source_node]
  · intro hr
    simp [hr, sink_node]

/-- Witness for C8 on `ex_clb_grid`: class 1 (DRIVER, one pin) and class 0 (RECEIVER, two pins). -/
theorem load_grid_nodes_basic_info_one_node_per_class_witness :
    ((load_grid_nodes_basic_info ex_clb_helpers RRBuildState.empty ex_clb_grid 0 7 9).nodes.drop 0).filter
        (fun n => decide ((n.type = .SOURCE ∨ n.type = .SINK) ∧ n.xlow = 0 ∧ n.ylow = 0 ∧ n.ptc_num = 1))
      = [{ type := .SOURCE, layer := 0, xlow := 0, ylow := 0, xhigh := 0, yhigh := 0, ptc_num := 1,
           capacity := 1, direction := .NONE, cost_index := 0, sides := [] }] :=
  (load_grid_nodes_basic_info_one_node_per_class ex_clb_helpers RRBuildState.empty ex_clb_grid 0 7 9
    0 0 1 (by decide) (by decide) rfl rfl rfl (by decide)).1 (by decide)


theorem switches_assigned_step {w d base : Nat} {s s' : RRBuildState} {n : t_rr_node}
    (hn : s'.nodes = s.nodes ++ [n])
    (hs : s'.rr_node_driver_switches
            = Function.update s.rr_node_driver_switches s.nodes.length (grid_node_driver_switch w d n.type))
    (h : switches_assigned w d base s) : switches_assigned w d base s' := by
  intro k m hk hm
  rw [hn] at hm
  rw [hs]
  by_cases hlt : k < s.nodes.length
  · rw [List.getElem?_append_left hlt] at hm
    rw [Function.update_noteq (Nat.ne_of_lt hlt)]
    exact h k m hk hm
  · have hge : s.nodes.length ≤ k := Nat.le_of_not_lt hlt
    rw [List.getElem?_append_right hge] at hm
    by_cases hk0 : k = s.nodes.length
    · subst hk0
      simp only [Nat.sub_self, List.getElem?_cons_zero, Option.some.injEq] at hm
      subst hm
      rw [Function.update_same]
    · have : k - s.nodes.length = (k - s.nodes.length - 1) + 1 := by omega
      rw [this] at hm
      simp at hm

theorem load_one_source_node_switches (H : GridHelpers) (w d base : Nat) (st : RRBuildState)
    (layer gx gy : Nat) (t : t_physical_tile_type) (iclass : Nat)
    (h : switches_assigned w d base st) :
    switches_assigned w d base (load_one_source_node H st layer gx gy t d iclass) := by
  by_cases hd : (class_at t iclass).type = .DRIVER
  · refine switches_assigned_step (n := source_node H layer gx gy t iclass) ?_ ?_ h
    · rw [load_one_source_node_nodes, if_pos hd]
    · have h' : ¬ (e_pin_type.DRIVER ≠ (class_at t iclass).type) := fun e => e hd.symm
      simp [load_one_source_node, h', create_node, set_node_coordinates, set_node_ptc_num,
        set_node_layer, set_node_capacity, set_node_cost_index, set_driver_switch, modify_node,
        source_node, grid_node_driver_switch]
  · have h' : e_pin_type.DRIVER ≠ (class_at t iclass).type := fun e => hd e.symm
    simpa [load_one_source_node, h'] using h

theorem load_one_sink_node_switches (H : GridHelpers) (w d base : Nat) (st : RRBuildState)
    (layer gx gy : Nat) (t : t_physical_tile_type) (iclass : Nat)
    (h : switches_assigned w d base st) :
    switches_assigned w d base (load_one_sink_node H st layer gx gy t d iclass) := by
  by_cases hd : (class_at t iclass).type = .RECEIVER
  · refine switches_assigned_step (n := sink_node H layer gx gy t iclass) ?_ ?_ h
    · rw [load_one_sink_node_nodes, if_pos hd]
    · have h' : ¬ (e_pin_type.RECEIVER ≠ (class_at t iclass).type) := fun e => e hd.symm
      simp [load_one_sink_node, h', create_node, set_node_coordinates, set_node_ptc_num,
        set_node_layer, set_node_capacity, set_node_cost_index, set_driver_switch, modify_node,
        sink_node, grid_node_driver_switch]
  · have h' : e_pin_type.RECEIVER ≠ (class_at t iclass).type := fun e => hd e.symm
    simpa [load_one_sink_node, h'] using h

theorem load_one_opin_node_switches (H : GridHelpers) (w d base : Nat) (st : RRBuildState)
    (layer gx gy width height : Nat) (side : e_side) (pin_num : Nat)
    (h : switches_assigned w d base st) :
    switches_assigned w d base (load_one_opin_node H st layer gx gy width height side d pin_num) := by
  refine switches_assigned_step
    (n := pin_node .OPIN H.OPIN_COST_INDEX layer (gx + width) (gy + height) side pin_num) ?_ ?_ h
  · rw [load_one_opin_node_nodes]
  · simp [load_one_opin_node, create_node, set_node_coordinates, set_node_ptc_num, add_node_side,
      set_node_layer, set_node_capacity, set_node_cost_index, set_driver_switch, modify_node,
      pin_node, grid_node_driver_switch]

theorem load_one_ipin_node_switches (H : GridHelpers) (w d base : Nat) (st : RRBuildState)
    (layer gx gy width height : Nat) (side : e_side) (pin_num : Nat)
    (h : switches_assigned w d base st) :
    switches_assigned w d base (load_one_ipin_node H st layer gx gy width height side w pin_num) := by
  refine switches_assigned_step
    (n := pin_node .IPIN H.IPIN_COST_INDEX layer (gx + width) (gy + height) side pin_num) ?_ ?_ h
  · rw [load_one_ipin_node_nodes]
  · simp [load_one_ipin_node, create_node, set_node_coordinates, set_node_ptc_num, add_node_side,
      set_node_layer, set_node_capacity, set_node_cost_index, set_driver_switch, modify_node,
      pin_node, grid_node_driver_switch]

theorem load_grid_nodes_cell_switches (H : GridHelpers) (w d base : Nat) (st : RRBuildState)
    (grids : DeviceGrid) (layer ix iy : Nat) (h : switches_assigned w d base st) :
    switches_assigned w d base (load_grid_nodes_cell H st grids layer w d ix iy) := by
  unfold load_grid_nodes_cell
  split
  · exact h
  · split
    · exact h
    · dsimp only
      unfold load_one_grid_ipin_nodes_basic_info
      refine foldl_invariant _ _ (fun s1 width h1 => ?_) _ _ ?_
      · refine foldl_invariant _ _ (fun s2 height h2 => ?_) _ _ h1
        refine foldl_invariant _ _ (fun s3 side h3 => ?_) _ _ h2
        split
        · exact h3
        · exact foldl_invariant _ _
            (fun s4 p h4 => load_one_ipin_node_switches H w d base s4 layer ix iy width height side p h4)
            _ _ h3
      · unfold load_one_grid_opin_nodes_basic_info
        refine foldl_invariant _ _ (fun s1 width h1 => ?_) _ _ ?_
        · refine foldl_invariant _ _ (fun s2 height h2 => ?_) _ _ h1
          refine foldl_invariant _ _ (fun s3 side h3 => ?_) _ _ h2
          split
          · exact h3
          · exact foldl_invariant _ _
              (fun s4 p h4 => load_one_opin_node_switches H w d base s4 layer ix iy width height side p h4)
              _ _ h3
        · unfold load_one_grid_sink_nodes_basic_info
          refine foldl_invariant _ _
            (fun s1 i h1 => load_one_sink_node_switches H w d base s1 layer ix iy _ i h1) _ _ ?_
          unfold load_one_grid_source_nodes_basic_info
          exact foldl_invariant _ _
            (fun s1 i h1 => load_one_source_node_switches H w d base s1 layer ix iy _ i h1) _ _ h

/-- C9, as the code has it. Every node that the grid node loader creates is assigned a
driver switch by its kind: an IPIN gets the wire-to-pin switch (`wire_to_ipin_switch`);
a SOURCE, a SINK and an OPIN get the delayless switch. -/
theorem load_grid_nodes_basic_info_driver_switches (H : GridHelpers) (st : RRBuildState)
    (grids : DeviceGrid) (layer wire_to_ipin_switch delayless_switch : Nat) (k : Nat) (n : t_rr_node)
    (hk : st.nodes.length ≤ k)
    (hn : (load_grid_nodes_basic_info H st grids layer wire_to_ipin_switch delayless_switch).nodes[k]?
            = some n) :
    (n.type = .SOURCE ∨ n.type = .SINK ∨ n.type = .OPIN ∨ n.type = .IPIN)
    ∧ (load_grid_nodes_basic_info H st grids layer wire_to_ipin_switch
          delayless_switch).rr_node_driver_switches k
        = (if n.type = .IPIN then wire_to_ipin_switch else delayless_switch) := by
  constructor
  · rw [load_grid_nodes_basic_info_nodes, List.getElem?_append_right hk] at hn
    have hmem : n ∈ grid_nodes H grids layer := List.mem_iff_getElem?.mpr ⟨_, hn⟩
    unfold grid_nodes at hmem
    simp only [List.mem_flatMap] at hmem
    obtain ⟨iy, _, ix, _, hc⟩ := hmem
    unfold cell_nodes at hc
    split at hc
    · cases hc
    · split at hc
      · cases hc
      · simp only [List.mem_append] at hc
        rcases hc with ((h | h) | h) | h
        · rw [(mem_cell_source_nodes_type h).1]
          exact Or.inl rfl
        · rw [(mem_cell_sink_nodes_type h).1]
          exact Or.inr (Or.inl rfl)
        · exact Or.inr (Or.inr (Or.inl (mem_cell_pin_nodes_type h)))
        · exact Or.inr (Or.inr (Or.inr (mem_cell_pin_nodes_type h)))
  · have h0 : switches_assigned wire_to_ipin_switch delayless_switch st.nodes.length st := by
      intro k' m hk' hm
      rw [List.getElem?_eq_none hk'] at hm
      cases hm
    have h1 : switches_assigned wire_to_ipin_switch delayless_switch st.nodes.length
        ((List.range grids.height).foldl
          (fun st iy =>
            (List.range grids.width).foldl
              (fun st ix =>
                load_grid_nodes_cell H st grids layer wire_to_ipin_switch delayless_switch ix iy)
              st)
          st) :=
      foldl_invariant _ _
        (fun s1 iy hs1 => foldl_invariant _ _
          (fun s2 ix hs2 => load_grid_nodes_cell_switches H _ _ _ s2 grids layer ix iy hs2) _ _ hs1)
        _ _ h0
    unfold load_grid_nodes_basic_info at hn ⊢
    simp only [(mirror_loops_nodes_switches grids _).1, (mirror_loops_nodes_switches grids _).2] at hn ⊢
    exact h1 k n hk hn

/-- Witness for C9 on `ex_clb_grid`: node 2 is the OPIN of pin 2, node 3 an IPIN. -/
theorem load_grid_nodes_basic_info_driver_switches_witness :
    (load_grid_nodes_basic_info ex_clb_helpers RRBuildState.empty ex_clb_grid 0 7 9).rr_node_driver_switches 3
      = 7 :=
  (load_grid_nodes_basic_info_driver_switches ex_clb_helpers RRBuildState.empty ex_clb_grid 0 7 9 3
    (pin_node .IPIN 3 0 0 0 .TOP 0) (by decide) (by decide)).2

/-- C9, as stated, fails: on `ex_clb_grid` with wire-to-pin switch 7 and delayless switch 9
the loader creates the OPIN node 2 and assigns it the delayless switch 9, not switch 7. -/
theorem load_grid_nodes_basic_info_opin_switch_counterexample :
    ¬ (∀ k n,
        (load_grid_nodes_basic_info ex_clb_helpers RRBuildState.empty ex_clb_grid 0 7 9).nodes[k]? = some n →
        (n.type = .OPIN ∨ n.type = .IPIN) →
        (load_grid_nodes_basic_info ex_clb_helpers RRBuildState.empty ex_clb_grid 0 7 9).rr_node_driver_switches k
          = 7) := by
  intro h
  have h2 := h 2 (pin_node .OPIN 2 0 0 0 .RIGHT 2) (by decide) (Or.inl rfl)
  revert h2
  decide

/-! ## Sink compaction -/

theorem foldl_remove_lookup {ι : Type} (T : ι → Prop) (v : RRSpatialLookup → Option Nat)
    (step : RRSpatialLookup → ι → RRSpatialLookup) (node : Nat)
    (hA : ∀ l c, T c → v l = some node → v (step l c) = none)
    (hB : ∀ l c, ¬ (T c ∧ v l = some node) → v (step l c) = v l)
    (cs : List ι) (l : RRSpatialLookup) :
    (((∃ c ∈ cs, T c) ∧ v l = some node) → v (cs.foldl step l) = none)
    ∧ (¬ ((∃ c ∈ cs, T c) ∧ v l = some node) → v (cs.foldl step l) = v l) := by
  induction cs generalizing l with
  | nil =>
    constructor
    · rintro ⟨⟨c, hc, _⟩, _⟩
      cases hc
    · intro _
      rfl
  | cons c cs ih =>
    rw [List.foldl_cons]
    by_cases h1 : T c ∧ v l = some node
    · have e1 : v (step l c) = none := hA l c h1.1 h1.2
      have e2 : v (cs.foldl step (step l c)) = none := by
        rw [(ih (step l c)).2 (fun h => by rw [e1] at h; cases h.2), e1]
      constructor
      · intro _
        exact e2
      · intro h
        exact absurd ⟨⟨c, List.mem_cons_self _ _, h1.1⟩, h1.2⟩ h
    · have e1 : v (step l c) = v l := hB l c h1
      constructor
      · rintro ⟨⟨c', hc', hT⟩, hl⟩
        rcases List.mem_cons.mp hc' with e | e
        · subst e
          exact absurd ⟨hT, hl⟩ h1
        · exact (ih (step l c)).1 ⟨⟨c', e, hT⟩, e1.trans hl⟩
      · intro h
        rw [(ih (step l c)).2 (fun h' => h ⟨by
          obtain ⟨c', hc', hT⟩ := h'.1
          exact ⟨c', List.mem_cons_of_mem _ hc', hT⟩, e1 ▸ h'.2⟩), e1]

/-- The spatial index after the removal loops of `set_sink_locs`: the entry of the sink is
gone from every cell of the footprint other than `(x_avg, y_avg)`; nothing else changes. -/
theorem remove_old_indices_lookup (l : RRSpatialLookup) (node_id tile_layer tile_xlow tile_ylow
    tile_xhigh tile_yhigh x_avg y_avg sink_ptc : Nat) (t : t_rr_type) (la i j : Nat) (s : e_side)
    (p : Nat) :
    (((t = .SINK ∧ la = tile_layer ∧ tile_xlow ≤ i ∧ i ≤ tile_xhigh ∧ tile_ylow ≤ j ∧ j ≤ tile_yhigh
          ∧ ¬ (i = x_avg ∧ j = y_avg) ∧ s = SIDES_0 ∧ p = sink_ptc)
        ∧ l t la i j s p = some node_id) →
      remove_old_indices l node_id tile_layer tile_xlow tile_ylow tile_xhigh tile_yhigh x_avg y_avg
        sink_ptc t la i j s p = none)
    ∧ (¬ ((t = .SINK ∧ la = tile_layer ∧ tile_xlow ≤ i ∧ i ≤ tile_xhigh ∧ tile_ylow ≤ j ∧ j ≤ tile_yhigh
          ∧ ¬ (i = x_avg ∧ j = y_avg) ∧ s = SIDES_0 ∧ p = sink_ptc)
        ∧ l t la i j s p = some node_id) →
      remove_old_indices l node_id tile_layer tile_xlow tile_ylow tile_xhigh tile_yhigh x_avg y_avg
        sink_ptc t la i j s p = l t la i j s p) := by
  have inner : ∀ (x : Nat) (l' : RRSpatialLookup),
      (((∃ y ∈ List.range' tile_ylow (tile_yhigh + 1 - tile_ylow),
            ¬ (x = x_avg ∧ y = y_avg) ∧ t = .SINK ∧ la = tile_layer ∧ i = x ∧ j = y ∧ s = SIDES_0
              ∧ p = sink_ptc) ∧ l' t la i j s p = some node_id) →
          ((List.range' tile_ylow (tile_yhigh + 1 - tile_ylow)).foldl
            (fun l y => if x = x_avg ∧ y = y_avg then l
                        else l.remove_node node_id tile_layer x y .SINK sink_ptc) l') t la i j s p = none)
      ∧ (¬ ((∃ y ∈ List.range' tile_ylow (tile_yhigh + 1 - tile_ylow),
            ¬ (x = x_avg ∧ y = y_avg) ∧ t = .SINK ∧ la = tile_layer ∧ i = x ∧ j = y ∧ s = SIDES_0
              ∧ p = sink_ptc) ∧ l' t la i j s p = some node_id) →
          ((List.range' tile_ylow (tile_yhigh + 1 - tile_ylow)).foldl
            (fun l y => if x = x_avg ∧ y = y_avg then l
                        else l.remove_node node_id tile_layer x y .SINK sink_ptc) l') t la i j s p
            = l' t la i j s p) := by
    intro x l'
    refine foldl_remove_lookup
      (fun y => ¬ (x = x_avg ∧ y = y_avg) ∧ t = .SINK ∧ la = tile_layer ∧ i = x ∧ j = y ∧ s = SIDES_0
        ∧ p = sink_ptc) (fun l => l t la i j s p) _ node_id ?_ ?_ _ l'
    · rintro l'' y ⟨hne, ht, hla, hi, hj, hs, hp⟩ hl
      simp only [hne, if_false, RRSpatialLookup.remove_node]
      rw [if_pos ⟨ht, hla, hi, hj, hs, hp, hl⟩]
    · intro l'' y hn
      by_cases hskip : x = x_avg ∧ y = y_avg
      · simp only [hskip, and_self, if_true]
      · simp only [hskip, if_false, RRSpatialLookup.remove_node]
        rw [if_neg]
        rintro ⟨ht, hla, hi, hj, hs, hp, hl⟩
        exact hn ⟨⟨hskip, ht, hla, hi, hj, hs, hp⟩, hl⟩
  have hiff : (∃ c ∈ List.range' tile_xlow (tile_xhigh + 1 - tile_xlow),
      ∃ y ∈ List.range' tile_ylow (tile_yhigh + 1 - tile_ylow),
        ¬ (c = x_avg ∧ y = y_avg) ∧ t = .SINK ∧ la = tile_layer ∧ i = c ∧ j = y ∧ s = SIDES_0
          ∧ p = sink_ptc)
      ↔ (t = .SINK ∧ la = tile_layer ∧ tile_xlow ≤ i ∧ i ≤ tile_xhigh ∧ tile_ylow ≤ j ∧ j ≤ tile_yhigh
          ∧ ¬ (i = x_avg ∧ j = y_avg) ∧ s = SIDES_0 ∧ p = sink_ptc) := by
    constructor
    · rintro ⟨c, hc, y, hy, hne, ht, hla, rfl, rfl, hs, hp⟩
      rw [List.mem_range'_1] at hc hy
      exact ⟨ht, hla, hc.1, by omega, hy.1, by omega, hne, hs, hp⟩
    · rintro ⟨ht, hla, h1, h2, h3, h4, hne, hs, hp⟩
      exact ⟨i, List.mem_range'_1.mpr ⟨h1, by omega⟩, j, List.mem_range'_1.mpr ⟨h3, by omega⟩,
        hne, ht, hla, rfl, rfl, hs, hp⟩
  have outer := foldl_remove_lookup
    (fun x => ∃ y ∈ List.range' tile_ylow (tile_yhigh + 1 - tile_ylow),
      ¬ (x = x_avg ∧ y = y_avg) ∧ t = .SINK ∧ la = tile_layer ∧ i = x ∧ j = y ∧ s = SIDES_0
        ∧ p = sink_ptc) (fun l => l t la i j s p)
    (fun l x => (List.range' tile_ylow (tile_yhigh + 1 - tile_ylow)).foldl
      (fun l y => if x = x_avg ∧ y = y_avg then l
                  else l.remove_node node_id tile_layer x y .SINK sink_ptc) l) node_id
    (fun l' x hT hl => (inner x l').1 ⟨hT, hl⟩) (fun l' x hn => (inner x l').2 hn)
    (List.range' tile_xlow (tile_xhigh + 1 - tile_xlow)) l
  rw [hiff] at outer
  exact outer

theorem round_avg_eq_round (coords : List Nat) (h : coords ≠ []) :
    ((round_avg coords : Nat) : Int) = round ((coords.sum : ℚ) / (coords.length : ℚ)) := by
  have hn : (0 : ℚ) < (coords.length : ℚ) := by
    have : 0 < coords.length := List.length_pos.mpr h
    exact_mod_cast this
  rw [round_eq]
  have e : (coords.sum : ℚ) / (coords.length : ℚ) + 1 / 2
      = ((2 * coords.sum + coords.length : Nat) : ℚ) / ((2 * coords.length : Nat) : ℚ) := by
    push_cast
    field_simp
    ring
  rw [e, Rat.floor_natCast_div_natCast]
  unfold round_avg
  norm_cast

/-! ## The average of `set_sink_locs` in `float` and in exact arithmetic -/

theorem least_from_spec (p : Nat → Bool) :
    ∀ (fuel e : Nat), (∃ k, e ≤ k ∧ k ≤ e + fuel ∧ p k = true) → p (least_from p fuel e) = true
  | 0, e, ⟨k, h1, h2, h3⟩ => by
    have : k = e := by omega
    subst this
    exact h3
  | fuel + 1, e, ⟨k, h1, h2, h3⟩ => by
    unfold least_from
    by_cases hp : p e = true
    · rw [if_pos hp]
      exact hp
    · rw [if_neg hp]
      refine least_from_spec p fuel (e + 1) ⟨k, ?_, by omega, h3⟩
      by_contra hlt
      have : k = e := by omega
      subst this
      exact hp h3

theorem float_round_of_le (n : Nat) (h : n ≤ 2 ^ 24) : float_round n = n := by
  rcases Nat.lt_or_ge n (2 ^ 24) with h1 | h1
  · unfold float_round
    rw [if_pos h1]
  · have : n = 2 ^ 24 := Nat.le_antisymm h h1
    subst this
    decide

theorem foldl_float_round_exact (l : List Nat) :
    ∀ acc, acc + l.sum ≤ 2 ^ 24 →
      l.foldl (fun acc x => float_round (acc + float_round x)) acc = acc + l.sum := by
  induction l with
  | nil => intro acc _; simp
  | cons a as ih =>
    intro acc h
    simp only [List.sum_cons] at h
    rw [List.foldl_cons, float_round_of_le a (by omega), float_round_of_le (acc + a) (by omega),
      ih (acc + a) (by omega), List.sum_cons]
    omega

theorem float_accumulate_exact (l : List Nat) (h : l.sum ≤ 2 ^ 24) : float_accumulate l = l.sum := by
  unfold float_accumulate
  rw [foldl_float_round_exact l 0 (by omega)]
  omega

theorem round_double_div_exact (s n : Nat) (hn : 0 < n) (hs : s < 2 ^ 51) :
    round_double_div s n = (2 * s + n) / (2 * n) := by
  unfold round_double_div
  by_cases h0 : s = 0
  · subst h0
    rw [if_pos (Or.inl rfl)]
    exact (Nat.div_eq_of_lt (by omega)).symm
  · rw [if_neg (by omega)]
    dsimp only
    have hp := least_from_spec (fun t => decide (n * 2 ^ 52 ≤ s * 2 ^ t)) (n + 52) 0
      ⟨n + 52, by omega, by omega, by
        have h1 : n < 2 ^ n := Nat.lt_two_pow n
        have h2 : 2 ^ (n + 52) = 2 ^ n * 2 ^ 52 := pow_add 2 n 52
        have h3 : 1 * 2 ^ (n + 52) ≤ s * 2 ^ (n + 52) := Nat.mul_le_mul_right _ (by omega)
        have h4 : n * 2 ^ 52 ≤ 2 ^ n * 2 ^ 52 := Nat.mul_le_mul_right _ (by omega)
        exact decide_eq_true (by omega)⟩
    generalize least_from (fun t => decide (n * 2 ^ 52 ≤ s * 2 ^ t)) (n + 52) 0 = t at hp ⊢
    have hp' : n * 2 ^ 52 ≤ s * 2 ^ t := of_decide_eq_true hp
    have ht : t ≠ 0 := by
      intro e
      subst e
      have : 1 * 2 ^ 52 ≤ n * 2 ^ 52 := Nat.mul_le_mul_right _ hn
      omega
    obtain ⟨u, rfl⟩ := Nat.exists_eq_succ_of_ne_zero ht
    have e1 : 2 ^ (u + 1) = 2 * 2 ^ u := by rw [pow_succ]; ring
    have e2 : 2 ^ (u + 1 + 1) = 4 * 2 ^ u := by rw [pow_succ, pow_succ]; ring
    rw [e1] at hp'
    rw [e1, e2]
    generalize 2 ^ u = P at hp' ⊢
    have hnP : n < P := by
      by_contra hge
      have h1 : P * 2 ^ 52 ≤ n * 2 ^ 52 := Nat.mul_le_mul_right _ (by omega)
      have h2 : s * (2 * P) ≤ (2 ^ 51 - 1) * (2 * P) := Nat.mul_le_mul_right _ (by omega)
      have hP : 0 < P := by
        rcases Nat.eq_zero_or_pos P with h | h
        · subst h
          omega
        · exact h
      omega
    have hdm := Nat.div_add_mod (s * (2 * P)) n
    have hr : s * (2 * P) % n < n := Nat.mod_lt _ hn
    generalize s * (2 * P) / n = q at hdm ⊢
    generalize s * (2 * P) % n = r at hdm hr ⊢
    have hk1 := Nat.div_mul_le_self (2 * s + n) (2 * n)
    have hk2 := Nat.lt_div_mul_add (a := 2 * s + n) (b := 2 * n) (by omega)
    generalize (2 * s + n) / (2 * n) = k at hk1 hk2 ⊢
    have hm : ∃ m, (if 2 * r < n ∨ (2 * r = n ∧ q % 2 = 0) then q else q + 1) = m
        ∧ (m = q ∨ (m = q + 1 ∧ n ≤ 2 * r)) := by
      by_cases hc : 2 * r < n ∨ (2 * r = n ∧ q % 2 = 0)
      · exact ⟨q, if_pos hc, Or.inl rfl⟩
      · refine ⟨q + 1, if_neg hc, Or.inr ⟨rfl, ?_⟩⟩
        by_contra hlt
        exact hc (Or.inl (by omega))
    obtain ⟨m, em, hm⟩ := hm
    rw [em]
    apply Nat.div_eq_of_lt_le
    · -- k * (4 * P) ≤ 2 * m + 2 * P
      have h1 : n * (2 * k * P) < n * (q + P + 1) := by nlinarith
      have h2 := Nat.lt_of_mul_lt_mul_left h1
      rcases hm with rfl | ⟨rfl, _⟩ <;> nlinarith
    · -- 2 * m + 2 * P < (k + 1) * (4 * P)
      rcases hm with rfl | ⟨rfl, h2r⟩
      · have h1 : n * (m + P) < n * (2 * (k + 1) * P) := by nlinarith
        have h2 := Nat.lt_of_mul_lt_mul_left h1
        nlinarith
      · have h1 : n * (q + 1 + P) < n * (2 * (k + 1) * P) := by nlinarith
        have h2 := Nat.lt_of_mul_lt_mul_left h1
        nlinarith

/-- The average that the code computes is the rounded average of exact arithmetic when the
sum of the coordinates does not exceed 2^24, where every partial sum is a `float`. -/
theorem float_avg_eq_round_avg (l : List Nat) (hne : l ≠ []) (h : l.sum ≤ 2 ^ 24) :
    float_avg l = round_avg l := by
  unfold float_avg round_avg
  rw [float_accumulate_exact l h]
  exact round_double_div_exact _ _ (List.length_pos.mpr hne) (by omega)

theorem node_at_modify_node_same (st : RRBuildState) (node : Nat) (f : t_rr_node → t_rr_node)
    (h : node < st.nodes.length) : node_at (modify_node st node f) node = f (node_at st node) := by
  simp [node_at, modify_node, List.getD_eq_getElem?_getD, List.getElem?_modify_eq,
    List.getElem?_eq_getElem h]

theorem node_at_modify_node_ne (st : RRBuildState) (node m : Nat) (f : t_rr_node → t_rr_node)
    (h : node ≠ m) : node_at (modify_node st node f) m = node_at st m := by
  simp [node_at, modify_node, List.getD_eq_getElem?_getD, List.getElem?_modify_ne _ _ h]

theorem size_t_sub_ne_zero {a b : Nat} (h : b < a) (ha : a < 2 ^ 15) : size_t_sub a b ≠ 0 := by
  unfold size_t_sub
  omega

/-- The computed branch of `set_sink_locs_node`, spelled out. -/
theorem set_sink_locs_node_computed (grid : DeviceGrid) (s : SinkLocState) (node : Nat)
    (n : t_rr_node) (pins : List Nat)
    (hnode : node < s.st.nodes.length) (hn : node_at s.st node = n) (hsink : n.type = .SINK)
    (hmulti : n.xlow < n.xhigh ∨ n.ylow < n.yhigh) (hxs : n.xhigh < 2 ^ 15) (hys : n.yhigh < 2 ^ 15)
    (hmemo : s.physical_type_offsets (grid.get_physical_type ⟨n.xlow, n.ylow, n.layer⟩) n.ptc_num = none)
    (hpins : sink_ipins s.st node n.xlow n.ylow n.xhigh n.yhigh = pins) (hne : pins ≠ []) :
    node_at (set_sink_locs_node grid s node).st node
        = { n with xlow := float_avg (pins.map (fun pin => (node_at s.st pin).xlow)),
                   ylow := float_avg (pins.map (fun pin => (node_at s.st pin).ylow)),
                   xhigh := float_avg (pins.map (fun pin => (node_at s.st pin).xlow)),
                   yhigh := float_avg (pins.map (fun pin => (node_at s.st pin).ylow)) }
      ∧ (set_sink_locs_node grid s node).st.node_lookup
        = remove_old_indices s.st.node_lookup node n.layer n.xlow n.ylow n.xhigh n.yhigh
            (float_avg (pins.map (fun pin => (node_at s.st pin).xlow)))
            (float_avg (pins.map (fun pin => (node_at s.st pin).ylow))) n.ptc_num := by
  have hw : ¬ (size_t_sub n.xhigh n.xlow = 0 ∧ size_t_sub n.yhigh n.ylow = 0) := by
    rintro ⟨h1, h2⟩
    rcases hmulti with h | h
    · exact size_t_sub_ne_zero h hxs h1
    · exact size_t_sub_ne_zero h hys h2
  unfold set_sink_locs_node
  simp only [hn, hsink, ne_eq, not_true_eq_false, if_false, hw, hmemo, hpins, hne]
  constructor
  · unfold set_node_coordinates
    refine (node_at_modify_node_same _ _ _ hnode).trans ?_
    have e : ∀ l : RRSpatialLookup, node_at { s.st with node_lookup := l } node = n := fun _ => hn
    rw [e]
    simp [hsink]
  · rfl

/-- The computed branch of `set_sink_locs_node` for pins whose coordinate sums do not exceed
2^24 (512 pins at most, for instance), where the `float` sums are exact: the new location
is the rounded average of the pins. -/
theorem set_sink_locs_node_computed_exact (grid : DeviceGrid) (s : SinkLocState) (node : Nat)
    (n : t_rr_node) (pins : List Nat)
    (hnode : node < s.st.nodes.length) (hn : node_at s.st node = n) (hsink : n.type = .SINK)
    (hmulti : n.xlow < n.xhigh ∨ n.ylow < n.yhigh) (hxs : n.xhigh < 2 ^ 15) (hys : n.yhigh < 2 ^ 15)
    (hmemo : s.physical_type_offsets (grid.get_physical_type ⟨n.xlow, n.ylow, n.layer⟩) n.ptc_num = none)
    (hpins : sink_ipins s.st node n.xlow n.ylow n.xhigh n.yhigh = pins) (hne : pins ≠ [])
    (hsx : (pins.map (fun pin => (node_at s.st pin).xlow)).sum ≤ 2 ^ 24)
    (hsy : (pins.map (fun pin => (node_at s.st pin).ylow)).sum ≤ 2 ^ 24) :
    node_at (set_sink_locs_node grid s node).st node
        = { n with xlow := round_avg (pins.map (fun pin => (node_at s.st pin).xlow)),
                   ylow := round_avg (pins.map (fun pin => (node_at s.st pin).ylow)),
                   xhigh := round_avg (pins.map (fun pin => (node_at s.st pin).xlow)),
                   yhigh := round_avg (pins.map (fun pin => (node_at s.st pin).ylow)) }
      ∧ (set_sink_locs_node grid s node).st.node_lookup
        = remove_old_indices s.st.node_lookup node n.layer n.xlow n.ylow n.xhigh n.yhigh
            (round_avg (pins.map (fun pin => (node_at s.st pin).xlow)))
            (round_avg (pins.map (fun pin => (node_at s.st pin).ylow))) n.ptc_num := by
  have h := set_sink_locs_node_computed grid s node n pins hnode hn hsink hmulti hxs hys hmemo
    hpins hne
  rw [float_avg_eq_round_avg _ (by simpa using hne) hsx,
    float_avg_eq_round_avg _ (by simpa using hne) hsy] at h
  exact h

theorem round_avg_pair (x0 : Nat) (l : List Nat) (h : l.Perm [x0, x0 + 1]) :
    round_avg l = x0 + 1 := by
  unfold round_avg
  rw [h.sum_eq, h.length_eq]
  simp only [List.sum_cons, List.sum_nil, List.length_cons, List.length_nil]
  omega

/-- What C4 says holds on the code where the `float` sums of the coordinates are exact.
For a SINK with a multi-cell footprint whose (tile type, class) pair is not yet memoized and
that has at least one fan-in pin inside the footprint, with coordinate sums of at most 2^24
(512 pins at most, for instance), `set_sink_locs` sets the bounding box to the single cell
(round(mean x), round(mean y)) over the distinct in-footprint fan-in pins and removes the
sink's index entry at every other footprint cell (first part). For a 2x2 tile at origin
(x0, y0) with pins at local offsets (0, 0) and (1, 1) the sink ends at (x0+1, y0+1) and its
entries are gone from the other three cells (second part). Coordinates are those of a stored
node, below 2^15. -/
theorem set_sink_locs_node_relocates_exact :
    (∀ (grid : DeviceGrid) (s : SinkLocState) (node : Nat) (n : t_rr_node) (pins : List Nat),
      node < s.st.nodes.length → node_at s.st node = n → n.type = .SINK →
      (n.xlow < n.xhigh ∨ n.ylow < n.yhigh) → n.xhigh < 2 ^ 15 → n.yhigh < 2 ^ 15 →
      s.physical_type_offsets (grid.get_physical_type ⟨n.xlow, n.ylow, n.layer⟩) n.ptc_num = none →
      sink_ipins s.st node n.xlow n.ylow n.xhigh n.yhigh = pins → pins ≠ [] →
      (pins.map (fun pin => (node_at s.st pin).xlow)).sum ≤ 2 ^ 24 →
      (pins.map (fun pin => (node_at s.st pin).ylow)).sum ≤ 2 ^ 24 →
      ∃ x_avg y_avg : Nat,
        (x_avg : Int) = round (((pins.map (fun pin => (node_at s.st pin).xlow)).sum : ℚ) / (pins.length : ℚ))
        ∧ (y_avg : Int) = round (((pins.map (fun pin => (node_at s.st pin).ylow)).sum : ℚ) / (pins.length : ℚ))
        ∧ node_at (set_sink_locs_node grid s node).st node
            = { n with xlow := x_avg, ylow := y_avg, xhigh := x_avg, yhigh := y_avg }
        ∧ ∀ (t : t_rr_type) (la i j : Nat) (sd : e_side) (p : Nat),
            (((t = .SINK ∧ la = n.layer ∧ n.xlow ≤ i ∧ i ≤ n.xhigh ∧ n.ylow ≤ j ∧ j ≤ n.yhigh
                  ∧ ¬ (i = x_avg ∧ j = y_avg) ∧ sd = SIDES_0 ∧ p = n.ptc_num)
                ∧ s.st.node_lookup t la i j sd p = some node) →
              (set_sink_locs_node grid s node).st.node_lookup t la i j sd p = none)
            ∧ (¬ ((t = .SINK ∧ la = n.layer ∧ n.xlow ≤ i ∧ i ≤ n.xhigh ∧ n.ylow ≤ j ∧ j ≤ n.yhigh
                  ∧ ¬ (i = x_avg ∧ j = y_avg) ∧ sd = SIDES_0 ∧ p = n.ptc_num)
                ∧ s.st.node_lookup t la i j sd p = some node) →
              (set_sink_locs_node grid s node).st.node_lookup t la i j sd p
                = s.st.node_lookup t la i j sd p))
    ∧ (∀ (grid : DeviceGrid) (s : SinkLocState) (node x0 y0 : Nat) (n : t_rr_node) (pins : List Nat),
      node < s.st.nodes.length → node_at s.st node = n → n.type = .SINK →
      n.xlow = x0 → n.ylow = y0 → n.xhigh = x0 + 1 → n.yhigh = y0 + 1 →
      x0 + 1 < 2 ^ 15 → y0 + 1 < 2 ^ 15 →
      s.physical_type_offsets (grid.get_physical_type ⟨n.xlow, n.ylow, n.layer⟩) n.ptc_num = none →
      sink_ipins s.st node n.xlow n.ylow n.xhigh n.yhigh = pins →
      (pins.map (fun pin => ((node_at s.st pin).xlow, (node_at s.st pin).ylow))).Perm
        [(x0, y0), (x0 + 1, y0 + 1)] →
      node_at (set_sink_locs_node grid s node).st node
          = { n with xlow := x0 + 1, ylow := y0 + 1, xhigh := x0 + 1, yhigh := y0 + 1 }
        ∧ (∀ side : e_side,
            (set_sink_locs_node grid s node).st.node_lookup.find_node n.layer x0 y0 .SINK n.ptc_num side
                ≠ some node
            ∧ (set_sink_locs_node grid s node).st.node_lookup.find_node n.layer (x0 + 1) y0 .SINK
                n.ptc_num side ≠ some node
            ∧ (set_sink_locs_node grid s node).st.node_lookup.find_node n.layer x0 (y0 + 1) .SINK
                n.ptc_num side ≠ some node
            ∧ (set_sink_locs_node grid s node).st.node_lookup.find_node n.layer (x0 + 1) (y0 + 1) .SINK
                n.ptc_num side
              = s.st.node_lookup.find_node n.layer (x0 + 1) (y0 + 1) .SINK n.ptc_num side)) := by
  constructor
  · intro grid s node n pins hnode hn hsink hmulti hxs hys hmemo hpins hne hsx hsy
    obtain ⟨h1, h2⟩ := set_sink_locs_node_computed_exact grid s node n pins hnode hn hsink hmulti
      hxs hys hmemo hpins hne hsx hsy
    refine ⟨round_avg (pins.map (fun pin => (node_at s.st pin).xlow)),
      round_avg (pins.map (fun pin => (node_at s.st pin).ylow)), ?_, ?_, h1, ?_⟩
    · have := round_avg_eq_round (pins.map (fun pin => (node_at s.st pin).xlow)) (by simpa using hne)
      simpa using this
    · have := round_avg_eq_round (pins.map (fun pin => (node_at s.st pin).ylow)) (by simpa using hne)
      simpa using this
    · intro t la i j sd p
      rw [h2]
      exact remove_old_indices_lookup _ _ _ _ _ _ _ _ _ _ t la i j sd p
  · intro grid s node x0 y0 n pins hnode hn hsink hx0 hy0 hx1 hy1 hxs hys hmemo hpins hperm
    have hne : pins ≠ [] := by
      intro e
      rw [e] at hperm
      have := hperm.length_eq
      simp at this
    have hpx : (pins.map (fun pin => (node_at s.st pin).xlow)).Perm [x0, x0 + 1] := by
      have := hperm.map Prod.fst
      simpa [List.map_map, Function.comp_def] using this
    have hpy : (pins.map (fun pin => (node_at s.st pin).ylow)).Perm [y0, y0 + 1] := by
      have := hperm.map Prod.snd
      simpa [List.map_map, Function.comp_def] using this
    have hsx : (pins.map (fun pin => (node_at s.st pin).xlow)).sum ≤ 2 ^ 24 := by
      rw [hpx.sum_eq]
      simp only [List.sum_cons, List.sum_nil]
      omega
    have hsy : (pins.map (fun pin => (node_at s.st pin).ylow)).sum ≤ 2 ^ 24 := by
      rw [hpy.sum_eq]
      simp only [List.sum_cons, List.sum_nil]
      omega
    obtain ⟨h1, h2⟩ := set_sink_locs_node_computed_exact grid s node n pins hnode hn hsink
      (Or.inl (by omega)) (by omega) (by omega) hmemo hpins hne hsx hsy
    have ex : round_avg (pins.map (fun pin => (node_at s.st pin).xlow)) = x0 + 1 := by
      refine round_avg_pair x0 _ ?_
      have := hperm.map Prod.fst
      simpa [List.map_map, Function.comp_def] using this
    have ey : round_avg (pins.map (fun pin => (node_at s.st pin).ylow)) = y0 + 1 := by
      refine round_avg_pair y0 _ ?_
      have := hperm.map Prod.snd
      simpa [List.map_map, Function.comp_def] using this
    rw [ex, ey] at h1 h2
    refine ⟨h1, fun side => ?_⟩
    have key := fun i j =>
      remove_old_indices_lookup s.st.node_lookup node n.layer n.xlow n.ylow n.xhigh n.yhigh
        (x0 + 1) (y0 + 1) n.ptc_num .SINK n.layer i j SIDES_0 n.ptc_num
    have gone : ∀ i j, n.xlow ≤ i → i ≤ n.xhigh → n.ylow ≤ j → j ≤ n.yhigh →
        ¬ (i = x0 + 1 ∧ j = y0 + 1) →
        (set_sink_locs_node grid s node).st.node_lookup.find_node n.layer i j .SINK n.ptc_num side
          ≠ some node := by
      intro i j a1 a2 a3 a4 a5
      rw [h2]
      simp only [RRSpatialLookup.find_node, reduceCtorEq, or_self, if_false]
      by_cases hl : s.st.node_lookup .SINK n.layer i j SIDES_0 n.ptc_num = some node
      · rw [(key i j).1 ⟨⟨rfl, rfl, a1, a2, a3, a4, a5, rfl, rfl⟩, hl⟩]
        simp
      · rw [(key i j).2 (fun h => hl h.2)]
        exact hl
    refine ⟨gone _ _ (by omega) (by omega) (by omega) (by omega) (by omega),
      gone _ _ (by omega) (by omega) (by omega) (by omega) (by omega),
      gone _ _ (by omega) (by omega) (by omega) (by omega) (by omega), ?_⟩
    rw [h2]
    simp only [RRSpatialLookup.find_node, reduceCtorEq, or_self, if_false]
    exact (key (x0 + 1) (y0 + 1)).2 (fun h => h.1.2.2.2.2.2.2.1 ⟨rfl, rfl⟩)

/-- The scenario of C4 on an example: the 2x2 tile of `ex_quad_grid` rooted at (1, 1), with its input pins at
(1, 1) and (2, 2); the sink (node 0) moves to (2, 2). -/
theorem set_sink_locs_node_relocates_exact_witness :
    node_at (set_sink_locs_node ex_quad_grid ⟨ex_quad_graph, fun _ _ => none⟩ 0).st 0
        = { type := .SINK, layer := 0, xlow := 2, ylow := 2, xhigh := 2, yhigh := 2, ptc_num := 0,
            capacity := 2, direction := .NONE, cost_index := 1, sides := [] }
      ∧ (set_sink_locs_node ex_quad_grid ⟨ex_quad_graph, fun _ _ => none⟩ 0).st.node_lookup.find_node
          0 1 1 .SINK 0 .NUM_SIDES ≠ some 0 :=
  have h := set_sink_locs_node_relocates_exact.2 ex_quad_grid ⟨ex_quad_graph, fun _ _ => none⟩ 0 1 1
    { type := .SINK, layer := 0, xlow := 1, ylow := 1, xhigh := 2, yhigh := 2, ptc_num := 0,
      capacity := 2, direction := .NONE, cost_index := 1, sides := [] } [1, 2]
    (by decide) (by decide) rfl rfl rfl rfl rfl (by decide) (by decide) rfl (by decide) (by decide)
  ⟨h.1, (h.2 .NUM_SIDES).1⟩

/-- C3 fails on the code. On `ex_sink_graph` (two tiles of one type) the first sink, node 0,
is relocated from its own pin: its index entry at (0, 0) is removed and the one at (1, 0)
stays. The second sink, node 2, takes the memoized offset: it moves to (3, 0) but keeps its
index entry at (2, 0), another cell of its tile. -/
theorem set_sink_locs_memoized_keeps_entries :
    (node_at (set_sink_locs ex_sink_graph ex_sink_grid) 0).xlow = 1
      ∧ (node_at (set_sink_locs ex_sink_graph ex_sink_grid) 0).xhigh = 1
      ∧ (set_sink_locs ex_sink_graph ex_sink_grid).node_lookup.find_node 0 0 0 .SINK 0 .NUM_SIDES = none
      ∧ (set_sink_locs ex_sink_graph ex_sink_grid).node_lookup.find_node 0 1 0 .SINK 0 .NUM_SIDES = some 0
      ∧ (node_at (set_sink_locs ex_sink_graph ex_sink_grid) 2).xlow = 3
      ∧ (node_at (set_sink_locs ex_sink_graph ex_sink_grid) 2).xhigh = 3
      ∧ (set_sink_locs ex_sink_graph ex_sink_grid).node_lookup.find_node 0 2 0 .SINK 0 .NUM_SIDES = some 2
      ∧ (set_sink_locs ex_sink_graph ex_sink_grid).node_lookup.find_node 0 3 0 .SINK 0 .NUM_SIDES = some 2 := by
  decide

/-- C1 fails on the code. With `layer = 1` on `ex_wide_grid` the SOURCE (node 0) and the
SINK (node 1) of the two-cell tile are found at the root cell (0, 0) of layer 1 but not at
its offset cell (1, 0): the mirroring loops read and write layer 0 only. With `layer = 0`
the same grid has both cells resolve to the same nodes. -/
theorem load_grid_nodes_basic_info_mirrors_layer_zero_only :
    (load_grid_nodes_basic_info ex_grid_helpers RRBuildState.empty ex_wide_grid 1 7 9).node_lookup.find_node
        1 0 0 .SOURCE 0 .NUM_SIDES = some 0
      ∧ (load_grid_nodes_basic_info ex_grid_helpers RRBuildState.empty ex_wide_grid 1 7 9).node_lookup.find_node
        1 1 0 .SOURCE 0 .NUM_SIDES = none
      ∧ (load_grid_nodes_basic_info ex_grid_helpers RRBuildState.empty ex_wide_grid 1 7 9).node_lookup.find_node
        1 0 0 .SINK 1 .NUM_SIDES = some 1
      ∧ (load_grid_nodes_basic_info ex_grid_helpers RRBuildState.empty ex_wide_grid 1 7 9).node_lookup.find_node
        1 1 0 .SINK 1 .NUM_SIDES = none
      ∧ (load_grid_nodes_basic_info ex_grid_helpers RRBuildState.empty ex_wide_grid 0 7 9).node_lookup.find_node
        0 1 0 .SOURCE 0 .NUM_SIDES = some 0
      ∧ (load_grid_nodes_basic_info ex_grid_helpers RRBuildState.empty ex_wide_grid 0 7 9).node_lookup.find_node
        0 1 0 .SINK 1 .NUM_SIDES = some 1 := by
  decide

/-! ## Channel node loader -/

theorem foldlM_invariant {σ ι : Type} (P : σ → Prop) (step : σ → ι → Option σ)
    (h : ∀ s i s', P s → step s i = some s' → P s') (l : List ι) (s s' : σ) (hs : P s)
    (hrun : l.foldlM step s = some s') : P s' := by
  induction l generalizing s with
  | nil =>
    simp only [List.foldlM_nil] at hrun
    cases hrun
    exact hs
  | cons i is ih =>
    rw [List.foldlM_cons] at hrun
    cases hstep : step s i with
    | none => rw [hstep] at hrun; cases hrun
    | some s1 =>
      rw [hstep] at hrun
      exact ih s1 (h s i s1 hs hstep) hrun

theorem foldlM_invariant_idx {σ ι : Type} (step : σ → ι → Option σ) (l : List ι)
    (P : Nat → σ → Prop)
    (h : ∀ k s s' (hk : k < l.length), P k s → step s (l.get ⟨k, hk⟩) = some s' → P (k + 1) s')
    (s s' : σ) (hs : P 0 s) (hrun : l.foldlM step s = some s') : P l.length s' := by
  induction l generalizing s P with
  | nil =>
    simp only [List.foldlM_nil] at hrun
    cases hrun
    exact hs
  | cons i is ih =>
    rw [List.foldlM_cons] at hrun
    cases hstep : step s i with
    | none => rw [hstep] at hrun; cases hrun
    | some s1 =>
      rw [hstep] at hrun
      have h0 := h 0 s s1 (Nat.succ_pos _) hs hstep
      exact ih (fun k => P (k + 1))
        (fun k t t' hk hP ht => h (k + 1) t t' (Nat.succ_lt_succ hk) hP ht) s1 h0 hrun

theorem foldlM_range_invariant {σ : Type} (step : σ → Nat → Option σ) (n : Nat)
    (P : Nat → σ → Prop)
    (h : ∀ k s s', k < n → P k s → step s k = some s' → P (k + 1) s')
    (s s' : σ) (hs : P 0 s) (hrun : (List.range n).foldlM step s = some s') : P n s' := by
  have := foldlM_invariant_idx step (List.range n) P
    (fun k t t' hk hP ht => by
      have hk' : k < n := by simpa using hk
      have e : (List.range n).get ⟨k, hk⟩ = k := by simp
      rw [e] at ht
      exact h k t t' hk' hP ht) s s' hs hrun
  simpa using this

theorem flags_set_track_node_id (cd : ChanNodeDetails) (i node : Nat) :
    (cd.set_track_node_id i node).flags = cd.flags := by
  unfold ChanNodeDetails.flags ChanNodeDetails.set_track_node_id
  apply List.ext_getElem?
  intro k
  simp only [List.getElem?_map]
  by_cases hk : i = k
  · subst hk
    rw [List.getElem?_modify_eq]
    cases cd.tracks[i]? <;> rfl
  · rw [List.getElem?_modify_ne _ _ hk]

theorem flags_transplant (ts : List t_chan_track) (ids : List Nat) :
    (ChanNodeDetails.transplant ts ids).map t_chan_track.flags = ts.map t_chan_track.flags := by
  induction ts generalizing ids with
  | nil => simp [ChanNodeDetails.transplant]
  | cons t ts ih =>
    cases ids with
    | nil => simp [ChanNodeDetails.transplant]
    | cons id ids =>
      simp only [ChanNodeDetails.transplant, List.map_cons, ih]
      rfl

theorem flags_set_track_node_ids (cd : ChanNodeDetails) (ids : List Nat) :
    (cd.set_track_node_ids ids).flags = cd.flags :=
  flags_transplant cd.tracks ids

theorem track_flags_of_flags_eq {cd cd' : ChanNodeDetails} (h : cd'.flags = cd.flags) (i : Nat) :
    (cd'.track i).flags = (cd.track i).flags := by
  have e : ∀ c : ChanNodeDetails, (c.track i).flags
      = c.flags.getD i (t_chan_track.flags ⟨0, .NONE, 0, false, false⟩) := by
    intro c
    unfold ChanNodeDetails.track ChanNodeDetails.flags
    rw [List.getD_map]
  rw [e, e, h]

theorem width_of_flags_eq {cd cd' : ChanNodeDetails} (h : cd'.flags = cd.flags) :
    cd'.get_chan_width = cd.get_chan_width := by
  have := congrArg List.length h
  simpa [ChanNodeDetails.flags, ChanNodeDetails.get_chan_width] using this

theorem track_needs_node_of_flags_eq {cd cd' : ChanNodeDetails} (h : cd'.flags = cd.flags) (i : Nat) :
    track_needs_node cd' i = track_needs_node cd i := by
  have e := track_flags_of_flags_eq h i
  simp only [t_chan_track.flags, Prod.mk.injEq] at e
  simp only [track_needs_node, ChanNodeDetails.is_track_start, ChanNodeDetails.is_track_end,
    ChanNodeDetails.get_track_direction, e.1, e.2.2.1, e.2.2.2]

theorem track_closes_node_of_flags_eq {cd cd' : ChanNodeDetails} (h : cd'.flags = cd.flags) (i : Nat) :
    track_closes_node cd' i = track_closes_node cd i := by
  have e := track_flags_of_flags_eq h i
  simp only [t_chan_track.flags, Prod.mk.injEq] at e
  simp only [track_closes_node, ChanNodeDetails.is_track_start, ChanNodeDetails.is_track_end,
    ChanNodeDetails.get_track_direction, e.1, e.2.2.1, e.2.2.2]

theorem num_new_tracks_of_flags_eq {cd cd' : ChanNodeDetails} (h : cd'.flags = cd.flags) :
    num_new_tracks cd' = num_new_tracks cd := by
  have e : ∀ c : ChanNodeDetails, num_new_tracks c
      = c.flags.countP (fun f => (f.2.2.1 && decide (f.1 = .INC)) || (f.2.2.2 && decide (f.1 = .DEC))) := by
    intro c
    unfold num_new_tracks ChanNodeDetails.flags
    rw [List.countP_map]
    rfl
  rw [e, e, h]

theorem num_new_tracks_eq_estimate (cd : ChanNodeDetails) :
    num_new_tracks cd = cd.get_num_starting_tracks .INC + cd.get_num_ending_tracks .DEC := by
  unfold num_new_tracks ChanNodeDetails.get_num_starting_tracks ChanNodeDetails.get_num_ending_tracks
  rw [← List.countP_eq_length_filter, ← List.countP_eq_length_filter]
  induction cd.tracks with
  | nil => rfl
  | cons t ts ih =>
    simp only [List.countP_cons, ih]
    cases hd : t.direction <;> cases hs : t.is_start <;> cases he : t.is_end <;> simp <;> omega

theorem num_new_tracks_eq_sum_range (cd : ChanNodeDetails) :
    num_new_tracks cd
      = ((List.range cd.get_chan_width).map (fun i => if track_needs_node cd i = true then 1 else 0)).sum := by
  unfold num_new_tracks ChanNodeDetails.get_chan_width
  rw [← sum_range_getD_countP _ ⟨0, .NONE, 0, false, false⟩]
  rfl

theorem node_at_of_getElem? {st : RRBuildState} {id : Nat} {n : t_rr_node} (h : st.nodes[id]? = some n) :
    node_at st id = n := by
  simp [node_at, List.getD_eq_getElem?_getD, h]

theorem lt_length_of_getElem? {α : Type} {l : List α} {id : Nat} {n : α} (h : l[id]? = some n) :
    id < l.length := by
  by_contra hc
  rw [List.getElem?_eq_none (Nat.le_of_not_lt hc)] at h
  cases h

theorem chan_checked_node_spec {a : ChanArgs} {st : RRBuildState} {cd : ChanNodeDetails} {k id : Nat}
    (h : chan_checked_node a st cd k = some id) :
    id = cd.get_track_node_id k
      ∧ ∃ n, st.nodes[id]? = some n ∧ n.type = a.chan_type ∧ n.direction = cd.get_track_direction k := by
  unfold chan_checked_node at h
  dsimp only at h
  split at h
  · cases h
  · rename_i n hn
    split at h
    · rename_i hc
      cases h
      exact ⟨rfl, n, hn, hc.1.symm, hc.2.symm⟩
    · cases h

theorem chan_create_track_node_spec (C : ChanHelpers) (a : ChanArgs) (st : RRBuildState)
    (cd : ChanNodeDetails) (k : Nat) :
    (chan_create_track_node C a st cd k).1.nodes = st.nodes ++ [chan_new_node C a cd k]
      ∧ (chan_create_track_node C a st cd k).1.rr_node_track_ids
          = Function.update st.rr_node_track_ids st.nodes.length
              (st.rr_node_track_ids st.nodes.length ++ [k])
      ∧ (chan_create_track_node C a st cd k).1.node_track_nums
          = st.node_track_nums ++ [⟨st.nodes.length, a.chan_coordinate.1, a.chan_coordinate.2, k⟩]
      ∧ (chan_create_track_node C a st cd k).2 = cd.set_track_node_id k st.nodes.length := by
  refine ⟨?_, ?_, ?_, ?_⟩ <;>
    simp [chan_create_track_node, create_node, set_node_direction, add_node_track_num, push_track_id,
      set_node_capacity, set_node_layer, set_driver_switch, set_node_cost_index, modify_node,
      modify_append_length, chan_new_node]

theorem chan_close_track_node_spec {a : ChanArgs} {st st2 : RRBuildState} {cd : ChanNodeDetails}
    {k : Nat} (h : chan_close_track_node a st cd k = some st2) :
    ∃ n, st.nodes[cd.get_track_node_id k]? = some n ∧ n.type = a.chan_type
      ∧ n.direction = cd.get_track_direction k
      ∧ st2 = chan_touch_node st (cd.get_track_node_id k) a.chan_coordinate k
          (decide (a.chan_coordinate.1 > n.xlow ∨ a.chan_coordinate.2 > n.ylow)) := by
  unfold chan_close_track_node at h
  split at h
  · cases h
  · rename_i id hid
    obtain ⟨rfl, n, hn, ht, hd⟩ := chan_checked_node_spec hid
    refine ⟨n, hn, ht, hd, ?_⟩
    have hlt := lt_length_of_getElem? hn
    have hat := node_at_of_getElem? hn
    have e : node_at (set_node_coordinates st (cd.get_track_node_id k) (node_at st (cd.get_track_node_id k)).xlow
        (node_at st (cd.get_track_node_id k)).ylow a.chan_coordinate.1 a.chan_coordinate.2)
        (cd.get_track_node_id k)
        = { n with xhigh := a.chan_coordinate.1, yhigh := a.chan_coordinate.2 } := by
      unfold set_node_coordinates
      rw [node_at_modify_node_same _ _ _ hlt, hat]
    dsimp only at h
    rw [e] at h
    unfold chan_touch_node
    dsimp only
    by_cases hp : a.chan_coordinate.1 > n.xlow ∨ a.chan_coordinate.2 > n.ylow
    · rw [if_pos hp] at h
      simp only [hp, decide_True, if_true]
      exact (Option.some.inj h).symm
    · rw [if_neg hp] at h
      simp only [hp, decide_False, Bool.false_eq_true, if_false]
      exact (Option.some.inj h).symm

theorem chan_pass_track_node_spec {a : ChanArgs} {st st2 : RRBuildState} {cd : ChanNodeDetails}
    {k : Nat} (h : chan_pass_track_node a st cd k = some st2) :
    ∃ n, st.nodes[cd.get_track_node_id k]? = some n ∧ n.type = a.chan_type
      ∧ n.direction = cd.get_track_direction k
      ∧ st2 = chan_touch_node st (cd.get_track_node_id k) a.chan_coordinate k true := by
  unfold chan_pass_track_node at h
  split at h
  · cases h
  · rename_i id hid
    obtain ⟨rfl, n, hn, ht, hd⟩ := chan_checked_node_spec hid
    refine ⟨n, hn, ht, hd, ?_⟩
    unfold chan_touch_node
    simp only [if_true]
    exact (Option.some.inj h).symm

/-- One iteration of the track loop, as at most one creation followed by at most one update. -/
theorem load_one_chan_track_spec {C : ChanHelpers} {a : ChanArgs} {st st' : RRBuildState}
    {cd cd' : ChanNodeDetails} {k : Nat}
    (h : load_one_chan_track C a (st, cd) k = some (st', cd')) :
    ∃ st1,
      ((track_needs_node cd k = true ∧ st1 = (chan_create_track_node C a st cd k).1
          ∧ cd' = cd.set_track_node_id k st.nodes.length)
        ∨ (track_needs_node cd k = false ∧ st1 = st ∧ cd' = cd))
      ∧ ((st' = st1 ∧ track_closes_node cd k = false
            ∧ (cd.is_track_start k || cd.is_track_end k) = true)
        ∨ (∃ n push, st1.nodes[cd'.get_track_node_id k]? = some n ∧ n.type = a.chan_type
            ∧ n.direction = cd.get_track_direction k
            ∧ st' = chan_touch_node st1 (cd'.get_track_node_id k) a.chan_coordinate k push
            ∧ ((track_closes_node cd k = true
                  ∧ push = decide (a.chan_coordinate.1 > n.xlow ∨ a.chan_coordinate.2 > n.ylow))
                ∨ (track_closes_node cd k = false
                  ∧ (cd.is_track_start k || cd.is_track_end k) = false ∧ push = true)))) := by
  unfold load_one_chan_track at h
  -- the state after the first block
  obtain ⟨st1, cd1, hs1, hcase⟩ : ∃ st1 cd1,
      (if track_needs_node cd k = true then chan_create_track_node C a st cd k else (st, cd)) = (st1, cd1)
      ∧ ((track_needs_node cd k = true ∧ st1 = (chan_create_track_node C a st cd k).1
            ∧ cd1 = cd.set_track_node_id k st.nodes.length)
          ∨ (track_needs_node cd k = false ∧ st1 = st ∧ cd1 = cd)) := by
    by_cases hn : track_needs_node cd k = true
    · refine ⟨(chan_create_track_node C a st cd k).1, (chan_create_track_node C a st cd k).2, ?_, ?_⟩
      · rw [if_pos hn]
      · exact Or.inl ⟨hn, rfl, (chan_create_track_node_spec C a st cd k).2.2.2⟩
    · refine ⟨st, cd, ?_, ?_⟩
      · rw [if_neg hn]
      · exact Or.inr ⟨by simpa using hn, rfl, rfl⟩
  have hfl : cd1.flags = cd.flags := by
    rcases hcase with ⟨_, _, e⟩ | ⟨_, _, e⟩
    · rw [e]; exact flags_set_track_node_id _ _ _
    · rw [e]
  have hcl : track_closes_node cd1 k = track_closes_node cd k := track_closes_node_of_flags_eq hfl k
  have hse : (cd1.is_track_start k || cd1.is_track_end k) = (cd.is_track_start k || cd.is_track_end k) := by
    have e := track_flags_of_flags_eq hfl k
    simp only [t_chan_track.flags, Prod.mk.injEq] at e
    simp only [ChanNodeDetails.is_track_start, ChanNodeDetails.is_track_end, e.2.2.1, e.2.2.2]
  have hdir : cd1.get_track_direction k = cd.get_track_direction k := by
    have e := track_flags_of_flags_eq hfl k
    simp only [t_chan_track.flags, Prod.mk.injEq] at e
    exact e.1
  simp only [hs1, hcl, hse] at h
  have hclose_se : track_closes_node cd k = true → (cd.is_track_start k || cd.is_track_end k) = true := by
    unfold track_closes_node
    cases cd.is_track_start k <;> cases cd.is_track_end k <;> simp
  -- the second block and the rest
  by_cases hc : track_closes_node cd k = true
  · rw [if_pos hc] at h
    cases h2 : chan_close_track_node a st1 cd1 k with
    | none => rw [h2] at h; cases h
    | some st2 =>
      rw [h2] at h
      simp only [hclose_se hc, if_true, Option.some.injEq, Prod.mk.injEq] at h
      obtain ⟨rfl, rfl⟩ := h
      obtain ⟨n, hn, ht, hd, hst⟩ := chan_close_track_node_spec h2
      exact ⟨st1, hcase, Or.inr ⟨n, _, hn, ht, hd.trans hdir, hst, Or.inl ⟨hc, rfl⟩⟩⟩
  · have hc' : track_closes_node cd k = false := by simpa using hc
    rw [if_neg hc] at h
    by_cases hs : (cd.is_track_start k || cd.is_track_end k) = true
    · simp only [hs, if_true, Option.some.injEq, Prod.mk.injEq] at h
      obtain ⟨rfl, rfl⟩ := h
      exact ⟨st1, hcase, Or.inl ⟨rfl, hc', hs⟩⟩
    · have hs' : (cd.is_track_start k || cd.is_track_end k) = false := by simpa using hs
      simp only [hs', Bool.false_eq_true, if_false] at h
      cases h3 : chan_pass_track_node a st1 cd1 k with
      | none => rw [h3] at h; cases h
      | some st3 =>
        rw [h3] at h
        simp only [Option.some.injEq, Prod.mk.injEq] at h
        obtain ⟨rfl, rfl⟩ := h
        obtain ⟨n, hn, ht, hd, hst⟩ := chan_pass_track_node_spec h3
        exact ⟨st1, hcase, Or.inr ⟨n, true, hn, ht, hd.trans hdir, hst, Or.inr ⟨hc', hs', rfl⟩⟩⟩

theorem chan_touch_node_nodes (st : RRBuildState) (id : Nat) (c : Nat × Nat) (k : Nat) (push : Bool) :
    (chan_touch_node st id c k push).nodes
      = st.nodes.modify (fun n => { n with xlow := (node_at st id).xlow, ylow := (node_at st id).ylow,
                                           xhigh := c.1, yhigh := c.2 }) id := by
  unfold chan_touch_node
  cases push <;> rfl

theorem foldlM_measure_add {σ ι : Type} (m : σ → Nat) (c : ι → Nat) (step : σ → ι → Option σ)
    (h : ∀ s i s', step s i = some s' → m s' = m s + c i) (l : List ι) (s s' : σ)
    (hrun : l.foldlM step s = some s') : m s' = m s + (l.map c).sum := by
  induction l generalizing s with
  | nil =>
    simp only [List.foldlM_nil] at hrun
    cases hrun
    simp
  | cons i is ih =>
    rw [List.foldlM_cons] at hrun
    cases hstep : step s i with
    | none => rw [hstep] at hrun; cases hrun
    | some s1 =>
      rw [hstep] at hrun
      rw [ih s1 hrun, h s i s1 hstep, List.map_cons, List.sum_cons, Nat.add_assoc]

theorem foldl_add_sum {ι : Type} (c : ι → Nat) (l : List ι) (a : Nat) :
    l.foldl (fun acc i => acc + c i) a = a + (l.map c).sum := by
  induction l generalizing a with
  | nil => simp
  | cons i is ih => simp [List.foldl_cons, ih, Nat.add_assoc]

theorem load_one_chan_track_count {C : ChanHelpers} {a : ChanArgs} {st st' : RRBuildState}
    {cd cd' : ChanNodeDetails} {k : Nat}
    (h : load_one_chan_track C a (st, cd) k = some (st', cd')) :
    cd'.flags = cd.flags
      ∧ st'.nodes.length = st.nodes.length + (if track_needs_node cd k = true then 1 else 0)
      ∧ ∀ base, nodes_from_of_type base a.chan_type st → nodes_from_of_type base a.chan_type st' := by
  obtain ⟨st1, h1, h2⟩ := load_one_chan_track_spec h
  have hfl : cd'.flags = cd.flags := by
    rcases h1 with ⟨_, _, e⟩ | ⟨_, _, e⟩
    · rw [e]; exact flags_set_track_node_id _ _ _
    · rw [e]
  have hlen1 : st1.nodes.length = st.nodes.length + (if track_needs_node cd k = true then 1 else 0) := by
    rcases h1 with ⟨hn, e, _⟩ | ⟨hn, e, _⟩
    · rw [e, (chan_create_track_node_spec C a st cd k).1, hn]
      simp
    · rw [e, hn]
      simp
  have hty1 : ∀ base, nodes_from_of_type base a.chan_type st → nodes_from_of_type base a.chan_type st1 := by
    intro base hb
    rcases h1 with ⟨_, e, _⟩ | ⟨_, e, _⟩
    · rw [e]
      intro j n hj hjn
      rw [(chan_create_track_node_spec C a st cd k).1] at hjn
      by_cases hlt : j < st.nodes.length
      · rw [List.getElem?_append_left hlt] at hjn
        exact hb j n hj hjn
      · have hmem : n ∈ [chan_new_node C a cd k] := by
          rw [List.getElem?_append_right (Nat.le_of_not_lt hlt)] at hjn
          exact List.mem_iff_getElem?.mpr ⟨_, hjn⟩
        rw [List.mem_singleton] at hmem
        rw [hmem]
        rfl
    · rw [e]
      exact hb
  rcases h2 with ⟨e, _, _⟩ | ⟨n, push, _, _, _, e, _⟩
  · rw [e]
    exact ⟨hfl, hlen1, hty1⟩
  · refine ⟨hfl, ?_, ?_⟩
    · rw [e, chan_touch_node_nodes, List.length_modify, hlen1]
    · intro base hb j m hj hjm
      rw [e, chan_touch_node_nodes, List.getElem?_modify] at hjm
      cases hq : st1.nodes[j]? with
      | none => rw [hq] at hjm; cases hjm
      | some q =>
        rw [hq] at hjm
        simp only [Option.map_eq_map, Option.map_some', Option.some.injEq] at hjm
        have := hty1 base hb j q hj hq
        rw [← hjm]
        split <;> exact this

theorem load_one_chan_rr_nodes_basic_info_count {C : ChanHelpers} {a : ChanArgs}
    {st st' : RRBuildState} {cd cd' : ChanNodeDetails}
    (h : load_one_chan_rr_nodes_basic_info C a st cd = some (st', cd')) :
    cd'.flags = cd.flags
      ∧ st'.nodes.length = st.nodes.length + num_new_tracks cd
      ∧ ∀ base, nodes_from_of_type base a.chan_type st → nodes_from_of_type base a.chan_type st' := by
  unfold load_one_chan_rr_nodes_basic_info at h
  have key := foldlM_range_invariant (load_one_chan_track C a) cd.get_chan_width
    (fun k s => s.2.flags = cd.flags
      ∧ s.1.nodes.length = st.nodes.length
          + ((List.range k).map (fun i => if track_needs_node cd i = true then 1 else 0)).sum
      ∧ ∀ base, nodes_from_of_type base a.chan_type st → nodes_from_of_type base a.chan_type s.1)
    (fun k s s' _ hP hstep => by
      have hstep' : load_one_chan_track C a (s.1, s.2) k = some (s'.1, s'.2) := hstep
      obtain ⟨f1, f2, f3⟩ := load_one_chan_track_count hstep'
      refine ⟨f1.trans hP.1, ?_, fun base hb => f3 base (hP.2.2 base hb)⟩
      rw [f2, hP.2.1, track_needs_node_of_flags_eq hP.1, List.range_succ, List.map_append,
        List.sum_append]
      simp [Nat.add_assoc])
    (st, cd) (st', cd') ⟨rfl, by simp, fun _ hb => hb⟩ h
  exact ⟨key.1, by rw [key.2.1, num_new_tracks_eq_sum_range], key.2.2⟩

theorem load_chanx_position_count {C : ChanHelpers} {grids : DeviceGrid} {layer chan_width : Nat}
    {segment_infs : List t_segment_inf} {segment_index_map : t_unified_to_parallel_seg_index}
    { device_grid_annotation : DeviceGridAnnotation} {shrink_boundary through_channel : Bool}
    {iy ix : Nat} {s s' : RRBuildState × List Nat}
    (h : load_chanx_position C grids layer chan_width segment_infs segment_index_map
          device_grid_annotation shrink_boundary through_channel iy s ix = some s') :
    s'.1.nodes.length = s.1.nodes.length
        + chanx_nodes_at C grids layer chan_width segment_infs device_grid_annotation shrink_boundary
            through_channel ix iy
      ∧ ∀ base, nodes_from_of_type base .CHANX s.1 → nodes_from_of_type base .CHANX s'.1 := by
  unfold load_chanx_position at h
  unfold chanx_nodes_at
  dsimp only at h ⊢
  split at h
  · rename_i hb
    cases h
    simp [hb]
  · rename_i hb
    split at h
    · cases h
    · rename_i r hr
      cases h
      obtain ⟨f1, f2, f3⟩ := load_one_chan_rr_nodes_basic_info_count hr
      refine ⟨?_, f3⟩
      rw [f2, if_neg hb, ← num_new_tracks_eq_estimate]
      congr 1
      apply num_new_tracks_of_flags_eq
      unfold chanx_details_at
      dsimp only
      split
      · exact flags_set_track_node_ids _ _
      · rfl

theorem load_chany_position_count {C : ChanHelpers} {grids : DeviceGrid} {layer chan_width : Nat}
    {segment_infs : List t_segment_inf} {num_segment_x : Nat}
    {seg_index_map : t_unified_to_parallel_seg_index}
    { device_grid_annotation : DeviceGridAnnotation} {shrink_boundary through_channel : Bool}
    {iy ix : Nat} {s s' : RRBuildState × List Nat}
    (h : load_chany_position C grids layer chan_width segment_infs num_segment_x seg_index_map
          device_grid_annotation shrink_boundary through_channel ix s iy = some s') :
    s'.1.nodes.length = s.1.nodes.length
        + chany_nodes_at C grids layer chan_width segment_infs device_grid_annotation shrink_boundary
            through_channel ix iy
      ∧ ∀ base, nodes_from_of_type base .CHANY s.1 → nodes_from_of_type base .CHANY s'.1 := by
  unfold load_chany_position at h
  unfold chany_nodes_at
  dsimp only at h ⊢
  split at h
  · rename_i hb
    cases h
    simp [hb]
  · rename_i hb
    split at h
    · cases h
    · rename_i r hr
      cases h
      obtain ⟨f1, f2, f3⟩ := load_one_chan_rr_nodes_basic_info_count hr
      refine ⟨?_, f3⟩
      rw [f2, if_neg hb, ← num_new_tracks_eq_estimate]
      congr 1
      apply num_new_tracks_of_flags_eq
      unfold chany_details_at
      dsimp only
      split
      · exact flags_set_track_node_ids _ _
      · rfl

theorem estimate_num_chanx_rr_nodes_eq_sum (C : ChanHelpers) (grids : DeviceGrid)
    (layer chan_width : Nat) (segment_infs : List t_segment_inf)
    ( device_grid_annotation : DeviceGridAnnotation) (shrink_boundary through_channel : Bool) :
    estimate_num_chanx_rr_nodes C grids layer chan_width segment_infs device_grid_annotation
        shrink_boundary through_channel
      = ((List.range (size_t_sub grids.height 1)).map (fun iy =>
          ((List.range' 1 (size_t_sub grids.width 1 - 1)).map (fun ix =>
            chanx_nodes_at C grids layer chan_width segment_infs device_grid_annotation
              shrink_boundary through_channel ix iy)).sum)).sum := by
  unfold estimate_num_chanx_rr_nodes
  have inner : ∀ iy num,
      (List.range' 1 (size_t_sub grids.width 1 - 1)).foldl
        (fun num_chanx_rr_nodes ix =>
          let chanx_coord := (ix, iy)
          if chanx_bypass C grids layer chanx_coord device_grid_annotation shrink_boundary through_channel
          then num_chanx_rr_nodes
          else
            let force_start := chanx_force_start C grids layer chanx_coord device_grid_annotation
                                 shrink_boundary through_channel
            let force_end := chanx_force_end C grids layer chanx_coord device_grid_annotation
                               shrink_boundary through_channel
            let chanx_details := C.build_unidir_chan_node_details chan_width
                                   (size_t_sub grids.width 2) force_start force_end segment_infs
            num_chanx_rr_nodes + chanx_details.get_num_starting_tracks .INC
              + chanx_details.get_num_ending_tracks .DEC)
        num
      = num + ((List.range' 1 (size_t_sub grids.width 1 - 1)).map (fun ix =>
          chanx_nodes_at C grids layer chan_width segment_infs device_grid_annotation
            shrink_boundary through_channel ix iy)).sum := by
    intro iy num
    rw [← foldl_add_sum]
    congr 1
    funext acc ix
    unfold chanx_nodes_at
    dsimp only
    split <;> simp [Nat.add_assoc]
  simp only [inner]
  rw [foldl_add_sum]
  simp

theorem estimate_num_chany_rr_nodes_eq_sum (C : ChanHelpers) (grids : DeviceGrid)
    (layer chan_width : Nat) (segment_infs : List t_segment_inf)
    ( device_grid_annotation : DeviceGridAnnotation) (shrink_boundary through_channel : Bool) :
    estimate_num_chany_rr_nodes C grids layer chan_width segment_infs device_grid_annotation
        shrink_boundary through_channel
      = ((List.range (size_t_sub grids.width 1)).map (fun ix =>
          ((List.range' 1 (size_t_sub grids.height 1 - 1)).map (fun iy =>
            chany_nodes_at C grids layer chan_width segment_infs device_grid_annotation
              shrink_boundary through_channel ix iy)).sum)).sum := by
  unfold estimate_num_chany_rr_nodes
  have inner : ∀ ix num,
      (List.range' 1 (size_t_sub grids.height 1 - 1)).foldl
        (fun num_chany_rr_nodes iy =>
          let chany_coord := (ix, iy)
          if chany_bypass C grids layer chany_coord device_grid_annotation shrink_boundary through_channel
          then num_chany_rr_nodes
          else
            let force_start := chany_force_start C grids layer chany_coord device_grid_annotation
                                 shrink_boundary through_channel
            let force_end := chany_force_end C grids layer chany_coord device_grid_annotation
                               shrink_boundary through_channel
            let chany_details := C.build_unidir_chan_node_details chan_width
                                   (size_t_sub grids.height 2) force_start force_end segment_infs
            num_chany_rr_nodes + chany_details.get_num_starting_tracks .INC
              + chany_details.get_num_ending_tracks .DEC)
        num
      = num + ((List.range' 1 (size_t_sub grids.height 1 - 1)).map (fun iy =>
          chany_nodes_at C grids layer chan_width segment_infs device_grid_annotation
            shrink_boundary through_channel ix iy)).sum := by
    intro ix num
    rw [← foldl_add_sum]
    congr 1
    funext acc iy
    unfold chany_nodes_at
    dsimp only
    split <;> simp [Nat.add_assoc]
  simp only [inner]
  rw [foldl_add_sum]
  simp

theorem load_chanx_row_count {C : ChanHelpers} {grids : DeviceGrid} {layer chan_width : Nat}
    {segment_infs : List t_segment_inf} {segment_index_map : t_unified_to_parallel_seg_index}
    { device_grid_annotation : DeviceGridAnnotation} {shrink_boundary through_channel : Bool}
    {iy : Nat} {l : List Nat} {s s' : RRBuildState × List Nat}
    (h : l.foldlM (load_chanx_position C grids layer chan_width segment_infs segment_index_map
          device_grid_annotation shrink_boundary through_channel iy) s = some s') :
    s'.1.nodes.length = s.1.nodes.length
        + (l.map (fun ix => chanx_nodes_at C grids layer chan_width segment_infs device_grid_annotation
            shrink_boundary through_channel ix iy)).sum
      ∧ ∀ base, nodes_from_of_type base .CHANX s.1 → nodes_from_of_type base .CHANX s'.1 :=
  ⟨foldlM_measure_add (fun s => s.1.nodes.length) _ _
      (fun _ _ _ hs => (load_chanx_position_count hs).1) l s s' h,
    fun base hb => foldlM_invariant (fun s => nodes_from_of_type base .CHANX s.1) _
      (fun _ _ _ hP hs => (load_chanx_position_count hs).2 base hP) l s s' hb h⟩

theorem load_chany_column_count {C : ChanHelpers} {grids : DeviceGrid} {layer chan_width : Nat}
    {segment_infs : List t_segment_inf} {num_segment_x : Nat}
    {seg_index_map : t_unified_to_parallel_seg_index}
    { device_grid_annotation : DeviceGridAnnotation} {shrink_boundary through_channel : Bool}
    {ix : Nat} {l : List Nat} {s s' : RRBuildState × List Nat}
    (h : l.foldlM (load_chany_position C grids layer chan_width segment_infs num_segment_x seg_index_map
          device_grid_annotation shrink_boundary through_channel ix) s = some s') :
    s'.1.nodes.length = s.1.nodes.length
        + (l.map (fun iy => chany_nodes_at C grids layer chan_width segment_infs device_grid_annotation
            shrink_boundary through_channel ix iy)).sum
      ∧ ∀ base, nodes_from_of_type base .CHANY s.1 → nodes_from_of_type base .CHANY s'.1 :=
  ⟨foldlM_measure_add (fun s => s.1.nodes.length) _ _
      (fun _ _ _ hs => (load_chany_position_count hs).1) l s s' h,
    fun base hb => foldlM_invariant (fun s => nodes_from_of_type base .CHANY s.1) _
      (fun _ _ _ hP hs => (load_chany_position_count hs).2 base hP) l s s' hb h⟩

theorem nodes_from_of_type_base (st : RRBuildState) (T : t_rr_type) :
    nodes_from_of_type st.nodes.length T st := by
  intro k n hk hn
  rw [List.getElem?_eq_none hk] at hn
  cases hn

theorem load_chanx_row_spec {C : ChanHelpers} {grids : DeviceGrid} {layer chan_width : Nat}
    {segment_infs : List t_segment_inf} {segment_index_map : t_unified_to_parallel_seg_index}
    { device_grid_annotation : DeviceGridAnnotation} {shrink_boundary through_channel : Bool}
    {iy : Nat} {st st' : RRBuildState}
    (h : load_chanx_row C grids layer chan_width segment_infs segment_index_map
          device_grid_annotation shrink_boundary through_channel st iy = some st') :
    ∃ ids, (List.range' 1 (size_t_sub grids.width 1 - 1)).foldlM
        (load_chanx_position C grids layer chan_width segment_infs segment_index_map
          device_grid_annotation shrink_boundary through_channel iy) (st, []) = some (st', ids) := by
  unfold load_chanx_row at h
  obtain ⟨r, hr, hst⟩ := Option.map_eq_some'.mp h
  exact ⟨r.2, by rw [hr, ← hst]⟩

theorem load_chany_column_spec {C : ChanHelpers} {grids : DeviceGrid} {layer chan_width : Nat}
    {segment_infs : List t_segment_inf} {num_segment_x : Nat}
    {seg_index_map : t_unified_to_parallel_seg_index}
    { device_grid_annotation : DeviceGridAnnotation} {shrink_boundary through_channel : Bool}
    {ix : Nat} {st st' : RRBuildState}
    (h : load_chany_column C grids layer chan_width segment_infs num_segment_x seg_index_map
          device_grid_annotation shrink_boundary through_channel st ix = some st') :
    ∃ ids, (List.range' 1 (size_t_sub grids.height 1 - 1)).foldlM
        (load_chany_position C grids layer chan_width segment_infs num_segment_x seg_index_map
          device_grid_annotation shrink_boundary through_channel ix) (st, []) = some (st', ids) := by
  unfold load_chany_column at h
  obtain ⟨r, hr, hst⟩ := Option.map_eq_some'.mp h
  exact ⟨r.2, by rw [hr, ← hst]⟩

/-- C2. Whenever the channel loaders run to completion, the number of CHANX nodes that
`load_chanx_rr_nodes_basic_info` creates equals `estimate_num_chanx_rr_nodes` on the same
arguments, and the number of CHANY nodes that `load_chany_rr_nodes_basic_info` creates
equals `estimate_num_chany_rr_nodes`: every node the loader appends is of the channel's
kind, and their number is the estimate. -/
theorem load_chan_rr_nodes_basic_info_count_eq_estimate (C : ChanHelpers) (grids : DeviceGrid)
    (layer chan_width : Nat) (segment_infs : List t_segment_inf) (num_segment_x : Nat)
    (seg_index_map : t_unified_to_parallel_seg_index)
    ( device_grid_annotation : DeviceGridAnnotation) (shrink_boundary through_channel : Bool)
    (st st' : RRBuildState) :
    (load_chanx_rr_nodes_basic_info C st grids layer chan_width segment_infs seg_index_map
        device_grid_annotation shrink_boundary through_channel = some st' →
      st'.nodes.length = st.nodes.length
          + estimate_num_chanx_rr_nodes C grids layer chan_width segment_infs device_grid_annotation
              shrink_boundary through_channel
        ∧ ∀ k n, st.nodes.length ≤ k → st'.nodes[k]? = some n → n.type = .CHANX)
    ∧ (load_chany_rr_nodes_basic_info C st grids layer chan_width segment_infs num_segment_x
        seg_index_map device_grid_annotation shrink_boundary through_channel = some st' →
      st'.nodes.length = st.nodes.length
          + estimate_num_chany_rr_nodes C grids layer chan_width segment_infs device_grid_annotation
              shrink_boundary through_channel
        ∧ ∀ k n, st.nodes.length ≤ k → st'.nodes[k]? = some n → n.type = .CHANY) := by
  constructor
  · intro h
    unfold load_chanx_rr_nodes_basic_info at h
    rw [estimate_num_chanx_rr_nodes_eq_sum]
    refine ⟨foldlM_measure_add (fun s : RRBuildState => s.nodes.length)
        (fun iy => ((List.range' 1 (size_t_sub grids.width 1 - 1)).map (fun ix =>
          chanx_nodes_at C grids layer chan_width segment_infs device_grid_annotation
            shrink_boundary through_channel ix iy)).sum)
        _ (fun s iy s' hs => ?_) _ st st' h,
      foldlM_invariant (fun s => nodes_from_of_type st.nodes.length .CHANX s) _
        (fun s iy s' hP hs => ?_) _ st st' (nodes_from_of_type_base st _) h⟩
    · obtain ⟨ids, hr⟩ := load_chanx_row_spec hs
      exact (load_chanx_row_count hr).1
    · obtain ⟨ids, hr⟩ := load_chanx_row_spec hs
      exact (load_chanx_row_count hr).2 _ hP
  · intro h
    unfold load_chany_rr_nodes_basic_info at h
    rw [estimate_num_chany_rr_nodes_eq_sum]
    refine ⟨foldlM_measure_add (fun s : RRBuildState => s.nodes.length)
        (fun ix => ((List.range' 1 (size_t_sub grids.height 1 - 1)).map (fun iy =>
          chany_nodes_at C grids layer chan_width segment_infs device_grid_annotation
            shrink_boundary through_channel ix iy)).sum)
        _ (fun s ix s' hs => ?_) _ st st' h,
      foldlM_invariant (fun s => nodes_from_of_type st.nodes.length .CHANY s) _
        (fun s ix s' hP hs => ?_) _ st st' (nodes_from_of_type_base st _) h⟩
    · obtain ⟨ids, hr⟩ := load_chany_column_spec hs
      exact (load_chany_column_count hr).1
    · obtain ⟨ids, hr⟩ := load_chany_column_spec hs
      exact (load_chany_column_count hr).2 _ hP

/-- Witness for C2 on `ex_chan_grid` with channel width 4: the CHANX loader completes and
creates 12 nodes, the estimate. -/
theorem load_chan_rr_nodes_basic_info_count_eq_estimate_witness :
    ∃ st', load_chanx_rr_nodes_basic_info ex_chan_helpers RRBuildState.empty ex_chan_grid 0 4
        ex_segment_infs [] ex_device_grid_annot false false = some st'
      ∧ st'.nodes.length = 0 + estimate_num_chanx_rr_nodes ex_chan_helpers ex_chan_grid 0 4
          ex_segment_infs ex_device_grid_annot false false
      ∧ st'.nodes.length = 12 := by
  have hs : (load_chanx_rr_nodes_basic_info ex_chan_helpers RRBuildState.empty ex_chan_grid 0 4
      ex_segment_infs [] ex_device_grid_annot false false).isSome = true := by decide
  obtain ⟨st', h⟩ := Option.isSome_iff_exists.mp hs
  have h1 := ((load_chan_rr_nodes_basic_info_count_eq_estimate ex_chan_helpers ex_chan_grid 0 4
    ex_segment_infs 1 [] ex_device_grid_annot false false RRBuildState.empty st').1 h).1
  refine ⟨st', h, h1, ?_⟩
  rw [h1]
  decide

theorem chan_touch_node_length (st : RRBuildState) (id : Nat) (c : Nat × Nat) (k : Nat) (push : Bool) :
    (chan_touch_node st id c k push).nodes.length = st.nodes.length := by
  rw [chan_touch_node_nodes, List.length_modify]

theorem chan_touch_node_node_at_ne (st : RRBuildState) (id m : Nat) (c : Nat × Nat) (k : Nat)
    (push : Bool) (h : id ≠ m) : node_at (chan_touch_node st id c k push) m = node_at st m := by
  simp [node_at, chan_touch_node_nodes, List.getD_eq_getElem?_getD, List.getElem?_modify_ne _ _ h]

theorem chan_touch_node_node_at_same (st : RRBuildState) (id : Nat) (c : Nat × Nat) (k : Nat)
    (push : Bool) (h : id < st.nodes.length) :
    node_at (chan_touch_node st id c k push) id
      = { node_at st id with xhigh := c.1, yhigh := c.2 } := by
  simp [node_at, chan_touch_node_nodes, List.getD_eq_getElem?_getD, List.getElem?_modify_eq,
    List.getElem?_eq_getElem h]

theorem chan_touch_node_track_ids (st : RRBuildState) (id : Nat) (c : Nat × Nat) (k : Nat)
    (push : Bool) :
    (chan_touch_node st id c k push).rr_node_track_ids
      = if push = true then
          Function.update st.rr_node_track_ids id (st.rr_node_track_ids id ++ [k])
        else st.rr_node_track_ids := by
  unfold chan_touch_node
  cases push <;> rfl

theorem chan_touch_node_track_nums (st : RRBuildState) (id : Nat) (c : Nat × Nat) (k : Nat)
    (push : Bool) :
    (chan_touch_node st id c k push).node_track_nums
      = if push = true then st.node_track_nums ++ [⟨id, c.1, c.2, k⟩] else st.node_track_nums := by
  unfold chan_touch_node
  cases push <;> rfl

theorem chan_create_node_at_lt (C : ChanHelpers) (a : ChanArgs) (st : RRBuildState)
    (cd : ChanNodeDetails) (k m : Nat) (h : m < st.nodes.length) :
    node_at (chan_create_track_node C a st cd k).1 m = node_at st m := by
  simp [node_at, (chan_create_track_node_spec C a st cd k).1, List.getD_eq_getElem?_getD,
    List.getElem?_append_left h]

theorem chan_create_node_at_new (C : ChanHelpers) (a : ChanArgs) (st : RRBuildState)
    (cd : ChanNodeDetails) (k : Nat) :
    node_at (chan_create_track_node C a st cd k).1 st.nodes.length = chan_new_node C a cd k := by
  simp [node_at, (chan_create_track_node_spec C a st cd k).1, List.getD_eq_getElem?_getD]

theorem get_track_node_id_set_ne (cd : ChanNodeDetails) (k node j : Nat) (h : k ≠ j) :
    (cd.set_track_node_id k node).get_track_node_id j = cd.get_track_node_id j := by
  simp [ChanNodeDetails.get_track_node_id, ChanNodeDetails.track, ChanNodeDetails.set_track_node_id,
    List.getD_eq_getElem?_getD, List.getElem?_modify_ne _ _ h]

theorem get_track_node_id_set_same (cd : ChanNodeDetails) (k node : Nat) (h : k < cd.get_chan_width) :
    (cd.set_track_node_id k node).get_track_node_id k = node := by
  unfold ChanNodeDetails.get_chan_width at h
  simp [ChanNodeDetails.get_track_node_id, ChanNodeDetails.track, ChanNodeDetails.set_track_node_id,
    List.getD_eq_getElem?_getD, List.getElem?_modify_eq, List.getElem?_eq_getElem h]

theorem chan_new_node_of_flags_eq (C : ChanHelpers) (a : ChanArgs) {cd cd' : ChanNodeDetails}
    (h : cd'.flags = cd.flags) (k : Nat) : chan_new_node C a cd' k = chan_new_node C a cd k := by
  have e := track_flags_of_flags_eq h k
  simp only [t_chan_track.flags, Prod.mk.injEq] at e
  simp only [chan_new_node, ChanNodeDetails.get_track_direction, ChanNodeDetails.get_track_segment_id,
    e.1, e.2.1]

/-- The effect of one iteration of the track loop on a track for which a node is created:
the new node is the next identity, it is stored as `chan_new_node`, and its list of track
ids is its old list with the slot appended once. -/
theorem load_one_chan_track_create {C : ChanHelpers} {a : ChanArgs} {st st' : RRBuildState}
    {cd cd' : ChanNodeDetails} {k : Nat}
    (h : load_one_chan_track C a (st, cd) k = some (st', cd'))
    (hn : track_needs_node cd k = true) :
    cd' = cd.set_track_node_id k st.nodes.length
      ∧ st'.nodes = st.nodes ++ [chan_new_node C a cd k]
      ∧ st'.rr_node_track_ids
          = Function.update st.rr_node_track_ids st.nodes.length
              (st.rr_node_track_ids st.nodes.length ++ [k])
      ∧ st'.node_track_nums
          = st.node_track_nums ++ [⟨st.nodes.length, a.chan_coordinate.1, a.chan_coordinate.2, k⟩] := by
  obtain ⟨st1, h1, h2⟩ := load_one_chan_track_spec h
  rcases h1 with ⟨_, e1, ecd⟩ | ⟨hn', _, _⟩
  swap
  · rw [hn] at hn'; cases hn'
  obtain ⟨c1, c2, c3, _⟩ := chan_create_track_node_spec C a st cd k
  rw [← e1] at c1 c2 c3
  have hse : (cd.is_track_start k || cd.is_track_end k) = true := by
    unfold track_needs_node at hn
    revert hn
    cases cd.is_track_start k <;> cases cd.is_track_end k <;> simp
  rcases h2 with ⟨e, _, _⟩ | ⟨n, push, hnode, _, _, e, hp⟩
  · rw [e]
    exact ⟨ecd, c1, c2, c3⟩
  · have hpush : push = false := by
      rcases hp with ⟨_, hp⟩ | ⟨_, hse', _⟩
      · have hw : k < cd.get_chan_width := by
          by_contra hc
          have : cd.track k = ⟨0, .NONE, 0, false, false⟩ := by
            unfold ChanNodeDetails.track ChanNodeDetails.get_chan_width at *
            rw [List.getD_eq_default _ _ (Nat.le_of_not_lt hc)]
          rw [ChanNodeDetails.is_track_start, ChanNodeDetails.is_track_end, this] at hse
          simp at hse
        rw [ecd, get_track_node_id_set_same cd k _ hw, c1] at hnode
        simp only [List.getElem?_concat_length, Option.some.injEq] at hnode
        rw [hp, ← hnode]
        simp [chan_new_node]
      · rw [hse] at hse'; cases hse'
    have hw : k < cd.get_chan_width := by
      by_contra hc
      have : cd.track k = ⟨0, .NONE, 0, false, false⟩ := by
        unfold ChanNodeDetails.track ChanNodeDetails.get_chan_width at *
        rw [List.getD_eq_default _ _ (Nat.le_of_not_lt hc)]
      rw [ChanNodeDetails.is_track_start, ChanNodeDetails.is_track_end, this] at hse
      simp at hse
    have hid : cd'.get_track_node_id k = st.nodes.length := by
      rw [ecd, get_track_node_id_set_same cd k _ hw]
    rw [hid, hpush] at e
    refine ⟨ecd, ?_, ?_, ?_⟩
    · rw [e, chan_touch_node_nodes, c1]
      have hat : node_at st1 st.nodes.length = chan_new_node C a cd k := by
        rw [e1]; exact chan_create_node_at_new C a st cd k
      rw [hat, modify_append_length]
      rfl
    · rw [e, chan_touch_node_track_ids]
      simpa using c2
    · rw [e, chan_touch_node_track_nums]
      simpa using c3

/-- The effect of one iteration of the track loop on a track for which no node is
created: no node is added, and at most the node that the track names is updated. -/
theorem load_one_chan_track_keep {C : ChanHelpers} {a : ChanArgs} {st st' : RRBuildState}
    {cd cd' : ChanNodeDetails} {k : Nat}
    (h : load_one_chan_track C a (st, cd) k = some (st', cd'))
    (hn : track_needs_node cd k = false) :
    cd' = cd
      ∧ ((st' = st ∧ (cd.is_track_start k || cd.is_track_end k) = true)
        ∨ ∃ push, cd.get_track_node_id k < st.nodes.length
            ∧ (node_at st (cd.get_track_node_id k)).type = a.chan_type
            ∧ (node_at st (cd.get_track_node_id k)).direction = cd.get_track_direction k
            ∧ st' = chan_touch_node st (cd.get_track_node_id k) a.chan_coordinate k push
            ∧ ((cd.is_track_start k || cd.is_track_end k) = false → push = true)) := by
  obtain ⟨st1, h1, h2⟩ := load_one_chan_track_spec h
  rcases h1 with ⟨hn', _, _⟩ | ⟨_, e1, ecd⟩
  · rw [hn] at hn'; cases hn'
  subst e1
  subst ecd
  refine ⟨rfl, ?_⟩
  rcases h2 with ⟨e, _, hse⟩ | ⟨n, push, hnode, ht, hd, e, hp⟩
  · exact Or.inl ⟨e, hse⟩
  · refine Or.inr ⟨push, lt_length_of_getElem? hnode, ?_, ?_, e, ?_⟩
    · rw [node_at_of_getElem? hnode]; exact ht
    · rw [node_at_of_getElem? hnode]; exact hd
    · intro hse
      rcases hp with ⟨hc, _⟩ | ⟨_, _, hp⟩
      · exfalso
        simp only [Bool.or_eq_false_iff] at hse
        simp [track_closes_node, hse.1, hse.2] at hc
      · exact hp

theorem track_needs_node_of_start_end {cd : ChanNodeDetails} {k : Nat}
    (hs : cd.is_track_start k = true) (he : cd.is_track_end k = true)
    (hd : cd.get_track_direction k = .INC ∨ cd.get_track_direction k = .DEC) :
    track_needs_node cd k = true := by
  unfold track_needs_node
  rcases hd with h | h <;> simp [hs, he, h]

/-- C7. For every track that is flagged both start and end at a channel position, in either
direction, `load_one_chan_rr_nodes_basic_info` creates exactly one node for it: among the
nodes added by the call exactly one has the track's number, its bounding box is the single
position, and its `rr_node_track_ids` list is the track number once (length 1). The
identities that the channel detail hands in name nodes that exist before the call, and
`rr_node_track_ids` has no entries for identities not yet created. -/
theorem load_one_chan_rr_nodes_basic_info_single_position (C : ChanHelpers) (a : ChanArgs)
    (st st' : RRBuildState) (cd cd' : ChanNodeDetails) (itrack : Nat)
    (hrun : load_one_chan_rr_nodes_basic_info C a st cd = some (st', cd'))
    (hi : itrack < cd.get_chan_width)
    (hs : cd.is_track_start itrack = true) (he : cd.is_track_end itrack = true)
    (hd : cd.get_track_direction itrack = .INC ∨ cd.get_track_direction itrack = .DEC)
    (hids : ∀ j, j < cd.get_chan_width → track_needs_node cd j = false →
      cd.get_track_node_id j < st.nodes.length)
    (hfresh : ∀ n, st.nodes.length ≤ n → st.rr_node_track_ids n = []) :
    st.nodes.length ≤ cd'.get_track_node_id itrack
      ∧ cd'.get_track_node_id itrack < st'.nodes.length
      ∧ (node_at st' (cd'.get_track_node_id itrack)).type = a.chan_type
      ∧ (node_at st' (cd'.get_track_node_id itrack)).ptc_num = itrack
      ∧ (node_at st' (cd'.get_track_node_id itrack)).direction = cd.get_track_direction itrack
      ∧ (node_at st' (cd'.get_track_node_id itrack)).xlow = a.chan_coordinate.1
      ∧ (node_at st' (cd'.get_track_node_id itrack)).ylow = a.chan_coordinate.2
      ∧ (node_at st' (cd'.get_track_node_id itrack)).xhigh = a.chan_coordinate.1
      ∧ (node_at st' (cd'.get_track_node_id itrack)).yhigh = a.chan_coordinate.2
      ∧ st'.rr_node_track_ids (cd'.get_track_node_id itrack) = [itrack]
      ∧ (st'.rr_node_track_ids (cd'.get_track_node_id itrack)).length = 1
      ∧ ∀ m, st.nodes.length ≤ m → m < st'.nodes.length → (node_at st' m).ptc_num = itrack →
          m = cd'.get_track_node_id itrack := by
  unfold load_one_chan_rr_nodes_basic_info at hrun
  have key := foldlM_range_invariant (load_one_chan_track C a) cd.get_chan_width
    (fun k s => s.2.flags = cd.flags
      ∧ st.nodes.length ≤ s.1.nodes.length
      ∧ (∀ j, k ≤ j → s.2.get_track_node_id j = cd.get_track_node_id j)
      ∧ (∀ m, st.nodes.length ≤ m → m < s.1.nodes.length →
          (node_at s.1 m).ptc_num < k ∧ s.2.get_track_node_id (node_at s.1 m).ptc_num = m)
      ∧ (itrack < k →
          st.nodes.length ≤ s.2.get_track_node_id itrack
            ∧ s.2.get_track_node_id itrack < s.1.nodes.length
            ∧ node_at s.1 (s.2.get_track_node_id itrack) = chan_new_node C a cd itrack
            ∧ s.1.rr_node_track_ids (s.2.get_track_node_id itrack) = [itrack])
      ∧ (∀ n, s.1.nodes.length ≤ n → s.1.rr_node_track_ids n = []))
    (fun k s s' hk hP hstep => by
      obtain ⟨pa, pb, pc, pd, pe, pf⟩ := hP
      have hstep' : load_one_chan_track C a (s.1, s.2) k = some (s'.1, s'.2) := hstep
      have hneeds : track_needs_node s.2 k = track_needs_node cd k := track_needs_node_of_flags_eq pa k
      have hkw : k < s.2.get_chan_width := by rw [width_of_flags_eq pa]; exact hk
      by_cases hn : track_needs_node s.2 k = true
      · -- a node is created for track k
        obtain ⟨ecd, en, eids, _⟩ := load_one_chan_track_create hstep' hn
        have hlen : s'.1.nodes.length = s.1.nodes.length + 1 := by rw [en]; simp
        have hat_lt : ∀ m, m < s.1.nodes.length → node_at s'.1 m = node_at s.1 m := by
          intro m hm
          simp [node_at, en, List.getD_eq_getElem?_getD, List.getElem?_append_left hm]
        have hat_new : node_at s'.1 s.1.nodes.length = chan_new_node C a cd k := by
          rw [← chan_new_node_of_flags_eq C a pa k]
          simp [node_at, en, List.getD_eq_getElem?_getD]
        refine ⟨?_, ?_, ?_, ?_, ?_, ?_⟩
        · rw [ecd, flags_set_track_node_id]; exact pa
        · omega
        · intro j hj
          rw [ecd, get_track_node_id_set_ne _ _ _ _ (by omega : k ≠ j)]
          exact pc j (by omega)
        · intro m hm1 hm2
          by_cases hm : m < s.1.nodes.length
          · rw [hat_lt m hm]
            obtain ⟨q1, q2⟩ := pd m hm1 hm
            refine ⟨by omega, ?_⟩
            rw [ecd, get_track_node_id_set_ne _ _ _ _ (by omega : k ≠ (node_at s.1 m).ptc_num)]
            exact q2
          · have hme : m = s.1.nodes.length := by omega
            subst hme
            rw [hat_new]
            refine ⟨by simp [chan_new_node], ?_⟩
            rw [ecd]
            simpa [chan_new_node] using get_track_node_id_set_same s.2 k _ hkw
        · intro hik
          by_cases hik' : itrack = k
          · subst hik'
            rw [ecd, get_track_node_id_set_same s.2 itrack _ hkw]
            refine ⟨pb, by omega, hat_new, ?_⟩
            rw [eids, Function.update_same, pf _ (Nat.le_refl _)]
            rfl
          · obtain ⟨q1, q2, q3, q4⟩ := pe (by omega)
            rw [ecd, get_track_node_id_set_ne _ _ _ _ (fun e => hik' e.symm)]
            refine ⟨q1, by omega, ?_, ?_⟩
            · rw [hat_lt _ q2]; exact q3
            · rw [eids, Function.update_noteq (Nat.ne_of_lt q2)]; exact q4
        · intro n hnl
          rw [eids, Function.update_noteq (by omega)]
          exact pf n (by omega)
      · -- no node is created for track k
        have hn' : track_needs_node s.2 k = false := by simpa using hn
        obtain ⟨ecd, hcase⟩ := load_one_chan_track_keep hstep' hn'
        have hik : itrack ≠ k := by
          intro e
          subst e
          rw [hneeds, track_needs_node_of_start_end hs he hd] at hn'
          cases hn'
        have hold : s.2.get_track_node_id k < st.nodes.length := by
          rw [pc k (Nat.le_refl _)]
          exact hids k hk (by rw [← hneeds]; exact hn')
        have hcommon : s'.1.nodes.length = s.1.nodes.length
            ∧ (∀ m, st.nodes.length ≤ m → node_at s'.1 m = node_at s.1 m)
            ∧ (∀ n, st.nodes.length ≤ n → s'.1.rr_node_track_ids n = s.1.rr_node_track_ids n) := by
          rcases hcase with ⟨e, _⟩ | ⟨push, _, _, _, e, _⟩
          · rw [e]
            exact ⟨rfl, fun _ _ => rfl, fun _ _ => rfl⟩
          · rw [e]
            refine ⟨chan_touch_node_length _ _ _ _ _, ?_, ?_⟩
            · intro m hm
              exact chan_touch_node_node_at_ne _ _ _ _ _ _ (by omega)
            · intro n hnl
              rw [chan_touch_node_track_ids]
              split
              · rw [Function.update_noteq (by omega)]
              · rfl
        obtain ⟨c1, c2, c3⟩ := hcommon
        refine ⟨by rw [ecd]; exact pa, by omega, ?_, ?_, ?_, ?_⟩
        · intro j hj
          rw [ecd]
          exact pc j (by omega)
        · intro m hm1 hm2
          rw [c2 m hm1, ecd]
          obtain ⟨q1, q2⟩ := pd m hm1 (by omega)
          exact ⟨by omega, q2⟩
        · intro hlt
          obtain ⟨q1, q2, q3, q4⟩ := pe (by omega)
          rw [ecd]
          exact ⟨q1, by omega, by rw [c2 _ q1]; exact q3, by rw [c3 _ q1]; exact q4⟩
        · intro n hnl
          rw [c3 n (by omega)]
          exact pf n (by omega))
    (st, cd) (st', cd')
    ⟨rfl, Nat.le_refl _, fun _ _ => rfl, fun m h1 h2 => absurd h2 (by simpa using h1),
      fun h => absurd h (Nat.not_lt_zero _), hfresh⟩ hrun
  obtain ⟨_, _, _, pd, pe, _⟩ := key
  obtain ⟨q1, q2, q3, q4⟩ := pe hi
  refine ⟨q1, q2, ?_, ?_, ?_, ?_, ?_, ?_, ?_, q4, by rw [q4]; rfl, ?_⟩
  · rw [q3]; rfl
  · rw [q3]; rfl
  · rw [q3]; rfl
  · rw [q3]; rfl
  · rw [q3]; rfl
  · rw [q3]; rfl
  · rw [q3]; rfl
  · intro m hm1 hm2 hptc
    have := (pd m hm1 hm2).2
    rw [hptc] at this
    exact this.symm

/-- Witness for C7: the first CHANX position (1, 0) of `ex_chan_grid`, a forced start; track
1 (DEC) is both start and end there and gets node 1. -/
theorem load_one_chan_rr_nodes_basic_info_single_position_witness :
    ∃ st' cd', load_one_chan_rr_nodes_basic_info ex_chan_helpers ⟨0, (1, 0), .CHANX, ex_segment_infs, [], 4⟩
        RRBuildState.empty (ex_build_unidir_chan_node_details 4 2 true false ex_segment_infs)
        = some (st', cd')
      ∧ cd'.get_track_node_id 1 = 1
      ∧ st'.rr_node_track_ids (cd'.get_track_node_id 1) = [1]
      ∧ (node_at st' (cd'.get_track_node_id 1)).xhigh = 1 := by
  have hs : (load_one_chan_rr_nodes_basic_info ex_chan_helpers ⟨0, (1, 0), .CHANX, ex_segment_infs, [], 4⟩
      RRBuildState.empty (ex_build_unidir_chan_node_details 4 2 true false ex_segment_infs)).isSome
      = true := by decide
  obtain ⟨r, h⟩ := Option.isSome_iff_exists.mp hs
  have h1 := load_one_chan_rr_nodes_basic_info_single_position ex_chan_helpers
    ⟨0, (1, 0), .CHANX, ex_segment_infs, [], 4⟩ RRBuildState.empty r.1
    (ex_build_unidir_chan_node_details 4 2 true false ex_segment_infs) r.2 1 h
    (by decide) (by decide) (by decide) (by decide) (by decide) (fun _ _ => rfl)
  have h2 : r.2.get_track_node_id 1 = 1 := by
    have e : (load_one_chan_rr_nodes_basic_info ex_chan_helpers ⟨0, (1, 0), .CHANX, ex_segment_infs, [], 4⟩
      RRBuildState.empty (ex_build_unidir_chan_node_details 4 2 true false ex_segment_infs)).map
        (fun r => r.2.get_track_node_id 1) = some 1 := by decide
    rw [h] at e
    exact Option.some.inj e
  exact ⟨r.1, r.2, h, h2, h1.2.2.2.2.2.2.2.2.2.1, h1.2.2.2.2.2.2.2.1⟩

theorem transplant_getD (ts : List t_chan_track) (ids : List Nat) (j : Nat) (d : t_chan_track)
    (h1 : j < ts.length) (h2 : j < ids.length) :
    ((ChanNodeDetails.transplant ts ids).getD j d).node_id = ids.getD j 0 := by
  induction ts generalizing ids j with
  | nil => cases h1
  | cons t ts ih =>
    cases ids with
    | nil => cases h2
    | cons id ids =>
      cases j with
      | zero => simp [ChanNodeDetails.transplant]
      | succ j =>
        simp only [ChanNodeDetails.transplant, List.getD_cons_succ]
        exact ih ids j (Nat.lt_of_succ_lt_succ h1) (Nat.lt_of_succ_lt_succ h2)

theorem get_track_node_id_set_track_node_ids (cd : ChanNodeDetails) (ids : List Nat) (j : Nat)
    (h1 : j < cd.get_chan_width) (h2 : j < ids.length) :
    (cd.set_track_node_ids ids).get_track_node_id j = ids.getD j 0 :=
  transplant_getD cd.tracks ids j _ h1 h2

theorem get_track_node_ids_getD (cd : ChanNodeDetails) (j : Nat) (h : j < cd.get_chan_width) :
    cd.get_track_node_ids.getD j 0 = cd.get_track_node_id j := by
  unfold ChanNodeDetails.get_chan_width at h
  simp [ChanNodeDetails.get_track_node_ids, ChanNodeDetails.get_track_node_id, ChanNodeDetails.track,
    List.getD_eq_getElem?_getD, List.getElem?_eq_getElem h]

theorem track_needs_node_of_not_start_end {cd : ChanNodeDetails} {k : Nat}
    (hs : cd.is_track_start k = false) (he : cd.is_track_end k = false) :
    track_needs_node cd k = false := by
  simp [track_needs_node, hs, he]

/-- A track that neither starts nor ends at the position of the call keeps its node: after
`load_one_chan_rr_nodes_basic_info` the node has its old low corner and its high corner at
the position. -/
theorem load_one_chan_rr_nodes_basic_info_pass (C : ChanHelpers) (a : ChanArgs)
    (st st' : RRBuildState) (cd cd' : ChanNodeDetails) (itrack : Nat)
    (hrun : load_one_chan_rr_nodes_basic_info C a st cd = some (st', cd'))
    (hi : itrack < cd.get_chan_width)
    (hs : cd.is_track_start itrack = false) (he : cd.is_track_end itrack = false)
    (hold : cd.get_track_node_id itrack < st.nodes.length) :
    cd'.get_chan_width = cd.get_chan_width
      ∧ cd'.get_track_node_id itrack = cd.get_track_node_id itrack
      ∧ (node_at st' (cd.get_track_node_id itrack)).xlow = (node_at st (cd.get_track_node_id itrack)).xlow
      ∧ (node_at st' (cd.get_track_node_id itrack)).ylow = (node_at st (cd.get_track_node_id itrack)).ylow
      ∧ (node_at st' (cd.get_track_node_id itrack)).xhigh = a.chan_coordinate.1
      ∧ (node_at st' (cd.get_track_node_id itrack)).yhigh = a.chan_coordinate.2 := by
  unfold load_one_chan_rr_nodes_basic_info at hrun
  have key := foldlM_range_invariant (load_one_chan_track C a) cd.get_chan_width
    (fun k s => s.2.flags = cd.flags
      ∧ st.nodes.length ≤ s.1.nodes.length
      ∧ (∀ j, track_needs_node cd j = false → s.2.get_track_node_id j = cd.get_track_node_id j)
      ∧ (node_at s.1 (cd.get_track_node_id itrack)).xlow = (node_at st (cd.get_track_node_id itrack)).xlow
      ∧ (node_at s.1 (cd.get_track_node_id itrack)).ylow = (node_at st (cd.get_track_node_id itrack)).ylow
      ∧ (itrack < k →
          (node_at s.1 (cd.get_track_node_id itrack)).xhigh = a.chan_coordinate.1
            ∧ (node_at s.1 (cd.get_track_node_id itrack)).yhigh = a.chan_coordinate.2))
    (fun k s s' hk hP hstep => by
      obtain ⟨pa, pb, pc, pd, pe, pf⟩ := hP
      have hstep' : load_one_chan_track C a (s.1, s.2) k = some (s'.1, s'.2) := hstep
      have hneeds : track_needs_node s.2 k = track_needs_node cd k := track_needs_node_of_flags_eq pa k
      have hlt : cd.get_track_node_id itrack < s.1.nodes.length := by omega
      by_cases hn : track_needs_node s.2 k = true
      · obtain ⟨ecd, en, _, _⟩ := load_one_chan_track_create hstep' hn
        have hat : node_at s'.1 (cd.get_track_node_id itrack) = node_at s.1 (cd.get_track_node_id itrack) := by
          simp [node_at, en, List.getD_eq_getElem?_getD, List.getElem?_append_left hlt]
        have hik : itrack ≠ k := by
          intro e
          subst e
          rw [hneeds, track_needs_node_of_not_start_end hs he] at hn
          cases hn
        refine ⟨by rw [ecd, flags_set_track_node_id]; exact pa, by rw [en]; simp; omega, ?_, ?_, ?_, ?_⟩
        · intro j hj
          have hjk : k ≠ j := by
            intro e
            subst e
            rw [hneeds, hj] at hn
            cases hn
          rw [ecd, get_track_node_id_set_ne _ _ _ _ hjk]
          exact pc j hj
        · rw [hat]; exact pd
        · rw [hat]; exact pe
        · intro h
          rw [hat]
          exact pf (by omega)
      · have hn' : track_needs_node s.2 k = false := by simpa using hn
        obtain ⟨ecd, hcase⟩ := load_one_chan_track_keep hstep' hn'
        have hse : ∀ f : Direction × Nat × Bool × Bool → Bool,
            f (s.2.track k).flags = f (cd.track k).flags := by
          intro f
          rw [track_flags_of_flags_eq pa k]
        rcases hcase with ⟨e, hse1⟩ | ⟨push, hid, _, _, e, hpush⟩
        · have hik : itrack ≠ k := by
            intro e'
            subst e'
            have h1 := hse (fun f => f.2.2.1 || f.2.2.2)
            simp only [t_chan_track.flags] at h1
            simp only [ChanNodeDetails.is_track_start, ChanNodeDetails.is_track_end] at hse1 hs he
            rw [h1, hs, he] at hse1
            cases hse1
          refine ⟨by rw [ecd]; exact pa, by rw [e]; exact pb, by rw [ecd]; exact pc, by rw [e]; exact pd,
            by rw [e]; exact pe, ?_⟩
          intro h
          rw [e]
          exact pf (by omega)
        · refine ⟨by rw [ecd]; exact pa, by rw [e, chan_touch_node_length]; exact pb,
            by rw [ecd]; exact pc, ?_, ?_, ?_⟩
          · by_cases hsame : s.2.get_track_node_id k = cd.get_track_node_id itrack
            · rw [e, hsame, chan_touch_node_node_at_same _ _ _ _ _ hlt]
              exact pd
            · rw [e, chan_touch_node_node_at_ne _ _ _ _ _ _ hsame]
              exact pd
          · by_cases hsame : s.2.get_track_node_id k = cd.get_track_node_id itrack
            · rw [e, hsame, chan_touch_node_node_at_same _ _ _ _ _ hlt]
              exact pe
            · rw [e, chan_touch_node_node_at_ne _ _ _ _ _ _ hsame]
              exact pe
          · intro h
            by_cases hsame : s.2.get_track_node_id k = cd.get_track_node_id itrack
            · rw [e, hsame, chan_touch_node_node_at_same _ _ _ _ _ hlt]
              exact ⟨rfl, rfl⟩
            · rw [e, chan_touch_node_node_at_ne _ _ _ _ _ _ hsame]
              have hik : itrack ≠ k := by
                intro e'
                subst e'
                exact hsame (pc itrack (track_needs_node_of_not_start_end hs he))
              exact pf (by omega))
    (st, cd) (st', cd')
    ⟨rfl, Nat.le_refl _, fun _ _ => rfl, rfl, rfl, fun h => absurd h (Nat.not_lt_zero _)⟩ hrun
  obtain ⟨pa, _, pc, pd, pe, pf⟩ := key
  exact ⟨width_of_flags_eq pa, pc itrack (track_needs_node_of_not_start_end hs he), pd, pe,
    (pf hi).1, (pf hi).2⟩

/-- C6. At a channel position p2 = (ix, iy) that exists and is handed the identities
`track_node_ids` of the previous position p1 of its row (CHANX) or column (CHANY), every
track that neither starts nor ends at p2 is bound to the identity at its slot in the
previous identities after the rotation (`chanx_forced_node_ids`, `chany_forced_node_ids`:
INC identities rotated one step one way, DEC identities one step the other way), it hands
that identity on, and after `load_one_chan_rr_nodes_basic_info` at p2 that node has its old
low corner and its high corner at p2; so a wire whose box was the single position p1 has
the box spanning from p1 to p2. -/
theorem load_chan_position_continues_wire (C : ChanHelpers) (grids : DeviceGrid)
    (layer chan_width : Nat) (segment_infs : List t_segment_inf) (num_segment_x : Nat)
    (seg_index_map : t_unified_to_parallel_seg_index)
    ( device_grid_annotation : DeviceGridAnnotation) (shrink_boundary through_channel : Bool)
    (ix iy itrack : Nat) (st st' : RRBuildState) (track_node_ids track_node_ids' : List Nat) :
    (load_chanx_position C grids layer chan_width segment_infs seg_index_map device_grid_annotation
          shrink_boundary through_channel iy (st, track_node_ids) ix = some (st', track_node_ids') →
      chanx_bypass C grids layer (ix, iy) device_grid_annotation shrink_boundary through_channel = false →
      0 < track_node_ids.length →
      itrack < (chanx_forced_node_ids C grids layer chan_width segment_infs through_channel (ix, iy)
                  track_node_ids).length →
      itrack < (chanx_details_at C grids layer chan_width segment_infs device_grid_annotation
                  shrink_boundary through_channel (ix, iy) track_node_ids).get_chan_width →
      (chanx_details_at C grids layer chan_width segment_infs device_grid_annotation
          shrink_boundary through_channel (ix, iy) track_node_ids).is_track_start itrack = false →
      (chanx_details_at C grids layer chan_width segment_infs device_grid_annotation
          shrink_boundary through_channel (ix, iy) track_node_ids).is_track_end itrack = false →
      (chanx_forced_node_ids C grids layer chan_width segment_infs through_channel (ix, iy)
          track_node_ids).getD itrack 0 < st.nodes.length →
      (C.is_chanx_exist_through grids layer (ix, iy) through_channel = true →
        chanx_forced_node_ids C grids layer chan_width segment_infs through_channel (ix, iy)
            track_node_ids
          = (C.rotate_track_node_id
              (C.rotate_track_node_id
                ((C.build_unidir_chan_node_details chan_width (size_t_sub grids.width 2) false false
                    segment_infs).set_track_node_ids track_node_ids)
                1 .INC true)
              1 .DEC false).get_track_node_ids)
      ∧ (chanx_details_at C grids layer chan_width segment_infs device_grid_annotation
            shrink_boundary through_channel (ix, iy) track_node_ids).get_track_node_id itrack
          = (chanx_forced_node_ids C grids layer chan_width segment_infs through_channel (ix, iy)
              track_node_ids).getD itrack 0
      ∧ track_node_ids'.getD itrack 0
          = (chanx_forced_node_ids C grids layer chan_width segment_infs through_channel (ix, iy)
              track_node_ids).getD itrack 0
      ∧ ∀ n, n = (chanx_forced_node_ids C grids layer chan_width segment_infs through_channel (ix, iy)
              track_node_ids).getD itrack 0 →
          (node_at st' n).xlow = (node_at st n).xlow ∧ (node_at st' n).ylow = (node_at st n).ylow
            ∧ (node_at st' n).xhigh = ix ∧ (node_at st' n).yhigh = iy
            ∧ ∀ p1x p1y, ((node_at st n).xlow = p1x ∧ (node_at st n).ylow = p1y
                ∧ (node_at st n).xhigh = p1x ∧ (node_at st n).yhigh = p1y) →
              ((node_at st' n).xlow = p1x ∧ (node_at st' n).ylow = p1y
                ∧ (node_at st' n).xhigh = ix ∧ (node_at st' n).yhigh = iy))
    ∧ (load_chany_position C grids layer chan_width segment_infs num_segment_x seg_index_map
          device_grid_annotation shrink_boundary through_channel ix (st, track_node_ids) iy
          = some (st', track_node_ids') →
      chany_bypass C grids layer (ix, iy) device_grid_annotation shrink_boundary through_channel = false →
      0 < track_node_ids.length →
      itrack < (chany_forced_node_ids C grids layer chan_width segment_infs through_channel (ix, iy)
                  track_node_ids).length →
      itrack < (chany_details_at C grids layer chan_width segment_infs device_grid_annotation
                  shrink_boundary through_channel (ix, iy) track_node_ids).get_chan_width →
      (chany_details_at C grids layer chan_width segment_infs device_grid_annotation
          shrink_boundary through_channel (ix, iy) track_node_ids).is_track_start itrack = false →
      (chany_details_at C grids layer chan_width segment_infs device_grid_annotation
          shrink_boundary through_channel (ix, iy) track_node_ids).is_track_end itrack = false →
      (chany_forced_node_ids C grids layer chan_width segment_infs through_channel (ix, iy)
          track_node_ids).getD itrack 0 < st.nodes.length →
      (C.is_chany_exist_through grids layer (ix, iy) through_channel = true →
        chany_forced_node_ids C grids layer chan_width segment_infs through_channel (ix, iy)
            track_node_ids
          = (C.rotate_track_node_id
              (C.rotate_track_node_id
                ((C.build_unidir_chan_node_details chan_width (size_t_sub grids.height 2) false false
                    segment_infs).set_track_node_ids track_node_ids)
                1 .INC true)
              1 .DEC false).get_track_node_ids)
      ∧ (chany_details_at C grids layer chan_width segment_infs device_grid_annotation
            shrink_boundary through_channel (ix, iy) track_node_ids).get_track_node_id itrack
          = (chany_forced_node_ids C grids layer chan_width segment_infs through_channel (ix, iy)
              track_node_ids).getD itrack 0
      ∧ track_node_ids'.getD itrack 0
          = (chany_forced_node_ids C grids layer chan_width segment_infs through_channel (ix, iy)
              track_node_ids).getD itrack 0
      ∧ ∀ n, n = (chany_forced_node_ids C grids layer chan_width segment_infs through_channel (ix, iy)
              track_node_ids).getD itrack 0 →
          (node_at st' n).xlow = (node_at st n).xlow ∧ (node_at st' n).ylow = (node_at st n).ylow
            ∧ (node_at st' n).xhigh = ix ∧ (node_at st' n).yhigh = iy
            ∧ ∀ p1x p1y, ((node_at st n).xlow = p1x ∧ (node_at st n).ylow = p1y
                ∧ (node_at st n).xhigh = p1x ∧ (node_at st n).yhigh = p1y) →
              ((node_at st' n).xlow = p1x ∧ (node_at st' n).ylow = p1y
                ∧ (node_at st' n).xhigh = ix ∧ (node_at st' n).yhigh = iy)) := by
  constructor
  · intro hrun hby hprev hi hw hs he hold
    have hid : (chanx_details_at C grids layer chan_width segment_infs device_grid_annotation
          shrink_boundary through_channel (ix, iy) track_node_ids).get_track_node_id itrack
        = (chanx_forced_node_ids C grids layer chan_width segment_infs through_channel (ix, iy)
            track_node_ids).getD itrack 0 := by
      have hw' := hw
      unfold chanx_details_at at hw' ⊢
      simp only [hprev, if_true] at hw' ⊢
      refine get_track_node_id_set_track_node_ids _ _ _ ?_ hi
      rw [← width_of_flags_eq (flags_set_track_node_ids _ _)]
      exact hw'
    unfold load_chanx_position at hrun
    simp only [hby, Bool.false_eq_true, if_false] at hrun
    cases hr : load_one_chan_rr_nodes_basic_info C
        ⟨layer, (ix, iy), .CHANX, segment_infs, seg_index_map, C.CHANX_COST_INDEX_START⟩ st
        (chanx_details_at C grids layer chan_width segment_infs device_grid_annotation
          shrink_boundary through_channel (ix, iy) track_node_ids) with
    | none => rw [hr] at hrun; simp at hrun
    | some r =>
      rw [hr] at hrun
      simp only [Option.some.injEq, Prod.mk.injEq] at hrun
      obtain ⟨e1, e2⟩ := hrun
      obtain ⟨q0, q1, q2, q3, q4, q5⟩ := load_one_chan_rr_nodes_basic_info_pass C _ st r.1 _ r.2 itrack
        hr hw hs he (by rw [hid]; exact hold)
      rw [hid] at q1 q2 q3 q4 q5
      rw [e1] at q2 q3 q4 q5
      refine ⟨?_, hid, ?_, ?_⟩
      · intro hex
        unfold chanx_forced_node_ids
        simp only [hex, if_true]
      · rw [← e2, get_track_node_ids_getD _ _ (by rw [q0]; exact hw)]
        exact q1
      · intro n hn
        subst hn
        refine ⟨q2, q3, q4, q5, ?_⟩
        rintro p1x p1y ⟨b1, b2, _, _⟩
        exact ⟨q2.trans b1, q3.trans b2, q4, q5⟩
  · intro hrun hby hprev hi hw hs he hold
    have hid : (chany_details_at C grids layer chan_width segment_infs device_grid_annotation
          shrink_boundary through_channel (ix, iy) track_node_ids).get_track_node_id itrack
        = (chany_forced_node_ids C grids layer chan_width segment_infs through_channel (ix, iy)
            track_node_ids).getD itrack 0 := by
      have hw' := hw
      unfold chany_details_at at hw' ⊢
      simp only [hprev, if_true] at hw' ⊢
      refine get_track_node_id_set_track_node_ids _ _ _ ?_ hi
      rw [← width_of_flags_eq (flags_set_track_node_ids _ _)]
      exact hw'
    unfold load_chany_position at hrun
    simp only [hby, Bool.false_eq_true, if_false] at hrun
    cases hr : load_one_chan_rr_nodes_basic_info C
        ⟨layer, (ix, iy), .CHANY, segment_infs, seg_index_map,
          C.CHANX_COST_INDEX_START + num_segment_x⟩ st
        (chany_details_at C grids layer chan_width segment_infs device_grid_annotation
          shrink_boundary through_channel (ix, iy) track_node_ids) with
    | none => rw [hr] at hrun; simp at hrun
    | some r =>
      rw [hr] at hrun
      simp only [Option.some.injEq, Prod.mk.injEq] at hrun
      obtain ⟨e1, e2⟩ := hrun
      obtain ⟨q0, q1, q2, q3, q4, q5⟩ := load_one_chan_rr_nodes_basic_info_pass C _ st r.1 _ r.2 itrack
        hr hw hs he (by rw [hid]; exact hold)
      rw [hid] at q1 q2 q3 q4 q5
      rw [e1] at q2 q3 q4 q5
      refine ⟨?_, hid, ?_, ?_⟩
      · intro hex
        unfold chany_forced_node_ids
        simp only [hex, if_true]
      · rw [← e2, get_track_node_ids_getD _ _ (by rw [q0]; exact hw)]
        exact q1
      · intro n hn
        subst hn
        refine ⟨q2, q3, q4, q5, ?_⟩
        rintro p1x p1y ⟨b1, b2, _, _⟩
        exact ⟨q2.trans b1, q3.trans b2, q4, q5⟩

/-- Witness for C6: on `ex_long_chan_grid` (channel width 6, length-3 wires) track 2 passes
through position (2, 0); it is bound to node 0, created at (1, 0), whose box becomes
(1, 0)-(2, 0). -/
theorem load_chan_position_continues_wire_witness :
    ∃ st' ids', load_chanx_position ex_chan_helpers ex_long_chan_grid 0 6 ex_long_segment_infs []
        ex_device_grid_annot false false 0 ex_after_first_position 2 = some (st', ids')
      ∧ ids'.getD 2 0 = 0
      ∧ (node_at ex_after_first_position.1 0).xlow = 1
      ∧ (node_at ex_after_first_position.1 0).xhigh = 1
      ∧ (node_at st' 0).xlow = 1 ∧ (node_at st' 0).ylow = 0
      ∧ (node_at st' 0).xhigh = 2 ∧ (node_at st' 0).yhigh = 0 := by
  have hs : (load_chanx_position ex_chan_helpers ex_long_chan_grid 0 6 ex_long_segment_infs []
      ex_device_grid_annot false false 0 ex_after_first_position 2).isSome = true := by decide
  obtain ⟨r, h⟩ := Option.isSome_iff_exists.mp hs
  have h1 := (load_chan_position_continues_wire ex_chan_helpers ex_long_chan_grid 0 6
    ex_long_segment_infs 1 [] ex_device_grid_annot false false 2 0 2 ex_after_first_position.1 r.1
    ex_after_first_position.2 r.2).1 h (by decide) (by decide) (by decide) (by decide) (by decide)
    (by decide) (by decide)
  have hf : (chanx_forced_node_ids ex_chan_helpers ex_long_chan_grid 0 6 ex_long_segment_infs false
      (2, 0) ex_after_first_position.2).getD 2 0 = 0 := by decide
  obtain ⟨_, _, h3, h4⟩ := h1
  obtain ⟨_, _, _, _, h5⟩ := h4 0 hf.symm
  obtain ⟨b1, b2, b3, b4⟩ := h5 1 0 (by decide)
  exact ⟨r.1, r.2, h, h3.trans hf, by decide, by decide, b1, b2, b3, b4⟩

theorem chan_frame_refl (st : RRBuildState) : chan_frame st st :=
  ⟨Nat.le_refl _, fun _ _ => ⟨rfl, rfl⟩, fun h => h⟩

theorem chan_frame_trans {s1 s2 s3 : RRBuildState} (h12 : chan_frame s1 s2) (h23 : chan_frame s2 s3) :
    chan_frame s1 s3 := by
  obtain ⟨a1, a2, a3⟩ := h12
  obtain ⟨b1, b2, b3⟩ := h23
  refine ⟨Nat.le_trans a1 b1, fun m hm => ?_, fun h => b3 (a3 h)⟩
  obtain ⟨c1, c2⟩ := a2 m hm
  obtain ⟨d1, d2⟩ := b2 m (Nat.lt_of_lt_of_le hm a1)
  exact ⟨d1.trans c1, d2.trans c2⟩

theorem track_ids_match_push {st st' : RRBuildState} {id k x y : Nat}
    (hids : st'.rr_node_track_ids
      = Function.update st.rr_node_track_ids id (st.rr_node_track_ids id ++ [k]))
    (hlog : st'.node_track_nums = st.node_track_nums ++ [⟨id, x, y, k⟩])
    (h : track_ids_match st) : track_ids_match st' := by
  intro n
  unfold recorded_track_nums
  rw [hids, hlog, List.filter_append]
  by_cases hn : n = id
  · subst hn
    rw [Function.update_same, h n]
    simp [recorded_track_nums]
  · rw [Function.update_noteq hn, h n]
    have : ¬ id = n := fun e => hn e.symm
    simp [recorded_track_nums, this]

theorem chan_recorded_nil (T : t_rr_type) (R : t_track_num → Prop) (st st' : RRBuildState)
    (h : st'.node_track_nums = st.node_track_nums) : chan_recorded T R st st' [] :=
  ⟨by rw [h]; simp, fun e he => by cases he⟩

/-- One iteration of the track loop: frame and the slots it records, all at the position
of the call. -/
theorem load_one_chan_track_frame {C : ChanHelpers} {a : ChanArgs} {st st' : RRBuildState}
    {cd cd' : ChanNodeDetails} {k : Nat}
    (h : load_one_chan_track C a (st, cd) k = some (st', cd')) :
    chan_frame st st'
      ∧ ∃ new, chan_recorded a.chan_type
          (fun e => e.x = a.chan_coordinate.1 ∧ e.y = a.chan_coordinate.2) st st' new := by
  by_cases hn : track_needs_node cd k = true
  · obtain ⟨_, en, eids, elog⟩ := load_one_chan_track_create h hn
    have hat_lt : ∀ m, m < st.nodes.length → node_at st' m = node_at st m := by
      intro m hm
      simp [node_at, en, List.getD_eq_getElem?_getD, List.getElem?_append_left hm]
    have hat_new : node_at st' st.nodes.length = chan_new_node C a cd k := by
      simp [node_at, en, List.getD_eq_getElem?_getD]
    refine ⟨⟨by rw [en]; simp, fun m hm => by rw [hat_lt m hm]; exact ⟨rfl, rfl⟩,
      track_ids_match_push eids elog⟩, [⟨st.nodes.length, a.chan_coordinate.1, a.chan_coordinate.2, k⟩],
      elog, ?_⟩
    intro e he
    rw [List.mem_singleton] at he
    subst he
    refine ⟨⟨rfl, rfl⟩, by rw [en]; simp, ?_⟩
    rw [hat_new]
    rfl
  · have hn' : track_needs_node cd k = false := by simpa using hn
    obtain ⟨_, hcase⟩ := load_one_chan_track_keep h hn'
    rcases hcase with ⟨e, _⟩ | ⟨push, hid, hty, _, e, _⟩
    · rw [e]
      exact ⟨chan_frame_refl st, [], chan_recorded_nil _ _ _ _ rfl⟩
    · have hlen : st'.nodes.length = st.nodes.length := by rw [e, chan_touch_node_length]
      have hty' : ∀ m, (node_at st' m).type = (node_at st m).type
          ∧ (node_at st' m).direction = (node_at st m).direction := by
        intro m
        by_cases hm : cd.get_track_node_id k = m
        · subst hm
          rw [e, chan_touch_node_node_at_same _ _ _ _ _ hid]
          exact ⟨rfl, rfl⟩
        · rw [e, chan_touch_node_node_at_ne _ _ _ _ _ _ hm]
          exact ⟨rfl, rfl⟩
      cases push with
      | false =>
        have hlog : st'.node_track_nums = st.node_track_nums := by
          rw [e, chan_touch_node_track_nums]; rfl
        have hids : st'.rr_node_track_ids = st.rr_node_track_ids := by
          rw [e, chan_touch_node_track_ids]; rfl
        refine ⟨⟨by omega, fun m _ => hty' m, ?_⟩, [], chan_recorded_nil _ _ _ _ hlog⟩
        intro hm n
        unfold recorded_track_nums
        rw [hids, hlog]
        exact hm n
      | true =>
        have hlog : st'.node_track_nums = st.node_track_nums
            ++ [⟨cd.get_track_node_id k, a.chan_coordinate.1, a.chan_coordinate.2, k⟩] := by
          rw [e, chan_touch_node_track_nums]; rfl
        have hids : st'.rr_node_track_ids = Function.update st.rr_node_track_ids
            (cd.get_track_node_id k) (st.rr_node_track_ids (cd.get_track_node_id k) ++ [k]) := by
          rw [e, chan_touch_node_track_ids]; rfl
        refine ⟨⟨by omega, fun m _ => hty' m, track_ids_match_push hids hlog⟩, _, hlog, ?_⟩
        intro e' he'
        rw [List.mem_singleton] at he'
        subst he'
        exact ⟨⟨rfl, rfl⟩, by rw [hlen]; exact hid, by rw [(hty' _).1]; exact hty⟩

theorem chan_recorded_append {T : t_rr_type} {R : t_track_num → Prop} {s1 s2 s3 : RRBuildState}
    {new1 new2 : List t_track_num} (h12 : chan_recorded T R s1 s2 new1)
    (hf : chan_frame s2 s3) (h23 : chan_recorded T R s2 s3 new2) :
    chan_recorded T R s1 s3 (new1 ++ new2) := by
  obtain ⟨a1, a2⟩ := h12
  obtain ⟨b1, b2⟩ := h23
  refine ⟨by rw [b1, a1, List.append_assoc], ?_⟩
  intro e he
  rcases List.mem_append.mp he with h | h
  · obtain ⟨r, hl, ht⟩ := a2 e h
    exact ⟨r, Nat.lt_of_lt_of_le hl hf.1, (hf.2.1 e.node hl).1.trans ht⟩
  · exact b2 e h

theorem chan_recorded_mono {T : t_rr_type} {R R' : t_track_num → Prop} {s1 s2 : RRBuildState}
    {new : List t_track_num} (h : chan_recorded T R s1 s2 new) (hR : ∀ e, R e → R' e) :
    chan_recorded T R' s1 s2 new :=
  ⟨h.1, fun e he => ⟨hR e (h.2 e he).1, (h.2 e he).2⟩⟩

/-- A whole call of `load_one_chan_rr_nodes_basic_info`: frame and recorded slots. -/
theorem load_one_chan_rr_nodes_basic_info_frame {C : ChanHelpers} {a : ChanArgs}
    {st st' : RRBuildState} {cd cd' : ChanNodeDetails}
    (h : load_one_chan_rr_nodes_basic_info C a st cd = some (st', cd')) :
    chan_frame st st'
      ∧ ∃ new, chan_recorded a.chan_type
          (fun e => e.x = a.chan_coordinate.1 ∧ e.y = a.chan_coordinate.2) st st' new := by
  unfold load_one_chan_rr_nodes_basic_info at h
  exact foldlM_invariant
    (fun s : RRBuildState × ChanNodeDetails => chan_frame st s.1
      ∧ ∃ new, chan_recorded a.chan_type
          (fun e => e.x = a.chan_coordinate.1 ∧ e.y = a.chan_coordinate.2) st s.1 new)
    (load_one_chan_track C a)
    (fun s k s' hP hstep => by
      obtain ⟨f1, new1, r1⟩ := hP
      have hstep' : load_one_chan_track C a (s.1, s.2) k = some (s'.1, s'.2) := hstep
      obtain ⟨f2, new2, r2⟩ := load_one_chan_track_frame hstep'
      exact ⟨chan_frame_trans f1 f2, new1 ++ new2, chan_recorded_append r1 f2 r2⟩)
    _ (st, cd) (st', cd') ⟨chan_frame_refl st, [], chan_recorded_nil _ _ _ _ rfl⟩ h

/-! ## Track-id order after `create_tileable_rr_graph_nodes` -/

theorem load_one_source_node_log (H : GridHelpers) (st : RRBuildState) (layer gx gy : Nat)
    (t : t_physical_tile_type) (sw iclass : Nat) :
    (load_one_source_node H st layer gx gy t sw iclass).node_track_nums = st.node_track_nums
      ∧ (load_one_source_node H st layer gx gy t sw iclass).rr_node_track_ids
          = st.rr_node_track_ids := by
  unfold load_one_source_node
  split <;> exact ⟨rfl, rfl⟩

theorem load_one_sink_node_log (H : GridHelpers) (st : RRBuildState) (layer gx gy : Nat)
    (t : t_physical_tile_type) (sw iclass : Nat) :
    (load_one_sink_node H st layer gx gy t sw iclass).node_track_nums = st.node_track_nums
      ∧ (load_one_sink_node H st layer gx gy t sw iclass).rr_node_track_ids
          = st.rr_node_track_ids := by
  unfold load_one_sink_node
  split <;> exact ⟨rfl, rfl⟩

theorem load_one_opin_node_log (H : GridHelpers) (st : RRBuildState) (layer gx gy width height : Nat)
    (side : e_side) (sw pin_num : Nat) :
    (load_one_opin_node H st layer gx gy width height side sw pin_num).node_track_nums
        = st.node_track_nums
      ∧ (load_one_opin_node H st layer gx gy width height side sw pin_num).rr_node_track_ids
          = st.rr_node_track_ids :=
  ⟨rfl, rfl⟩

theorem load_one_ipin_node_log (H : GridHelpers) (st : RRBuildState) (layer gx gy width height : Nat)
    (side : e_side) (sw pin_num : Nat) :
    (load_one_ipin_node H st layer gx gy width height side sw pin_num).node_track_nums
        = st.node_track_nums
      ∧ (load_one_ipin_node H st layer gx gy width height side sw pin_num).rr_node_track_ids
          = st.rr_node_track_ids :=
  ⟨rfl, rfl⟩

theorem foldl_log {ι : Type} (step : RRBuildState → ι → RRBuildState)
    (h : ∀ s i, (step s i).node_track_nums = s.node_track_nums
      ∧ (step s i).rr_node_track_ids = s.rr_node_track_ids)
    (l : List ι) (s : RRBuildState) :
    (l.foldl step s).node_track_nums = s.node_track_nums
      ∧ (l.foldl step s).rr_node_track_ids = s.rr_node_track_ids :=
  foldl_invariant
    (fun s' : RRBuildState => s'.node_track_nums = s.node_track_nums
      ∧ s'.rr_node_track_ids = s.rr_node_track_ids)
    step (fun s1 i h1 => ⟨(h s1 i).1.trans h1.1, (h s1 i).2.trans h1.2⟩) l s ⟨rfl, rfl⟩

theorem load_grid_nodes_cell_log (H : GridHelpers) (st : RRBuildState) (grids : DeviceGrid)
    (layer w d ix iy : Nat) :
    (load_grid_nodes_cell H st grids layer w d ix iy).node_track_nums = st.node_track_nums
      ∧ (load_grid_nodes_cell H st grids layer w d ix iy).rr_node_track_ids
          = st.rr_node_track_ids := by
  have hsrc : ∀ s : RRBuildState,
      (load_one_grid_source_nodes_basic_info H s layer ix iy grids d).node_track_nums
          = s.node_track_nums
        ∧ (load_one_grid_source_nodes_basic_info H s layer ix iy grids d).rr_node_track_ids
          = s.rr_node_track_ids := fun s =>
    foldl_log _ (fun s1 i => load_one_source_node_log H s1 layer ix iy _ d i) _ s
  have hsnk : ∀ s : RRBuildState,
      (load_one_grid_sink_nodes_basic_info H s layer ix iy grids d).node_track_nums
          = s.node_track_nums
        ∧ (load_one_grid_sink_nodes_basic_info H s layer ix iy grids d).rr_node_track_ids
          = s.rr_node_track_ids := fun s =>
    foldl_log _ (fun s1 i => load_one_sink_node_log H s1 layer ix iy _ d i) _ s
  have hopin : ∀ (s : RRBuildState) (side : e_side),
      (load_one_grid_opin_nodes_basic_info H s layer ix iy grids side d).node_track_nums
          = s.node_track_nums
        ∧ (load_one_grid_opin_nodes_basic_info H s layer ix iy grids side d).rr_node_track_ids
          = s.rr_node_track_ids := by
    intro s side
    unfold load_one_grid_opin_nodes_basic_info
    refine foldl_log _ (fun s1 width => ?_) _ s
    refine foldl_log _ (fun s2 height => ?_) _ s1
    refine foldl_log _ (fun s3 sd => ?_) _ s2
    split
    · exact ⟨rfl, rfl⟩
    · exact foldl_log _ (fun s4 p => load_one_opin_node_log H s4 layer ix iy width height sd d p) _ s3
  have hipin : ∀ (s : RRBuildState) (side : e_side),
      (load_one_grid_ipin_nodes_basic_info H s layer ix iy grids side w).node_track_nums
          = s.node_track_nums
        ∧ (load_one_grid_ipin_nodes_basic_info H s layer ix iy grids side w).rr_node_track_ids
          = s.rr_node_track_ids := by
    intro s side
    unfold load_one_grid_ipin_nodes_basic_info
    refine foldl_log _ (fun s1 width => ?_) _ s
    refine foldl_log _ (fun s2 height => ?_) _ s1
    refine foldl_log _ (fun s3 sd => ?_) _ s2
    split
    · exact ⟨rfl, rfl⟩
    · exact foldl_log _ (fun s4 p => load_one_ipin_node_log H s4 layer ix iy width height sd w p) _ s3
  unfold load_grid_nodes_cell
  split
  · exact ⟨rfl, rfl⟩
  · split
    · exact ⟨rfl, rfl⟩
    · dsimp only
      exact ⟨(hipin _ _).1.trans ((hopin _ _).1.trans ((hsnk _).1.trans (hsrc _).1)),
        (hipin _ _).2.trans ((hopin _ _).2.trans ((hsnk _).2.trans (hsrc _).2))⟩

theorem mirror_grid_nodes_cell_log (st : RRBuildState) (grids : DeviceGrid) (x y : Nat) :
    (mirror_grid_nodes_cell st grids x y).node_track_nums = st.node_track_nums
      ∧ (mirror_grid_nodes_cell st grids x y).rr_node_track_ids = st.rr_node_track_ids := by
  unfold mirror_grid_nodes_cell
  dsimp only
  split <;> exact ⟨rfl, rfl⟩

/-- The grid loader leaves the track-id bookkeeping of the channel loaders alone. -/
theorem load_grid_nodes_basic_info_log (H : GridHelpers) (st : RRBuildState) (grids : DeviceGrid)
    (layer w d : Nat) :
    (load_grid_nodes_basic_info H st grids layer w d).node_track_nums = st.node_track_nums
      ∧ (load_grid_nodes_basic_info H st grids layer w d).rr_node_track_ids
          = st.rr_node_track_ids := by
  unfold load_grid_nodes_basic_info
  have h1 := foldl_log
    (fun st iy => (List.range grids.width).foldl
      (fun st ix => load_grid_nodes_cell H st grids layer w d ix iy) st)
    (fun s iy => foldl_log _ (fun s1 ix => load_grid_nodes_cell_log H s1 grids layer w d ix iy) _ s)
    (List.range grids.height) st
  have h2 := fun s : RRBuildState => foldl_log
    (fun st x => (List.range grids.height).foldl (fun st y => mirror_grid_nodes_cell st grids x y) st)
    (fun s x => foldl_log _ (fun s1 y => mirror_grid_nodes_cell_log s1 grids x y) _ s)
    (List.range grids.width) s
  exact ⟨(h2 _).1.trans h1.1, (h2 _).2.trans h1.2⟩

theorem pairwise_of_forall_mem {α : Type} (R : α → α → Prop) (l : List α)
    (h : ∀ a ∈ l, ∀ b ∈ l, R a b) : l.Pairwise R := by
  induction l with
  | nil => exact List.Pairwise.nil
  | cons x xs ih =>
    refine List.Pairwise.cons (fun b hb => h x (List.mem_cons_self _ _) b (List.mem_cons_of_mem _ hb)) ?_
    exact ih (fun a ha b hb => h a (List.mem_cons_of_mem _ ha) b (List.mem_cons_of_mem _ hb))

theorem pairwise_append_block {α : Type} (R : α → α → Prop) (l1 l2 : List α)
    (h1 : l1.Pairwise R) (h2 : ∀ a ∈ l2, ∀ b ∈ l2, R a b) (h12 : ∀ a ∈ l1, ∀ b ∈ l2, R a b) :
    (l1 ++ l2).Pairwise R :=
  List.pairwise_append.mpr ⟨h1, pairwise_of_forall_mem R l2 h2, h12⟩

/-- One CHANX position: frame and the slots recorded there. -/
theorem load_chanx_position_frame {C : ChanHelpers} {grids : DeviceGrid} {layer chan_width : Nat}
    {segment_infs : List t_segment_inf} {segment_index_map : t_unified_to_parallel_seg_index}
    { device_grid_annotation : DeviceGridAnnotation} {shrink_boundary through_channel : Bool}
    {iy ix : Nat} {s s' : RRBuildState × List Nat}
    (h : load_chanx_position C grids layer chan_width segment_infs segment_index_map
          device_grid_annotation shrink_boundary through_channel iy s ix = some s') :
    chan_frame s.1 s'.1
      ∧ ∃ new, chan_recorded .CHANX (fun e => e.x = ix ∧ e.y = iy) s.1 s'.1 new := by
  unfold load_chanx_position at h
  dsimp only at h
  split at h
  · cases h
    exact ⟨chan_frame_refl _, [], chan_recorded_nil _ _ _ _ rfl⟩
  · split at h
    · cases h
    · rename_i r hr
      cases h
      have hr' : load_one_chan_rr_nodes_basic_info C _ s.1 _ = some (r.1, r.2) := hr
      exact load_one_chan_rr_nodes_basic_info_frame hr'

/-- One CHANY position: frame and the slots recorded there. -/
theorem load_chany_position_frame {C : ChanHelpers} {grids : DeviceGrid} {layer chan_width : Nat}
    {segment_infs : List t_segment_inf} {num_segment_x : Nat}
    {seg_index_map : t_unified_to_parallel_seg_index}
    { device_grid_annotation : DeviceGridAnnotation} {shrink_boundary through_channel : Bool}
    {ix iy : Nat} {s s' : RRBuildState × List Nat}
    (h : load_chany_position C grids layer chan_width segment_infs num_segment_x seg_index_map
          device_grid_annotation shrink_boundary through_channel ix s iy = some s') :
    chan_frame s.1 s'.1
      ∧ ∃ new, chan_recorded .CHANY (fun e => e.x = ix ∧ e.y = iy) s.1 s'.1 new := by
  unfold load_chany_position at h
  dsimp only at h
  split at h
  · cases h
    exact ⟨chan_frame_refl _, [], chan_recorded_nil _ _ _ _ rfl⟩
  · split at h
    · cases h
    · rename_i r hr
      cases h
      have hr' : load_one_chan_rr_nodes_basic_info C _ s.1 _ = some (r.1, r.2) := hr
      exact load_one_chan_rr_nodes_basic_info_frame hr'

/-- A walk over positions `1, 2, ...` whose steps record slots at the position walked
(`pos e = 1 + k` at step `k`, with `R e` besides) records a list that is pairwise ordered
by any `le` that holds between entries satisfying `R` at non-decreasing positions. -/
theorem foldlM_positions_sorted {T : t_rr_type} {R : t_track_num → Prop} (pos : t_track_num → Nat)
    (le : t_track_num → t_track_num → Prop)
    (hle : ∀ a b, R a → R b → pos a ≤ pos b → le a b)
    (step : RRBuildState × List Nat → Nat → Option (RRBuildState × List Nat))
    (hstep : ∀ s i s', step s i = some s' →
      chan_frame s.1 s'.1 ∧ ∃ new, chan_recorded T (fun e => pos e = i ∧ R e) s.1 s'.1 new)
    (n : Nat) (s s' : RRBuildState × List Nat)
    (h : (List.range' 1 n).foldlM step s = some s') :
    chan_frame s.1 s'.1
      ∧ ∃ new, chan_recorded T R s.1 s'.1 new ∧ new.Pairwise le := by
  have key := foldlM_invariant_idx step (List.range' 1 n)
    (fun k t => chan_frame s.1 t.1
      ∧ ∃ new, chan_recorded T (fun e => pos e < 1 + k ∧ R e) s.1 t.1 new ∧ new.Pairwise le)
    (fun k t t' hk hP ht => by
      have e : (List.range' 1 n).get ⟨k, hk⟩ = 1 + k := by simp
      rw [e] at ht
      obtain ⟨f1, new1, r1, p1⟩ := hP
      obtain ⟨f2, new2, r2⟩ := hstep t (1 + k) t' ht
      refine ⟨chan_frame_trans f1 f2, new1 ++ new2, ?_, ?_⟩
      · exact chan_recorded_append
          (chan_recorded_mono r1 (fun e he => ⟨by have := he.1; omega, he.2⟩)) f2
          (chan_recorded_mono r2 (fun e he => ⟨by have := he.1; omega, he.2⟩))
      · refine pairwise_append_block le new1 new2 p1 ?_ ?_
        · intro a ha b hb
          have ha' := (r2.2 a ha).1
          have hb' := (r2.2 b hb).1
          exact hle a b ha'.2 hb'.2 (by omega)
        · intro a ha b hb
          have ha' := (r1.2 a ha).1
          have hb' := (r2.2 b hb).1
          exact hle a b ha'.2 hb'.2 (by omega))
    s s' ⟨chan_frame_refl _, [], chan_recorded_nil _ _ _ _ rfl, List.Pairwise.nil⟩ h
  obtain ⟨f, new, r, p⟩ := key
  exact ⟨f, new, chan_recorded_mono r (fun e he => he.2), p⟩

/-- A walk over rows (columns) `0, 1, ...` whose steps record, pairwise ordered, slots of
the row walked records a pairwise ordered list, for any `le` that holds from a lower row
to a higher one. -/
theorem foldlM_rows_sorted {T : t_rr_type} (row : t_track_num → Nat)
    (le : t_track_num → t_track_num → Prop)
    (hle : ∀ a b, row a < row b → le a b)
    (step : RRBuildState → Nat → Option RRBuildState)
    (hstep : ∀ s i s', step s i = some s' →
      chan_frame s s' ∧ ∃ new, chan_recorded T (fun e => row e = i) s s' new ∧ new.Pairwise le)
    (n : Nat) (s s' : RRBuildState) (h : (List.range n).foldlM step s = some s') :
    chan_frame s s'
      ∧ ∃ new, chan_recorded T (fun _ => True) s s' new ∧ new.Pairwise le := by
  have key := foldlM_range_invariant step n
    (fun k t => chan_frame s t
      ∧ ∃ new, chan_recorded T (fun e => row e < k) s t new ∧ new.Pairwise le)
    (fun k t t' _ hP ht => by
      obtain ⟨f1, new1, r1, p1⟩ := hP
      obtain ⟨f2, new2, r2, p2⟩ := hstep t k t' ht
      refine ⟨chan_frame_trans f1 f2, new1 ++ new2, ?_, ?_⟩
      · exact chan_recorded_append
          (chan_recorded_mono r1 (fun e he => by have := he; show row e < k + 1; omega)) f2
          (chan_recorded_mono r2 (fun e he => by have := he; show row e < k + 1; omega))
      · refine List.pairwise_append.mpr ⟨p1, p2, ?_⟩
        intro a ha b hb
        have ha' := (r1.2 a ha).1
        have hb' := (r2.2 b hb).1
        exact hle a b (by omega))
    s s' ⟨chan_frame_refl _, [], chan_recorded_nil _ _ _ _ rfl, List.Pairwise.nil⟩ h
  obtain ⟨f, new, r, p⟩ := key
  exact ⟨f, new, chan_recorded_mono r (fun _ _ => trivial), p⟩

/-- What `load_chanx_rr_nodes_basic_info` records: slots of CHANX nodes, in visiting order. -/
theorem load_chanx_rr_nodes_basic_info_sorted {C : ChanHelpers} {grids : DeviceGrid}
    {layer chan_width : Nat} {segment_infs : List t_segment_inf}
    {segment_index_map : t_unified_to_parallel_seg_index}
    { device_grid_annotation : DeviceGridAnnotation} {shrink_boundary through_channel : Bool}
    {st st' : RRBuildState}
    (h : load_chanx_rr_nodes_basic_info C st grids layer chan_width segment_infs segment_index_map
          device_grid_annotation shrink_boundary through_channel = some st') :
    chan_frame st st'
      ∧ ∃ new, chan_recorded .CHANX (fun _ => True) st st' new
          ∧ new.Pairwise chanx_visit_order := by
  unfold load_chanx_rr_nodes_basic_info at h
  refine foldlM_rows_sorted (fun e => e.y) chanx_visit_order (fun a b hab => Or.inl hab) _ ?_ _ _ _ h
  intro s iy s' hrow
  obtain ⟨ids, hfold⟩ := load_chanx_row_spec hrow
  exact foldlM_positions_sorted (R := fun e => e.y = iy) (fun e => e.x) chanx_visit_order
    (fun a b ha hb hab => Or.inr ⟨ha.trans hb.symm, hab⟩) _
    (fun t i t' ht => load_chanx_position_frame ht) _ (s, []) (s', ids) hfold

/-- What `load_chany_rr_nodes_basic_info` records: slots of CHANY nodes, in visiting order. -/
theorem load_chany_rr_nodes_basic_info_sorted {C : ChanHelpers} {grids : DeviceGrid}
    {layer chan_width : Nat} {segment_infs : List t_segment_inf} {num_segment_x : Nat}
    {seg_index_map : t_unified_to_parallel_seg_index}
    { device_grid_annotation : DeviceGridAnnotation} {shrink_boundary through_channel : Bool}
    {st st' : RRBuildState}
    (h : load_chany_rr_nodes_basic_info C st grids layer chan_width segment_infs num_segment_x
          seg_index_map device_grid_annotation shrink_boundary through_channel = some st') :
    chan_frame st st'
      ∧ ∃ new, chan_recorded .CHANY (fun _ => True) st st' new
          ∧ new.Pairwise chany_visit_order := by
  unfold load_chany_rr_nodes_basic_info at h
  refine foldlM_rows_sorted (fun e => e.x) chany_visit_order (fun a b hab => Or.inl hab) _ ?_ _ _ _ h
  intro s ix s' hcol
  obtain ⟨ids, hfold⟩ := load_chany_column_spec hcol
  exact foldlM_positions_sorted (R := fun e => e.x = ix) (fun e => e.y) chany_visit_order
    (fun a b ha hb hab => Or.inr ⟨ha.trans hb.symm, hab⟩) _
    (fun t i t' ht => by
      obtain ⟨f, new, r⟩ := load_chany_position_frame ht
      exact ⟨f, new, chan_recorded_mono r (fun e he => ⟨he.2, he.1⟩)⟩)
    _ (s, []) (s', ids) hfold

theorem reverse_dec_chan_node_spec (st : RRBuildState) (node : Nat) :
    (reverse_dec_chan_node st node).nodes = st.nodes
      ∧ (reverse_dec_chan_node st node).node_track_nums = st.node_track_nums
      ∧ (∀ n, n ≠ node →
          (reverse_dec_chan_node st node).rr_node_track_ids n = st.rr_node_track_ids n)
      ∧ (((node_at st node).type = .CHANX ∨ (node_at st node).type = .CHANY) →
          (node_at st node).direction = .DEC →
          (reverse_dec_chan_node st node).rr_node_track_ids node
            = (st.rr_node_track_ids node).reverse) := by
  unfold reverse_dec_chan_node
  split
  · rename_i h
    refine ⟨rfl, rfl, fun _ _ => rfl, fun ht _ => ?_⟩
    rcases ht with ht | ht
    · exact absurd ht.symm h.1
    · exact absurd ht.symm h.2
  · split
    · rename_i h
      exact ⟨rfl, rfl, fun _ _ => rfl, fun _ hd => absurd hd.symm h⟩
    · refine ⟨rfl, rfl, fun n hn => ?_, fun _ _ => ?_⟩
      · exact Function.update_noteq hn _ _
      · exact Function.update_same _ _ _

theorem node_at_of_nodes_eq {s t : RRBuildState} (h : s.nodes = t.nodes) (n : Nat) :
    node_at s n = node_at t n := by
  unfold node_at
  rw [h]

/-- The reversal pass: nodes and recorded slots stay, and the track ids of every stored
CHANX or CHANY node of direction DEC are reversed, once. -/
theorem reverse_dec_chan_rr_node_track_ids_spec (st : RRBuildState) :
    (reverse_dec_chan_rr_node_track_ids st).nodes = st.nodes
      ∧ (reverse_dec_chan_rr_node_track_ids st).node_track_nums = st.node_track_nums
      ∧ ∀ n, n < st.nodes.length →
          ((node_at st n).type = .CHANX ∨ (node_at st n).type = .CHANY) →
          (node_at st n).direction = .DEC →
          (reverse_dec_chan_rr_node_track_ids st).rr_node_track_ids n
            = (st.rr_node_track_ids n).reverse := by
  have key : ∀ k, ((List.range k).foldl reverse_dec_chan_node st).nodes = st.nodes
      ∧ ((List.range k).foldl reverse_dec_chan_node st).node_track_nums = st.node_track_nums
      ∧ (∀ n, k ≤ n →
          ((List.range k).foldl reverse_dec_chan_node st).rr_node_track_ids n
            = st.rr_node_track_ids n)
      ∧ (∀ n, n < k →
          ((node_at st n).type = .CHANX ∨ (node_at st n).type = .CHANY) →
          (node_at st n).direction = .DEC →
          ((List.range k).foldl reverse_dec_chan_node st).rr_node_track_ids n
            = (st.rr_node_track_ids n).reverse) := by
    intro k
    induction k with
    | zero => exact ⟨rfl, rfl, fun _ _ => rfl, fun n hn => absurd hn (Nat.not_lt_zero n)⟩
    | succ k ih =>
      obtain ⟨i1, i2, i3, i4⟩ := ih
      rw [List.range_succ, List.foldl_append]
      simp only [List.foldl_cons, List.foldl_nil]
      obtain ⟨r1, r2, r3, r4⟩ := reverse_dec_chan_node_spec
        ((List.range k).foldl reverse_dec_chan_node st) k
      refine ⟨r1.trans i1, r2.trans i2, fun n hn => ?_, fun n hn ht hd => ?_⟩
      · rw [r3 n (by omega)]
        exact i3 n (by omega)
      · by_cases hnk : n = k
        · subst hnk
          rw [node_at_of_nodes_eq i1] at r4
          rw [r4 ht hd, i3 n (Nat.le_refl n)]
        · rw [r3 n hnk]
          exact i4 n (by omega) ht hd
  unfold reverse_dec_chan_rr_node_track_ids
  exact ⟨(key _).1, (key _).2.1, (key _).2.2.2⟩

theorem filter_eq_nil_of_forall_ne (l : List t_track_num) (n : Nat) (h : ∀ e ∈ l, e.node ≠ n) :
    l.filter (fun e => decide (e.node = n)) = [] := by
  rw [List.filter_eq_nil_iff]
  intro e he
  simpa using h e he

/-- The state of the graph before the reversal pass of `create_tileable_rr_graph_nodes`:
track ids and recorded slots agree, and the recorded slots are those of the CHANX walk,
in visiting order, followed by those of the CHANY walk, in visiting order. -/
theorem create_tileable_rr_graph_nodes_before_reverse {H : GridHelpers} {C : ChanHelpers}
    {st : RRBuildState} {grids : DeviceGrid} {layer : Nat} {chan_width : Nat × Nat}
    {segment_inf_x segment_inf_y : List t_segment_inf}
    {segment_index_map : t_unified_to_parallel_seg_index} {wire_to_ipin_switch delayless_switch : Nat}
    { device_grid_annotation : DeviceGridAnnotation} {shrink_boundary through_channel : Bool}
    {st' : RRBuildState}
    (hlog : st.node_track_nums = []) (hids : ∀ n, st.rr_node_track_ids n = [])
    (hrun : create_tileable_rr_graph_nodes H C st grids layer chan_width segment_inf_x segment_inf_y
      segment_index_map wire_to_ipin_switch delayless_switch device_grid_annotation shrink_boundary
      through_channel = some st') :
    ∃ s3 newx newy, st' = reverse_dec_chan_rr_node_track_ids s3
      ∧ track_ids_match s3
      ∧ s3.node_track_nums = newx ++ newy
      ∧ newx.Pairwise chanx_visit_order ∧ newy.Pairwise chany_visit_order
      ∧ (∀ e ∈ newx, e.node < s3.nodes.length ∧ (node_at s3 e.node).type = .CHANX)
      ∧ (∀ e ∈ newy, e.node < s3.nodes.length ∧ (node_at s3 e.node).type = .CHANY) := by
  unfold create_tileable_rr_graph_nodes at hrun
  obtain ⟨s2, hx, hrun2⟩ := Option.bind_eq_some.mp hrun
  obtain ⟨s3, hy, hst⟩ := Option.map_eq_some'.mp hrun2
  obtain ⟨g1, g2⟩ := load_grid_nodes_basic_info_log H st grids layer wire_to_ipin_switch
    delayless_switch
  have hm1 : track_ids_match
      (load_grid_nodes_basic_info H st grids layer wire_to_ipin_switch delayless_switch) := by
    intro n
    unfold recorded_track_nums
    rw [g1, g2, hlog, hids]
    rfl
  obtain ⟨fx, newx, rx, px⟩ := load_chanx_rr_nodes_basic_info_sorted hx
  obtain ⟨fy, newy, ry, py⟩ := load_chany_rr_nodes_basic_info_sorted hy
  refine ⟨s3, newx, newy, hst.symm, fy.2.2 (fx.2.2 hm1), ?_, px, py, ?_, ?_⟩
  · rw [ry.1, rx.1, g1, hlog]
    rfl
  · intro e he
    obtain ⟨_, hl, ht⟩ := rx.2 e he
    exact ⟨Nat.lt_of_lt_of_le hl fy.1, (fy.2.1 e.node hl).1.trans ht⟩
  · intro e he
    exact (ry.2 e he).2

/-- C5 (amended). After `create_tileable_rr_graph_nodes` finishes on a graph with no track
slots recorded yet, for every CHANX or CHANY node with direction DEC the sequence
`rr_node_track_ids[node]` is in descending-coordinate order: it is the reverse of the track
slots recorded for the node by the loader, and the loader records them in the order it
visits the channel positions (row after row with ascending x within a row for CHANX, column
after column with ascending y within a column for CHANY); for a wire recorded within one
row (column) that is ascending x (y). -/
theorem create_tileable_rr_graph_nodes_dec_track_ids_reversed (H : GridHelpers) (C : ChanHelpers)
    (st : RRBuildState) (grids : DeviceGrid) (layer : Nat) (chan_width : Nat × Nat)
    (segment_inf_x segment_inf_y : List t_segment_inf)
    (segment_index_map : t_unified_to_parallel_seg_index) (wire_to_ipin_switch delayless_switch : Nat)
    ( device_grid_annotation : DeviceGridAnnotation) (shrink_boundary through_channel : Bool)
    (st' : RRBuildState)
    (hlog : st.node_track_nums = []) (hids : ∀ n, st.rr_node_track_ids n = [])
    (hrun : create_tileable_rr_graph_nodes H C st grids layer chan_width segment_inf_x segment_inf_y
      segment_index_map wire_to_ipin_switch delayless_switch device_grid_annotation shrink_boundary
      through_channel = some st')
    (n : Nat) (hn : n < st'.nodes.length) (hdec : (node_at st' n).direction = .DEC) :
    ((node_at st' n).type = .CHANX →
        st'.rr_node_track_ids n = ((recorded_track_nums st' n).map (fun e => e.track)).reverse
          ∧ (recorded_track_nums st' n).Pairwise chanx_visit_order
          ∧ ∀ row, (∀ e ∈ recorded_track_nums st' n, e.y = row) →
              (recorded_track_nums st' n).Pairwise (fun e1 e2 => e1.x ≤ e2.x))
      ∧ ((node_at st' n).type = .CHANY →
        st'.rr_node_track_ids n = ((recorded_track_nums st' n).map (fun e => e.track)).reverse
          ∧ (recorded_track_nums st' n).Pairwise chany_visit_order
          ∧ ∀ col, (∀ e ∈ recorded_track_nums st' n, e.x = col) →
              (recorded_track_nums st' n).Pairwise (fun e1 e2 => e1.y ≤ e2.y)) := by
  obtain ⟨s3, newx, newy, hst, hm, hl, px, py, tx, ty⟩ :=
    create_tileable_rr_graph_nodes_before_reverse hlog hids hrun
  obtain ⟨r1, r2, r3⟩ := reverse_dec_chan_rr_node_track_ids_spec s3
  rw [← hst] at r1 r2 r3
  have hat : ∀ m, node_at st' m = node_at s3 m := node_at_of_nodes_eq r1
  have hrec : recorded_track_nums st' n
      = newx.filter (fun e => decide (e.node = n)) ++ newy.filter (fun e => decide (e.node = n)) := by
    unfold recorded_track_nums
    rw [r2, hl, List.filter_append]
  have hn3 : n < s3.nodes.length := by rw [← r1]; exact hn
  have hrev : ((node_at st' n).type = .CHANX ∨ (node_at st' n).type = .CHANY) →
      st'.rr_node_track_ids n = ((recorded_track_nums st' n).map (fun e => e.track)).reverse := by
    intro ht
    rw [hat] at ht hdec
    rw [r3 n hn3 ht hdec, hm n]
    unfold recorded_track_nums
    rw [r2]
  have hxs : (recorded_track_nums st' n).Pairwise chanx_visit_order →
      ∀ row, (∀ e ∈ recorded_track_nums st' n, e.y = row) →
        (recorded_track_nums st' n).Pairwise (fun e1 e2 => e1.x ≤ e2.x) := by
    intro hp row hrow
    refine hp.imp_of_mem ?_
    intro a b ha hb hab
    rcases hab with h | h
    · rw [hrow a ha, hrow b hb] at h
      exact absurd h (Nat.lt_irrefl _)
    · exact h.2
  have hys : (recorded_track_nums st' n).Pairwise chany_visit_order →
      ∀ col, (∀ e ∈ recorded_track_nums st' n, e.x = col) →
        (recorded_track_nums st' n).Pairwise (fun e1 e2 => e1.y ≤ e2.y) := by
    intro hp col hcol
    refine hp.imp_of_mem ?_
    intro a b ha hb hab
    rcases hab with h | h
    · rw [hcol a ha, hcol b hb] at h
      exact absurd h (Nat.lt_irrefl _)
    · exact h.2
  have hsx : (recorded_track_nums st' n).Pairwise chanx_visit_order →
      (recorded_track_nums st' n).Pairwise chanx_visit_order
        ∧ ∀ row, (∀ e ∈ recorded_track_nums st' n, e.y = row) →
            (recorded_track_nums st' n).Pairwise (fun e1 e2 => e1.x ≤ e2.x) :=
    fun hp => ⟨hp, hxs hp⟩
  have hsy : (recorded_track_nums st' n).Pairwise chany_visit_order →
      (recorded_track_nums st' n).Pairwise chany_visit_order
        ∧ ∀ col, (∀ e ∈ recorded_track_nums st' n, e.x = col) →
            (recorded_track_nums st' n).Pairwise (fun e1 e2 => e1.y ≤ e2.y) :=
    fun hp => ⟨hp, hys hp⟩
  refine ⟨fun ht => ⟨hrev (Or.inl ht), hsx ?_⟩, fun ht => ⟨hrev (Or.inr ht), hsy ?_⟩⟩
  · have hy : newy.filter (fun e => decide (e.node = n)) = [] := by
      apply filter_eq_nil_of_forall_ne
      intro e he hen
      have h1 := (ty e he).2
      rw [hen, ← hat, ht] at h1
      cases h1
    rw [hrec, hy, List.append_nil]
    exact px.sublist (List.filter_sublist _)
  · have hx : newx.filter (fun e => decide (e.node = n)) = [] := by
      apply filter_eq_nil_of_forall_ne
      intro e he hen
      have h1 := (tx e he).2
      rw [hen, ← hat, ht] at h1
      cases h1
    rw [hrec, hx, List.nil_append]
    exact py.sublist (List.filter_sublist _)

/-- Witness for C5 (amended): on `ex_chan_grid` with channel width 4 and length-2 wires the
builder completes, node 3 is a CHANX wire of direction DEC, and its track ids are the
reverse of its recorded slots. -/
theorem create_tileable_rr_graph_nodes_dec_track_ids_reversed_witness :
    ∃ st', create_tileable_rr_graph_nodes ex_quad_helpers ex_chan_helpers RRBuildState.empty
        ex_chan_grid 0 (4, 4) ex_segment_infs ex_segment_infs [] 7 9 ex_device_grid_annot false false
        = some st'
      ∧ 3 < st'.nodes.length ∧ (node_at st' 3).direction = .DEC ∧ (node_at st' 3).type = .CHANX
      ∧ st'.rr_node_track_ids 3 = ((recorded_track_nums st' 3).map (fun e => e.track)).reverse
      ∧ (recorded_track_nums st' 3).Pairwise chanx_visit_order
      ∧ ∀ row, (∀ e ∈ recorded_track_nums st' 3, e.y = row) →
          (recorded_track_nums st' 3).Pairwise (fun e1 e2 => e1.x ≤ e2.x) := by
  have hs : (create_tileable_rr_graph_nodes ex_quad_helpers ex_chan_helpers RRBuildState.empty
      ex_chan_grid 0 (4, 4) ex_segment_infs ex_segment_infs [] 7 9 ex_device_grid_annot false
      false).isSome = true := by decide
  obtain ⟨st', h⟩ := Option.isSome_iff_exists.mp hs
  have hv : (create_tileable_rr_graph_nodes ex_quad_helpers ex_chan_helpers RRBuildState.empty
      ex_chan_grid 0 (4, 4) ex_segment_infs ex_segment_infs [] 7 9 ex_device_grid_annot false
      false).map (fun s => decide (3 < s.nodes.length ∧ (node_at s 3).direction = .DEC
        ∧ (node_at s 3).type = .CHANX))
      = some true := by
    set_option maxRecDepth 100000 in decide
  rw [h] at hv
  simp only [Option.map_some', Option.some.injEq, decide_eq_true_eq] at hv
  obtain ⟨hn, hd, ht⟩ := hv
  exact ⟨st', h, hn, hd, ht,
    (create_tileable_rr_graph_nodes_dec_track_ids_reversed ex_quad_helpers ex_chan_helpers
      RRBuildState.empty ex_chan_grid 0 (4, 4) ex_segment_infs ex_segment_infs [] 7 9
      ex_device_grid_annot false false st' rfl (fun _ => rfl) h 3 hn hd).1 ht⟩

/-- Counterexample for C5: on `ex_chan_grid` with channel width 4 and length-2 wires, node 3
is a CHANX wire of direction DEC spanning x = 1..2 in row 0; it occupies track slot 3 at
x = 1 and slot 1 at x = 2, and after `create_tileable_rr_graph_nodes` its track ids are
[1, 3]: the first entry is the slot at the highest position, not at the lowest. -/
theorem create_tileable_rr_graph_nodes_dec_track_ids_counterexample :
    ∃ st', create_tileable_rr_graph_nodes ex_quad_helpers ex_chan_helpers RRBuildState.empty
        ex_chan_grid 0 (4, 4) ex_segment_infs ex_segment_infs [] 7 9 ex_device_grid_annot false false
        = some st'
      ∧ (node_at st' 3).type = .CHANX ∧ (node_at st' 3).direction = .DEC
      ∧ (node_at st' 3).xlow = 1 ∧ (node_at st' 3).xhigh = 2
      ∧ recorded_track_nums st' 3 = [⟨3, 1, 0, 3⟩, ⟨3, 2, 0, 1⟩]
      ∧ st'.rr_node_track_ids 3 = [1, 3]
      ∧ st'.rr_node_track_ids 3 ≠ (recorded_track_nums st' 3).map (fun e => e.track) := by
  have hs : (create_tileable_rr_graph_nodes ex_quad_helpers ex_chan_helpers RRBuildState.empty
      ex_chan_grid 0 (4, 4) ex_segment_infs ex_segment_infs [] 7 9 ex_device_grid_annot false
      false).isSome = true := by decide
  obtain ⟨st', h⟩ := Option.isSome_iff_exists.mp hs
  have hv : (create_tileable_rr_graph_nodes ex_quad_helpers ex_chan_helpers RRBuildState.empty
      ex_chan_grid 0 (4, 4) ex_segment_infs ex_segment_infs [] 7 9 ex_device_grid_annot false
      false).map (fun s => decide ((node_at s 3).type = .CHANX ∧ (node_at s 3).direction = .DEC
        ∧ (node_at s 3).xlow = 1 ∧ (node_at s 3).xhigh = 2
        ∧ recorded_track_nums s 3 = [⟨3, 1, 0, 3⟩, ⟨3, 2, 0, 1⟩]
        ∧ s.rr_node_track_ids 3 = [1, 3]))
      = some true := by
    set_option maxRecDepth 100000 in decide
  rw [h] at hv
  simp only [Option.map_some', Option.some.injEq, decide_eq_true_eq] at hv
  obtain ⟨h1, h2, h3, h4, h5, h6⟩ := hv
  refine ⟨st', h, h1, h2, h3, h4, h5, h6, ?_⟩
  rw [h5, h6]
  decide

/-! ## Sink compaction: nodes left alone, memoized offsets -/

theorem node_at_with_lookup (st : RRBuildState) (l : RRSpatialLookup) (node : Nat) :
    node_at { st with node_lookup := l } node = node_at st node := rfl

/-- The body of the loop of `set_sink_locs` for the node `m` leaves every other node, the
index entries that hold another node, and the edges as they are. -/
theorem set_sink_locs_node_other (grid : DeviceGrid) (s : SinkLocState) (m node : Nat)
    (h : m ≠ node) :
    node_at (set_sink_locs_node grid s m).st node = node_at s.st node
      ∧ (set_sink_locs_node grid s m).st.edges = s.st.edges
      ∧ ∀ (t : t_rr_type) (la i j : Nat) (sd : e_side) (p : Nat),
          (set_sink_locs_node grid s m).st.node_lookup t la i j sd p = some node
            ↔ s.st.node_lookup t la i j sd p = some node := by
  unfold set_sink_locs_node
  dsimp only
  split
  · exact ⟨rfl, rfl, fun _ _ _ _ _ _ => Iff.rfl⟩
  · split
    · exact ⟨rfl, rfl, fun _ _ _ _ _ _ => Iff.rfl⟩
    · split
      · refine ⟨?_, rfl, fun _ _ _ _ _ _ => Iff.rfl⟩
        exact node_at_modify_node_ne _ _ _ _ h
      · split
        · exact ⟨rfl, rfl, fun _ _ _ _ _ _ => Iff.rfl⟩
        · refine ⟨?_, rfl, fun t la i j sd p => ?_⟩
          · exact (node_at_modify_node_ne _ _ _ _ h).trans (node_at_with_lookup _ _ _)
          · show remove_old_indices s.st.node_lookup m _ _ _ _ _ _ _ _ t la i j sd p = some node ↔ _
            obtain ⟨hA, hB⟩ := remove_old_indices_lookup s.st.node_lookup m (node_at s.st m).layer
              (node_at s.st m).xlow (node_at s.st m).ylow (node_at s.st m).xhigh (node_at s.st m).yhigh
              (float_avg ((sink_ipins s.st m (node_at s.st m).xlow (node_at s.st m).ylow
                (node_at s.st m).xhigh (node_at s.st m).yhigh).map (fun pin => (node_at s.st pin).xlow)))
              (float_avg ((sink_ipins s.st m (node_at s.st m).xlow (node_at s.st m).ylow
                (node_at s.st m).xhigh (node_at s.st m).yhigh).map (fun pin => (node_at s.st pin).ylow)))
              (node_at s.st m).ptc_num t la i j sd p
            by_cases hc : (t = .SINK ∧ la = (node_at s.st m).layer ∧ (node_at s.st m).xlow ≤ i
                ∧ i ≤ (node_at s.st m).xhigh ∧ (node_at s.st m).ylow ≤ j ∧ j ≤ (node_at s.st m).yhigh
                ∧ ¬ (i = float_avg ((sink_ipins s.st m (node_at s.st m).xlow (node_at s.st m).ylow
                      (node_at s.st m).xhigh (node_at s.st m).yhigh).map
                        (fun pin => (node_at s.st pin).xlow))
                  ∧ j = float_avg ((sink_ipins s.st m (node_at s.st m).xlow (node_at s.st m).ylow
                      (node_at s.st m).xhigh (node_at s.st m).yhigh).map
                        (fun pin => (node_at s.st pin).ylow)))
                ∧ sd = SIDES_0 ∧ p = (node_at s.st m).ptc_num)
              ∧ s.st.node_lookup t la i j sd p = some m
            · rw [hA hc, hc.2]
              constructor
              · intro e
                cases e
              · intro e
                exact absurd (Option.some.inj e) h
            · rw [hB hc]

/-- A run of the loop body over nodes other than `node` leaves `node` and the index entries
that hold it as they are. -/
theorem foldl_set_sink_locs_node_other (grid : DeviceGrid) (node : Nat) (l : List Nat)
    (h : ∀ m ∈ l, m ≠ node) (s : SinkLocState) :
    node_at (l.foldl (set_sink_locs_node grid) s).st node = node_at s.st node
      ∧ ∀ (t : t_rr_type) (la i j : Nat) (sd : e_side) (p : Nat),
          (l.foldl (set_sink_locs_node grid) s).st.node_lookup t la i j sd p = some node
            ↔ s.st.node_lookup t la i j sd p = some node := by
  induction l generalizing s with
  | nil => exact ⟨rfl, fun _ _ _ _ _ _ => Iff.rfl⟩
  | cons m ms ih =>
    rw [List.foldl_cons]
    obtain ⟨a1, a2⟩ := ih (fun k hk => h k (List.mem_cons_of_mem _ hk)) (set_sink_locs_node grid s m)
    obtain ⟨b1, _, b3⟩ := set_sink_locs_node_other grid s m node (h m (List.mem_cons_self _ _))
    exact ⟨a1.trans b1, fun t la i j sd p => (a2 t la i j sd p).trans (b3 t la i j sd p)⟩

/-- The loop body leaves the state as it is for a node without a memoized offset and
without a fan-in pin inside its box. -/
theorem set_sink_locs_node_no_pins (grid : DeviceGrid) (s : SinkLocState) (node : Nat)
    (hmemo : s.physical_type_offsets
      (grid.get_physical_type ⟨(node_at s.st node).xlow, (node_at s.st node).ylow,
        (node_at s.st node).layer⟩) (node_at s.st node).ptc_num = none)
    (hpins : sink_ipins s.st node (node_at s.st node).xlow (node_at s.st node).ylow
      (node_at s.st node).xhigh (node_at s.st node).yhigh = []) :
    set_sink_locs_node grid s node = s := by
  unfold set_sink_locs_node
  dsimp only
  split
  · rfl
  · split
    · rfl
    · rw [hmemo]

theorem range_split (n k : Nat) (h : k < n) :
    List.range n = List.range k ++ k :: List.range' (k + 1) (n - k - 1) := by
  have e1 : List.range' 0 k ++ List.range' (0 + k) (n - k) = List.range' 0 (n - k + k) :=
    List.range'_append_1 0 k (n - k)
  have e2 : n - k + k = n := by omega
  have e3 : n - k = (n - k - 1) + 1 := by omega
  rw [List.range_eq_range', List.range_eq_range', ← e2, ← e1, Nat.zero_add]
  congr 1
  rw [e2]
  conv_lhs => rw [e3]
  rw [List.range'_succ]

/-- C11 (amended). A node for whose (tile type, class) pair no offset has been memoized
when the loop of `set_sink_locs` reaches it, and that has no fan-in pin inside its box at
that moment, is left alone by `set_sink_locs`: after the whole run its bounding box (and
every other field) is as before, and the spatial index holds the node at exactly the cells
at which it held it before. This covers every multi-cell SINK without an in-footprint
fan-in pin whose tile type and class were not memoized by an earlier sink. -/
theorem set_sink_locs_keeps_sink_without_pins (st : RRBuildState) (grid : DeviceGrid) (node : Nat)
    (hnode : node < st.nodes.length)
    (hmemo : ((List.range node).foldl (set_sink_locs_node grid)
        { st := st, physical_type_offsets := fun _ _ => none }).physical_type_offsets
      (grid.get_physical_type ⟨(node_at st node).xlow, (node_at st node).ylow,
        (node_at st node).layer⟩) (node_at st node).ptc_num = none)
    (hpins : sink_ipins ((List.range node).foldl (set_sink_locs_node grid)
        { st := st, physical_type_offsets := fun _ _ => none }).st node
      (node_at st node).xlow (node_at st node).ylow (node_at st node).xhigh (node_at st node).yhigh
      = []) :
    node_at (set_sink_locs st grid) node = node_at st node
      ∧ ∀ (t : t_rr_type) (la i j : Nat) (sd : e_side) (p : Nat),
          (set_sink_locs st grid).node_lookup t la i j sd p = some node
            ↔ st.node_lookup t la i j sd p = some node := by
  obtain ⟨p1, p2⟩ := foldl_set_sink_locs_node_other grid node (List.range node)
    (fun m hm => Nat.ne_of_lt (List.mem_range.mp hm))
    { st := st, physical_type_offsets := fun _ _ => none }
  have p1' : node_at ((List.range node).foldl (set_sink_locs_node grid)
      { st := st, physical_type_offsets := fun _ _ => none }).st node = node_at st node := p1
  have hown := set_sink_locs_node_no_pins grid
    ((List.range node).foldl (set_sink_locs_node grid)
      { st := st, physical_type_offsets := fun _ _ => none }) node
    (by rw [p1']; exact hmemo) (by rw [p1']; exact hpins)
  obtain ⟨q1, q2⟩ := foldl_set_sink_locs_node_other grid node
    (List.range' (node + 1) (st.nodes.length - node - 1))
    (fun m hm => by
      have := (List.mem_range'_1.mp hm).1
      omega)
    ((List.range node).foldl (set_sink_locs_node grid)
      { st := st, physical_type_offsets := fun _ _ => none })
  have hrun : set_sink_locs st grid
      = ((List.range' (node + 1) (st.nodes.length - node - 1)).foldl (set_sink_locs_node grid)
          ((List.range node).foldl (set_sink_locs_node grid)
            { st := st, physical_type_offsets := fun _ _ => none })).st := by
    unfold set_sink_locs
    rw [range_split st.nodes.length node hnode, List.foldl_append, List.foldl_cons, hown]
  rw [hrun]
  exact ⟨q1.trans p1, fun t la i j sd p => (q2 t la i j sd p).trans (p2 t la i j sd p)⟩

/-- Witness for C11 (amended): in `ex_late_pin_graph` the first SINK (node 0, box (0, 0) to
(1, 0)) has no fan-in pin and is the first node of the loop; it keeps its box. -/
theorem set_sink_locs_keeps_sink_without_pins_witness :
    node_at (set_sink_locs ex_late_pin_graph ex_sink_grid) 0 = node_at ex_late_pin_graph 0
      ∧ (node_at ex_late_pin_graph 0).type = .SINK
      ∧ (node_at ex_late_pin_graph 0).xlow = 0 ∧ (node_at ex_late_pin_graph 0).xhigh = 1
      ∧ ((set_sink_locs ex_late_pin_graph ex_sink_grid).node_lookup .SINK 0 1 0 SIDES_0 0 = some 0
          ↔ ex_late_pin_graph.node_lookup .SINK 0 1 0 SIDES_0 0 = some 0) :=
  ⟨(set_sink_locs_keeps_sink_without_pins ex_late_pin_graph ex_sink_grid 0 (by decide) (by decide)
      (by decide)).1,
    by decide, by decide, by decide,
    (set_sink_locs_keeps_sink_without_pins ex_late_pin_graph ex_sink_grid 0 (by decide) (by decide)
      (by decide)).2 .SINK 0 1 0 SIDES_0 0⟩

/-- Counterexample for C11: in `ex_lone_sink_graph` the SINK of the second tile (node 2, box
(2, 0) to (3, 0)) has no fan-in pin at all, yet `set_sink_locs` moves it to (3, 0): the
first tile, of the same type, has memoized the offset (1, 0) for the class. -/
theorem set_sink_locs_moves_sink_without_pins_counterexample :
    (node_at ex_lone_sink_graph 2).type = .SINK
      ∧ (node_at ex_lone_sink_graph 2).xlow = 2 ∧ (node_at ex_lone_sink_graph 2).xhigh = 3
      ∧ fan_in_sources ex_lone_sink_graph 2 = []
      ∧ sink_ipins ex_lone_sink_graph 2 2 0 3 0 = []
      ∧ (node_at (set_sink_locs ex_lone_sink_graph ex_sink_grid) 2).xlow = 3
      ∧ (node_at (set_sink_locs ex_lone_sink_graph ex_sink_grid) 2).xhigh = 3
      ∧ node_at (set_sink_locs ex_lone_sink_graph ex_sink_grid) 2 ≠ node_at ex_lone_sink_graph 2 := by
  decide

/-- The memo after the computed branch of `set_sink_locs_node`: the offset of the new
location from the tile origin is stored for the pair, whatever it is. -/
theorem set_sink_locs_node_computed_memo (grid : DeviceGrid) (s : SinkLocState) (node : Nat)
    (n : t_rr_node) (pins : List Nat)
    (hn : node_at s.st node = n) (hsink : n.type = .SINK)
    (hmulti : n.xlow < n.xhigh ∨ n.ylow < n.yhigh) (hxs : n.xhigh < 2 ^ 15) (hys : n.yhigh < 2 ^ 15)
    (hmemo : s.physical_type_offsets (grid.get_physical_type ⟨n.xlow, n.ylow, n.layer⟩) n.ptc_num = none)
    (hpins : sink_ipins s.st node n.xlow n.ylow n.xhigh n.yhigh = pins) (hne : pins ≠ []) :
    (set_sink_locs_node grid s node).physical_type_offsets
        (grid.get_physical_type ⟨n.xlow, n.ylow, n.layer⟩) n.ptc_num
        = some (size_t_sub (float_avg (pins.map (fun pin => (node_at s.st pin).xlow))) n.xlow,
                size_t_sub (float_avg (pins.map (fun pin => (node_at s.st pin).ylow))) n.ylow)
      ∧ ∀ t p, ¬ (t = grid.get_physical_type ⟨n.xlow, n.ylow, n.layer⟩ ∧ p = n.ptc_num) →
          (set_sink_locs_node grid s node).physical_type_offsets t p = s.physical_type_offsets t p := by
  have hw : ¬ (size_t_sub n.xhigh n.xlow = 0 ∧ size_t_sub n.yhigh n.ylow = 0) := by
    rintro ⟨h1, h2⟩
    rcases hmulti with h | h
    · exact size_t_sub_ne_zero h hxs h1
    · exact size_t_sub_ne_zero h hys h2
  unfold set_sink_locs_node
  simp only [hn, hsink, ne_eq, not_true_eq_false, if_false, hw, hmemo, hpins, hne]
  constructor
  · simp
  · intro t p htp
    simp [htp]

/-- The memo after the computed branch for pins whose coordinate sums do not exceed 2^24:
the stored offset is that of the rounded average. -/
theorem set_sink_locs_node_computed_memo_exact (grid : DeviceGrid) (s : SinkLocState) (node : Nat)
    (n : t_rr_node) (pins : List Nat)
    (hn : node_at s.st node = n) (hsink : n.type = .SINK)
    (hmulti : n.xlow < n.xhigh ∨ n.ylow < n.yhigh) (hxs : n.xhigh < 2 ^ 15) (hys : n.yhigh < 2 ^ 15)
    (hmemo : s.physical_type_offsets (grid.get_physical_type ⟨n.xlow, n.ylow, n.layer⟩) n.ptc_num = none)
    (hpins : sink_ipins s.st node n.xlow n.ylow n.xhigh n.yhigh = pins) (hne : pins ≠ [])
    (hsx : (pins.map (fun pin => (node_at s.st pin).xlow)).sum ≤ 2 ^ 24)
    (hsy : (pins.map (fun pin => (node_at s.st pin).ylow)).sum ≤ 2 ^ 24) :
    (set_sink_locs_node grid s node).physical_type_offsets
        (grid.get_physical_type ⟨n.xlow, n.ylow, n.layer⟩) n.ptc_num
        = some (size_t_sub (round_avg (pins.map (fun pin => (node_at s.st pin).xlow))) n.xlow,
                size_t_sub (round_avg (pins.map (fun pin => (node_at s.st pin).ylow))) n.ylow) := by
  have h := (set_sink_locs_node_computed_memo grid s node n pins hn hsink hmulti hxs hys hmemo
    hpins hne).1
  rw [float_avg_eq_round_avg _ (by simpa using hne) hsx,
    float_avg_eq_round_avg _ (by simpa using hne) hsy] at h
  exact h

theorem round_avg_map_add (l : List Nat) (d : Nat) (h : l ≠ []) :
    round_avg (l.map (fun x => x + d)) = round_avg l + d := by
  unfold round_avg
  have hs : (l.map (fun x => x + d)).sum = l.sum + l.length * d := by
    induction l with
    | nil => exact absurd rfl h
    | cons a as ih =>
      by_cases has : as = []
      · subst has
        simp
      · simp only [List.map_cons, List.sum_cons, List.length_cons, ih has]
        ring
  have hl : 0 < l.length := List.length_pos.mpr h
  rw [hs, List.length_map]
  have e : 2 * (l.sum + l.length * d) + l.length = (2 * l.sum + l.length) + d * (2 * l.length) := by
    ring
  rw [e, Nat.add_mul_div_right _ _ (by omega : 0 < 2 * l.length)]

theorem round_avg_perm {l1 l2 : List Nat} (h : l1.Perm l2) : round_avg l1 = round_avg l2 := by
  unfold round_avg
  rw [h.sum_eq, h.length_eq]

theorem round_avg_le (l : List Nat) (M : Nat) (h : ∀ x ∈ l, x ≤ M) : round_avg l ≤ M := by
  unfold round_avg
  have hs : l.sum ≤ l.length * M := by
    induction l with
    | nil => simp
    | cons a as ih =>
      have h1 := h a (List.mem_cons_self _ _)
      have h2 := ih (fun x hx => h x (List.mem_cons_of_mem _ hx))
      simp only [List.sum_cons, List.length_cons]
      nlinarith
  by_cases hl : l.length = 0
  · simp [hl]
  · have hpos : 0 < 2 * l.length := by omega
    apply Nat.lt_succ_iff.mp
    rw [Nat.div_lt_iff_lt_mul hpos]
    have e : (M + 1) * (2 * l.length) = 2 * (l.length * M) + 2 * l.length := by ring
    rw [Nat.succ_eq_add_one, e]
    omega

theorem map_sub_add_of_le (l : List Nat) (d : Nat) (h : ∀ x ∈ l, d ≤ x) :
    (l.map (fun x => x - d)).map (fun x => x + d) = l := by
  induction l with
  | nil => rfl
  | cons a as ih =>
    have h1 := h a (List.mem_cons_self _ _)
    simp only [List.map_cons, ih (fun x hx => h x (List.mem_cons_of_mem _ hx))]
    congr 1
    omega

/-- The pins of `sink_ipins` have their low corner inside the box handed in. -/
theorem mem_sink_ipins {st : RRBuildState} {node xl yl xh yh pin : Nat}
    (h : pin ∈ sink_ipins st node xl yl xh yh) :
    xl ≤ (node_at st pin).xlow ∧ (node_at st pin).xlow ≤ xh
      ∧ yl ≤ (node_at st pin).ylow ∧ (node_at st pin).ylow ≤ yh := by
  unfold sink_ipins at h
  rw [List.mem_dedup, List.mem_filter] at h
  have h2 := h.2
  simp only [decide_eq_true_eq, not_or, not_lt] at h2
  omega

/-- The location handed to a sink from a memoized offset equals the location computed from
pin coordinates that sit at the same offsets from the sink's own origin. -/
theorem memoized_coordinate_eq_computed (xs1 xs2 : List Nat) (lo1 hi1 lo2 hi2 : Nat)
    (hne : xs1 ≠ []) (h1 : ∀ x ∈ xs1, lo1 ≤ x ∧ x ≤ hi1) (h2 : ∀ x ∈ xs2, lo2 ≤ x ∧ x ≤ hi2)
    (hb1 : hi1 < 2 ^ 15) (hb2 : hi2 < 2 ^ 15)
    (hperm : (xs2.map (fun x => x - lo2)).Perm (xs1.map (fun x => x - lo1))) :
    (lo2 + size_t_sub (round_avg xs1) lo1) % 2 ^ 64 = round_avg xs2 := by
  have hne2 : xs2 ≠ [] := by
    intro e
    rw [e] at hperm
    have := hperm.length_eq
    simp only [List.map_nil, List.length_nil, List.length_map] at this
    exact hne (List.length_eq_zero.mp this.symm)
  have e1 : round_avg xs1 = round_avg (xs1.map (fun x => x - lo1)) + lo1 := by
    rw [← round_avg_map_add _ _ (by simpa using hne), map_sub_add_of_le _ _ (fun x hx => (h1 x hx).1)]
  have e2 : round_avg xs2 = round_avg (xs2.map (fun x => x - lo2)) + lo2 := by
    rw [← round_avg_map_add _ _ (by simpa using hne2), map_sub_add_of_le _ _ (fun x hx => (h2 x hx).1)]
  have e3 := round_avg_perm hperm
  have b1 : round_avg xs1 ≤ hi1 := round_avg_le _ _ (fun x hx => (h1 x hx).2)
  have b2 : round_avg xs2 ≤ hi2 := round_avg_le _ _ (fun x hx => (h2 x hx).2)
  unfold size_t_sub
  omega

/-- The memoized branch of `set_sink_locs_node`, spelled out. -/
theorem set_sink_locs_node_memoized (grid : DeviceGrid) (s : SinkLocState) (node : Nat)
    (n : t_rr_node) (offset : Nat × Nat)
    (hnode : node < s.st.nodes.length) (hn : node_at s.st node = n) (hsink : n.type = .SINK)
    (hmulti : n.xlow < n.xhigh ∨ n.ylow < n.yhigh) (hxs : n.xhigh < 2 ^ 15) (hys : n.yhigh < 2 ^ 15)
    (hmemo : s.physical_type_offsets (grid.get_physical_type ⟨n.xlow, n.ylow, n.layer⟩) n.ptc_num
      = some offset) :
    node_at (set_sink_locs_node grid s node).st node
        = { n with xlow := (n.xlow + offset.1) % 2 ^ 64, ylow := (n.ylow + offset.2) % 2 ^ 64,
                   xhigh := (n.xlow + offset.1) % 2 ^ 64, yhigh := (n.ylow + offset.2) % 2 ^ 64 }
      ∧ (set_sink_locs_node grid s node).st.node_lookup = s.st.node_lookup := by
  have hw : ¬ (size_t_sub n.xhigh n.xlow = 0 ∧ size_t_sub n.yhigh n.ylow = 0) := by
    rintro ⟨h1, h2⟩
    rcases hmulti with h | h
    · exact size_t_sub_ne_zero h hxs h1
    · exact size_t_sub_ne_zero h hys h2
  unfold set_sink_locs_node
  simp only [hn, hsink, ne_eq, not_true_eq_false, if_false, hw, hmemo]
  constructor
  · unfold set_node_coordinates
    refine (node_at_modify_node_same _ _ _ hnode).trans ?_
    rw [hn]
    simp [hsink]
  · rfl

/-- What C13 says holds on the code where the `float` sums of the coordinates are exact.
Let a first multi-cell SINK be relocated by computation (no memoized offset, pins `pins1`),
and let a second multi-cell SINK, on a tile of the same physical type and with the same
class number, come next, with its in-footprint fan-in pins `pins2` at the same offsets from
its tile origin as `pins1` from theirs, the coordinate sums of both being at most 2^24. Then
the node that `set_sink_locs` produces for the second sink from the memoized offset (second
origin plus the offset computed for the first tile) equals the node it produces when it
computes the location directly from `pins2` (the same state with an empty memo): the box is
the rounded average of `pins2`. Coordinates are those of stored nodes, below 2^15. -/
theorem set_sink_locs_node_memoized_eq_computed_exact (grid : DeviceGrid) (s0 : SinkLocState)
    (n1 n2 : Nat) (m1 m2 : t_rr_node) (pins1 pins2 : List Nat)
    (hm1 : node_at s0.st n1 = m1) (hsink1 : m1.type = .SINK)
    (hmulti1 : m1.xlow < m1.xhigh ∨ m1.ylow < m1.yhigh)
    (hx1 : m1.xhigh < 2 ^ 15) (hy1 : m1.yhigh < 2 ^ 15)
    (hmemo1 : s0.physical_type_offsets (grid.get_physical_type ⟨m1.xlow, m1.ylow, m1.layer⟩)
      m1.ptc_num = none)
    (hpins1 : sink_ipins s0.st n1 m1.xlow m1.ylow m1.xhigh m1.yhigh = pins1) (hne1 : pins1 ≠ [])
    (hnode2 : n2 < (set_sink_locs_node grid s0 n1).st.nodes.length)
    (hm2 : node_at (set_sink_locs_node grid s0 n1).st n2 = m2) (hsink2 : m2.type = .SINK)
    (hmulti2 : m2.xlow < m2.xhigh ∨ m2.ylow < m2.yhigh)
    (hx2 : m2.xhigh < 2 ^ 15) (hy2 : m2.yhigh < 2 ^ 15)
    (htype : grid.get_physical_type ⟨m2.xlow, m2.ylow, m2.layer⟩
      = grid.get_physical_type ⟨m1.xlow, m1.ylow, m1.layer⟩)
    (hptc : m2.ptc_num = m1.ptc_num)
    (hpins2 : sink_ipins (set_sink_locs_node grid s0 n1).st n2 m2.xlow m2.ylow m2.xhigh m2.yhigh
      = pins2)
    (hoff : (pins2.map (fun pin =>
          ((node_at (set_sink_locs_node grid s0 n1).st pin).xlow - m2.xlow,
           (node_at (set_sink_locs_node grid s0 n1).st pin).ylow - m2.ylow))).Perm
        (pins1.map (fun pin =>
          ((node_at s0.st pin).xlow - m1.xlow, (node_at s0.st pin).ylow - m1.ylow))))
    (hsx1 : (pins1.map (fun pin => (node_at s0.st pin).xlow)).sum ≤ 2 ^ 24)
    (hsy1 : (pins1.map (fun pin => (node_at s0.st pin).ylow)).sum ≤ 2 ^ 24)
    (hsx2 : (pins2.map (fun pin => (node_at (set_sink_locs_node grid s0 n1).st pin).xlow)).sum
      ≤ 2 ^ 24)
    (hsy2 : (pins2.map (fun pin => (node_at (set_sink_locs_node grid s0 n1).st pin).ylow)).sum
      ≤ 2 ^ 24) :
    node_at (set_sink_locs_node grid (set_sink_locs_node grid s0 n1) n2).st n2
        = node_at (set_sink_locs_node grid
            { set_sink_locs_node grid s0 n1 with physical_type_offsets := fun _ _ => none } n2).st n2
      ∧ node_at (set_sink_locs_node grid (set_sink_locs_node grid s0 n1) n2).st n2
        = { m2 with
            xlow := round_avg (pins2.map (fun pin => (node_at (set_sink_locs_node grid s0 n1).st pin).xlow)),
            ylow := round_avg (pins2.map (fun pin => (node_at (set_sink_locs_node grid s0 n1).st pin).ylow)),
            xhigh := round_avg (pins2.map (fun pin => (node_at (set_sink_locs_node grid s0 n1).st pin).xlow)),
            yhigh := round_avg (pins2.map (fun pin => (node_at (set_sink_locs_node grid s0 n1).st pin).ylow)) } := by
  have hne2 : pins2 ≠ [] := by
    intro e
    rw [e] at hoff
    have := hoff.length_eq
    simp only [List.map_nil, List.length_nil, List.length_map] at this
    exact hne1 (List.length_eq_zero.mp this.symm)
  have mm := set_sink_locs_node_computed_memo_exact grid s0 n1 m1 pins1 hm1 hsink1 hmulti1 hx1 hy1
    hmemo1 hpins1 hne1 hsx1 hsy1
  rw [← htype, ← hptc] at mm
  obtain ⟨a1, _⟩ := set_sink_locs_node_memoized grid (set_sink_locs_node grid s0 n1) n2 m2 _ hnode2
    hm2 hsink2 hmulti2 hx2 hy2 mm
  obtain ⟨b1, _⟩ := set_sink_locs_node_computed_exact grid
    { set_sink_locs_node grid s0 n1 with physical_type_offsets := fun _ _ => none } n2 m2 pins2
    hnode2 hm2 hsink2 hmulti2 hx2 hy2 rfl hpins2 hne2 hsx2 hsy2
  have hpx := hoff.map Prod.fst
  have hpy := hoff.map Prod.snd
  simp only [List.map_map] at hpx hpy
  have ex := memoized_coordinate_eq_computed
    (pins1.map (fun pin => (node_at s0.st pin).xlow))
    (pins2.map (fun pin => (node_at (set_sink_locs_node grid s0 n1).st pin).xlow))
    m1.xlow m1.xhigh m2.xlow m2.xhigh (by simpa using hne1)
    (fun x hx => by
      obtain ⟨pin, hp, e⟩ := List.mem_map.mp hx
      rw [← hpins1] at hp
      have := mem_sink_ipins hp
      omega)
    (fun x hx => by
      obtain ⟨pin, hp, e⟩ := List.mem_map.mp hx
      rw [← hpins2] at hp
      have := mem_sink_ipins hp
      omega)
    hx1 hx2 (by simpa only [List.map_map] using hpx)
  have ey := memoized_coordinate_eq_computed
    (pins1.map (fun pin => (node_at s0.st pin).ylow))
    (pins2.map (fun pin => (node_at (set_sink_locs_node grid s0 n1).st pin).ylow))
    m1.ylow m1.yhigh m2.ylow m2.yhigh (by simpa using hne1)
    (fun x hx => by
      obtain ⟨pin, hp, e⟩ := List.mem_map.mp hx
      rw [← hpins1] at hp
      have := mem_sink_ipins hp
      omega)
    (fun x hx => by
      obtain ⟨pin, hp, e⟩ := List.mem_map.mp hx
      rw [← hpins2] at hp
      have := mem_sink_ipins hp
      omega)
    hy1 hy2 (by simpa only [List.map_map] using hpy)
  have hA : node_at (set_sink_locs_node grid (set_sink_locs_node grid s0 n1) n2).st n2
      = { m2 with
          xlow := round_avg (pins2.map (fun pin => (node_at (set_sink_locs_node grid s0 n1).st pin).xlow)),
          ylow := round_avg (pins2.map (fun pin => (node_at (set_sink_locs_node grid s0 n1).st pin).ylow)),
          xhigh := round_avg (pins2.map (fun pin => (node_at (set_sink_locs_node grid s0 n1).st pin).xlow)),
          yhigh := round_avg (pins2.map (fun pin => (node_at (set_sink_locs_node grid s0 n1).st pin).ylow)) } := by
    rw [a1]
    dsimp only
    rw [ex, ey]
  exact ⟨hA.trans b1.symm, hA⟩

/-- The two branches agree on an example: in `ex_sink_graph` the first SINK (node 0) is relocated by computation
to (1, 0), memoizing the offset (1, 0); the second SINK (node 2), whose pin sits at the same
offset, is sent to (3, 0) by the memoized offset, which is what its own pin gives. -/
theorem set_sink_locs_node_memoized_eq_computed_exact_witness :
    node_at (set_sink_locs_node ex_sink_grid
        (set_sink_locs_node ex_sink_grid
          { st := ex_sink_graph, physical_type_offsets := fun _ _ => none } 0) 2).st 2
      = node_at (set_sink_locs_node ex_sink_grid
          { set_sink_locs_node ex_sink_grid
              { st := ex_sink_graph, physical_type_offsets := fun _ _ => none } 0 with
            physical_type_offsets := fun _ _ => none } 2).st 2
      ∧ (node_at (set_sink_locs_node ex_sink_grid
          (set_sink_locs_node ex_sink_grid
            { st := ex_sink_graph, physical_type_offsets := fun _ _ => none } 0) 2).st 2).xlow = 3 := by
  have h := set_sink_locs_node_memoized_eq_computed_exact ex_sink_grid
    { st := ex_sink_graph, physical_type_offsets := fun _ _ => none } 0 2
    (node_at ex_sink_graph 0)
    (node_at (set_sink_locs_node ex_sink_grid
      { st := ex_sink_graph, physical_type_offsets := fun _ _ => none } 0).st 2)
    [1] [3] rfl (by decide) (by decide) (by decide) (by decide) (by decide) (by decide)
    (by decide) (by decide) rfl (by decide) (by decide) (by decide) (by decide) (by decide)
    (by decide) (by decide) (by decide) (by decide) (by decide) (by decide) (by decide)
  refine ⟨h.1, ?_⟩
  rw [h.2]
  decide

/-! ## Device grid construction -/

theorem valid_names_from_pos (i : Nat) (hi : i ≠ 0) (acc : String) (l : List t_grid_def) :
    valid_names_from i acc l
      = String.intercalate.go acc ", " (l.map (fun g => "'" ++ g.name ++ "'")) := by
  induction l generalizing i acc with
  | nil => rfl
  | cons g gs ih =>
    unfold valid_names_from
    rw [if_pos hi, ih (i + 1) (Nat.succ_ne_zero i)]
    rfl

/-- The text `valid_names` of `create_device_grid`: the names of the catalog, each in single
quotes, in catalog order, separated by ", ". -/
theorem valid_names_from_zero (l : List t_grid_def) :
    valid_names_from 0 "" l = ", ".intercalate (l.map (fun g => "'" ++ g.name ++ "'")) := by
  cases l with
  | nil => rfl
  | cons g gs =>
    unfold valid_names_from
    rw [if_neg (by simp), valid_names_from_pos 1 (by decide)]
    simp [String.intercalate]

theorem find?_eq_none_of_names (layout_name : String) (grid_layouts : List t_grid_def)
    (h : ∀ g ∈ grid_layouts, g.name ≠ layout_name) :
    grid_layouts.find? (fun grid_def => grid_def.name == layout_name) = none := by
  rw [List.find?_eq_none]
  intro g hg
  simpa using h g hg

/-- C14. For every layout name other than "auto" that matches the name of no entry of
`grid_layouts`, both overloads of `create_device_grid` fail with a fatal `VPR_ERROR_ARCH`
error (no grid is built, for every fuel and every other argument), and the error text is
"Failed to find grid layout named '<name>' (valid grid layouts: <names>)" where <names> is
the names of the catalog, each in single quotes, separated by ", ", in catalog order. -/
theorem create_device_grid_unknown_layout (ctx : SetupCtx) (fuel : Nat) (layout_name : String)
    (grid_layouts : List t_grid_def) (auto_sized auto_layout : Except SetupError t_device_grid)
    (number_of_avail_dies : Nat)
    (hauto : layout_name ≠ "auto") (hname : ∀ g ∈ grid_layouts, g.name ≠ layout_name) :
    create_device_grid ctx fuel layout_name grid_layouts auto_sized number_of_avail_dies
        = .error (.fatal .VPR_ERROR_ARCH
            ("Failed to find grid layout named '" ++ layout_name ++ "' (valid grid layouts: "
              ++ ", ".intercalate (grid_layouts.map (fun g => "'" ++ g.name ++ "'")) ++ ")\n"))
      ∧ create_device_grid_dims ctx fuel layout_name grid_layouts auto_layout number_of_avail_dies
        = .error (.fatal .VPR_ERROR_ARCH
            ("Failed to find grid layout named '" ++ layout_name ++ "' (valid grid layouts: "
              ++ ", ".intercalate (grid_layouts.map (fun g => "'" ++ g.name ++ "'")) ++ ")\n")) := by
  unfold create_device_grid create_device_grid_dims create_device_grid_named
  rw [if_neg hauto, if_neg hauto, find?_eq_none_of_names layout_name grid_layouts hname,
    valid_names_from_zero]
  exact ⟨rfl, rfl⟩

theorem foldlM_error_of_mem {σ ι : Type} (f : σ → ι → Except SetupError σ) (d : ι)
    (hd : ∀ s, ∃ e, f s d = .error e) (l : List ι) (hmem : d ∈ l) (s : σ) :
    ∃ e, l.foldlM f s = .error e := by
  induction l generalizing s with
  | nil => cases hmem
  | cons a as ih =>
    rw [List.foldlM_cons]
    cases hfa : f s a with
    | error e => exact ⟨e, rfl⟩
    | ok s' =>
      rcases List.mem_cons.mp hmem with h | h
      · subst h
        obtain ⟨e, he⟩ := hd s
        rw [he] at hfa
        cases hfa
      · exact ih h s'

/-- The body of the loop over the location specifications for a specification whose type is
found, whose expressions evaluate to `v`, and whose start lies inside the device: the
checks decide, then the fill. -/
theorem build_grid_loc_def_in_range {ctx : SetupCtx} {fuel grid_width grid_height : Nat}
    {s : GridBuildState} {d : t_grid_loc_def} {type : t_physical_tile_type} {v : t_loc_values}
    (htype : ctx.find_tile_type_by_name d.block_type = some type)
    (hv : eval_grid_loc_def ctx grid_width grid_height type d = .ok v)
    (hsx : v.startx ≤ size_t_sub grid_width 1) (hsy : v.starty ≤ size_t_sub grid_height 1) :
    build_grid_loc_def ctx fuel grid_width grid_height s d
      = (check_grid_loc_def type v).bind (fun _ =>
          fill_grid_loc_def ctx fuel grid_width grid_height s d type v) := by
  unfold build_grid_loc_def
  rw [htype]
  dsimp only
  rw [hv]
  simp only [Except.bind, if_neg (Nat.not_lt.mpr hsx), if_neg (Nat.not_lt.mpr hsy)]

/-- The body of the loop over the location specifications for a specification whose start
lies outside the device: no instances will be created, the matrices stay as they are. -/
theorem build_grid_loc_def_out_of_range {ctx : SetupCtx} {fuel grid_width grid_height : Nat}
    {s : GridBuildState} {d : t_grid_loc_def} {type : t_physical_tile_type} {v : t_loc_values}
    (htype : ctx.find_tile_type_by_name d.block_type = some type)
    (hv : eval_grid_loc_def ctx grid_width grid_height type d = .ok v)
    (hs : size_t_sub grid_width 1 < v.startx ∨ size_t_sub grid_height 1 < v.starty) :
    build_grid_loc_def ctx fuel grid_width grid_height s d = .ok s := by
  unfold build_grid_loc_def
  rw [htype]
  dsimp only
  rw [hv]
  simp only [Except.bind]
  by_cases hx : v.startx > size_t_sub grid_width 1
  · rw [if_pos hx]
  · rw [if_neg hx]
    rcases hs with h | h
    · exact absurd h hx
    · rw [if_pos h]

/-- C15 (amended). `build_device_grid` fails with a fatal `VPR_ERROR_ARCH` error for every
grid location specification whose start lies inside the device (startx <= grid_width - 1
and starty <= grid_height - 1) and whose evaluated end coordinate lies before its start
coordinate (endx < startx or endy < starty), for all values of the other fields: the body
of the loop over the specifications ends in that error whatever the grid and the fuel, and
a layout that contains such a specification never yields a grid. -/
theorem build_device_grid_end_before_start (ctx : SetupCtx) (grid_width grid_height : Nat)
    (d : t_grid_loc_def) (type : t_physical_tile_type) (v : t_loc_values)
    (htype : ctx.find_tile_type_by_name d.block_type = some type)
    (hv : eval_grid_loc_def ctx grid_width grid_height type d = .ok v)
    (hsx : v.startx ≤ size_t_sub grid_width 1) (hsy : v.starty ≤ size_t_sub grid_height 1)
    (hend : v.endx < v.startx ∨ v.endy < v.starty) :
    (∀ (fuel : Nat) (s : GridBuildState),
        ∃ msg, build_grid_loc_def ctx fuel grid_width grid_height s d
          = .error (.fatal .VPR_ERROR_ARCH msg))
      ∧ ∀ (fuel : Nat) (grid_def : t_grid_def) (number_of_available_dies : Nat),
          d ∈ grid_def.loc_defs →
          ∃ e, build_device_grid ctx fuel grid_def grid_width grid_height number_of_available_dies
            = .error e := by
  have hbody : ∀ (fuel : Nat) (s : GridBuildState),
      ∃ msg, build_grid_loc_def ctx fuel grid_width grid_height s d
        = .error (.fatal .VPR_ERROR_ARCH msg) := by
    intro fuel s
    rw [build_grid_loc_def_in_range htype hv hsx hsy]
    unfold check_grid_loc_def
    by_cases hx : v.endx < v.startx
    · rw [if_pos hx]
      exact ⟨_, rfl⟩
    · rw [if_neg hx]
      rcases hend with h | h
      · exact absurd h hx
      · rw [if_pos h]
        exact ⟨_, rfl⟩
  refine ⟨hbody, ?_⟩
  intro fuel grid_def dies hmem
  unfold build_device_grid
  split
  · exact ⟨_, rfl⟩
  · split
    · exact ⟨_, rfl⟩
    · rename_i empty_type _
      cases hfill : fill_empty empty_type grid_width grid_height dies GridBuildState.init with
      | error e => exact ⟨e, rfl⟩
      | ok s0 =>
        obtain ⟨e, he⟩ := foldlM_error_of_mem (build_grid_loc_def ctx fuel grid_width grid_height) d
          (fun s => by
            obtain ⟨msg, hm⟩ := hbody fuel s
            exact ⟨_, hm⟩) grid_def.loc_defs hmem s0
        refine ⟨e, ?_⟩
        simp only [Except.bind, he]

/-- Witness for C14: the name "huge" is not in the catalog `ex_grid_layouts`; the error text
lists 'small', 'big'. -/
theorem create_device_grid_unknown_layout_witness :
    create_device_grid ex_setup_ctx 0 "huge" ex_grid_layouts (.error .out_of_fuel) 1
        = .error (.fatal .VPR_ERROR_ARCH
            "Failed to find grid layout named 'huge' (valid grid layouts: 'small', 'big')\n")
      ∧ create_device_grid_dims ex_setup_ctx 0 "huge" ex_grid_layouts (.error .out_of_fuel) 1
        = .error (.fatal .VPR_ERROR_ARCH
            "Failed to find grid layout named 'huge' (valid grid layouts: 'small', 'big')\n") := by
  have h := create_device_grid_unknown_layout ex_setup_ctx 0 "huge" ex_grid_layouts
    (.error .out_of_fuel) (.error .out_of_fuel) 1 (by decide) (by decide)
  have e : ("Failed to find grid layout named '" ++ "huge" ++ "' (valid grid layouts: "
      ++ ", ".intercalate (ex_grid_layouts.map (fun g => "'" ++ g.name ++ "'")) ++ ")\n")
      = "Failed to find grid layout named 'huge' (valid grid layouts: 'small', 'big')\n" := by
    decide
  rw [e] at h
  exact h

/-- Witness for C15 (amended): `ex_backward_loc_def` on a device of 5 by 3 starts at x = 3,
inside the device, and ends at x = 1. -/
theorem build_device_grid_end_before_start_witness :
    (∃ msg, build_grid_loc_def ex_setup_ctx 0 5 3 (ex_empty_device 5 3) ex_backward_loc_def
        = .error (.fatal .VPR_ERROR_ARCH msg))
      ∧ ∃ e, build_device_grid ex_setup_ctx 7 ex_backward_grid_def 5 3 1 = .error e := by
  have h := build_device_grid_end_before_start ex_setup_ctx 5 3 ex_backward_loc_def ex_clb_tile
    ⟨3, 1, 1, 10, 0, 2, 1, 3⟩ rfl rfl (by decide) (by decide) (by decide)
  exact ⟨h.1 0 (ex_empty_device 5 3), h.2 7 ex_backward_grid_def 1 (by decide)⟩

/-- Counterexample for C15: `ex_outside_loc_def` on a device of 5 by 3 has its end (x = 5)
before its start (x = 10), and `build_device_grid` does not fail: the start lies outside the
device, the specification is skipped and the grid of empty tiles is returned. -/
theorem build_device_grid_end_before_start_counterexample :
    eval_grid_loc_def ex_setup_ctx 5 3 ex_clb_tile ex_outside_loc_def
        = .ok ⟨10, 5, 1, 10, 0, 2, 1, 3⟩
      ∧ (∃ g, build_device_grid ex_setup_ctx 7 ex_outside_grid_def 5 3 1 = .ok g)
      ∧ (build_device_grid ex_setup_ctx 7 ex_outside_grid_def 5 3 1).toOption.map
          (fun g => (List.range 5).map (fun x => (List.range 3).map (fun y => (g.tiles x y).type)))
        = some (List.replicate 5 (List.replicate 3 (some ex_empty_tile))) := by
  have h : (build_device_grid ex_setup_ctx 7 ex_outside_grid_def 5 3 1).toOption.map
      (fun g => (List.range 5).map (fun x => (List.range 3).map (fun y => (g.tiles x y).type)))
      = some (List.replicate 5 (List.replicate 3 (some ex_empty_tile))) := by
    decide
  refine ⟨rfl, ?_, h⟩
  cases hb : build_device_grid ex_setup_ctx 7 ex_outside_grid_def 5 3 1 with
  | ok g => exact ⟨g, rfl⟩
  | error e =>
    rw [hb] at h
    cases h

/-- The positions of a stepped `for` loop, for values that do not wrap: every position
fits, they are `incr` apart, and every position `v + i * incr` that fits is among them. -/
theorem stepped_positions_spec (extent incr v_max : Nat) (hext : 0 < extent)
    (hb1 : extent < 2 ^ 32) (hb2 : incr < 2 ^ 32) (hb3 : v_max < 2 ^ 32) :
    ∀ (fuel v : Nat) (l : List Nat), v < 2 ^ 34 →
      stepped_positions extent incr v_max fuel v = some l →
      (∀ x ∈ l, v ≤ x ∧ x + (extent - 1) ≤ v_max)
        ∧ l.Pairwise (fun a b => a + incr ≤ b)
        ∧ ∀ i, v + i * incr + (extent - 1) ≤ v_max → v + i * incr ∈ l := by
  intro fuel
  induction fuel with
  | zero =>
    intro v l _ h
    simp [stepped_positions] at h
  | succ fuel ih =>
    intro v l hv h
    unfold stepped_positions at h
    have e1 : (v + (extent - 1)) % 2 ^ 64 = v + (extent - 1) := Nat.mod_eq_of_lt (by omega)
    rw [e1] at h
    by_cases hc : v + (extent - 1) ≤ v_max
    · rw [if_pos hc] at h
      have e2 : (v + incr) % 2 ^ 64 = v + incr := Nat.mod_eq_of_lt (by omega)
      rw [e2] at h
      obtain ⟨l', hl', e⟩ := Option.map_eq_some'.mp h
      subst e
      obtain ⟨a1, a2, a3⟩ := ih (v + incr) l' (by omega) hl'
      refine ⟨?_, ?_, ?_⟩
      · intro x hx
        rcases List.mem_cons.mp hx with e | e
        · subst e
          exact ⟨Nat.le_refl _, hc⟩
        · have := a1 x e
          omega
      · refine List.Pairwise.cons ?_ a2
        intro x hx
        exact (a1 x hx).1
      · intro i hi
        cases i with
        | zero => simp
        | succ i =>
          have e3 : v + (i + 1) * incr = v + incr + i * incr := by ring
          rw [e3] at hi ⊢
          exact List.mem_cons_of_mem _ (a3 i hi)
    · rw [if_neg hc] at h
      cases h
      refine ⟨fun x hx => absurd hx (List.not_mem_nil x), List.Pairwise.nil, ?_⟩
      intro i hi
      have : v ≤ v + i * incr := Nat.le_add_right _ _
      omega

/-- A stepped `for` loop with a positive step ends: enough fuel gives its positions. -/
theorem stepped_positions_terminates (extent incr v_max : Nat) (hinc : 0 < incr)
    (hb1 : extent < 2 ^ 32) (hb2 : incr < 2 ^ 32) (hb3 : v_max < 2 ^ 32) :
    ∀ (fuel v : Nat), v < 2 ^ 34 → 0 < fuel → v_max + 2 ≤ fuel + v →
      ∃ l, stepped_positions extent incr v_max fuel v = some l := by
  intro fuel
  induction fuel with
  | zero =>
    intro v hv h0 h
    exact absurd h0 (Nat.lt_irrefl 0)
  | succ fuel ih =>
    intro v hv _ h
    unfold stepped_positions
    have e1 : (v + (extent - 1)) % 2 ^ 64 = v + (extent - 1) := Nat.mod_eq_of_lt (by omega)
    rw [e1]
    by_cases hc : v + (extent - 1) ≤ v_max
    · rw [if_pos hc]
      have e2 : (v + incr) % 2 ^ 64 = v + incr := Nat.mod_eq_of_lt (by omega)
      rw [e2]
      obtain ⟨l', hl'⟩ := ih (v + incr) (by omega) (by omega) (by omega)
      exact ⟨v :: l', by rw [hl']; rfl⟩
    · rw [if_neg hc]
      exact ⟨[], rfl⟩

/-- The repetitions of a region along one axis, for values that do not wrap: every
repetition is as long as the region, they start `rep` apart, and the region itself is the
first of them. -/
theorem repeat_regions_spec (start stop rep limit : Nat) (hss : start ≤ stop) (hrep : 0 < rep)
    (hb1 : stop < 2 ^ 32) (hb2 : rep < 2 ^ 32) (hb3 : limit < 2 ^ 32) :
    ∀ (fuel k v_end : Nat) (l : List (Nat × Nat)), (k = 0 ∨ v_end = stop + (k - 1) * rep) →
      repeat_regions start stop rep limit fuel k v_end = some l →
      (∀ r ∈ l, r.2 = r.1 + (stop - start) ∧ start + k * rep ≤ r.1 ∧ r.1 < 2 ^ 34)
        ∧ l.Pairwise (fun r1 r2 => r1.1 + rep ≤ r2.1)
        ∧ (k = 0 → v_end < limit → l.head? = some (start, stop)) := by
  intro fuel
  induction fuel with
  | zero =>
    intro k v_end l _ h
    simp [repeat_regions] at h
  | succ fuel ih =>
    intro k v_end l hk h
    unfold repeat_regions at h
    by_cases hc : v_end < limit
    · rw [if_pos hc] at h
      obtain ⟨l', hl', e⟩ := Option.map_eq_some'.mp h
      subst e
      have hkr : k * rep < 2 ^ 33 ∧ k < 2 ^ 33 := by
        cases k with
        | zero => simp
        | succ k' =>
          rcases hk with hk | hk
          · cases hk
          · simp only [Nat.add_sub_cancel] at hk
            have h1 : k' ≤ k' * rep := Nat.le_mul_of_pos_right k' hrep
            rw [Nat.succ_mul]
            omega
      have e1 : (start + k * rep) % 2 ^ 64 = start + k * rep := Nat.mod_eq_of_lt (by omega)
      have e2 : (stop + k * rep) % 2 ^ 64 = stop + k * rep := Nat.mod_eq_of_lt (by omega)
      have e3 : (k + 1) % 2 ^ 64 = k + 1 := Nat.mod_eq_of_lt (by omega)
      rw [e2, e3] at hl'
      rw [e1, e2]
      obtain ⟨a1, a2, _⟩ := ih (k + 1) (stop + k * rep) l' (Or.inr (by simp)) hl'
      have e4 : (k + 1) * rep = k * rep + rep := Nat.succ_mul k rep
      refine ⟨?_, ?_, ?_⟩
      · intro r hr
        rcases List.mem_cons.mp hr with e | e
        · subst e
          exact ⟨by dsimp only; omega, Nat.le_refl _, by dsimp only; omega⟩
        · have := a1 r e
          omega
      · refine List.Pairwise.cons ?_ a2
        intro r hr
        have := (a1 r hr).2.1
        dsimp only
        omega
      · intro hk0 _
        subst hk0
        simp
    · rw [if_neg hc] at h
      cases h
      exact ⟨fun r hr => absurd hr (List.not_mem_nil r), List.Pairwise.nil,
        fun _ hlt => absurd hlt hc⟩

/-- The repetition loop along one axis ends when the repeat is positive: enough fuel gives
its regions. -/
theorem repeat_regions_terminates (start stop rep limit : Nat) (hrep : 0 < rep)
    (hb1 : stop < 2 ^ 32) (hb2 : rep < 2 ^ 32) (hb3 : limit < 2 ^ 32) :
    ∀ (fuel k v_end : Nat), (k = 0 ∨ v_end = stop + (k - 1) * rep) → 0 < fuel →
      (k = 0 → limit + 2 ≤ fuel) → (k ≠ 0 → limit + 1 ≤ fuel + v_end) →
      ∃ l, repeat_regions start stop rep limit fuel k v_end = some l := by
  intro fuel
  induction fuel with
  | zero =>
    intro k v_end _ h0 _ _
    exact absurd h0 (Nat.lt_irrefl 0)
  | succ fuel ih =>
    intro k v_end hk _ hf0 hf1
    unfold repeat_regions
    by_cases hc : v_end < limit
    · rw [if_pos hc]
      have hkr : k * rep < 2 ^ 33 ∧ k < 2 ^ 33 ∧ (k ≠ 0 → v_end + rep = stop + k * rep) := by
        cases k with
        | zero => simp
        | succ k' =>
          rcases hk with hk | hk
          · cases hk
          · simp only [Nat.add_sub_cancel] at hk
            have h1 : k' ≤ k' * rep := Nat.le_mul_of_pos_right k' hrep
            rw [Nat.succ_mul]
            refine ⟨by omega, by omega, fun _ => by omega⟩
      have e2 : (stop + k * rep) % 2 ^ 64 = stop + k * rep := Nat.mod_eq_of_lt (by omega)
      have e3 : (k + 1) % 2 ^ 64 = k + 1 := Nat.mod_eq_of_lt (by omega)
      rw [e2, e3]
      obtain ⟨l', hl'⟩ := ih (k + 1) (stop + k * rep) (Or.inr (by simp))
        (by
          by_cases hk0 : k = 0
          · have := hf0 hk0
            omega
          · have := hf1 hk0
            omega)
        (fun h => absurd h (Nat.succ_ne_zero k))
        (fun _ => by
          by_cases hk0 : k = 0
          · have := hf0 hk0
            omega
          · have := hf1 hk0
            have := hkr.2.2 hk0
            omega)
      exact ⟨_, by rw [hl']; rfl⟩
    · rw [if_neg hc]
      exact ⟨[], rfl⟩

theorem option_flat_map_some {α β : Type} (f : α → Option (List β)) (l : List α) (r : List β)
    (h : option_flat_map f l = some r) :
    (∀ a ∈ l, ∃ bs, f a = some bs) ∧ r = l.flatMap (fun a => (f a).getD []) := by
  induction l generalizing r with
  | nil =>
    simp only [option_flat_map, Option.some.injEq] at h
    subst h
    exact ⟨fun a ha => absurd ha (List.not_mem_nil a), rfl⟩
  | cons a as ih =>
    unfold option_flat_map at h
    cases hfa : f a with
    | none => rw [hfa] at h; cases h
    | some bs =>
      rw [hfa] at h
      obtain ⟨r', hr', e⟩ := Option.map_eq_some'.mp h
      subst e
      obtain ⟨i1, i2⟩ := ih r' hr'
      refine ⟨?_, ?_⟩
      · intro a' ha'
        rcases List.mem_cons.mp ha' with e | e
        · subst e
          exact ⟨bs, hfa⟩
        · exact i1 a' e
      · rw [List.flatMap_cons, hfa, i2]
        rfl

theorem option_flat_map_of_forall {α β : Type} (f : α → Option (List β)) (l : List α)
    (h : ∀ a ∈ l, ∃ bs, f a = some bs) : ∃ r, option_flat_map f l = some r := by
  induction l with
  | nil => exact ⟨[], rfl⟩
  | cons a as ih =>
    obtain ⟨bs, hbs⟩ := h a (List.mem_cons_self _ _)
    obtain ⟨r, hr⟩ := ih (fun a' ha' => h a' (List.mem_cons_of_mem _ ha'))
    exact ⟨bs ++ r, by unfold option_flat_map; rw [hbs, hr]; rfl⟩

/-- What the checks of `build_device_grid` establish when they pass, for values that do not
wrap. -/
theorem check_grid_loc_def_ok {type : t_physical_tile_type} {v : t_loc_values}
    {grid_width grid_height : Nat} (hr : loc_values_in_int_range grid_width grid_height type v)
    (h : check_grid_loc_def type v = .ok ()) :
    v.startx ≤ v.endx ∧ v.starty ≤ v.endy ∧ 0 < type.width ∧ type.width ≤ v.incrx
      ∧ 0 < type.height ∧ type.height ≤ v.incry
      ∧ v.endx - v.startx + 1 ≤ v.repeatx ∧ v.endy - v.starty + 1 ≤ v.repeaty := by
  obtain ⟨_, _, _, _, _, _, _, _, _, _, _, _⟩ := hr
  unfold check_grid_loc_def at h
  split at h
  · cases h
  · split at h
    · cases h
    · split at h
      · cases h
      · split at h
        · cases h
        · split at h
          · cases h
          · split at h
            · cases h
            · split at h
              · cases h
              · split at h
                · cases h
                · rename_i h1 h2 h3 h4 h5 h6 h7 h8
                  unfold size_t_sub at h7 h8
                  refine ⟨by omega, by omega, by omega, by omega, by omega, by omega, ?_, ?_⟩
                  · have e : (v.endx + 2 ^ 64 - v.startx % 2 ^ 64) % 2 ^ 64 = v.endx - v.startx := by
                      omega
                    rw [e] at h7
                    omega
                  · have e : (v.endy + 2 ^ 64 - v.starty % 2 ^ 64) % 2 ^ 64 = v.endy - v.starty := by
                      omega
                    rw [e] at h8
                    omega

theorem size_t_sub_one {n : Nat} (h0 : 0 < n) (hn : n < 2 ^ 31) : size_t_sub n 1 = n - 1 := by
  unfold size_t_sub
  omega

/-- The roots of one repetition of the region, for values that do not wrap: every root lies
in the repetition, clipped to the device, and every position of the two stepped loops that
fits is a root. -/
theorem region_roots_spec {fuel grid_width grid_height : Nat} {type : t_physical_tile_type}
    {v : t_loc_values} {xr yr : Nat × Nat} {roots : List (Nat × Nat)}
    (hr : loc_values_in_int_range grid_width grid_height type v)
    (hw : 0 < type.width) (hh : 0 < type.height) (hW : 0 < grid_width) (hH : 0 < grid_height)
    (hxr : xr.1 < 2 ^ 34) (hyr : yr.1 < 2 ^ 34)
    (h : region_roots fuel grid_width grid_height type v xr yr = some roots) :
    (∀ r ∈ roots, xr.1 ≤ r.1 ∧ r.1 + (type.width - 1) ≤ min xr.2 (grid_width - 1)
        ∧ yr.1 ≤ r.2 ∧ r.2 + (type.height - 1) ≤ min yr.2 (grid_height - 1))
      ∧ ∀ i j, xr.1 + i * v.incrx + (type.width - 1) ≤ min xr.2 (grid_width - 1) →
          yr.1 + j * v.incry + (type.height - 1) ≤ min yr.2 (grid_height - 1) →
          (xr.1 + i * v.incrx, yr.1 + j * v.incry) ∈ roots := by
  obtain ⟨b1, b2, b3, b4, _, _, b7, _, _, _, b11, _⟩ := hr
  unfold region_roots at h
  rw [size_t_sub_one hW b1, size_t_sub_one hH b2] at h
  dsimp only at h
  have hxm : min xr.2 (grid_width - 1) < 2 ^ 32 := by
    have := Nat.min_le_right xr.2 (grid_width - 1)
    omega
  have hym : min yr.2 (grid_height - 1) < 2 ^ 32 := by
    have := Nat.min_le_right yr.2 (grid_height - 1)
    omega
  cases hxs : stepped_positions type.width v.incrx (min xr.2 (grid_width - 1)) fuel xr.1 with
  | none => simp only [hxs] at h; cases h
  | some xs =>
    simp only [hxs] at h
    obtain ⟨f1, f2⟩ := option_flat_map_some _ _ _ h
    obtain ⟨x1, _, x3⟩ := stepped_positions_spec type.width v.incrx (min xr.2 (grid_width - 1)) hw
      (by omega) (by omega) hxm fuel xr.1 xs hxr hxs
    refine ⟨?_, ?_⟩
    · intro r hr'
      rw [f2, List.mem_flatMap] at hr'
      obtain ⟨x, hx, hrx⟩ := hr'
      obtain ⟨bs, hbs⟩ := f1 x hx
      rw [hbs] at hrx
      obtain ⟨ys, hys, e⟩ := Option.map_eq_some'.mp hbs
      subst e
      obtain ⟨y, hy, e⟩ := List.mem_map.mp hrx
      subst e
      obtain ⟨y1, _, _⟩ := stepped_positions_spec type.height v.incry (min yr.2 (grid_height - 1)) hh
        (by omega) (by omega) hym fuel yr.1 ys hyr hys
      exact ⟨(x1 x hx).1, (x1 x hx).2, (y1 y hy).1, (y1 y hy).2⟩
    · intro i j hi hj
      have hx := x3 i hi
      obtain ⟨bs, hbs⟩ := f1 _ hx
      obtain ⟨ys, hys, e⟩ := Option.map_eq_some'.mp hbs
      obtain ⟨_, _, y3⟩ := stepped_positions_spec type.height v.incry (min yr.2 (grid_height - 1)) hh
        (by omega) (by omega) hym fuel yr.1 ys hyr hys
      rw [f2, List.mem_flatMap]
      refine ⟨_, hx, ?_⟩
      rw [hbs, ← e]
      exact List.mem_map.mpr ⟨_, y3 j hj, rfl⟩

/-- One repetition of the region ends: enough fuel gives its roots. -/
theorem region_roots_terminates {fuel grid_width grid_height : Nat} {type : t_physical_tile_type}
    {v : t_loc_values} {xr yr : Nat × Nat}
    (hr : loc_values_in_int_range grid_width grid_height type v)
    (hix : 0 < v.incrx) (hiy : 0 < v.incry) (hW : 0 < grid_width) (hH : 0 < grid_height)
    (hxr : xr.1 < 2 ^ 34) (hyr : yr.1 < 2 ^ 34) (hfuel : grid_width + grid_height + 2 ≤ fuel) :
    ∃ roots, region_roots fuel grid_width grid_height type v xr yr = some roots := by
  obtain ⟨b1, b2, b3, b4, _, _, b7, _, _, _, b11, _⟩ := hr
  unfold region_roots
  rw [size_t_sub_one hW b1, size_t_sub_one hH b2]
  dsimp only
  have hxm : min xr.2 (grid_width - 1) ≤ grid_width - 1 := Nat.min_le_right _ _
  have hym : min yr.2 (grid_height - 1) ≤ grid_height - 1 := Nat.min_le_right _ _
  obtain ⟨xs, hxs⟩ := stepped_positions_terminates type.width v.incrx (min xr.2 (grid_width - 1)) hix
    (by omega) (by omega) (by omega) fuel xr.1 hxr (by omega) (by omega)
  obtain ⟨ys, hys⟩ := stepped_positions_terminates type.height v.incry (min yr.2 (grid_height - 1))
    hiy (by omega) (by omega) (by omega) fuel yr.1 hyr (by omega) (by omega)
  simp only [hxs]
  exact option_flat_map_of_forall _ _ (fun x _ => ⟨_, by rw [hys]; rfl⟩)

/-- The roots of the fill loops for one location specification that passes the checks, for
values that do not wrap: every root has its footprint inside the device, and every position
of the specification's own region (clipped to the device) that fits is a root. -/
theorem fill_roots_spec {fuel grid_width grid_height : Nat} {type : t_physical_tile_type}
    {v : t_loc_values} {roots : List (Nat × Nat)}
    (hr : loc_values_in_int_range grid_width grid_height type v)
    (hc : check_grid_loc_def type v = .ok ()) (hW : 0 < grid_width) (hH : 0 < grid_height)
    (h : fill_roots fuel grid_width grid_height type v = some roots) :
    (∀ r ∈ roots, r.1 + type.width ≤ grid_width ∧ r.2 + type.height ≤ grid_height)
      ∧ ∀ i j, v.startx + i * v.incrx + (type.width - 1) ≤ min v.endx (grid_width - 1) →
          v.starty + j * v.incry + (type.height - 1) ≤ min v.endy (grid_height - 1) →
          (v.startx + i * v.incrx, v.starty + j * v.incry) ∈ roots := by
  obtain ⟨c1, c2, c3, c4, c5, c6, c7, c8⟩ := check_grid_loc_def_ok hr hc
  have hr' := hr
  obtain ⟨b1, b2, b3, b4, b5, b6, b7, b8, b9, b10, b11, b12⟩ := hr'
  unfold fill_roots at h
  cases hx : repeat_regions v.startx v.endx v.repeatx grid_width fuel 0 0 with
  | none => simp only [hx] at h; cases h
  | some xrs =>
    cases hy : repeat_regions v.starty v.endy v.repeaty grid_height fuel 0 0 with
    | none =>
      simp only [hx, hy] at h
      obtain ⟨x1, _, x3⟩ := repeat_regions_spec v.startx v.endx v.repeatx grid_width c1 (by omega)
        (by omega) (by omega) (by omega) fuel 0 0 xrs (Or.inl rfl) hx
      have h0 := x3 rfl hW
      obtain ⟨f1, _⟩ := option_flat_map_some _ _ _ h
      obtain ⟨bs, hbs⟩ := f1 _ (List.mem_of_mem_head? h0)
      cases hbs
    | some yrs =>
      simp only [hx, hy] at h
      obtain ⟨x1, _, x3⟩ := repeat_regions_spec v.startx v.endx v.repeatx grid_width c1 (by omega)
        (by omega) (by omega) (by omega) fuel 0 0 xrs (Or.inl rfl) hx
      obtain ⟨y1, _, y3⟩ := repeat_regions_spec v.starty v.endy v.repeaty grid_height c2 (by omega)
        (by omega) (by omega) (by omega) fuel 0 0 yrs (Or.inl rfl) hy
      obtain ⟨f1, f2⟩ := option_flat_map_some _ _ _ h
      refine ⟨?_, ?_⟩
      · intro r hr0
        rw [f2, List.mem_flatMap] at hr0
        obtain ⟨xr, hxr, hrx⟩ := hr0
        obtain ⟨bs, hbs⟩ := f1 xr hxr
        rw [hbs] at hrx
        obtain ⟨g1, g2⟩ := option_flat_map_some _ _ _ hbs
        rw [Option.getD_some, g2, List.mem_flatMap] at hrx
        obtain ⟨yr, hyr, hry⟩ := hrx
        obtain ⟨rs, hrs⟩ := g1 yr hyr
        rw [hrs] at hry
        obtain ⟨m1, _⟩ := region_roots_spec hr c3 c5 hW hH (x1 xr hxr).2.2 (y1 yr hyr).2.2 hrs
        have := m1 r hry
        have hxm : min xr.2 (grid_width - 1) ≤ grid_width - 1 := Nat.min_le_right _ _
        have hym : min yr.2 (grid_height - 1) ≤ grid_height - 1 := Nat.min_le_right _ _
        omega
      · intro i j hi hj
        have hx0 := List.mem_of_mem_head? (x3 rfl hW)
        have hy0 := List.mem_of_mem_head? (y3 rfl hH)
        obtain ⟨bs, hbs⟩ := f1 _ hx0
        obtain ⟨g1, g2⟩ := option_flat_map_some _ _ _ hbs
        obtain ⟨rs, hrs⟩ := g1 _ hy0
        obtain ⟨_, m2⟩ := region_roots_spec hr c3 c5 hW hH (by dsimp only; omega)
          (by dsimp only; omega) hrs
        rw [f2, List.mem_flatMap]
        refine ⟨_, hx0, ?_⟩
        rw [hbs, Option.getD_some, g2, List.mem_flatMap]
        refine ⟨_, hy0, ?_⟩
        rw [hrs]
        exact m2 i j hi hj

/-- The fill loops for a location specification that passes the checks end: enough fuel
gives the roots. -/
theorem fill_roots_terminates {fuel grid_width grid_height : Nat} {type : t_physical_tile_type}
    {v : t_loc_values}
    (hr : loc_values_in_int_range grid_width grid_height type v)
    (hc : check_grid_loc_def type v = .ok ()) (hW : 0 < grid_width) (hH : 0 < grid_height)
    (hfuel : grid_width + grid_height + 2 ≤ fuel) :
    ∃ roots, fill_roots fuel grid_width grid_height type v = some roots := by
  obtain ⟨c1, c2, c3, c4, c5, c6, c7, c8⟩ := check_grid_loc_def_ok hr hc
  have hr' := hr
  obtain ⟨b1, b2, b3, b4, b5, b6, b7, b8, b9, b10, b11, b12⟩ := hr'
  obtain ⟨xrs, hx⟩ := repeat_regions_terminates v.startx v.endx v.repeatx grid_width (by omega)
    (by omega) (by omega) (by omega) fuel 0 0 (Or.inl rfl) (by omega) (fun _ => by omega)
    (fun h => absurd rfl h)
  obtain ⟨yrs, hy⟩ := repeat_regions_terminates v.starty v.endy v.repeaty grid_height (by omega)
    (by omega) (by omega) (by omega) fuel 0 0 (Or.inl rfl) (by omega) (fun _ => by omega)
    (fun h => absurd rfl h)
  obtain ⟨x1, _, _⟩ := repeat_regions_spec v.startx v.endx v.repeatx grid_width c1 (by omega)
    (by omega) (by omega) (by omega) fuel 0 0 xrs (Or.inl rfl) hx
  obtain ⟨y1, _, _⟩ := repeat_regions_spec v.starty v.endy v.repeaty grid_height c2 (by omega)
    (by omega) (by omega) (by omega) fuel 0 0 yrs (Or.inl rfl) hy
  unfold fill_roots
  simp only [hx, hy]
  refine option_flat_map_of_forall _ _ (fun xr hxr => ?_)
  refine option_flat_map_of_forall _ _ (fun yr hyr => ?_)
  exact region_roots_terminates hr (by omega) (by omega) hW hH (x1 xr hxr).2.2 (y1 yr hyr).2.2 hfuel

theorem foldlM_except_ok {σ ι : Type} (P : σ → Prop) (f : σ → ι → Except SetupError σ)
    (l : List ι) (hstep : ∀ s a, a ∈ l → P s → ∃ s', f s a = .ok s' ∧ P s') (s : σ) (hs : P s) :
    ∃ s', l.foldlM f s = .ok s' ∧ P s' := by
  induction l generalizing s with
  | nil => exact ⟨s, rfl, hs⟩
  | cons a as ih =>
    obtain ⟨s1, h1, p1⟩ := hstep s a (List.mem_cons_self _ _) hs
    obtain ⟨s2, h2, p2⟩ := ih (fun s a' ha' => hstep s a' (List.mem_cons_of_mem _ ha')) s1 p1
    refine ⟨s2, ?_, p2⟩
    rw [List.foldlM_cons, h1]
    exact h2

/-- The cells of a footprint whose bounds do not wrap. -/
theorem mem_footprint_cells {x_root y_root width height : Nat} {c : Nat × Nat}
    (hx : x_root + width < 2 ^ 64) (hy : y_root + height < 2 ^ 64) :
    c ∈ footprint_cells x_root y_root width height
      ↔ (x_root ≤ c.1 ∧ c.1 < x_root + width) ∧ (y_root ≤ c.2 ∧ c.2 < y_root + height) := by
  unfold footprint_cells
  rw [Nat.mod_eq_of_lt hx, Nat.mod_eq_of_lt hy, List.mem_flatMap]
  constructor
  · rintro ⟨x, hx', hc⟩
    obtain ⟨y, hy', e⟩ := List.mem_map.mp hc
    subst e
    rw [List.mem_range'_1] at hx' hy'
    dsimp only
    omega
  · rintro ⟨h1, h2⟩
    refine ⟨c.1, List.mem_range'_1.mpr (by omega), List.mem_map.mpr ⟨c.2, ?_, rfl⟩⟩
    exact List.mem_range'_1.mpr (by omega)

theorem foldl_max_priority (p : Nat × Nat → Int) (cs : List (Nat × Nat)) (m : Int) :
    m ≤ cs.foldl (fun m c => if p c > m then p c else m) m
      ∧ ∀ c ∈ cs, p c ≤ cs.foldl (fun m c => if p c > m then p c else m) m := by
  induction cs generalizing m with
  | nil => exact ⟨Int.le_refl m, fun c hc => absurd hc (List.not_mem_nil c)⟩
  | cons a as ih =>
    rw [List.foldl_cons]
    obtain ⟨i1, i2⟩ := ih (if p a > m then p a else m)
    refine ⟨?_, ?_⟩
    · refine Int.le_trans ?_ i1
      split <;> omega
    · intro c hc
      rcases List.mem_cons.mp hc with e | e
      · subst e
        refine Int.le_trans ?_ i1
        split <;> omega
      · exact i2 c e

/-- The priority found by `set_grid_block_type` is at least the priority of every cell of
the footprint. -/
theorem max_priority_ge {s : GridBuildState} {cells : List (Nat × Nat)} {m : Int}
    (h : max_priority s cells = some m) : ∀ c ∈ cells, s.grid_priorities c.1 c.2 ≤ m := by
  cases cells with
  | nil => cases h
  | cons c cs =>
    simp only [max_priority, Option.some.injEq] at h
    subst h
    obtain ⟨i1, i2⟩ := foldl_max_priority (fun c => s.grid_priorities c.1 c.2) cs
      (s.grid_priorities c.1 c.2)
    intro c' hc'
    rcases List.mem_cons.mp hc' with e | e
    · subst e
      exact i1
    · exact i2 c' e

/-- The rip-up loops do not fail when the empty tile type is one cell. -/
theorem rip_up_roots_ok (empty_type : t_physical_tile_type) (he : empty_type.width = 1 ∧ empty_type.height = 1)
    (roots : List TypeLocation) (s : GridBuildState) :
    ∃ s', roots.foldlM (rip_up_root (some empty_type)) s = .ok s' := by
  obtain ⟨s', h, _⟩ := foldlM_except_ok (fun _ => True) (rip_up_root (some empty_type)) roots
    (fun s1 r _ _ => by
      unfold rip_up_root
      obtain ⟨s2, h2, _⟩ := foldlM_except_ok (fun _ => True) (rip_up_cell (some empty_type) r) _
        (fun s3 c _ _ => by
          unfold rip_up_cell
          dsimp only
          split
          · simp only [Option.map_some', he.1, he.2, not_true_eq_false, if_false]
            exact ⟨_, rfl, trivial⟩
          · exact ⟨_, rfl, trivial⟩) s1 trivial
      exact ⟨s2, h2, trivial⟩) s trivial
  exact ⟨s', h⟩

/-- A call of `set_grid_block_type` whose footprint lies inside the device does not fail. -/
theorem set_grid_block_type_ok (empty_type : t_physical_tile_type)
    (he : empty_type.width = 1 ∧ empty_type.height = 1) (grid_width grid_height : Nat)
    (priority : Int) (type : t_physical_tile_type) (x_root y_root : Nat) (meta : Option Nat)
    (s : GridBuildState) (hw : 0 < type.width) (hh : 0 < type.height)
    (hx : x_root + type.width ≤ grid_width) (hy : y_root + type.height ≤ grid_height)
    (hW : grid_width < 2 ^ 31) (hH : grid_height < 2 ^ 31) :
    ∃ s', set_grid_block_type (some empty_type) grid_width grid_height priority type x_root y_root
      meta s = .ok s' := by
  have hmem : ∀ c, c ∈ footprint_cells x_root y_root type.width type.height
      ↔ (x_root ≤ c.1 ∧ c.1 < x_root + type.width) ∧ (y_root ≤ c.2 ∧ c.2 < y_root + type.height) :=
    fun c => mem_footprint_cells (by omega) (by omega)
  unfold set_grid_block_type
  dsimp only
  cases hm : max_priority s (footprint_cells x_root y_root type.width type.height) with
  | none =>
    have h0 : (x_root, y_root) ∈ footprint_cells x_root y_root type.width type.height :=
      (hmem _).mpr ⟨⟨Nat.le_refl _, by dsimp only; omega⟩, ⟨Nat.le_refl _, by dsimp only; omega⟩⟩
    cases hcells : footprint_cells x_root y_root type.width type.height with
    | nil => rw [hcells] at h0; cases h0
    | cons c cs => rw [hcells] at hm; cases hm
  | some m =>
    dsimp only
    by_cases hp : priority < m
    · rw [if_pos hp]
      exact ⟨s, rfl⟩
    · rw [if_neg hp]
      have hge := max_priority_ge hm
      obtain ⟨marked, hmark, _⟩ := foldlM_except_ok
        (fun acc : GridBuildState × List TypeLocation =>
          ∀ c ∈ footprint_cells x_root y_root type.width type.height,
            acc.1.grid_priorities c.1 c.2 ≤ priority)
        (mark_cell (some empty_type) priority type x_root y_root meta grid_width grid_height)
        (footprint_cells x_root y_root type.width type.height)
        (fun acc c hc hP => by
          have hc' := (hmem c).mp hc
          unfold mark_cell
          dsimp only
          rw [if_neg (by omega), if_neg (by omega), if_neg (not_not.mpr (hP c hc))]
          refine ⟨_, rfl, ?_⟩
          intro c' hc''
          dsimp only
          split
          · exact Int.le_refl _
          · exact hP c' hc'')
        (s, []) (fun c hc => Int.le_trans (hge c hc) (Int.not_lt.mp hp))
      rw [hmark]
      obtain ⟨s', hs'⟩ := rip_up_roots_ok empty_type he marked.2 marked.1
      exact ⟨s', hs'⟩

/-- C17. `build_device_grid` does not fail for a location specification merely because its
evaluated start or end coordinate exceeds the device bounds. A start beyond the bounds
places no instance and leaves the grid unchanged (first part). For a start inside the
device, a specification that passes the other checks is filled without failure whatever its
end: the fill loops end, every call of `set_grid_block_type` succeeds, every root has its
footprint inside the device, and every position `start + i * incr` of the region whose
footprint fits below the end clipped to `grid_width - 1` and `grid_height - 1` is a root
(second part). The values are non-negative `int` values and the empty tile is one cell. -/
theorem build_grid_loc_def_out_of_bounds (ctx : SetupCtx) (grid_width grid_height : Nat)
    (s : GridBuildState) (d : t_grid_loc_def) (type : t_physical_tile_type) (v : t_loc_values)
    (htype : ctx.find_tile_type_by_name d.block_type = some type)
    (hv : eval_grid_loc_def ctx grid_width grid_height type d = .ok v) :
    ((size_t_sub grid_width 1 < v.startx ∨ size_t_sub grid_height 1 < v.starty) →
        ∀ fuel, build_grid_loc_def ctx fuel grid_width grid_height s d = .ok s)
      ∧ (∀ empty_type : t_physical_tile_type, ctx.EMPTY_PHYSICAL_TILE_TYPE = some empty_type →
          empty_type.width = 1 ∧ empty_type.height = 1 →
          loc_values_in_int_range grid_width grid_height type v →
          check_grid_loc_def type v = .ok () →
          0 < grid_width → 0 < grid_height →
          v.startx ≤ grid_width - 1 → v.starty ≤ grid_height - 1 →
          ∀ fuel, grid_width + grid_height + 2 ≤ fuel →
            ∃ roots s', fill_roots fuel grid_width grid_height type v = some roots
              ∧ build_grid_loc_def ctx fuel grid_width grid_height s d = .ok s'
              ∧ roots.foldlM
                  (fun s r => set_grid_block_type ctx.EMPTY_PHYSICAL_TILE_TYPE grid_width grid_height
                    d.priority type r.1 r.2 d.meta s) s = .ok s'
              ∧ (∀ r ∈ roots, r.1 + type.width ≤ grid_width ∧ r.2 + type.height ≤ grid_height)
              ∧ ∀ i j,
                  v.startx + i * v.incrx + (type.width - 1) ≤ min v.endx (grid_width - 1) →
                  v.starty + j * v.incry + (type.height - 1) ≤ min v.endy (grid_height - 1) →
                  (v.startx + i * v.incrx, v.starty + j * v.incry) ∈ roots) := by
  refine ⟨fun hs fuel => build_grid_loc_def_out_of_range htype hv hs, ?_⟩
  intro empty_type hempty he hr hc hW hH hsx hsy fuel hfuel
  obtain ⟨roots, hroots⟩ := fill_roots_terminates hr hc hW hH hfuel
  obtain ⟨m1, m2⟩ := fill_roots_spec hr hc hW hH hroots
  obtain ⟨c1, c2, c3, c4, c5, c6, c7, c8⟩ := check_grid_loc_def_ok hr hc
  obtain ⟨s', hs', _⟩ := foldlM_except_ok (fun _ => True)
    (fun s r => set_grid_block_type ctx.EMPTY_PHYSICAL_TILE_TYPE grid_width grid_height
      d.priority type r.1 r.2 d.meta s) roots
    (fun s1 r hr1 _ => by
      obtain ⟨s2, h2⟩ := set_grid_block_type_ok empty_type he grid_width grid_height d.priority type
        r.1 r.2 d.meta s1 c3 c5 (m1 r hr1).1 (m1 r hr1).2 hr.1 hr.2.1
      exact ⟨s2, by rw [hempty]; exact h2, trivial⟩) s trivial
  refine ⟨roots, s', hroots, ?_, hs', m1, m2⟩
  rw [build_grid_loc_def_in_range htype hv
    (by rw [size_t_sub_one hW hr.1]; exact hsx) (by rw [size_t_sub_one hH hr.2.1]; exact hsy), hc]
  unfold fill_grid_loc_def
  simp only [Except.bind, hroots]
  exact hs'

/-- Witness for C17: on a device of 5 by 3, `ex_outside_loc_def` (start 10) leaves the grid
as it is, and `ex_beyond_loc_def` (start 1, end 10) is filled: the roots (1, 0) and (4, 2),
in the columns left of the clipped end, are visited. -/
theorem build_grid_loc_def_out_of_bounds_witness :
    (∀ fuel, build_grid_loc_def ex_setup_ctx fuel 5 3 (ex_empty_device 5 3) ex_outside_loc_def
        = .ok (ex_empty_device 5 3))
      ∧ ∃ roots s', fill_roots 10 5 3 ex_clb_tile ⟨1, 10, 1, 10, 0, 2, 1, 3⟩ = some roots
          ∧ build_grid_loc_def ex_setup_ctx 10 5 3 (ex_empty_device 5 3) ex_beyond_loc_def = .ok s'
          ∧ (1, 0) ∈ roots ∧ (4, 2) ∈ roots := by
  refine ⟨(build_grid_loc_def_out_of_bounds ex_setup_ctx 5 3 (ex_empty_device 5 3)
    ex_outside_loc_def ex_clb_tile ⟨10, 5, 1, 10, 0, 2, 1, 3⟩ rfl rfl).1 (by decide), ?_⟩
  obtain ⟨roots, s', h1, h2, _, _, h5⟩ :=
    (build_grid_loc_def_out_of_bounds ex_setup_ctx 5 3 (ex_empty_device 5 3)
      ex_beyond_loc_def ex_clb_tile ⟨1, 10, 1, 10, 0, 2, 1, 3⟩ rfl rfl).2 ex_empty_tile rfl
      (by decide) (by unfold loc_values_in_int_range; decide) rfl (by decide) (by decide) (by decide)
      (by decide) 10 (by decide)
  exact ⟨roots, s', h1, h2, h5 0 0 (by decide) (by decide), h5 3 2 (by decide) (by decide)⟩

/-- C18 fails on the code. On `ex_clb_device` the cell (1, 0) holds a "clb" block rooted
there with priority 1, the highest priority of the footprint. A call of
`set_grid_block_type` that places "clb" at (1, 0) again, with the same priority 1 or with
the higher priority 2, leaves the cell with the empty tile type and the lowest priority: the
old root is ripped up after the cell has been marked, and the check of the rip-up loop (same
type, same offsets) holds for the new block. Through `build_device_grid`, a layout that
fills a device of 3 by 2 with "clb" and then places a column of "clb" of higher priority at
x = 1 ends with that column empty. -/
theorem set_grid_block_type_same_type_ripped_up :
    max_priority ex_clb_device (footprint_cells 1 0 ex_clb_tile.width ex_clb_tile.height) = some 1
      ∧ (set_grid_block_type (some ex_empty_tile) 3 1 1 ex_clb_tile 1 0 none ex_clb_device).toOption.map
          (fun s => (s.grid 1 0, s.grid_priorities 1 0))
        = some ({ type := some ex_empty_tile, width_offset := 0, height_offset := 0, meta := none },
                int_lowest)
      ∧ (set_grid_block_type (some ex_empty_tile) 3 1 2 ex_clb_tile 1 0 none ex_clb_device).toOption.map
          (fun s => (s.grid 1 0, s.grid_priorities 1 0))
        = some ({ type := some ex_empty_tile, width_offset := 0, height_offset := 0, meta := none },
                int_lowest)
      ∧ (build_device_grid ex_setup_ctx 20 ex_refill_grid_def 3 2 1).toOption.map
          (fun g => (List.range 3).map (fun x => (List.range 2).map (fun y => (g.tiles x y).type)))
        = some [[some ex_clb_tile, some ex_clb_tile], [some ex_empty_tile, some ex_empty_tile],
                [some ex_clb_tile, some ex_clb_tile]] := by
  decide

/-- The roots of one repetition of the region, for values that do not wrap: a later root is
at least one increment further along x or along y. -/
theorem region_roots_pairwise {fuel grid_width grid_height : Nat} {type : t_physical_tile_type}
    {v : t_loc_values} {xr yr : Nat × Nat} {roots : List (Nat × Nat)}
    (hr : loc_values_in_int_range grid_width grid_height type v)
    (hw : 0 < type.width) (hh : 0 < type.height) (hW : 0 < grid_width) (hH : 0 < grid_height)
    (hxr : xr.1 < 2 ^ 34) (hyr : yr.1 < 2 ^ 34)
    (h : region_roots fuel grid_width grid_height type v xr yr = some roots) :
    roots.Pairwise (fun a b => a.1 + v.incrx ≤ b.1 ∨ a.2 + v.incry ≤ b.2) := by
  obtain ⟨b1, b2, b3, b4, _, _, b7, _, _, _, b11, _⟩ := hr
  unfold region_roots at h
  rw [size_t_sub_one hW b1, size_t_sub_one hH b2] at h
  dsimp only at h
  have hxm : min xr.2 (grid_width - 1) < 2 ^ 32 := by
    have := Nat.min_le_right xr.2 (grid_width - 1)
    omega
  have hym : min yr.2 (grid_height - 1) < 2 ^ 32 := by
    have := Nat.min_le_right yr.2 (grid_height - 1)
    omega
  cases hxs : stepped_positions type.width v.incrx (min xr.2 (grid_width - 1)) fuel xr.1 with
  | none => simp only [hxs] at h; cases h
  | some xs =>
    simp only [hxs] at h
    obtain ⟨f1, f2⟩ := option_flat_map_some _ _ _ h
    obtain ⟨_, x2, _⟩ := stepped_positions_spec type.width v.incrx (min xr.2 (grid_width - 1)) hw
      (by omega) (by omega) hxm fuel xr.1 xs hxr hxs
    rw [f2, List.pairwise_flatMap]
    refine ⟨?_, ?_⟩
    · intro x hx
      obtain ⟨bs, hbs⟩ := f1 x hx
      rw [hbs]
      obtain ⟨ys, hys, e⟩ := Option.map_eq_some'.mp hbs
      subst e
      obtain ⟨_, y2, _⟩ := stepped_positions_spec type.height v.incry (min yr.2 (grid_height - 1))
        hh (by omega) (by omega) hym fuel yr.1 ys hyr hys
      rw [Option.getD_some, List.pairwise_map]
      exact y2.imp (fun hab => Or.inr hab)
    · refine x2.imp_of_mem ?_
      intro x1 x2 hx1 hx2 h12 p hp q hq
      obtain ⟨bs1, hbs1⟩ := f1 x1 hx1
      obtain ⟨bs2, hbs2⟩ := f1 x2 hx2
      rw [hbs1] at hp
      rw [hbs2] at hq
      obtain ⟨ys1, _, e1⟩ := Option.map_eq_some'.mp hbs1
      obtain ⟨ys2, _, e2⟩ := Option.map_eq_some'.mp hbs2
      subst e1 e2
      obtain ⟨y1, _, e1⟩ := List.mem_map.mp hp
      obtain ⟨y2, _, e2⟩ := List.mem_map.mp hq
      subst e1 e2
      exact Or.inl h12

/-- The roots of the fill loops for one location specification that passes the checks, for
values that do not wrap: a later root is at least one tile width further along x or one tile
height further along y. -/
theorem fill_roots_pairwise {fuel grid_width grid_height : Nat} {type : t_physical_tile_type}
    {v : t_loc_values} {roots : List (Nat × Nat)}
    (hr : loc_values_in_int_range grid_width grid_height type v)
    (hc : check_grid_loc_def type v = .ok ()) (hW : 0 < grid_width) (hH : 0 < grid_height)
    (h : fill_roots fuel grid_width grid_height type v = some roots) :
    roots.Pairwise (fun a b => a.1 + type.width ≤ b.1 ∨ a.2 + type.height ≤ b.2) := by
  obtain ⟨c1, c2, c3, c4, c5, c6, c7, c8⟩ := check_grid_loc_def_ok hr hc
  have hr' := hr
  obtain ⟨b1, b2, b3, b4, b5, b6, b7, b8, b9, b10, b11, b12⟩ := hr'
  unfold fill_roots at h
  cases hx : repeat_regions v.startx v.endx v.repeatx grid_width fuel 0 0 with
  | none => simp only [hx] at h; cases h
  | some xrs =>
    obtain ⟨x1, x2, _⟩ := repeat_regions_spec v.startx v.endx v.repeatx grid_width c1 (by omega)
      (by omega) (by omega) (by omega) fuel 0 0 xrs (Or.inl rfl) hx
    cases hy : repeat_regions v.starty v.endy v.repeaty grid_height fuel 0 0 with
    | none =>
      simp only [hx, hy] at h
      cases xrs with
      | nil =>
        simp only [option_flat_map, Option.some.injEq] at h
        subst h
        exact List.Pairwise.nil
      | cons xr xrs' =>
        obtain ⟨f1, _⟩ := option_flat_map_some _ _ _ h
        obtain ⟨bs, hbs⟩ := f1 xr (List.mem_cons_self _ _)
        cases hbs
    | some yrs =>
      simp only [hx, hy] at h
      obtain ⟨y1, y2, _⟩ := repeat_regions_spec v.starty v.endy v.repeaty grid_height c2 (by omega)
        (by omega) (by omega) (by omega) fuel 0 0 yrs (Or.inl rfl) hy
      obtain ⟨f1, f2⟩ := option_flat_map_some _ _ _ h
      have hmem : ∀ xr ∈ xrs, ∀ p ∈ ((option_flat_map
          (fun yr => region_roots fuel grid_width grid_height type v xr yr) yrs).getD []),
          ∃ yr ∈ yrs, xr.1 ≤ p.1 ∧ p.1 + (type.width - 1) ≤ xr.2
            ∧ yr.1 ≤ p.2 ∧ p.2 + (type.height - 1) ≤ yr.2 := by
        intro xr hxr p hp
        obtain ⟨bs, hbs⟩ := f1 xr hxr
        rw [hbs] at hp
        obtain ⟨g1, g2⟩ := option_flat_map_some _ _ _ hbs
        rw [Option.getD_some, g2, List.mem_flatMap] at hp
        obtain ⟨yr, hyr, hpy⟩ := hp
        obtain ⟨rs, hrs⟩ := g1 yr hyr
        rw [hrs] at hpy
        obtain ⟨m1, _⟩ := region_roots_spec hr c3 c5 hW hH (x1 xr hxr).2.2 (y1 yr hyr).2.2 hrs
        have := m1 p hpy
        have hxm : min xr.2 (grid_width - 1) ≤ xr.2 := Nat.min_le_left _ _
        have hym : min yr.2 (grid_height - 1) ≤ yr.2 := Nat.min_le_left _ _
        exact ⟨yr, hyr, by omega, by omega, by omega, by omega⟩
      rw [f2, List.pairwise_flatMap]
      refine ⟨?_, ?_⟩
      · intro xr hxr
        obtain ⟨bs, hbs⟩ := f1 xr hxr
        rw [hbs, Option.getD_some]
        obtain ⟨g1, g2⟩ := option_flat_map_some _ _ _ hbs
        rw [g2, List.pairwise_flatMap]
        refine ⟨?_, ?_⟩
        · intro yr hyr
          obtain ⟨rs, hrs⟩ := g1 yr hyr
          rw [hrs, Option.getD_some]
          refine (region_roots_pairwise hr c3 c5 hW hH (x1 xr hxr).2.2 (y1 yr hyr).2.2 hrs).imp ?_
          intro a b hab
          rcases hab with hab | hab
          · exact Or.inl (by omega)
          · exact Or.inr (by omega)
        · refine y2.imp_of_mem ?_
          intro yr1 yr2 hyr1 hyr2 h12 p hp q hq
          obtain ⟨rs1, hrs1⟩ := g1 yr1 hyr1
          obtain ⟨rs2, hrs2⟩ := g1 yr2 hyr2
          rw [hrs1] at hp
          rw [hrs2] at hq
          obtain ⟨m1, _⟩ := region_roots_spec hr c3 c5 hW hH (x1 xr hxr).2.2 (y1 yr1 hyr1).2.2 hrs1
          obtain ⟨m2, _⟩ := region_roots_spec hr c3 c5 hW hH (x1 xr hxr).2.2 (y1 yr2 hyr2).2.2 hrs2
          have hp1 := m1 p hp
          have hq1 := m2 q hq
          have e1 := (y1 yr1 hyr1).1
          have hym : min yr1.2 (grid_height - 1) ≤ yr1.2 := Nat.min_le_left _ _
          exact Or.inr (by omega)
      · refine x2.imp_of_mem ?_
        intro xr1 xr2 hxr1 hxr2 h12 p hp q hq
        obtain ⟨_, _, hp1, hp2, _, _⟩ := hmem xr1 hxr1 p hp
        obtain ⟨_, _, hq1, _, _, _⟩ := hmem xr2 hxr2 q hq
        have e1 := (x1 xr1 hxr1).1
        exact Or.inl (by omega)

/-- The footprints of the roots of the fill loops for one location specification that passes
the checks are pairwise disjoint when the values do not wrap, that is when dimensions and
evaluated expressions are non-negative `int` values. -/
theorem fill_roots_disjoint_in_int_range {fuel grid_width grid_height : Nat}
    {type : t_physical_tile_type} {v : t_loc_values} {roots : List (Nat × Nat)}
    (hr : loc_values_in_int_range grid_width grid_height type v)
    (hc : check_grid_loc_def type v = .ok ()) (hW : 0 < grid_width) (hH : 0 < grid_height)
    (h : fill_roots fuel grid_width grid_height type v = some roots) :
    roots.Pairwise (fun a b => ∀ c ∈ footprint_cells a.1 a.2 type.width type.height,
      c ∉ footprint_cells b.1 b.2 type.width type.height) := by
  obtain ⟨m1, _⟩ := fill_roots_spec hr hc hW hH h
  have hr' := hr
  obtain ⟨b1, b2, b3, b4, _⟩ := hr'
  refine (fill_roots_pairwise hr hc hW hH h).imp_of_mem ?_
  intro a b ha hb hab c hca hcb
  have ha1 := m1 a ha
  have hb1 := m1 b hb
  rw [mem_footprint_cells (by omega) (by omega)] at hca hcb
  omega

/-- C16 fails on the code. The values of a location specification are evaluated to `int` and
stored in `size_t` variables, and the checks compare them as `size_t`: a repeat expression
that evaluates to a negative number passes the check "repeatx >= region width". The
specification `ex_backstep_loc_def` (tile "wide" of 2 by 1, x from 4 to 7 stepped by 2,
repeatx = "W - 11") on a device of 8 by 1 evaluates repeatx to -3, held as 2^64 - 3; it
passes every check, and the fill loops call `set_grid_block_type` at the roots (4, 0),
(6, 0), (1, 0), (3, 0): the repetition of the region starts three cells before the region.
The footprints of the roots (4, 0) and (3, 0) share the cell (4, 0), and the block placed at
(4, 0) is ripped up by the call at (3, 0): the cell (5, 0) ends empty. -/
theorem fill_roots_overlap_on_negative_repeat :
    ex_setup_ctx.find_tile_type_by_name ex_backstep_loc_def.block_type = some ex_wide_tile
      ∧ ex_parse_formula "W - 11" ⟨8, 1, ex_wide_tile.width, ex_wide_tile.height⟩ = -3
      ∧ (eval_grid_loc_def ex_setup_ctx 8 1 ex_wide_tile ex_backstep_loc_def).toOption
          = some ex_backstep_values
      ∧ ex_backstep_values.startx ≤ size_t_sub 8 1 ∧ ex_backstep_values.starty ≤ size_t_sub 1 1
      ∧ (check_grid_loc_def ex_wide_tile ex_backstep_values).toOption = some ()
      ∧ fill_roots 12 8 1 ex_wide_tile ex_backstep_values = some [(4, 0), (6, 0), (1, 0), (3, 0)]
      ∧ (4, 0) ∈ footprint_cells 4 0 ex_wide_tile.width ex_wide_tile.height
      ∧ (4, 0) ∈ footprint_cells 3 0 ex_wide_tile.width ex_wide_tile.height
      ∧ (build_grid_loc_def ex_setup_ctx 12 8 1 (ex_empty_device 8 1) ex_backstep_loc_def).toOption.map
          (fun s => (List.range 8).map (fun x => (s.grid x 0).type))
        = some [some ex_empty_tile, some ex_wide_tile, some ex_wide_tile, some ex_wide_tile,
                some ex_wide_tile, some ex_empty_tile, some ex_wide_tile, some ex_wide_tile] := by
  set_option maxRecDepth 100000 in decide

theorem nodup_footprint_cells (x_root y_root width height : Nat) :
    (footprint_cells x_root y_root width height).Nodup := by
  unfold footprint_cells
  rw [List.nodup_flatMap]
  refine ⟨?_, ?_⟩
  · intro x _
    exact (List.nodup_range' _ _).map (fun a b hab => (Prod.mk.inj hab).2)
  · refine (List.nodup_range' _ _).imp ?_
    intro a b hab c hca hcb
    obtain ⟨_, _, e1⟩ := List.mem_map.mp hca
    obtain ⟨_, _, e2⟩ := List.mem_map.mp hcb
    subst e1
    exact hab (Prod.mk.inj e2).1.symm

theorem foldl_max_priority_le (p : Nat × Nat → Int) (b : Int) (cs : List (Nat × Nat)) (m : Int)
    (hm : m ≤ b) (hcs : ∀ c ∈ cs, p c ≤ b) :
    cs.foldl (fun m c => if p c > m then p c else m) m ≤ b := by
  induction cs generalizing m with
  | nil => exact hm
  | cons a as ih =>
    rw [List.foldl_cons]
    refine ih _ ?_ (fun c hc => hcs c (List.mem_cons_of_mem _ hc))
    have := hcs a (List.mem_cons_self _ _)
    split <;> omega

/-- The priority found by `set_grid_block_type` is at most a bound of the priorities of the
cells of the footprint. -/
theorem max_priority_le {s : GridBuildState} {cells : List (Nat × Nat)} {m b : Int}
    (h : max_priority s cells = some m) (hb : ∀ c ∈ cells, s.grid_priorities c.1 c.2 ≤ b) :
    m ≤ b := by
  cases cells with
  | nil => cases h
  | cons c cs =>
    simp only [max_priority, Option.some.injEq] at h
    subst h
    exact foldl_max_priority_le (fun c => s.grid_priorities c.1 c.2) b cs _
      (hb c (List.mem_cons_self _ _)) (fun c' hc' => hb c' (List.mem_cons_of_mem _ hc'))

/-- The marking loops of `set_grid_block_type` over distinct cells inside the device whose
priorities do not exceed the new one: every cell visited holds the new type, offsets,
metadata and priority, the other cells are as before, and every root recorded for rip-up is
the root of a block found at a visited cell. -/
theorem mark_cells_spec (empty_type : Option t_physical_tile_type) (priority : Int)
    (type : t_physical_tile_type) (x_root y_root : Nat) (meta : Option Nat)
    (grid_width grid_height : Nat) (ok_root : TypeLocation → Prop) :
    ∀ (l : List (Nat × Nat)) (acc : GridBuildState × List TypeLocation), l.Nodup →
      (∀ c ∈ l, c.1 < grid_width ∧ c.2 < grid_height ∧ acc.1.grid_priorities c.1 c.2 ≤ priority
        ∧ ∀ p, ok_root ⟨size_t_sub c.1 (acc.1.grid c.1 c.2).width_offset,
            size_t_sub c.2 (acc.1.grid c.1 c.2).height_offset, (acc.1.grid c.1 c.2).type, p⟩) →
      (∀ r ∈ acc.2, ok_root r) →
      ∃ acc', l.foldlM
          (mark_cell empty_type priority type x_root y_root meta grid_width grid_height) acc
            = .ok acc'
        ∧ (∀ c ∈ l, acc'.1.grid c.1 c.2
              = ⟨some type, size_t_sub c.1 x_root, size_t_sub c.2 y_root, meta⟩
            ∧ acc'.1.grid_priorities c.1 c.2 = priority)
        ∧ (∀ c, c ∉ l → acc'.1.grid c.1 c.2 = acc.1.grid c.1 c.2
            ∧ acc'.1.grid_priorities c.1 c.2 = acc.1.grid_priorities c.1 c.2)
        ∧ ∀ r ∈ acc'.2, ok_root r
  | [], acc, _, _, hroots =>
    ⟨acc, rfl, fun c hc => absurd hc (List.not_mem_nil c), fun _ _ => ⟨rfl, rfl⟩, hroots⟩
  | a :: as, acc, hnd, hcells, hroots => by
    obtain ⟨ha1, ha2, ha3, ha4⟩ := hcells a (List.mem_cons_self _ _)
    obtain ⟨hna, hnd'⟩ := List.nodup_cons.mp hnd
    have hstep : ∃ acc1, mark_cell empty_type priority type x_root y_root meta grid_width
        grid_height acc a = .ok acc1
        ∧ (acc1.1.grid a.1 a.2 = ⟨some type, size_t_sub a.1 x_root, size_t_sub a.2 y_root, meta⟩
            ∧ acc1.1.grid_priorities a.1 a.2 = priority)
        ∧ (∀ c, c ≠ a → acc1.1.grid c.1 c.2 = acc.1.grid c.1 c.2
            ∧ acc1.1.grid_priorities c.1 c.2 = acc.1.grid_priorities c.1 c.2)
        ∧ ∀ r ∈ acc1.2, ok_root r := by
      unfold mark_cell
      dsimp only
      rw [if_neg (not_not.mpr ha1), if_neg (not_not.mpr ha2), if_neg (not_not.mpr ha3)]
      refine ⟨_, rfl, ⟨by simp, by simp⟩, ?_, ?_⟩
      · intro c hc
        have hne : ¬ (c.1 = a.1 ∧ c.2 = a.2) := fun h => hc (Prod.ext h.1 h.2)
        dsimp only
        rw [if_neg hne, if_neg hne]
        exact ⟨rfl, rfl⟩
      · intro r hr
        dsimp only at hr
        split at hr
        · unfold insert_root at hr
          split at hr
          · exact hroots r hr
          · rcases List.mem_append.mp hr with h | h
            · exact hroots r h
            · rw [List.mem_singleton] at h
              subst h
              exact ha4 _
        · exact hroots r hr
    obtain ⟨acc1, h1, hnew, hother, hroots1⟩ := hstep
    obtain ⟨acc', h2, i1, i2, i3⟩ := mark_cells_spec empty_type priority type x_root y_root meta
      grid_width grid_height ok_root as acc1 hnd'
      (fun c hc => by
        have hca : c ≠ a := fun e => hna (e ▸ hc)
        obtain ⟨c1, c2, c3, c4⟩ := hcells c (List.mem_cons_of_mem _ hc)
        rw [(hother c hca).1, (hother c hca).2]
        exact ⟨c1, c2, c3, c4⟩)
      hroots1
    refine ⟨acc', ?_, ?_, ?_, i3⟩
    · rw [List.foldlM_cons, h1]
      exact h2
    · intro c hc
      rcases List.mem_cons.mp hc with e | e
      · subst e
        rw [(i2 c hna).1, (i2 c hna).2]
        exact hnew
      · exact i1 c e
    · intro c hc
      rw [List.mem_cons, not_or] at hc
      rw [(i2 c hc.2).1, (i2 c hc.2).2]
      exact hother c hc.1

/-- The rip-up loops of `set_grid_block_type` leave alone every cell that does not hold the
type and the offsets of one of the invalidated roots. -/
theorem rip_up_roots_keep (empty_type : t_physical_tile_type)
    (he : empty_type.width = 1 ∧ empty_type.height = 1) (keep : GridBuildState → Prop)
    (roots : List TypeLocation)
    (hkeep : ∀ (s : GridBuildState) (r : TypeLocation) (c : Nat × Nat), r ∈ roots → keep s →
      c ∈ footprint_cells r.x r.y ((r.type.map (fun t => t.width)).getD 0)
        ((r.type.map (fun t => t.height)).getD 0) →
      ∀ s', rip_up_cell (some empty_type) r s c = .ok s' → keep s')
    (s : GridBuildState) (hs : keep s) :
    ∃ s', roots.foldlM (rip_up_root (some empty_type)) s = .ok s' ∧ keep s' := by
  refine foldlM_except_ok keep (rip_up_root (some empty_type)) roots ?_ s hs
  intro s1 r hr hs1
  unfold rip_up_root
  refine foldlM_except_ok keep (rip_up_cell (some empty_type) r) _ ?_ s1 hs1
  intro s2 c hc hs2
  have hok : ∃ s3, rip_up_cell (some empty_type) r s2 c = .ok s3 := by
    unfold rip_up_cell
    dsimp only
    split
    · simp only [Option.map_some', he.1, he.2, not_true_eq_false, if_false]
      exact ⟨_, rfl⟩
    · exact ⟨_, rfl⟩
  obtain ⟨s3, h3⟩ := hok
  exact ⟨s3, h3, hkeep s2 r c hr hs2 hc s3 h3⟩

/-- What `set_grid_block_type` does when it is not the same block that is placed again: for
a footprint inside the device whose cells have priorities of at most the new priority, and
none of whose cells belongs to a block of the new type rooted at the new root, the call
returns and every cell of the footprint holds the new type, its offsets from the root, the
metadata and the new priority. -/
theorem set_grid_block_type_marks_footprint (empty_type : t_physical_tile_type)
    (he : empty_type.width = 1 ∧ empty_type.height = 1) (grid_width grid_height : Nat)
    (priority : Int) (type : t_physical_tile_type) (x_root y_root : Nat) (meta : Option Nat)
    (s : GridBuildState) (hw : 0 < type.width) (hh : 0 < type.height)
    (hx : x_root + type.width ≤ grid_width) (hy : y_root + type.height ≤ grid_height)
    (hW : grid_width < 2 ^ 31) (hH : grid_height < 2 ^ 31)
    (hprio : ∀ c ∈ footprint_cells x_root y_root type.width type.height,
      s.grid_priorities c.1 c.2 ≤ priority)
    (hroot : ∀ c ∈ footprint_cells x_root y_root type.width type.height,
      ¬ ((s.grid c.1 c.2).type = some type
          ∧ size_t_sub c.1 (s.grid c.1 c.2).width_offset = x_root
          ∧ size_t_sub c.2 (s.grid c.1 c.2).height_offset = y_root)) :
    ∃ s', set_grid_block_type (some empty_type) grid_width grid_height priority type x_root y_root
        meta s = .ok s'
      ∧ ∀ c ∈ footprint_cells x_root y_root type.width type.height,
          s'.grid c.1 c.2 = ⟨some type, c.1 - x_root, c.2 - y_root, meta⟩
            ∧ s'.grid_priorities c.1 c.2 = priority := by
  have hmem : ∀ c, c ∈ footprint_cells x_root y_root type.width type.height
      ↔ (x_root ≤ c.1 ∧ c.1 < x_root + type.width) ∧ (y_root ≤ c.2 ∧ c.2 < y_root + type.height) :=
    fun c => mem_footprint_cells (by omega) (by omega)
  unfold set_grid_block_type
  dsimp only
  cases hm : max_priority s (footprint_cells x_root y_root type.width type.height) with
  | none =>
    have h0 : (x_root, y_root) ∈ footprint_cells x_root y_root type.width type.height :=
      (hmem _).mpr ⟨⟨Nat.le_refl _, by dsimp only; omega⟩, ⟨Nat.le_refl _, by dsimp only; omega⟩⟩
    cases hcells : footprint_cells x_root y_root type.width type.height with
    | nil => rw [hcells] at h0; cases h0
    | cons c cs => rw [hcells] at hm; cases hm
  | some m =>
    dsimp only
    rw [if_neg (Int.not_lt.mpr (max_priority_le hm hprio))]
    obtain ⟨marked, hmark, m1, _, m3⟩ := mark_cells_spec (some empty_type) priority type x_root
      y_root meta grid_width grid_height
      (fun r => ¬ (r.type = some type ∧ r.x = x_root ∧ r.y = y_root))
      (footprint_cells x_root y_root type.width type.height) (s, [])
      (nodup_footprint_cells _ _ _ _)
      (fun c hc => by
        have hc' := (hmem c).mp hc
        exact ⟨by omega, by omega, hprio c hc, fun _ => hroot c hc⟩)
      (fun r hr => absurd hr (List.not_mem_nil r))
    rw [hmark]
    have hnew : ∀ c ∈ footprint_cells x_root y_root type.width type.height,
        marked.1.grid c.1 c.2 = ⟨some type, c.1 - x_root, c.2 - y_root, meta⟩
          ∧ marked.1.grid_priorities c.1 c.2 = priority := by
      intro c hc
      have hc' := (hmem c).mp hc
      have e1 : size_t_sub c.1 x_root = c.1 - x_root := by unfold size_t_sub; omega
      have e2 : size_t_sub c.2 y_root = c.2 - y_root := by unfold size_t_sub; omega
      rw [← e1, ← e2]
      exact m1 c hc
    refine rip_up_roots_keep empty_type he
      (fun s1 => ∀ c ∈ footprint_cells x_root y_root type.width type.height,
        s1.grid c.1 c.2 = ⟨some type, c.1 - x_root, c.2 - y_root, meta⟩
          ∧ s1.grid_priorities c.1 c.2 = priority)
      marked.2 ?_ marked.1 hnew
    intro s1 r c hr hs1 hc s2 h2 c' hc'
    have hc'' := (hmem c').mp hc'
    unfold rip_up_cell at h2
    dsimp only at h2
    split at h2
    · rename_i hchk
      by_cases e : c' = c
      · subst e
        exfalso
        rw [(hs1 c' hc').1] at hchk
        dsimp only at hchk
        have hrx : r.x ≤ c'.1 := by
          unfold footprint_cells at hc
          obtain ⟨x, hx', hcx⟩ := List.mem_flatMap.mp hc
          obtain ⟨y, _, e⟩ := List.mem_map.mp hcx
          subst e
          exact (List.mem_range'_1.mp hx').1
        have hry : r.y ≤ c'.2 := by
          unfold footprint_cells at hc
          obtain ⟨x, _, hcx⟩ := List.mem_flatMap.mp hc
          obtain ⟨y, hy', e⟩ := List.mem_map.mp hcx
          subst e
          exact (List.mem_range'_1.mp hy').1
        refine m3 r hr ⟨hchk.1.symm, ?_, ?_⟩
        · have := hchk.2.1
          unfold size_t_sub at this
          omega
        · have := hchk.2.2
          unfold size_t_sub at this
          omega
      · simp only [Option.map_some', he.1, he.2, not_true_eq_false, if_false] at h2
        cases h2
        have hne : ¬ (c'.1 = c.1 ∧ c'.2 = c.2) := fun h => e (Prod.ext h.1 h.2)
        dsimp only
        rw [if_neg hne, if_neg hne]
        exact hs1 c' hc'
    · cases h2
      exact hs1 c' hc'

/-! ## Lookahead cost map -/

theorem mem_keys_of_in_bounds : ∀ (dim_sizes key : List Nat),
    NdMatrix.in_bounds key dim_sizes = true → key ∈ NdMatrix.keys dim_sizes
  | [], [], _ => by simp [NdMatrix.keys]
  | [], _ :: _, h => by simp [NdMatrix.in_bounds] at h
  | _ :: _, [], h => by simp [NdMatrix.in_bounds] at h
  | d :: ds, i :: key, h => by
    simp only [NdMatrix.in_bounds, Bool.and_eq_true, decide_eq_true_eq] at h
    unfold NdMatrix.keys
    rw [List.mem_flatMap]
    exact ⟨i, List.mem_range.mpr h.1,
      List.mem_map.mpr ⟨key, mem_keys_of_in_bounds ds key h.2, rfl⟩⟩

theorem lookup_map_of_mem {α β : Type} [BEq α] [LawfulBEq α] (f : α → β) :
    ∀ (l : List α) (a : α), a ∈ l → (l.map (fun k => (k, f k))).lookup a = some (f a)
  | [], a, h => absurd h (List.not_mem_nil a)
  | b :: l, a, h => by
    rw [List.map_cons, List.lookup_cons]
    by_cases e : a = b
    · subst e
      simp
    · have hne : (a == b) = false := by simpa using e
      rw [hne]
      rcases List.mem_cons.mp h with e' | e'
      · exact absurd e' e
      · exact lookup_map_of_mem f l a e'

/-- A write to a matrix leaves the entries at the other keys as they were. -/
theorem foldl_set_get_of_not_mem {T : Type} (key : List Nat) :
    ∀ (writes : List (List Nat × T)) (m : NdMatrix T), key ∉ writes.map (fun w => w.1) →
      ((writes.foldl (fun m w => m.set w.1 w.2) m).get key = m.get key
        ∧ (writes.foldl (fun m w => m.set w.1 w.2) m).dim_sizes = m.dim_sizes)
  | [], _, _ => ⟨rfl, rfl⟩
  | w :: writes, m, h => by
    rw [List.map_cons, List.mem_cons, not_or] at h
    obtain ⟨i1, i2⟩ := foldl_set_get_of_not_mem key writes (m.set w.1 w.2) h.2
    rw [List.foldl_cons, i1, i2]
    refine ⟨?_, rfl⟩
    unfold NdMatrix.get NdMatrix.set
    exact if_neg h.1

/-- C19, for the model of the cache file: for every lookahead cost table, of any sizes and
with any entries, reading back with `read_router_lookahead` the file written by
`write_router_lookahead` (under the same architecture fingerprint) gives a table: the file
is not discarded. The table read has the sizes of the original, and at every key inside the
sizes its delay and its congestion have the bits of the original; that holds for the keys
that were populated before the write and for those that still hold the sentinel. -/
theorem read_router_lookahead_write_router_lookahead (fingerprint : String)
    (t : t_wire_cost_map) :
    ∃ t', read_router_lookahead fingerprint (write_router_lookahead fingerprint t) = some t'
      ∧ t'.dim_sizes = t.dim_sizes
      ∧ ∀ key, NdMatrix.in_bounds key t.dim_sizes = true →
          (t'.get key).delay.bits = (t.get key).delay.bits
            ∧ (t'.get key).congestion.bits = (t.get key).congestion.bits := by
  have hkeys : ((write_router_lookahead fingerprint t).records.map (fun r => r.1))
      = NdMatrix.keys (write_router_lookahead fingerprint t).dim_sizes := by
    unfold write_router_lookahead
    simp only [List.map_map]
    exact List.map_id _
  unfold read_router_lookahead
  rw [if_neg (by simp [write_router_lookahead]), if_neg (by rw [hkeys]; simp)]
  refine ⟨_, rfl, rfl, ?_⟩
  intro key hkey
  have hl := lookup_map_of_mem (fun k => ((t.data k).delay.bits, (t.data k).congestion.bits))
    (NdMatrix.keys t.dim_sizes) key (mem_keys_of_in_bounds _ _ hkey)
  unfold NdMatrix.get
  have hrec : (write_router_lookahead fingerprint t).records
      = (NdMatrix.keys t.dim_sizes).map
          (fun k => (k, ((t.data k).delay.bits, (t.data k).congestion.bits))) := rfl
  simp only [hrec, hl]
  exact ⟨rfl, rfl⟩

/-- Witness for C19: the table `ex_cost_map` is read back from its file; the entry written
at [0, 0, 0, 0, 1, 0] keeps its bits. -/
theorem read_router_lookahead_write_router_lookahead_witness :
    ∃ t', read_router_lookahead "k6_N10" (write_router_lookahead "k6_N10" ex_cost_map) = some t'
      ∧ (t'.get [0, 0, 0, 0, 1, 0]).delay.bits = 0x3F800000
      ∧ (t'.get [0, 0, 0, 0, 1, 0]).congestion.bits = 0x40000000 := by
  obtain ⟨t', h1, _, h3⟩ := read_router_lookahead_write_router_lookahead "k6_N10" ex_cost_map
  exact ⟨t', h1, (h3 [0, 0, 0, 0, 1, 0] (by decide)).1.trans (by decide),
    (h3 [0, 0, 0, 0, 1, 0] (by decide)).2.trans (by decide)⟩

/-- C20. A default-constructed `Cost_Entry` has both delay and congestion equal to quiet
NaN, and quiet NaN passes the test for NaN; `Cost_Entry(d, c)` stores exactly `d` as delay
and `c` as congestion; and in a cost map allocated with default-constructed entries, of any
sizes, every entry whose key has not been written since holds NaN in both fields, whatever
was written at the other keys. -/
theorem Cost_Entry_default_is_quiet_NaN :
    (Cost_Entry.ctor_default.delay = quiet_NaN ∧ Cost_Entry.ctor_default.congestion = quiet_NaN)
      ∧ isnan quiet_NaN = true
      ∧ (∀ d c : float, (Cost_Entry.ctor d c).delay = d ∧ (Cost_Entry.ctor d c).congestion = c)
      ∧ ∀ (dim_sizes : List Nat) (writes : List (List Nat × Cost_Entry)) (key : List Nat),
          key ∉ writes.map (fun w => w.1) →
          isnan ((writes.foldl (fun m w => m.set w.1 w.2)
              (NdMatrix.alloc dim_sizes Cost_Entry.ctor_default)).get key).delay = true
            ∧ isnan ((writes.foldl (fun m w => m.set w.1 w.2)
              (NdMatrix.alloc dim_sizes Cost_Entry.ctor_default)).get key).congestion = true := by
  refine ⟨⟨rfl, rfl⟩, by decide, fun d c => ⟨rfl, rfl⟩, ?_⟩
  intro dim_sizes writes key hkey
  rw [(foldl_set_get_of_not_mem key writes _ hkey).1]
  have hnan : isnan quiet_NaN = true := by decide
  exact ⟨hnan, hnan⟩

/-- Witness for C20: in `ex_cost_map`, written at two keys, the entry at [0, 0, 0, 0, 0, 1]
holds NaN in both fields, and the entry written at [0, 0, 0, 0, 1, 0] does not. -/
theorem Cost_Entry_default_is_quiet_NaN_witness :
    (isnan (ex_cost_map.get [0, 0, 0, 0, 0, 1]).delay = true
        ∧ isnan (ex_cost_map.get [0, 0, 0, 0, 0, 1]).congestion = true)
      ∧ isnan (ex_cost_map.get [0, 0, 0, 0, 1, 0]).delay = false := by
  refine ⟨?_, by decide⟩
  exact Cost_Entry_default_is_quiet_NaN.2.2.2 [1, 2, 1, 1, 2, 2]
    [([0, 0, 0, 0, 1, 0], Cost_Entry.ctor ⟨0x3F800000⟩ ⟨0x40000000⟩),
     ([0, 1, 0, 0, 1, 1], Cost_Entry.ctor ⟨0x2EDBE6FF⟩ ⟨0x3F000000⟩)]
    [0, 0, 0, 0, 0, 1] (by decide)

/-! ## Sink compaction: the computed location lies in the footprint -/

theorem round_avg_ge (l : List Nat) (m : Nat) (hne : l ≠ []) (h : ∀ x ∈ l, m ≤ x) :
    m ≤ round_avg l := by
  unfold round_avg
  have hs : l.length * m ≤ l.sum := by
    clear hne
    induction l with
    | nil => simp
    | cons a as ih =>
      have h1 := h a (List.mem_cons_self _ _)
      have h2 := ih (fun x hx => h x (List.mem_cons_of_mem _ hx))
      simp only [List.sum_cons, List.length_cons]
      nlinarith
  have hpos : 0 < 2 * l.length := by
    have := List.length_pos.mpr hne
    omega
  rw [Nat.le_div_iff_mul_le hpos]
  have e : m * (2 * l.length) = 2 * (l.length * m) := by ring
  omega

theorem filter_cell_eq_singleton (xl n yl k a b : Nat) (ha : xl ≤ a ∧ a < xl + n)
    (hb : yl ≤ b ∧ b < yl + k) :
    ((List.range' xl n).flatMap (fun x => (List.range' yl k).map (fun y => (x, y)))).filter
        (fun c => decide (c.1 = a ∧ c.2 = b)) = [(a, b)] := by
  have hnd : ((List.range' xl n).flatMap (fun x => (List.range' yl k).map (fun y => (x, y)))).Nodup := by
    rw [List.nodup_flatMap]
    refine ⟨?_, ?_⟩
    · intro x _
      exact (List.nodup_range' _ _).map (fun p q hpq => (Prod.mk.inj hpq).2)
    · refine (List.nodup_range' _ _).imp ?_
      intro p q hpq c hcp hcq
      obtain ⟨_, _, e1⟩ := List.mem_map.mp hcp
      obtain ⟨_, _, e2⟩ := List.mem_map.mp hcq
      subst e1
      exact hpq (Prod.mk.inj e2).1.symm
  have hmem : (a, b) ∈ (List.range' xl n).flatMap (fun x => (List.range' yl k).map (fun y => (x, y))) :=
    List.mem_flatMap.mpr ⟨a, List.mem_range'_1.mpr ha, List.mem_map.mpr ⟨b, List.mem_range'_1.mpr hb, rfl⟩⟩
  have hcongr : (fun c : Nat × Nat => decide (c.1 = a ∧ c.2 = b))
      = (fun c => decide (c = (a, b))) := by
    funext c
    rcases c with ⟨c1, c2⟩
    simp only [Prod.mk.injEq]
  rw [hcongr, List.filter_eq, List.count_eq_one_of_mem hnd hmem]
  rfl

/-- What C27 says holds on the code where the `float` sums of the coordinates are exact.
For a multi-cell SINK without a memoized offset and with qualifying pins whose coordinate
sums are at most 2^24, the node is moved to (x_avg, y_avg) with
tile_xlow <= x_avg <= tile_xhigh and tile_ylow <= y_avg <= tile_yhigh. Hence, of the cells
that the removal loops visit, exactly one, the cell (x_avg, y_avg), is skipped, and the
memoized offset is (x_avg - tile_xlow, y_avg - tile_ylow), without wrap, each component
smaller than the extent of the tile (tile_xhigh - tile_xlow + 1 and
tile_yhigh - tile_ylow + 1). Coordinates are those of a stored node, below 2^15. -/
theorem set_sink_locs_node_location_in_footprint_exact (grid : DeviceGrid) (s : SinkLocState)
    (node : Nat) (n : t_rr_node) (pins : List Nat)
    (hnode : node < s.st.nodes.length) (hn : node_at s.st node = n) (hsink : n.type = .SINK)
    (hmulti : n.xlow < n.xhigh ∨ n.ylow < n.yhigh) (hxs : n.xhigh < 2 ^ 15) (hys : n.yhigh < 2 ^ 15)
    (hmemo : s.physical_type_offsets (grid.get_physical_type ⟨n.xlow, n.ylow, n.layer⟩) n.ptc_num = none)
    (hpins : sink_ipins s.st node n.xlow n.ylow n.xhigh n.yhigh = pins) (hne : pins ≠ [])
    (hsx : (pins.map (fun pin => (node_at s.st pin).xlow)).sum ≤ 2 ^ 24)
    (hsy : (pins.map (fun pin => (node_at s.st pin).ylow)).sum ≤ 2 ^ 24) :
    ∃ x_avg y_avg : Nat,
      node_at (set_sink_locs_node grid s node).st node
          = { n with xlow := x_avg, ylow := y_avg, xhigh := x_avg, yhigh := y_avg }
        ∧ (n.xlow ≤ x_avg ∧ x_avg ≤ n.xhigh ∧ n.ylow ≤ y_avg ∧ y_avg ≤ n.yhigh)
        ∧ (set_sink_locs_node grid s node).st.node_lookup
            = remove_old_indices s.st.node_lookup node n.layer n.xlow n.ylow n.xhigh n.yhigh
                x_avg y_avg n.ptc_num
        ∧ ((List.range' n.xlow (n.xhigh + 1 - n.xlow)).flatMap
              (fun x => (List.range' n.ylow (n.yhigh + 1 - n.ylow)).map (fun y => (x, y)))).filter
            (fun c => decide (c.1 = x_avg ∧ c.2 = y_avg)) = [(x_avg, y_avg)]
        ∧ (set_sink_locs_node grid s node).physical_type_offsets
            (grid.get_physical_type ⟨n.xlow, n.ylow, n.layer⟩) n.ptc_num
            = some (x_avg - n.xlow, y_avg - n.ylow)
        ∧ x_avg - n.xlow < n.xhigh - n.xlow + 1 ∧ y_avg - n.ylow < n.yhigh - n.ylow + 1 := by
  obtain ⟨c1, c2⟩ := set_sink_locs_node_computed_exact grid s node n pins hnode hn hsink hmulti
    hxs hys hmemo hpins hne hsx hsy
  have m1 := set_sink_locs_node_computed_memo_exact grid s node n pins hn hsink hmulti hxs hys
    hmemo hpins hne hsx hsy
  have hin : ∀ pin ∈ pins, n.xlow ≤ (node_at s.st pin).xlow ∧ (node_at s.st pin).xlow ≤ n.xhigh
      ∧ n.ylow ≤ (node_at s.st pin).ylow ∧ (node_at s.st pin).ylow ≤ n.yhigh := by
    intro pin hpin
    rw [← hpins] at hpin
    exact mem_sink_ipins hpin
  have hxne : pins.map (fun pin => (node_at s.st pin).xlow) ≠ [] := by simpa using hne
  have hyne : pins.map (fun pin => (node_at s.st pin).ylow) ≠ [] := by simpa using hne
  have x1 : n.xlow ≤ round_avg (pins.map (fun pin => (node_at s.st pin).xlow)) :=
    round_avg_ge _ _ hxne (fun x hx => by
      obtain ⟨pin, hpin, e⟩ := List.mem_map.mp hx
      rw [← e]
      exact (hin pin hpin).1)
  have x2 : round_avg (pins.map (fun pin => (node_at s.st pin).xlow)) ≤ n.xhigh :=
    round_avg_le _ _ (fun x hx => by
      obtain ⟨pin, hpin, e⟩ := List.mem_map.mp hx
      rw [← e]
      exact (hin pin hpin).2.1)
  have y1 : n.ylow ≤ round_avg (pins.map (fun pin => (node_at s.st pin).ylow)) :=
    round_avg_ge _ _ hyne (fun x hx => by
      obtain ⟨pin, hpin, e⟩ := List.mem_map.mp hx
      rw [← e]
      exact (hin pin hpin).2.2.1)
  have y2 : round_avg (pins.map (fun pin => (node_at s.st pin).ylow)) ≤ n.yhigh :=
    round_avg_le _ _ (fun x hx => by
      obtain ⟨pin, hpin, e⟩ := List.mem_map.mp hx
      rw [← e]
      exact (hin pin hpin).2.2.2)
  refine ⟨_, _, c1, ⟨x1, x2, y1, y2⟩, c2, ?_, ?_, by omega, by omega⟩
  · exact filter_cell_eq_singleton _ _ _ _ _ _ ⟨x1, by omega⟩ ⟨y1, by omega⟩
  · rw [m1]
    have e1 : size_t_sub (round_avg (pins.map (fun pin => (node_at s.st pin).xlow))) n.xlow
        = round_avg (pins.map (fun pin => (node_at s.st pin).xlow)) - n.xlow := by
      unfold size_t_sub
      omega
    have e2 : size_t_sub (round_avg (pins.map (fun pin => (node_at s.st pin).ylow))) n.ylow
        = round_avg (pins.map (fun pin => (node_at s.st pin).ylow)) - n.ylow := by
      unfold size_t_sub
      omega
    rw [e1, e2]

/-- The location stays in the tile on an example: the SINK of the 2x2 tile of `ex_quad_grid`, rooted at (1, 1), with its
pins at (1, 1) and (2, 2), is moved to a cell of the tile. -/
theorem set_sink_locs_node_location_in_footprint_exact_witness :
    ∃ x_avg y_avg : Nat,
      (node_at (set_sink_locs_node ex_quad_grid ⟨ex_quad_graph, fun _ _ => none⟩ 0).st 0).xlow = x_avg
        ∧ (node_at (set_sink_locs_node ex_quad_grid ⟨ex_quad_graph, fun _ _ => none⟩ 0).st 0).ylow = y_avg
        ∧ (1 ≤ x_avg ∧ x_avg ≤ 2 ∧ 1 ≤ y_avg ∧ y_avg ≤ 2) := by
  obtain ⟨x_avg, y_avg, h1, h2, _⟩ := set_sink_locs_node_location_in_footprint_exact ex_quad_grid
    ⟨ex_quad_graph, fun _ _ => none⟩ 0
    { type := .SINK, layer := 0, xlow := 1, ylow := 1, xhigh := 2, yhigh := 2, ptc_num := 0,
      capacity := 2, direction := .NONE, cost_index := 1, sides := [] } [1, 2]
    (by decide) rfl rfl (by decide) (by decide) (by decide) rfl (by decide) (by decide)
    (by decide) (by decide)
  exact ⟨x_avg, y_avg, by rw [h1], by rw [h1], h2⟩

/-- C24. For every call of `set_grid_block_type` whose priority is strictly lower than the
priority stored in some cell of the new block's footprint, and so than the highest priority
of the footprint, the call returns and leaves the grid (type, width_offset, height_offset and
meta of every cell) and the priority matrix completely unchanged: the state is the same. -/
theorem set_grid_block_type_lower_priority (empty_type : Option t_physical_tile_type)
    (grid_width grid_height : Nat) (priority : Int) (type : t_physical_tile_type)
    (x_root y_root : Nat) (meta : Option Nat) (s : GridBuildState) (c : Nat × Nat)
    (hc : c ∈ footprint_cells x_root y_root type.width type.height)
    (hp : priority < s.grid_priorities c.1 c.2) :
    set_grid_block_type empty_type grid_width grid_height priority type x_root y_root meta s
      = .ok s := by
  unfold set_grid_block_type
  dsimp only
  cases hm : max_priority s (footprint_cells x_root y_root type.width type.height) with
  | none =>
    cases hcells : footprint_cells x_root y_root type.width type.height with
    | nil => rw [hcells] at hc; cases hc
    | cons c' cs => rw [hcells] at hm; cases hm
  | some m =>
    dsimp only
    have := max_priority_ge hm c hc
    rw [if_pos (by omega)]

/-- Witness for C24: on `ex_clb_device` the cell (1, 0) has priority 1; placing "wide" at
(0, 0) with priority 0, over the cells (0, 0) and (1, 0), changes nothing. -/
theorem set_grid_block_type_lower_priority_witness :
    set_grid_block_type (some ex_empty_tile) 3 1 0 ex_wide_tile 0 0 none ex_clb_device
      = .ok ex_clb_device :=
  set_grid_block_type_lower_priority (some ex_empty_tile) 3 1 0 ex_wide_tile 0 0 none ex_clb_device
    (1, 0) (by decide) (by decide)

/-! ## Annotation of the routed nets -/

theorem getD_set_option (v : List (Option Nat)) (n m : Nat) (x : Option Nat) (hn : n < v.length) :
    (v.set n x).getD m none = if m = n then x else v.getD m none := by
  rw [List.getD_eq_getElem?_getD, List.getD_eq_getElem?_getD, List.getElem?_set]
  by_cases h : n = m
  · subst h
    simp [hn]
  · have h' : ¬ m = n := fun e => h e.symm
    simp [h, h']

/-- An invariant indexed by the elements already visited holds at the end of a loop that
returns. -/
theorem foldlM_except_prefix {σ ι ε : Type} (f : σ → ι → Except ε σ) (A : ι → Prop)
    (Inv : List ι → σ → Prop)
    (hstep : ∀ pre a s s', A a → Inv pre s → f s a = .ok s' → Inv (pre ++ [a]) s') :
    ∀ (l pre : List ι) (s s' : σ), (∀ a ∈ l, A a) → Inv pre s → l.foldlM f s = .ok s' →
      Inv (pre ++ l) s'
  | [], pre, s, s', _, hs, h => by
    cases h
    rw [List.append_nil]
    exact hs
  | a :: as, pre, s, s', hA, hs, h => by
    rw [List.foldlM_cons] at h
    cases h1 : f s a with
    | error e => rw [h1] at h; cases h
    | ok s1 =>
      rw [h1] at h
      have := foldlM_except_prefix f A Inv hstep as (pre ++ [a]) s1 s'
        (fun x hx => hA x (List.mem_cons_of_mem _ hx))
        (hstep pre a s s1 (hA a (List.mem_cons_self _ _)) hs h1) h
      rw [List.append_assoc] at this
      exact this

/-- What every failing step of a loop establishes holds of the error of the loop. -/
theorem foldlM_except_prefix_error {σ ι ε : Type} (f : σ → ι → Except ε σ) (A : ι → Prop)
    (Inv : List ι → σ → Prop) (Q : ε → Prop)
    (hstep : ∀ pre a s s', A a → Inv pre s → f s a = .ok s' → Inv (pre ++ [a]) s')
    (herr : ∀ pre a s e, A a → Inv pre s → f s a = .error e → Q e) :
    ∀ (l pre : List ι) (s : σ) (e : ε), (∀ a ∈ l, A a) → Inv pre s → l.foldlM f s = .error e → Q e
  | [], _, _, _, _, _, h => by cases h
  | a :: as, pre, s, e, hA, hs, h => by
    rw [List.foldlM_cons] at h
    cases h1 : f s a with
    | error e1 =>
      rw [h1] at h
      cases h
      exact herr pre a s e (hA a (List.mem_cons_self _ _)) hs h1
    | ok s1 =>
      rw [h1] at h
      exact foldlM_except_prefix_error f A Inv Q hstep herr as (pre ++ [a]) s1 e
        (fun x hx => hA x (List.mem_cons_of_mem _ hx))
        (hstep pre a s s1 (hA a (List.mem_cons_self _ _)) hs h1) h

theorem annotate_inv_congr (ctx : AnnotateCtx) {d1 d2 : List Nat} {c1 c2 : Nat} {s1 s2 : List Nat}
    {v : List (Option Nat)}
    (h : ∀ c n, ctx.walked d1 c1 s1 c n ↔ ctx.walked d2 c2 s2 c n)
    (hv : annotate_inv ctx d1 c1 s1 v) : annotate_inv ctx d2 c2 s2 v :=
  ⟨hv.1, fun n c e => (h c n).mp (hv.2.1 n c e), fun c n w => hv.2.2 c n ((h c n).mpr w)⟩

/-- One node of a trace: a step that returns keeps the invariant, with the node visited. -/
theorem annotate_trace_node_ok (ctx : AnnotateCtx) (done : List Nat) (cur : Nat)
    (pre : List Nat) (a : Nat) (v v' : List (Option Nat)) (ha : a < ctx.num_nodes)
    (hv : annotate_inv ctx done cur pre v) (h : annotate_trace_node ctx cur v a = .ok v') :
    annotate_inv ctx done cur (pre ++ [a]) v' := by
  obtain ⟨j1, j2, j3⟩ := hv
  have hmono : ∀ c n, ctx.walked done cur pre c n → ctx.walked done cur (pre ++ [a]) c n := by
    intro c n w
    refine ⟨w.1, ?_⟩
    rcases w.2 with w2 | w2
    · exact Or.inl w2
    · exact Or.inr ⟨w2.1, List.mem_append_left _ w2.2⟩
  unfold annotate_trace_node at h
  by_cases hann : ctx.node_type a ≠ .SOURCE ∧ ctx.node_type a ≠ .SINK
  · rw [if_pos hann] at h
    have hset : v' = v.set a (some cur)
        ∧ ∀ c', v.getD a none = some c' → ctx.node_capacity a = 1 → cur = c' := by
      cases hm : v.getD a none with
      | none =>
        rw [hm] at h
        cases h
        exact ⟨rfl, fun c' e => by cases e⟩
      | some m =>
        rw [hm] at h
        dsimp only at h
        split at h
        · cases h
        · rename_i hc
          cases h
          refine ⟨rfl, ?_⟩
          intro c' e hcap
          cases e
          by_contra hne
          exact hc ⟨hcap.symm, hne⟩
    obtain ⟨e, hcap⟩ := hset
    subst e
    have hget : ∀ m, (v.set a (some cur)).getD m none = if m = a then some cur else v.getD m none :=
      fun m => getD_set_option v a m (some cur) (by rw [j1]; exact ha)
    refine ⟨by rw [List.length_set]; exact j1, ?_, ?_⟩
    · intro n c e
      rw [hget] at e
      by_cases hn : n = a
      · rw [if_pos hn] at e
        cases e
        subst hn
        exact ⟨hann, Or.inr ⟨rfl, List.mem_append_right _ (List.mem_singleton_self _)⟩⟩
      · rw [if_neg hn] at e
        exact hmono c n (j2 n c e)
    · intro c n w
      rw [hget]
      by_cases hn : n = a
      · rw [if_pos hn]
        subst hn
        refine ⟨cur, rfl, ?_⟩
        intro hc1
        have hold : ctx.walked done cur pre c n ∨ c = cur := by
          rcases w.2 with w2 | w2
          · exact Or.inl ⟨w.1, Or.inl w2⟩
          · exact Or.inr w2.1
        rcases hold with hold | hold
        · obtain ⟨c', e1, e2⟩ := j3 c n hold
          rw [hcap c' e1 hc1]
          exact e2 hc1
        · exact hold.symm
      · rw [if_neg hn]
        have hold : ctx.walked done cur pre c n := by
          refine ⟨w.1, ?_⟩
          rcases w.2 with w2 | w2
          · exact Or.inl w2
          · rcases List.mem_append.mp w2.2 with w3 | w3
            · exact Or.inr ⟨w2.1, w3⟩
            · exact absurd (List.mem_singleton.mp w3) hn
        exact j3 c n hold
  · rw [if_neg hann] at h
    cases h
    refine ⟨j1, fun n c e => hmono c n (j2 n c e), ?_⟩
    intro c n w
    have hold : ctx.walked done cur pre c n := by
      refine ⟨w.1, ?_⟩
      rcases w.2 with w2 | w2
      · exact Or.inl w2
      · rcases List.mem_append.mp w2.2 with w3 | w3
        · exact Or.inr ⟨w2.1, w3⟩
        · rw [List.mem_singleton.mp w3] at w
          exact absurd w.1 hann
    exact j3 c n hold

/-- One node of a trace: a step that fails has found the node annotated with another net
that has been walked before. -/
theorem annotate_trace_node_error (ctx : AnnotateCtx) (done : List Nat) (cur : Nat)
    (pre : List Nat) (a : Nat) (v : List (Option Nat)) (e : AnnotateFatal)
    (hv : annotate_inv ctx done cur pre v) (h : annotate_trace_node ctx cur v a = .error e) :
    ctx.annotated a ∧ ctx.node_capacity a = 1
      ∧ ∃ c, c ≠ cur ∧ c ∈ done ∧ ctx.routed c ∧ a ∈ ctx.trace c := by
  obtain ⟨_, j2, _⟩ := hv
  unfold annotate_trace_node at h
  by_cases hann : ctx.node_type a ≠ .SOURCE ∧ ctx.node_type a ≠ .SINK
  · rw [if_pos hann] at h
    cases hm : v.getD a none with
    | none => rw [hm] at h; cases h
    | some m =>
      rw [hm] at h
      dsimp only at h
      split at h
      · rename_i hc
        have w := j2 a m hm
        rcases w.2 with w2 | w2
        · exact ⟨hann, hc.1.symm, m, fun e' => hc.2 e'.symm, w2⟩
        · exact absurd w2.1.symm hc.2
      · cases h
  · rw [if_neg hann] at h
    cases h

/-- C21. When the traces lie inside the graph, `annotate_rr_node_nets` raises its fatal
error if and only if two different nets of the netlist that are not ignored and have at
least one sink both contain in their route traces the same node that is neither SOURCE nor
SINK and has capacity 1. Otherwise it returns a vector with one entry per graph node in
which every SOURCE node, every SINK node and every node on no such trace holds the invalid
net id, and every other traced node holds the id of a net (not ignored, with a sink) whose
trace contains it. -/
theorem annotate_rr_node_nets_spec (ctx : AnnotateCtx)
    (hrange : ∀ net ∈ ctx.nets, ∀ n ∈ ctx.trace net, n < ctx.num_nodes) :
    ((∃ e, annotate_rr_node_nets ctx = .error e)
        ↔ ∃ a ∈ ctx.nets, ∃ b ∈ ctx.nets, a ≠ b ∧ ctx.routed a ∧ ctx.routed b
            ∧ ∃ n, n ∈ ctx.trace a ∧ n ∈ ctx.trace b ∧ ctx.annotated n ∧ ctx.node_capacity n = 1)
      ∧ ∀ v, annotate_rr_node_nets ctx = .ok v →
          v.length = ctx.num_nodes
            ∧ ∀ n, n < ctx.num_nodes →
                ((ctx.node_type n = .SOURCE ∨ ctx.node_type n = .SINK
                    ∨ ¬ ∃ a ∈ ctx.nets, ctx.routed a ∧ n ∈ ctx.trace a) → v.getD n none = none)
                  ∧ ((ctx.annotated n ∧ ∃ a ∈ ctx.nets, ctx.routed a ∧ n ∈ ctx.trace a) →
                      ∃ a ∈ ctx.nets, ctx.routed a ∧ n ∈ ctx.trace a ∧ v.getD n none = some a) := by
  have hnet_ok : ∀ pre net v v', net ∈ ctx.nets → annotate_inv ctx pre 0 [] v →
      annotate_net ctx v net = .ok v' → annotate_inv ctx (pre ++ [net]) 0 [] v' := by
    intro pre net v v' hnet hv h
    unfold annotate_net at h
    by_cases hr : ctx.routed net
    · rw [if_neg (by rw [hr.1]; simp), if_neg hr.2] at h
      have h0 : annotate_inv ctx pre net [] v :=
        annotate_inv_congr ctx (fun c n => by simp [AnnotateCtx.walked]) hv
      have h1 := foldlM_except_prefix (annotate_trace_node ctx net) (fun a => a < ctx.num_nodes)
        (fun seen v => annotate_inv ctx pre net seen v)
        (fun seen a s s' ha hs hstep => annotate_trace_node_ok ctx pre net seen a s s' ha hs hstep)
        (ctx.trace net) [] v v' (hrange net hnet) h0 h
      rw [List.nil_append] at h1
      refine annotate_inv_congr ctx ?_ h1
      intro c n
      unfold AnnotateCtx.walked
      constructor
      · rintro ⟨w1, w2 | w2⟩
        · exact ⟨w1, Or.inl ⟨List.mem_append_left _ w2.1, w2.2⟩⟩
        · exact ⟨w1, Or.inl ⟨by rw [w2.1]; exact List.mem_append_right _ (List.mem_singleton_self _),
            by rw [w2.1]; exact hr, by rw [w2.1]; exact w2.2⟩⟩
      · rintro ⟨w1, w2 | w2⟩
        · rcases List.mem_append.mp w2.1 with w3 | w3
          · exact ⟨w1, Or.inl ⟨w3, w2.2⟩⟩
          · exact ⟨w1, Or.inr ⟨List.mem_singleton.mp w3, by
              rw [← List.mem_singleton.mp w3]; exact w2.2.2⟩⟩
        · exact absurd w2.2 (List.not_mem_nil n)
    · have hv' : v' = v := by
        unfold AnnotateCtx.routed at hr
        by_cases hi : ctx.net_is_ignored net = true
        · rw [if_pos hi] at h
          cases h
          rfl
        · rw [if_neg hi] at h
          have hs : ctx.net_sinks net = [] := by
            by_contra hs
            exact hr ⟨by simpa using hi, hs⟩
          rw [if_pos hs] at h
          cases h
          rfl
      subst hv'
      refine annotate_inv_congr ctx ?_ hv
      intro c n
      unfold AnnotateCtx.walked
      constructor
      · rintro ⟨w1, w2 | w2⟩
        · exact ⟨w1, Or.inl ⟨List.mem_append_left _ w2.1, w2.2⟩⟩
        · exact absurd w2.2 (List.not_mem_nil n)
      · rintro ⟨w1, w2 | w2⟩
        · rcases List.mem_append.mp w2.1 with w3 | w3
          · exact ⟨w1, Or.inl ⟨w3, w2.2⟩⟩
          · rw [List.mem_singleton.mp w3] at w2
            exact absurd w2.2.1 hr
        · exact absurd w2.2 (List.not_mem_nil n)
  have hinit : annotate_inv ctx [] 0 [] (List.replicate ctx.num_nodes none) := by
    refine ⟨List.length_replicate _ _, ?_, ?_⟩
    · intro n c e
      rw [List.getD_eq_getElem?_getD, List.getElem?_replicate] at e
      split at e <;> cases e
    · rintro c n ⟨_, w2 | w2⟩
      · exact absurd w2.1 (List.not_mem_nil c)
      · exact absurd w2.2 (List.not_mem_nil n)
  have hfinal : ∀ v, annotate_rr_node_nets ctx = .ok v → annotate_inv ctx ctx.nets 0 [] v := by
    intro v h
    have := foldlM_except_prefix (annotate_net ctx) (fun net => net ∈ ctx.nets)
      (fun done v => annotate_inv ctx done 0 [] v)
      (fun pre net s s' hnet hs hstep => hnet_ok pre net s s' hnet hs hstep)
      ctx.nets [] _ v (fun a ha => ha) hinit h
    rw [List.nil_append] at this
    exact this
  have hwalk : ∀ c n, ctx.walked ctx.nets 0 [] c n
      ↔ ctx.annotated n ∧ c ∈ ctx.nets ∧ ctx.routed c ∧ n ∈ ctx.trace c := by
    intro c n
    unfold AnnotateCtx.walked
    constructor
    · rintro ⟨w1, w2 | w2⟩
      · exact ⟨w1, w2⟩
      · exact absurd w2.2 (List.not_mem_nil n)
    · rintro ⟨w1, w2⟩
      exact ⟨w1, Or.inl w2⟩
  refine ⟨⟨?_, ?_⟩, ?_⟩
  · rintro ⟨e, he⟩
    refine foldlM_except_prefix_error (annotate_net ctx)
      (fun net => net ∈ ctx.nets)
      (fun done v => annotate_inv ctx done 0 [] v ∧ ∀ c ∈ done, c ∈ ctx.nets)
      (fun _ => ∃ a ∈ ctx.nets, ∃ b ∈ ctx.nets, a ≠ b ∧ ctx.routed a ∧ ctx.routed b
        ∧ ∃ n, n ∈ ctx.trace a ∧ n ∈ ctx.trace b ∧ ctx.annotated n ∧ ctx.node_capacity n = 1)
      ?_ ?_ ctx.nets [] _ e (fun a ha => ha)
      ⟨hinit, fun c hc => absurd hc (List.not_mem_nil c)⟩ he
    · intro pre net s s' hnet hs hstep
      refine ⟨hnet_ok pre net s s' hnet hs.1 hstep, ?_⟩
      intro c hc
      rcases List.mem_append.mp hc with h1 | h1
      · exact hs.2 c h1
      · rw [List.mem_singleton.mp h1]
        exact hnet
    · intro pre net s e1 hnet hs hstep
      unfold annotate_net at hstep
      by_cases hi : ctx.net_is_ignored net = true
      · rw [if_pos hi] at hstep
        cases hstep
      · rw [if_neg hi] at hstep
        by_cases hsk : ctx.net_sinks net = []
        · rw [if_pos hsk] at hstep
          cases hstep
        · rw [if_neg hsk] at hstep
          have hr : ctx.routed net := ⟨by simpa using hi, hsk⟩
          have h0 : annotate_inv ctx pre net [] s :=
            annotate_inv_congr ctx (fun c n => by simp [AnnotateCtx.walked]) hs.1
          refine foldlM_except_prefix_error (annotate_trace_node ctx net)
            (fun a => a < ctx.num_nodes ∧ a ∈ ctx.trace net)
            (fun seen v => annotate_inv ctx pre net seen v)
            (fun _ => ∃ a ∈ ctx.nets, ∃ b ∈ ctx.nets, a ≠ b ∧ ctx.routed a ∧ ctx.routed b
              ∧ ∃ n, n ∈ ctx.trace a ∧ n ∈ ctx.trace b ∧ ctx.annotated n ∧ ctx.node_capacity n = 1)
            (fun seen a s1 s2 ha hs1 hst => annotate_trace_node_ok ctx pre net seen a s1 s2 ha.1 hs1 hst)
            ?_ (ctx.trace net) [] s e1 (fun a ha => ⟨hrange net hnet a ha, ha⟩) h0 hstep
          intro seen a s1 e2 ha hs1 hst
          obtain ⟨k1, k2, c, k3, k4, k5, k6⟩ := annotate_trace_node_error ctx pre net seen a s1 e2 hs1 hst
          exact ⟨c, hs.2 c k4, net, hnet, k3, k5, hr, a, k6, ha.2, k1, k2⟩
  · rintro ⟨a, ha, b, hb, hab, hra, hrb, n, hna, hnb, hann, hcap⟩
    cases hres : annotate_rr_node_nets ctx with
    | error e => exact ⟨e, rfl⟩
    | ok v =>
      exfalso
      obtain ⟨_, _, j3⟩ := hfinal v hres
      obtain ⟨c1, e1, f1⟩ := j3 a n ((hwalk a n).mpr ⟨hann, ha, hra, hna⟩)
      obtain ⟨c2, e2, f2⟩ := j3 b n ((hwalk b n).mpr ⟨hann, hb, hrb, hnb⟩)
      rw [e1] at e2
      cases e2
      exact hab ((f1 hcap).symm.trans (f2 hcap))
  · intro v hres
    obtain ⟨j1, j2, j3⟩ := hfinal v hres
    refine ⟨j1, ?_⟩
    intro n _
    refine ⟨?_, ?_⟩
    · intro hcase
      cases hget : v.getD n none with
      | none => rfl
      | some c =>
        exfalso
        obtain ⟨w1, w2, w3, w4⟩ := (hwalk c n).mp (j2 n c hget)
        rcases hcase with h1 | h1 | h1
        · exact w1.1 h1
        · exact w1.2 h1
        · exact h1 ⟨c, w2, w3, w4⟩
    · rintro ⟨hann, a, ha, hra, hna⟩
      obtain ⟨c', e1, _⟩ := j3 a n ((hwalk a n).mpr ⟨hann, ha, hra, hna⟩)
      obtain ⟨_, w2, w3, w4⟩ := (hwalk c' n).mp (j2 n c' e1)
      exact ⟨c', w2, w3, w4, e1⟩

/-- Witness for C21: in `ex_annotate_conflict` the nets 0 and 1 share the CHANX node 2 of
capacity 1 and the annotation fails; in `ex_annotate_routed` no two routed nets share a node
of capacity 1 outside SOURCE and SINK, and the vector holds the invalid id at the SOURCE,
the SINK and nowhere else. -/
theorem annotate_rr_node_nets_spec_witness :
    (∃ e, annotate_rr_node_nets ex_annotate_conflict = .error e)
      ∧ annotate_rr_node_nets ex_annotate_routed = .ok [none, some 1, some 0, some 1, none] := by
  refine ⟨((annotate_rr_node_nets_spec ex_annotate_conflict (by decide)).1).mpr
    ⟨0, by decide, 1, by decide, by decide, ⟨rfl, by decide⟩, ⟨rfl, by decide⟩, 2, by decide,
      by decide, ⟨by decide, by decide⟩, rfl⟩, rfl⟩

/-! ## Choice of a fixed layout -/

theorem int_mul_eq {a b : Int} (h : -(2 ^ 31) ≤ a * b ∧ a * b < 2 ^ 31) : int_mul a b = a * b := by
  unfold int_mul
  generalize a * b = p at h
  omega

/-- The view sorted by `area_cmp` holds the layouts of the catalog, by ascending area, and
two layouts that follow each other in the catalog, the first not larger than the second,
follow each other in the view: layouts of equal area keep the catalog order. -/
theorem stable_sort_area_cmp (grid_layouts : List t_grid_def)
    (harea : ∀ g ∈ grid_layouts, -(2 ^ 31) ≤ g.width * g.height ∧ g.width * g.height < 2 ^ 31) :
    (stable_sort area_cmp grid_layouts).Perm grid_layouts
      ∧ (stable_sort area_cmp grid_layouts).Pairwise
          (fun a b => a.width * a.height ≤ b.width * b.height)
      ∧ ∀ a b, [a, b].Sublist grid_layouts → a.width * a.height ≤ b.width * b.height →
          [a, b].Sublist (stable_sort area_cmp grid_layouts) := by
  have hr : ∀ a b : t_grid_def, (area_cmp b a = false)
      ↔ int_mul a.width a.height ≤ int_mul b.width b.height := by
    intro a b
    unfold area_cmp
    simp
  haveI : IsTotal t_grid_def (fun a b => area_cmp b a = false) :=
    ⟨fun a b => by rw [hr, hr]; exact le_total _ _⟩
  haveI : IsTrans t_grid_def (fun a b => area_cmp b a = false) :=
    ⟨fun a b c => by rw [hr, hr, hr]; exact le_trans⟩
  have hperm : (stable_sort area_cmp grid_layouts).Perm grid_layouts :=
    List.perm_insertionSort _ _
  refine ⟨hperm, ?_, ?_⟩
  · have hs : (stable_sort area_cmp grid_layouts).Pairwise (fun a b => area_cmp b a = false) :=
      List.sorted_insertionSort _ _
    refine hs.imp_of_mem ?_
    intro a b ha hb hab
    rw [hr, int_mul_eq (harea a (hperm.subset ha)), int_mul_eq (harea b (hperm.subset hb))] at hab
    exact hab
  · intro a b hsub hab
    have ha : a ∈ grid_layouts := hsub.subset (List.mem_cons_self _ _)
    have hb : b ∈ grid_layouts := hsub.subset (List.mem_cons_of_mem _ (List.mem_cons_self _ _))
    refine List.pair_sublist_insertionSort ?_ hsub
    rw [hr, int_mul_eq (harea a ha), int_mul_eq (harea b hb)]
    exact hab

/-- The loop over the fixed layouts returns the grid of the first layout whose grid
satisfies the instance counts, when the layouts before it are built and do not. -/
theorem try_fixed_layouts_first (ctx : SetupCtx) (actx : AutoSizeCtx) (fuel dies : Nat)
    (g : t_grid_def) (post : List t_grid_def) (grid : t_device_grid)
    (hg : build_device_grid ctx fuel g (size_t_of_int g.width) (size_t_of_int g.height) dies = .ok grid)
    (hsat : actx.grid_satisfies_instance_counts grid = true) :
    ∀ (pre : List t_grid_def) (grid0 : t_device_grid),
      (∀ d ∈ pre, ∃ gd, build_device_grid ctx fuel d (size_t_of_int d.width) (size_t_of_int d.height)
          dies = .ok gd ∧ actx.grid_satisfies_instance_counts gd = false) →
      try_fixed_layouts ctx actx fuel dies (pre ++ g :: post) grid0 = .ok grid
  | [], grid0, _ => by
    rw [List.nil_append]
    unfold try_fixed_layouts
    rw [hg]
    simp only [Except.bind, hsat, if_true]
  | d :: pre, grid0, hpre => by
    obtain ⟨gd, h1, h2⟩ := hpre d (List.mem_cons_self _ _)
    rw [List.cons_append]
    unfold try_fixed_layouts
    rw [h1]
    simp only [Except.bind, h2, Bool.false_eq_true, if_false]
    exact try_fixed_layouts_first ctx actx fuel dies g post grid hg hsat pre gd
      (fun d' hd' => hpre d' (List.mem_cons_of_mem _ hd'))

/-- A grid returned by the loop over the fixed layouts, when the grid of some layout
satisfies the instance counts, is the grid of a layout before which no layout has a grid
that satisfies them. -/
theorem try_fixed_layouts_returns (ctx : SetupCtx) (actx : AutoSizeCtx) (fuel dies : Nat)
    (grid : t_device_grid) :
    ∀ (l : List t_grid_def) (grid0 : t_device_grid),
      try_fixed_layouts ctx actx fuel dies l grid0 = .ok grid →
      (∃ d ∈ l, ∃ gd, build_device_grid ctx fuel d (size_t_of_int d.width) (size_t_of_int d.height)
          dies = .ok gd ∧ actx.grid_satisfies_instance_counts gd = true) →
      ∃ pre g post, l = pre ++ g :: post
        ∧ build_device_grid ctx fuel g (size_t_of_int g.width) (size_t_of_int g.height) dies = .ok grid
        ∧ actx.grid_satisfies_instance_counts grid = true
        ∧ ∀ d ∈ pre, ¬ ∃ gd, build_device_grid ctx fuel d (size_t_of_int d.width)
            (size_t_of_int d.height) dies = .ok gd ∧ actx.grid_satisfies_instance_counts gd = true
  | [], _, _, hex => by
    obtain ⟨d, hd, _⟩ := hex
    cases hd
  | d :: rest, grid0, h, hex => by
    unfold try_fixed_layouts at h
    cases hb : build_device_grid ctx fuel d (size_t_of_int d.width) (size_t_of_int d.height) dies with
    | error e => rw [hb] at h; cases h
    | ok gd =>
      rw [hb] at h
      simp only [Except.bind] at h
      by_cases hs : actx.grid_satisfies_instance_counts gd = true
      · rw [if_pos hs] at h
        cases h
        exact ⟨[], d, rest, rfl, hb, hs, fun d' hd' => absurd hd' (List.not_mem_nil d')⟩
      · rw [if_neg hs] at h
        have hex' : ∃ d' ∈ rest, ∃ gd', build_device_grid ctx fuel d' (size_t_of_int d'.width)
            (size_t_of_int d'.height) dies = .ok gd'
            ∧ actx.grid_satisfies_instance_counts gd' = true := by
          obtain ⟨d', hd', gd', h1, h2⟩ := hex
          rcases List.mem_cons.mp hd' with e | e
          · subst e
            rw [hb] at h1
            cases h1
            exact absurd h2 hs
          · exact ⟨d', e, gd', h1, h2⟩
        obtain ⟨pre, g, post, e, h1, h2, h3⟩ := try_fixed_layouts_returns ctx actx fuel dies grid rest
          gd h hex'
        refine ⟨d :: pre, g, post, by rw [e]; rfl, h1, h2, ?_⟩
        intro d' hd'
        rcases List.mem_cons.mp hd' with e' | e'
        · subst e'
          rintro ⟨gd', k1, k2⟩
          rw [hb] at k1
          cases k1
          exact hs k2
        · exact h3 d' e'

/-- C22. When `grid_layouts` is not empty and contains no auto layout (every layout is
fixed), `auto_size_device_grid` tries the layouts in the order of the view sorted by
`area_cmp`: ascending area width*height, equal areas in catalog order (first three parts).
It returns the grid built from the first layout of the view whose grid satisfies
`grid_satisfies_instance_counts`, when the layouts before it are built and do not (fourth
part). Hence, whenever it returns a grid and the grid of some layout satisfies the instance
counts, the grid returned is the grid of such a layout, of minimum area among them (last
part). The areas fit an `int`. -/
theorem auto_size_device_grid_fixed_smallest (ctx : SetupCtx) (actx : AutoSizeCtx)
    (fuel dies : Nat) (grid_layouts : List t_grid_def) (hne : grid_layouts ≠ [])
    (hfixed : ∀ g ∈ grid_layouts, g.grid_type = .FIXED)
    (harea : ∀ g ∈ grid_layouts, -(2 ^ 31) ≤ g.width * g.height ∧ g.width * g.height < 2 ^ 31) :
    (stable_sort area_cmp grid_layouts).Perm grid_layouts
      ∧ (stable_sort area_cmp grid_layouts).Pairwise
          (fun a b => a.width * a.height ≤ b.width * b.height)
      ∧ (∀ a b, [a, b].Sublist grid_layouts → a.width * a.height = b.width * b.height →
          [a, b].Sublist (stable_sort area_cmp grid_layouts))
      ∧ (∀ pre g post grid, stable_sort area_cmp grid_layouts = pre ++ g :: post →
          (∀ d ∈ pre, ∃ gd, build_device_grid ctx fuel d (size_t_of_int d.width)
              (size_t_of_int d.height) dies = .ok gd
            ∧ actx.grid_satisfies_instance_counts gd = false) →
          build_device_grid ctx fuel g (size_t_of_int g.width) (size_t_of_int g.height) dies
            = .ok grid →
          actx.grid_satisfies_instance_counts grid = true →
          auto_size_device_grid ctx actx fuel grid_layouts dies = .ok grid)
      ∧ ∀ grid, auto_size_device_grid ctx actx fuel grid_layouts dies = .ok grid →
          (∃ d ∈ grid_layouts, ∃ gd, build_device_grid ctx fuel d (size_t_of_int d.width)
              (size_t_of_int d.height) dies = .ok gd
            ∧ actx.grid_satisfies_instance_counts gd = true) →
          ∃ g ∈ grid_layouts,
            build_device_grid ctx fuel g (size_t_of_int g.width) (size_t_of_int g.height) dies
                = .ok grid
              ∧ actx.grid_satisfies_instance_counts grid = true
              ∧ ∀ d ∈ grid_layouts,
                  (∃ gd, build_device_grid ctx fuel d (size_t_of_int d.width)
                      (size_t_of_int d.height) dies = .ok gd
                    ∧ actx.grid_satisfies_instance_counts gd = true) →
                  g.width * g.height ≤ d.width * d.height := by
  obtain ⟨hperm, hsorted, hstable⟩ := stable_sort_area_cmp grid_layouts harea
  have hfind : grid_layouts.find? (fun grid_def => grid_def.grid_type == .AUTO) = none := by
    rw [List.find?_eq_none]
    intro g hg
    rw [hfixed g hg]
    decide
  have hlen : grid_layouts.length > 0 := List.length_pos.mpr hne
  have hrun : auto_size_device_grid ctx actx fuel grid_layouts dies
      = try_fixed_layouts ctx actx fuel dies (stable_sort area_cmp grid_layouts)
          t_device_grid.empty := by
    unfold auto_size_device_grid
    rw [if_neg (not_not.mpr hlen), hfind]
  refine ⟨hperm, hsorted, fun a b hsub hab => hstable a b hsub (le_of_eq hab), ?_, ?_⟩
  · intro pre g post grid hsplit hpre hg hsat
    rw [hrun, hsplit]
    exact try_fixed_layouts_first ctx actx fuel dies g post grid hg hsat pre _ hpre
  · intro grid hres hex
    rw [hrun] at hres
    have hex' : ∃ d ∈ stable_sort area_cmp grid_layouts, ∃ gd,
        build_device_grid ctx fuel d (size_t_of_int d.width) (size_t_of_int d.height) dies = .ok gd
          ∧ actx.grid_satisfies_instance_counts gd = true := by
      obtain ⟨d, hd, rest⟩ := hex
      exact ⟨d, hperm.symm.subset hd, rest⟩
    obtain ⟨pre, g, post, hsplit, h1, h2, h3⟩ :=
      try_fixed_layouts_returns ctx actx fuel dies grid _ _ hres hex'
    have hg : g ∈ stable_sort area_cmp grid_layouts := by
      rw [hsplit]
      exact List.mem_append_right _ (List.mem_cons_self _ _)
    refine ⟨g, hperm.subset hg, h1, h2, ?_⟩
    intro d hd hdsat
    have hd' : d ∈ pre ++ g :: post := by
      rw [← hsplit]
      exact hperm.symm.subset hd
    rw [hsplit, List.pairwise_append] at hsorted
    rcases List.mem_append.mp hd' with e | e
    · exact absurd hdsat (h3 d e)
    · rcases List.mem_cons.mp e with e' | e'
      · rw [e']
      · exact (List.pairwise_cons.mp hsorted.2.1).1 d e'

/-- Witness for C22: of the catalog `ex_area_layouts` (areas 12, 4, 12) the view is
"small4", "wide12", "tall12"; the grid of "small4" has four cells and does not satisfy the
counts of `ex_auto_size_ctx`, and the grid returned is the grid of "wide12", the first of the
two layouts of area 12. -/
theorem auto_size_device_grid_fixed_smallest_witness :
    (stable_sort area_cmp ex_area_layouts).map (fun g => g.name) = ["small4", "wide12", "tall12"]
      ∧ ∃ grid, auto_size_device_grid ex_setup_ctx ex_auto_size_ctx 5 ex_area_layouts 1 = .ok grid
          ∧ grid.name = "wide12" ∧ grid.width = 4 ∧ grid.height = 3 := by
  have hb1 : (build_device_grid ex_setup_ctx 5 ⟨.FIXED, 2, 2, "small4", []⟩ 2 2 1).toOption.map
      (fun g => (g.name, g.width, g.height)) = some ("small4", 2, 2) := by decide
  have hb2 : (build_device_grid ex_setup_ctx 5 ⟨.FIXED, 4, 3, "wide12", []⟩ 4 3 1).toOption.map
      (fun g => (g.name, g.width, g.height)) = some ("wide12", 4, 3) := by decide
  cases h1 : build_device_grid ex_setup_ctx 5 ⟨.FIXED, 2, 2, "small4", []⟩ 2 2 1 with
  | error e => rw [h1] at hb1; cases hb1
  | ok g1 =>
    cases h2 : build_device_grid ex_setup_ctx 5 ⟨.FIXED, 4, 3, "wide12", []⟩ 4 3 1 with
    | error e => rw [h2] at hb2; cases hb2
    | ok g2 =>
      rw [h1] at hb1
      rw [h2] at hb2
      simp only [Except.toOption, Option.map_some', Option.some.injEq, Prod.mk.injEq] at hb1 hb2
      have h := (auto_size_device_grid_fixed_smallest ex_setup_ctx ex_auto_size_ctx 5 1
        ex_area_layouts (by decide) (by decide) (by decide)).2.2.2.1
        [⟨.FIXED, 2, 2, "small4", []⟩] ⟨.FIXED, 4, 3, "wide12", []⟩
        [⟨.FIXED, 3, 4, "tall12", []⟩] g2 (by decide)
        (fun d hd => by
          rw [List.mem_singleton] at hd
          subst hd
          refine ⟨g1, h1, ?_⟩
          show decide (12 ≤ g1.width * g1.height) = false
          rw [hb1.2.1, hb1.2.2]
          decide)
        h2 (by
          show decide (12 ≤ g2.width * g2.height) = true
          rw [hb2.2.1, hb2.2.2]
          decide)
      exact ⟨by decide, g2, h, hb2.1, hb2.2.1, hb2.2.2⟩

/-- When some layout of the catalog is large enough for the requested width and height, the
search in a view that holds the layouts of the catalog in any order finds a layout of the
catalog that is at least as wide and as tall as requested. -/
theorem find_in_view_large_enough (grid_layouts view : List t_grid_def) (width height : Nat)
    (hperm : view.Perm grid_layouts)
    (h : ∃ g ∈ grid_layouts, g.width ≥ int_of_size_t width ∧ g.height ≥ int_of_size_t height) :
    ∃ layout ∈ grid_layouts, find_in_view view width height = some layout
      ∧ layout.width ≥ int_of_size_t width ∧ layout.height ≥ int_of_size_t height := by
  unfold find_in_view
  cases hf : view.find?
      (fun grid_def => decide (grid_def.width ≥ int_of_size_t width
        ∧ grid_def.height ≥ int_of_size_t height)) with
  | none =>
    exfalso
    obtain ⟨g, hg, hp⟩ := h
    have := List.find?_eq_none.mp hf g (hperm.symm.subset hg)
    simp only [decide_eq_true_eq] at this
    exact this hp
  | some layout =>
    have hp := List.find?_some hf
    simp only [decide_eq_true_eq] at hp
    exact ⟨layout, hperm.subset (List.mem_of_find?_eq_some hf), rfl, hp⟩

/-- When some layout of the catalog is large enough for the requested width and height, the
layout that `create_device_grid` uses for the name "auto" is a layout of the catalog that
is at least as wide and as tall as requested. -/
theorem find_fixed_layout_large_enough (grid_layouts : List t_grid_def) (width height : Nat)
    (h : ∃ g ∈ grid_layouts, g.width ≥ int_of_size_t width ∧ g.height ≥ int_of_size_t height) :
    ∃ layout ∈ grid_layouts, find_fixed_layout grid_layouts width height = some layout
      ∧ layout.width ≥ int_of_size_t width ∧ layout.height ≥ int_of_size_t height :=
  find_in_view_large_enough grid_layouts (stable_sort sort_cmp grid_layouts) width height
    (List.perm_insertionSort _ _) h

/-- C23 fails on the code. The comparison `sort_cmp` that orders the view compares the
height of one layout with the width of the other, and the layout taken when none is large
enough is the last of the view. For the catalog `ex_tall_low_layouts`, "tall" of 2 by 5
followed by "low" of 2 by 3, and a requested size of 10 by 10, no layout is large enough;
`sort_cmp(low, tall)` is false, the view keeps the catalog order, and the layout used is
"low": the grid returned is 2 by 3, although "tall" is as wide and strictly taller. -/
theorem create_device_grid_auto_not_largest :
    (∀ g ∈ ex_tall_low_layouts, ¬ (g.width ≥ int_of_size_t 10 ∧ g.height ≥ int_of_size_t 10))
      ∧ sort_cmp ⟨.FIXED, 2, 3, "low", []⟩ ⟨.FIXED, 2, 5, "tall", []⟩ = false
      ∧ stable_sort sort_cmp ex_tall_low_layouts = ex_tall_low_layouts
      ∧ find_fixed_layout ex_tall_low_layouts 10 10 = some ⟨.FIXED, 2, 3, "low", []⟩
      ∧ (∃ g ∈ ex_tall_low_layouts, g.name = "tall" ∧ g.width ≥ 2 ∧ g.height > 3)
      ∧ (create_device_grid_dims ex_setup_ctx 5 "auto" ex_tall_low_layouts
            (create_device_grid_auto ex_setup_ctx 5 ex_tall_low_layouts 10 10 1) 1).toOption.map
          (fun g => (g.name, g.width, g.height)) = some ("low", 2, 3) := by
  decide

/-! ## Median move generator -/

theorem bb_incr_x_none (e c b : t_bb) (xo xn : Int) :
    bb_incr_x e c b xo xn = none
      ↔ (xn < xo ∧ xo = c.xmax ∧ e.xmax = 1) ∨ (xn > xo ∧ xo = c.xmin ∧ e.xmin = 1) := by
  unfold bb_incr_x
  split_ifs with h1 h2 h3 h4
  · simp only [true_iff]
    exact Or.inl ⟨h1, h2⟩
  · simp only [false_iff, reduceCtorEq]
    rintro (h | h)
    · exact h2 h.2
    · omega
  · simp only [true_iff]
    exact Or.inr ⟨h3, h4⟩
  · simp only [false_iff, reduceCtorEq]
    rintro (h | h)
    · exact h1 h.1
    · exact h4 h.2
  · simp only [false_iff, reduceCtorEq]
    rintro (h | h)
    · exact h1 h.1
    · exact h3 h.1

theorem bb_incr_y_none (e c b : t_bb) (yo yn : Int) :
    bb_incr_y e c b yo yn = none
      ↔ (yn < yo ∧ yo = c.ymax ∧ e.ymax = 1) ∨ (yn > yo ∧ yo = c.ymin ∧ e.ymin = 1) := by
  unfold bb_incr_y
  split_ifs with h1 h2 h3 h4
  · simp only [true_iff]
    exact Or.inl ⟨h1, h2⟩
  · simp only [false_iff, reduceCtorEq]
    rintro (h | h)
    · exact h2 h.2
    · omega
  · simp only [true_iff]
    exact Or.inr ⟨h3, h4⟩
  · simp only [false_iff, reduceCtorEq]
    rintro (h | h)
    · exact h1 h.1
    · exact h4 h.2
  · simp only [false_iff, reduceCtorEq]
    rintro (h | h)
    · exact h1 h.1
    · exact h3 h.1

theorem bb_incr_x_some (e c b b' : t_bb) (xo xn : Int) (h : bb_incr_x e c b xo xn = some b') :
    b'.ymin = b.ymin ∧ b'.ymax = b.ymax
      ∧ (c.xmin ≤ xo ∧ xo ≤ c.xmax →
          b'.xmin ≤ c.xmin ∧ c.xmax ≤ b'.xmax ∧ b'.xmin ≤ xn ∧ xn ≤ b'.xmax) := by
  unfold bb_incr_x at h
  split_ifs at h <;> cases h <;> refine ⟨rfl, rfl, fun hin => ?_⟩ <;> dsimp only <;> omega

theorem bb_incr_y_some (e c b b' : t_bb) (yo yn : Int) (h : bb_incr_y e c b yo yn = some b') :
    b'.xmin = b.xmin ∧ b'.xmax = b.xmax
      ∧ (c.ymin ≤ yo ∧ yo ≤ c.ymax →
          b'.ymin ≤ c.ymin ∧ c.ymax ≤ b'.ymax ∧ b'.ymin ≤ yn ∧ yn ≤ b'.ymax) := by
  unfold bb_incr_y at h
  split_ifs at h <;> cases h <;> refine ⟨rfl, rfl, fun hin => ?_⟩ <;> dsimp only <;> omega

/-- The incremental update for clipped positions: it fails exactly in the four cases of a
lone pin that leaves its edge, and a box it yields contains the current box and the new
position when the old position lies in the current box. -/
theorem bb_incr_spec (e c b : t_bb) (xo yo xn yn : Int) :
    ((bb_incr e c b xo yo xn yn).1 = false
        ↔ (xn < xo ∧ xo = c.xmax ∧ e.xmax = 1) ∨ (xn > xo ∧ xo = c.xmin ∧ e.xmin = 1)
          ∨ (yn < yo ∧ yo = c.ymax ∧ e.ymax = 1) ∨ (yn > yo ∧ yo = c.ymin ∧ e.ymin = 1))
      ∧ (c.xmin ≤ xo ∧ xo ≤ c.xmax ∧ c.ymin ≤ yo ∧ yo ≤ c.ymax →
        (bb_incr e c b xo yo xn yn).1 = true →
          (bb_incr e c b xo yo xn yn).2.xmin ≤ c.xmin ∧ c.xmax ≤ (bb_incr e c b xo yo xn yn).2.xmax
            ∧ (bb_incr e c b xo yo xn yn).2.ymin ≤ c.ymin
            ∧ c.ymax ≤ (bb_incr e c b xo yo xn yn).2.ymax
            ∧ (bb_incr e c b xo yo xn yn).2.xmin ≤ xn ∧ xn ≤ (bb_incr e c b xo yo xn yn).2.xmax
            ∧ (bb_incr e c b xo yo xn yn).2.ymin ≤ yn
            ∧ yn ≤ (bb_incr e c b xo yo xn yn).2.ymax) := by
  unfold bb_incr
  cases hx : bb_incr_x e c b xo xn with
  | none =>
    have h := (bb_incr_x_none _ _ _ _ _).mp hx
    refine ⟨⟨fun _ => ?_, fun _ => rfl⟩, fun _ h' => Bool.noConfusion h'⟩
    rcases h with h | h
    · exact Or.inl h
    · exact Or.inr (Or.inl h)
  | some bb_x =>
    have hxn : ¬ ((xn < xo ∧ xo = c.xmax ∧ e.xmax = 1) ∨ (xn > xo ∧ xo = c.xmin ∧ e.xmin = 1)) := by
      intro h
      rw [(bb_incr_x_none _ _ b _ _).mpr h] at hx
      cases hx
    obtain ⟨_, _, x3⟩ := bb_incr_x_some _ _ _ _ _ _ hx
    dsimp only
    cases hy : bb_incr_y e c bb_x yo yn with
    | none =>
      have h := (bb_incr_y_none _ _ _ _ _).mp hy
      refine ⟨⟨fun _ => ?_, fun _ => rfl⟩, fun _ h' => Bool.noConfusion h'⟩
      rcases h with h | h
      · exact Or.inr (Or.inr (Or.inl h))
      · exact Or.inr (Or.inr (Or.inr h))
    | some bb_xy =>
      have hyn : ¬ ((yn < yo ∧ yo = c.ymax ∧ e.ymax = 1) ∨ (yn > yo ∧ yo = c.ymin ∧ e.ymin = 1)) := by
        intro h
        rw [(bb_incr_y_none _ _ bb_x _ _).mpr h] at hy
        cases hy
      obtain ⟨y1, y2, y3⟩ := bb_incr_y_some _ _ _ _ _ _ hy
      dsimp only
      refine ⟨⟨fun h => Bool.noConfusion h, ?_⟩, ?_⟩
      · rintro (h | h | h | h)
        · exact absurd (Or.inl h) hxn
        · exact absurd (Or.inr h) hxn
        · exact absurd (Or.inl h) hyn
        · exact absurd (Or.inr h) hyn
      · intro hin _
        have hx' := x3 ⟨hin.1, hin.2.1⟩
        have hy' := y3 ⟨hin.2.2.1, hin.2.2.2⟩
        rw [y1, y2]
        exact ⟨hx'.1, hx'.2.1, hy'.1, hy'.2.1, hx'.2.2.1, hx'.2.2.2, hy'.2.2.1, hy'.2.2.2⟩

theorem get_bb_incrementally_eq (ctx : MedianCtx) (net_id : Nat) (bb_coord_new : t_bb)
    (xold yold xnew ynew : Int) :
    get_bb_incrementally ctx net_id bb_coord_new xold yold xnew ynew
      = bb_incr (ctx.bb_num_on_edges net_id) (ctx.bb_coords net_id) bb_coord_new
          (clip_to_channels xold ctx.grid_width) (clip_to_channels yold ctx.grid_height)
          (clip_to_channels xnew ctx.grid_width) (clip_to_channels ynew ctx.grid_height) :=
  rfl

/-- C28. With the four coordinates clipped as the function clips them,
`get_bb_incrementally` returns false exactly when the pin moves away from a bounding-box
edge it was on and it was the only pin on that edge: xnew < xold with xold == xmax and edge
count 1; xnew > xold with xold == xmin and edge count 1; and the two symmetric cases in y.
Given that the pin's old position, clipped, lies inside the net's current bounding box,
whenever the function returns true the new box contains the net's current box and the
clipped new pin position. A position that the caller has clipped already, as `propose_move`
does, is its own clip. -/
theorem get_bb_incrementally_spec (ctx : MedianCtx) (net_id : Nat) (bb_coord_new : t_bb)
    (xold yold xnew ynew : Int) :
    ((get_bb_incrementally ctx net_id bb_coord_new xold yold xnew ynew).1 = false
        ↔ (clip_to_channels xnew ctx.grid_width < clip_to_channels xold ctx.grid_width
              ∧ clip_to_channels xold ctx.grid_width = (ctx.bb_coords net_id).xmax
              ∧ (ctx.bb_num_on_edges net_id).xmax = 1)
          ∨ (clip_to_channels xnew ctx.grid_width > clip_to_channels xold ctx.grid_width
              ∧ clip_to_channels xold ctx.grid_width = (ctx.bb_coords net_id).xmin
              ∧ (ctx.bb_num_on_edges net_id).xmin = 1)
          ∨ (clip_to_channels ynew ctx.grid_height < clip_to_channels yold ctx.grid_height
              ∧ clip_to_channels yold ctx.grid_height = (ctx.bb_coords net_id).ymax
              ∧ (ctx.bb_num_on_edges net_id).ymax = 1)
          ∨ (clip_to_channels ynew ctx.grid_height > clip_to_channels yold ctx.grid_height
              ∧ clip_to_channels yold ctx.grid_height = (ctx.bb_coords net_id).ymin
              ∧ (ctx.bb_num_on_edges net_id).ymin = 1))
      ∧ ((ctx.bb_coords net_id).xmin ≤ clip_to_channels xold ctx.grid_width
          ∧ clip_to_channels xold ctx.grid_width ≤ (ctx.bb_coords net_id).xmax
          ∧ (ctx.bb_coords net_id).ymin ≤ clip_to_channels yold ctx.grid_height
          ∧ clip_to_channels yold ctx.grid_height ≤ (ctx.bb_coords net_id).ymax →
        (get_bb_incrementally ctx net_id bb_coord_new xold yold xnew ynew).1 = true →
          (get_bb_incrementally ctx net_id bb_coord_new xold yold xnew ynew).2.xmin
              ≤ (ctx.bb_coords net_id).xmin
            ∧ (ctx.bb_coords net_id).xmax
              ≤ (get_bb_incrementally ctx net_id bb_coord_new xold yold xnew ynew).2.xmax
            ∧ (get_bb_incrementally ctx net_id bb_coord_new xold yold xnew ynew).2.ymin
              ≤ (ctx.bb_coords net_id).ymin
            ∧ (ctx.bb_coords net_id).ymax
              ≤ (get_bb_incrementally ctx net_id bb_coord_new xold yold xnew ynew).2.ymax
            ∧ (get_bb_incrementally ctx net_id bb_coord_new xold yold xnew ynew).2.xmin
              ≤ clip_to_channels xnew ctx.grid_width
            ∧ clip_to_channels xnew ctx.grid_width
              ≤ (get_bb_incrementally ctx net_id bb_coord_new xold yold xnew ynew).2.xmax
            ∧ (get_bb_incrementally ctx net_id bb_coord_new xold yold xnew ynew).2.ymin
              ≤ clip_to_channels ynew ctx.grid_height
            ∧ clip_to_channels ynew ctx.grid_height
              ≤ (get_bb_incrementally ctx net_id bb_coord_new xold yold xnew ynew).2.ymax) := by
  rw [get_bb_incrementally_eq]
  exact bb_incr_spec (ctx.bb_num_on_edges net_id) (ctx.bb_coords net_id) bb_coord_new
    (clip_to_channels xold ctx.grid_width) (clip_to_channels yold ctx.grid_height)
    (clip_to_channels xnew ctx.grid_width) (clip_to_channels ynew ctx.grid_height)

theorem clip_to_channels_eq (v : Int) (dim : Nat) (h : dim < 2 ^ 31) :
    clip_to_channels v dim = max (min v ((dim : Int) - 2)) 1 := by
  have e : int_of_size_t (size_t_sub dim 2) = (dim : Int) - 2 := by
    unfold int_of_size_t size_t_sub
    split_ifs <;> omega
  unfold clip_to_channels
  rw [e]

theorem clip_to_channels_mono (a b : Int) (dim : Nat) (h : a ≤ b) :
    clip_to_channels a dim ≤ clip_to_channels b dim := by
  unfold clip_to_channels
  exact max_le_max (min_le_min h (le_refl _)) (le_refl _)

theorem exact_bounding_box_le {locs : List (Int × Int)} {xmin xmax ymin ymax : Int}
    (h : exact_bounding_box locs xmin xmax ymin ymax) : xmin ≤ xmax ∧ ymin ≤ ymax := by
  obtain ⟨h1, ⟨p, hp, e1⟩, _, ⟨q, hq, e2⟩, _⟩ := h
  have := h1 p hp
  have := h1 q hq
  omega

/-- One sink of the loop of `get_bb_from_scratch_excluding_block`. -/
theorem bb_scratch_sink_inv (ctx : MedianCtx) (block_id : Nat) (s : BbScratch)
    (locs : List (Int × Int)) (pin_id : Nat) (h : bb_scratch_inv s locs) :
    bb_scratch_inv (bb_scratch_sink ctx block_id s pin_id)
      (locs ++ ([pin_id].filter (fun pin_id => decide (ctx.pin_block pin_id ≠ block_id))).map
        (fun pin_id => (ctx.pin_x (ctx.pin_block pin_id) (ctx.tile_pin_index pin_id),
                        ctx.pin_y (ctx.pin_block pin_id) (ctx.tile_pin_index pin_id)))) := by
  unfold bb_scratch_sink
  by_cases hb : ctx.pin_block pin_id = block_id
  · simp only [hb, if_true, ne_eq, not_true_eq_false, decide_False, List.filter_cons_of_neg,
      Bool.false_eq_true, not_false_eq_true, List.filter_nil, List.map_nil, List.append_nil]
    exact h
  · have hf : ([pin_id].filter (fun pin_id => decide (ctx.pin_block pin_id ≠ block_id))) = [pin_id] := by
      simp [hb]
    rw [hf, if_neg hb]
    dsimp only [List.map]
    generalize ctx.pin_x (ctx.pin_block pin_id) (ctx.tile_pin_index pin_id) = x
    generalize ctx.pin_y (ctx.pin_block pin_id) (ctx.tile_pin_index pin_id) = y
    have hne : locs ++ [(x, y)] ≠ [] := by simp
    refine ⟨fun e => absurd e hne, fun _ => ?_⟩
    by_cases hfb : s.first_block = true
    · have hl : locs ≠ [] := by
        intro e
        have := (h.1 e).1
        rw [hfb] at this
        cases this
      obtain ⟨_, _, hall, ⟨p1, hp1, e1⟩, ⟨p2, hp2, e2⟩, ⟨p3, hp3, e3⟩, ⟨p4, hp4, e4⟩⟩ := h.2 hl
      have hx := exact_bounding_box_le (h.2 hl).2.2
      rw [if_neg (by simp [hfb])]
      refine ⟨hfb, rfl, ?_, ?_, ?_, ?_, ?_⟩
      · intro p hp
        dsimp only
        rcases List.mem_append.mp hp with hp' | hp'
        · have := hall p hp'
          split_ifs <;> omega
        · rw [List.mem_singleton] at hp'
          subst hp'
          dsimp only
          split_ifs <;> omega
      · dsimp only
        by_cases c : x < s.xmin
        · exact ⟨(x, y), List.mem_append_right _ (List.mem_singleton_self _), by simp [c]⟩
        · exact ⟨p1, List.mem_append_left _ hp1, by simp [c, e1]⟩
      · dsimp only
        by_cases c : x < s.xmin
        · exact ⟨p2, List.mem_append_left _ hp2, by simp [c, e2]⟩
        · by_cases c' : x > s.xmax
          · exact ⟨(x, y), List.mem_append_right _ (List.mem_singleton_self _), by simp [c, c']⟩
          · exact ⟨p2, List.mem_append_left _ hp2, by simp [c, c', e2]⟩
      · dsimp only
        by_cases c : y < s.ymin
        · exact ⟨(x, y), List.mem_append_right _ (List.mem_singleton_self _), by simp [c]⟩
        · exact ⟨p3, List.mem_append_left _ hp3, by simp [c, e3]⟩
      · dsimp only
        by_cases c : y < s.ymin
        · exact ⟨p4, List.mem_append_left _ hp4, by simp [c, e4]⟩
        · by_cases c' : y > s.ymax
          · exact ⟨(x, y), List.mem_append_right _ (List.mem_singleton_self _), by simp [c, c']⟩
          · exact ⟨p4, List.mem_append_left _ hp4, by simp [c, c', e4]⟩
    · have hl : locs = [] := by
        by_contra hl
        exact hfb (h.2 hl).1
      subst hl
      rw [if_pos (by simp [hfb])]
      refine ⟨rfl, rfl, ?_, ?_⟩
      · intro p hp
        simp only [List.nil_append, List.mem_singleton] at hp
        subst hp
        exact ⟨le_refl _, le_refl _, le_refl _, le_refl _⟩
      · exact ⟨⟨(x, y), by simp, rfl⟩, ⟨(x, y), by simp, rfl⟩, ⟨(x, y), by simp, rfl⟩,
          ⟨(x, y), by simp, rfl⟩⟩

/-- The loop over the sinks of `get_bb_from_scratch_excluding_block`. -/
theorem bb_scratch_fold_inv (ctx : MedianCtx) (block_id : Nat) :
    ∀ (sinks : List Nat) (s : BbScratch) (locs : List (Int × Int)), bb_scratch_inv s locs →
      bb_scratch_inv (sinks.foldl (bb_scratch_sink ctx block_id) s)
        (locs ++ (sinks.filter (fun pin_id => decide (ctx.pin_block pin_id ≠ block_id))).map
          (fun pin_id => (ctx.pin_x (ctx.pin_block pin_id) (ctx.tile_pin_index pin_id),
                          ctx.pin_y (ctx.pin_block pin_id) (ctx.tile_pin_index pin_id))))
  | [], s, locs, h => by
    simp only [List.filter_nil, List.map_nil, List.append_nil, List.foldl_nil]
    exact h
  | pin_id :: sinks, s, locs, h => by
    have h1 := bb_scratch_sink_inv ctx block_id s locs pin_id h
    have h2 := bb_scratch_fold_inv ctx block_id sinks _ _ h1
    rw [List.foldl_cons]
    have e : (pin_id :: sinks).filter (fun pin_id => decide (ctx.pin_block pin_id ≠ block_id))
        = [pin_id].filter (fun pin_id => decide (ctx.pin_block pin_id ≠ block_id))
          ++ sinks.filter (fun pin_id => decide (ctx.pin_block pin_id ≠ block_id)) := by
      rw [← List.filter_append]
      rfl
    rw [e, List.map_append, ← List.append_assoc]
    exact h2

/-- The local variables of `get_bb_from_scratch_excluding_block` after the loop, against the
locations of the pins on the other blocks. -/
theorem bb_scratch_scan_inv (ctx : MedianCtx) (net_id block_id : Nat) :
    bb_scratch_inv (bb_scratch_scan ctx net_id block_id) (other_pin_locations ctx net_id block_id) := by
  unfold bb_scratch_scan other_pin_locations
  refine bb_scratch_fold_inv ctx block_id _ _ _ ?_
  unfold bb_scratch_driver
  by_cases hd : ctx.net_driver_block net_id = block_id
  · simp only [hd, ne_eq, not_true_eq_false, if_false]
    exact ⟨fun _ => ⟨rfl, rfl⟩, fun h => absurd rfl h⟩
  · simp only [ne_eq, hd, not_false_eq_true, if_true]
    refine ⟨fun e => absurd e (List.cons_ne_nil _ _), fun _ => ⟨rfl, rfl, ?_, ?_⟩⟩
    · intro p hp
      rw [List.mem_singleton] at hp
      subst hp
      exact ⟨le_refl _, le_refl _, le_refl _, le_refl _⟩
    · exact ⟨⟨_, List.mem_singleton_self _, rfl⟩, ⟨_, List.mem_singleton_self _, rfl⟩,
        ⟨_, List.mem_singleton_self _, rfl⟩, ⟨_, List.mem_singleton_self _, rfl⟩⟩

theorem other_pin_locations_eq_nil (ctx : MedianCtx) (net_id block_id : Nat) :
    other_pin_locations ctx net_id block_id = []
      ↔ ctx.net_driver_block net_id = block_id
        ∧ ∀ pin_id ∈ ctx.net_sinks net_id, ctx.pin_block pin_id = block_id := by
  unfold other_pin_locations
  rw [List.append_eq_nil, List.map_eq_nil_iff, List.filter_eq_nil_iff]
  constructor
  · rintro ⟨h1, h2⟩
    refine ⟨?_, ?_⟩
    · by_contra hd
      rw [if_pos hd] at h1
      cases h1
    · intro pin_id hp
      have := h2 pin_id hp
      simpa using this
  · rintro ⟨h1, h2⟩
    refine ⟨by rw [if_neg (not_not.mpr h1)], ?_⟩
    intro pin_id hp
    simp [h2 pin_id hp]

/-- C25. `get_bb_from_scratch_excluding_block` sets `skip_net` to true exactly when the
net's driver and all of its sinks belong to the excluded block. Otherwise there is a box
(xmin, xmax, ymin, ymax) that is the exact bounding box (minimum and maximum of x and of y)
of the pin locations of all net pins on blocks other than the excluded one, and the box
returned holds each of its coordinates v replaced by max(min(v, grid dimension - 2), 1);
the other fields of `bb_coord_new` stay, and the box returned has xmin <= xmax and
ymin <= ymax. The grid dimensions fit an `int`. -/
theorem get_bb_from_scratch_excluding_block_spec (ctx : MedianCtx) (net_id : Nat)
    (bb_coord_new : t_bb) (block_id : Nat)
    (hW : ctx.grid_width < 2 ^ 31) (hH : ctx.grid_height < 2 ^ 31) :
    ((get_bb_from_scratch_excluding_block ctx net_id bb_coord_new block_id).2 = true
        ↔ ctx.net_driver_block net_id = block_id
          ∧ ∀ pin_id ∈ ctx.net_sinks net_id, ctx.pin_block pin_id = block_id)
      ∧ ((get_bb_from_scratch_excluding_block ctx net_id bb_coord_new block_id).2 = false →
          ∃ xmin xmax ymin ymax : Int,
            exact_bounding_box (other_pin_locations ctx net_id block_id) xmin xmax ymin ymax
              ∧ (get_bb_from_scratch_excluding_block ctx net_id bb_coord_new block_id).1
                = { bb_coord_new with
                    xmin := max (min xmin ((ctx.grid_width : Int) - 2)) 1,
                    ymin := max (min ymin ((ctx.grid_height : Int) - 2)) 1,
                    xmax := max (min xmax ((ctx.grid_width : Int) - 2)) 1,
                    ymax := max (min ymax ((ctx.grid_height : Int) - 2)) 1 }
              ∧ (get_bb_from_scratch_excluding_block ctx net_id bb_coord_new block_id).1.xmin
                ≤ (get_bb_from_scratch_excluding_block ctx net_id bb_coord_new block_id).1.xmax
              ∧ (get_bb_from_scratch_excluding_block ctx net_id bb_coord_new block_id).1.ymin
                ≤ (get_bb_from_scratch_excluding_block ctx net_id bb_coord_new block_id).1.ymax) := by
  have hinv := bb_scratch_scan_inv ctx net_id block_id
  have hres : get_bb_from_scratch_excluding_block ctx net_id bb_coord_new block_id
      = ({ bb_coord_new with
            xmin := clip_to_channels (bb_scratch_scan ctx net_id block_id).xmin ctx.grid_width,
            ymin := clip_to_channels (bb_scratch_scan ctx net_id block_id).ymin ctx.grid_height,
            xmax := clip_to_channels (bb_scratch_scan ctx net_id block_id).xmax ctx.grid_width,
            ymax := clip_to_channels (bb_scratch_scan ctx net_id block_id).ymax ctx.grid_height },
         (bb_scratch_scan ctx net_id block_id).skip_net) := rfl
  rw [hres]
  generalize bb_scratch_scan ctx net_id block_id = s at hinv
  refine ⟨?_, ?_⟩
  · rw [← other_pin_locations_eq_nil]
    constructor
    · intro hs
      by_contra hl
      have := (hinv.2 hl).2.1
      rw [this] at hs
      cases hs
    · intro hl
      exact (hinv.1 hl).2
  · intro hs
    have hl : other_pin_locations ctx net_id block_id ≠ [] := by
      intro hl
      have := (hinv.1 hl).2
      rw [this] at hs
      cases hs
    obtain ⟨_, _, hbox⟩ := hinv.2 hl
    obtain ⟨hx, hy⟩ := exact_bounding_box_le hbox
    refine ⟨s.xmin, s.xmax, s.ymin, s.ymax, hbox, ?_, clip_to_channels_mono _ _ _ hx,
      clip_to_channels_mono _ _ _ hy⟩
    rw [clip_to_channels_eq _ _ hW, clip_to_channels_eq _ _ hW, clip_to_channels_eq _ _ hH,
      clip_to_channels_eq _ _ hH]

/-- Witness for C25 on `ex_median_ctx` with block 0 excluded: net 0 has its driver at (1, 3)
and a sink at (4, 1) on other blocks, and the box is 1..4 by 1..3; net 1 has every pin on
block 0 and is skipped. -/
theorem get_bb_from_scratch_excluding_block_spec_witness :
    (get_bb_from_scratch_excluding_block ex_median_ctx 1 ⟨OPEN, OPEN, OPEN, OPEN, OPEN, OPEN⟩ 0).2 = true
      ∧ get_bb_from_scratch_excluding_block ex_median_ctx 0 ⟨OPEN, OPEN, OPEN, OPEN, OPEN, OPEN⟩ 0
        = (⟨1, 4, 1, 3, OPEN, OPEN⟩, false) :=
  ⟨((get_bb_from_scratch_excluding_block_spec ex_median_ctx 1 ⟨OPEN, OPEN, OPEN, OPEN, OPEN, OPEN⟩ 0
      (by decide) (by decide)).1).mpr (by decide), by decide⟩

/-- Witness for C28 on `ex_median_ctx`: for net 2 the pin of block 0 at (2, 2), inside the
stored box 1..4 by 1..4, is moved to (1, 1); the function returns true and the new box holds
the stored box and (1, 1). -/
theorem get_bb_incrementally_spec_witness :
    (get_bb_incrementally ex_median_ctx 2 ⟨OPEN, OPEN, OPEN, OPEN, OPEN, OPEN⟩ 2 2 1 1).1 = true
      ∧ (get_bb_incrementally ex_median_ctx 2 ⟨OPEN, OPEN, OPEN, OPEN, OPEN, OPEN⟩ 2 2 1 1).2.xmin ≤ 1
      ∧ 4 ≤ (get_bb_incrementally ex_median_ctx 2 ⟨OPEN, OPEN, OPEN, OPEN, OPEN, OPEN⟩ 2 2 1 1).2.xmax :=
  have h := (get_bb_incrementally_spec ex_median_ctx 2 ⟨OPEN, OPEN, OPEN, OPEN, OPEN, OPEN⟩
    2 2 1 1).2 (by decide) (by decide)
  ⟨by decide, h.1, h.2.1⟩

theorem tdiv_two_between (a b : Int) (h : a ≤ b) : a ≤ (a + b).tdiv 2 ∧ (a + b).tdiv 2 ≤ b := by
  rcases le_or_lt 0 (a + b) with h0 | h0
  · rw [Int.tdiv_eq_ediv h0 (by decide)]
    omega
  · have e : (a + b).tdiv 2 = -((-(a + b)) / 2) := by
      rw [← Int.tdiv_eq_ediv (by omega) (by decide), Int.neg_tdiv, neg_neg]
    rw [e]
    omega

theorem MedianScan.push_X_coord (s : MedianScan) (c : t_bb) :
    (s.push c).X_coord = s.X_coord ++ [c.xmin, c.xmax] := rfl

theorem MedianScan.push_Y_coord (s : MedianScan) (c : t_bb) :
    (s.push c).Y_coord = s.Y_coord ++ [c.ymin, c.ymax] := rfl

/-- One pin of the loop of `propose_move`: the coordinate vectors stay or receive the two x
and the two y coordinates of a box. -/
theorem propose_move_pin_vectors (ctx : MedianCtx) (b_from : Nat) (s s' : MedianScan) (pin_id : Nat)
    (h : propose_move_pin ctx b_from s pin_id = some s') :
    (s'.X_coord = s.X_coord ∧ s'.Y_coord = s.Y_coord)
      ∨ ∃ c : t_bb, s'.X_coord = s.X_coord ++ [c.xmin, c.xmax]
          ∧ s'.Y_coord = s.Y_coord ++ [c.ymin, c.ymax] := by
  unfold propose_move_pin at h
  dsimp only at h
  split_ifs at h
  all_goals
    rw [Option.some.injEq] at h
    rw [← h]
    first
      | exact Or.inr ⟨_, MedianScan.push_X_coord s _, MedianScan.push_Y_coord s _⟩
      | (with_reducible exact Or.inl ⟨rfl, rfl⟩)

/-- The coordinate vectors of `propose_move` after the loop over the pins have the same
even length, at most two entries per pin. -/
theorem propose_move_coords_lengths (ctx : MedianCtx) (b_from : Nat) :
    ∀ (pins : List Nat) (s s' : MedianScan),
      pins.foldlM (propose_move_pin ctx b_from) s = some s' →
      s.X_coord.length = s.Y_coord.length → 2 ∣ s.X_coord.length →
      s'.X_coord.length = s'.Y_coord.length ∧ 2 ∣ s'.X_coord.length
        ∧ s'.X_coord.length ≤ s.X_coord.length + 2 * pins.length
  | [], s, s', h, h1, h2 => by
    cases h
    exact ⟨h1, h2, by simp⟩
  | pin_id :: pins, s, s', h, h1, h2 => by
    rw [List.foldlM_cons] at h
    obtain ⟨s1, hs1, hrest⟩ := Option.bind_eq_some.mp h
    have hstep := propose_move_pin_vectors ctx b_from s s1 pin_id hs1
    have hs1len : s1.X_coord.length = s1.Y_coord.length ∧ 2 ∣ s1.X_coord.length
        ∧ s1.X_coord.length ≤ s.X_coord.length + 2 := by
      rcases hstep with ⟨e1, e2⟩ | ⟨c, e1, e2⟩
      · rw [e1, e2]
        exact ⟨h1, h2, by omega⟩
      · rw [e1, e2]
        simp only [List.length_append, List.length_cons, List.length_nil]
        exact ⟨by omega, by omega, by omega⟩
    obtain ⟨i1, i2, i3⟩ := propose_move_coords_lengths ctx b_from pins s1 s' hrest hs1len.1 hs1len.2.1
    refine ⟨i1, i2, ?_⟩
    rw [List.length_cons]
    omega

/-- The median region of two vectors of the same even length that are not empty: both
median indices are inside the sorted vectors, and the limits are in order with the median
point between them. -/
theorem median_region_spec (X Y : List Int) (hlen : X.length = Y.length) (heven : 2 ∣ X.length)
    (hne : X ≠ []) (hsz : X.length < 2 ^ 64) :
    2 ≤ X.length ∧ median_index X.length + 1 < X.length
      ∧ ∃ r, median_region X Y = some r
          ∧ r.X_coord = X.insertionSort (fun a b => a ≤ b)
          ∧ r.Y_coord = Y.insertionSort (fun a b => a ≤ b)
          ∧ r.X_coord.get? (median_index X.length) = some r.xmin
          ∧ r.X_coord.get? (median_index X.length + 1) = some r.xmax
          ∧ r.Y_coord.get? (median_index Y.length) = some r.ymin
          ∧ r.Y_coord.get? (median_index Y.length + 1) = some r.ymax
          ∧ r.xmin ≤ r.xmax ∧ r.ymin ≤ r.ymax
          ∧ r.xmin ≤ r.median_x ∧ r.median_x ≤ r.xmax
          ∧ r.ymin ≤ r.median_y ∧ r.median_y ≤ r.ymax := by
  have hpos : 0 < X.length := List.length_pos.mpr hne
  have h2 : 2 ≤ X.length := by omega
  have hidx : median_index X.length + 1 < X.length := by
    unfold median_index size_t_sub
    omega
  have hidy : median_index Y.length + 1 < Y.length := by
    rw [← hlen]
    exact hidx
  have hxl : (X.insertionSort (fun a b => a ≤ b)).length = X.length := List.length_insertionSort _ _
  have hyl : (Y.insertionSort (fun a b => a ≤ b)).length = Y.length := List.length_insertionSort _ _
  have hxs : (X.insertionSort (fun a b => a ≤ b)).Sorted (fun a b => a ≤ b) :=
    List.sorted_insertionSort _ _
  have hys : (Y.insertionSort (fun a b => a ≤ b)).Sorted (fun a b => a ≤ b) :=
    List.sorted_insertionSort _ _
  have gx1 := List.get?_eq_get (l := X.insertionSort (fun a b => a ≤ b))
    (n := median_index X.length) (by rw [hxl]; omega)
  have gx2 := List.get?_eq_get (l := X.insertionSort (fun a b => a ≤ b))
    (n := median_index X.length + 1) (by rw [hxl]; omega)
  have gy1 := List.get?_eq_get (l := Y.insertionSort (fun a b => a ≤ b))
    (n := median_index Y.length) (by rw [hyl]; omega)
  have gy2 := List.get?_eq_get (l := Y.insertionSort (fun a b => a ≤ b))
    (n := median_index Y.length + 1) (by rw [hyl]; omega)
  have hx12 := hxs.rel_get_of_lt
    (a := ⟨median_index X.length, by rw [hxl]; omega⟩)
    (b := ⟨median_index X.length + 1, by rw [hxl]; omega⟩) (Nat.lt_succ_self _)
  have hy12 := hys.rel_get_of_lt
    (a := ⟨median_index Y.length, by rw [hyl]; omega⟩)
    (b := ⟨median_index Y.length + 1, by rw [hyl]; omega⟩) (Nat.lt_succ_self _)
  refine ⟨h2, hidx, ?_⟩
  unfold median_region
  dsimp only
  rw [hxl, hyl, gx1, gx2, gy1, gy2]
  refine ⟨_, rfl, rfl, rfl, gx1, gx2, gy1, gy2, hx12, hy12, ?_⟩
  exact ⟨(tdiv_two_between _ _ hx12).1, (tdiv_two_between _ _ hx12).2,
    (tdiv_two_between _ _ hy12).1, (tdiv_two_between _ _ hy12).2⟩

/-- C29. In `MedianMoveGenerator::propose_move`, after the loop over the pins of a block
with fewer than 2^62 pins, `X_coord` and `Y_coord` have the same even length. Whenever the
move is not aborted because the coordinate lists are empty, that length n is at least 2,
both median indices floor((n-1)/2) and floor((n-1)/2) + 1 are within the bounds of the
sorted lists, the median region is computed (no index falls outside a vector), and the
limits satisfy xmin <= xmax and ymin <= ymax with the median point between them. -/
theorem propose_move_median_in_bounds (ctx : MedianCtx) (b_from : Nat) (s : MedianScan)
    (hpins : (ctx.block_pins b_from).length < 2 ^ 62)
    (hs : propose_move_coords ctx b_from = some s) :
    s.X_coord.length = s.Y_coord.length ∧ 2 ∣ s.X_coord.length
      ∧ (¬ (s.X_coord = [] ∨ s.Y_coord = []) →
          2 ≤ s.X_coord.length
            ∧ median_index s.X_coord.length + 1 < s.X_coord.length
            ∧ median_index s.Y_coord.length + 1 < s.Y_coord.length
            ∧ ∃ r, propose_move_median ctx b_from = .region r
                ∧ r.X_coord.length = s.X_coord.length ∧ r.Y_coord.length = s.Y_coord.length
                ∧ r.X_coord.get? (median_index s.X_coord.length) = some r.xmin
                ∧ r.X_coord.get? (median_index s.X_coord.length + 1) = some r.xmax
                ∧ r.Y_coord.get? (median_index s.Y_coord.length) = some r.ymin
                ∧ r.Y_coord.get? (median_index s.Y_coord.length + 1) = some r.ymax
                ∧ r.xmin ≤ r.xmax ∧ r.ymin ≤ r.ymax
                ∧ r.xmin ≤ r.median_x ∧ r.median_x ≤ r.xmax
                ∧ r.ymin ≤ r.median_y ∧ r.median_y ≤ r.ymax) := by
  have hs' := hs
  unfold propose_move_coords at hs'
  obtain ⟨l1, l2, l3⟩ := propose_move_coords_lengths ctx b_from _ _ s hs' rfl ⟨0, rfl⟩
  have hsz : s.X_coord.length < 2 ^ 64 := by
    simp only [List.length_nil] at l3
    omega
  refine ⟨l1, l2, ?_⟩
  intro hne
  have hx : s.X_coord ≠ [] := fun e => hne (Or.inl e)
  obtain ⟨m1, m2, r, m3, m4, m5, m6⟩ := median_region_spec s.X_coord s.Y_coord l1 l2 hx hsz
  refine ⟨m1, m2, by rw [← l1]; exact m2, r, ?_, ?_, ?_, m6⟩
  · unfold propose_move_median
    rw [hs]
    dsimp only
    rw [if_neg hne, m3]
  · rw [m4]
    exact List.length_insertionSort _ _
  · rw [m5]
    exact List.length_insertionSort _ _

/-- Witness for C29 on `ex_median_ctx`: for block 0 the vectors are [1, 4, 1, 4] and
[1, 3, 1, 4]; the median indices of four entries are 1 and 2, and the limits are 1..4 in x
and 1..3 in y with the median point (2, 2). -/
theorem propose_move_median_in_bounds_witness :
    propose_move_coords ex_median_ctx 0
        = some ⟨⟨1, 4, 1, 4, OPEN, OPEN⟩, [1, 4, 1, 4], [1, 3, 1, 4]⟩
      ∧ median_index 4 = 1
      ∧ propose_move_median ex_median_ctx 0 = .region ⟨[1, 1, 4, 4], [1, 1, 3, 4], 1, 4, 1, 3, 2, 2⟩
      ∧ ∃ r, propose_move_median ex_median_ctx 0 = .region r ∧ r.xmin ≤ r.xmax ∧ r.ymin ≤ r.ymax := by
  have hs : propose_move_coords ex_median_ctx 0
      = some ⟨⟨1, 4, 1, 4, OPEN, OPEN⟩, [1, 4, 1, 4], [1, 3, 1, 4]⟩ := by decide
  obtain ⟨_, _, h⟩ := propose_move_median_in_bounds ex_median_ctx 0 _ (by decide) hs
  obtain ⟨_, _, _, r, hr, _, _, _, _, _, _, h1, h2, _⟩ := h (by decide)
  exact ⟨hs, by decide, by decide, r, hr, h1, h2⟩

/-! ## Validity of the grid under construction -/

/-- One cell of the rip-up loops, for a grid whose cells are those of `s0` or ripped up: the
cell is ripped up exactly when it matched in `s0`, and no other cell changes. -/
theorem rip_up_cell_step (empty_type : t_physical_tile_type)
    (he : empty_type.width = 1 ∧ empty_type.height = 1) (s0 s : GridBuildState) (r : TypeLocation)
    (c' : Nat × Nat) (hr : r.type ≠ some empty_type)
    (hF1 : ∀ c : Nat × Nat, s.grid c.1 c.2 = s0.grid c.1 c.2
      ∨ s.grid c.1 c.2 = ripped_tile empty_type (s0.grid c.1 c.2)) :
    ∃ s', rip_up_cell (some empty_type) r s c' = .ok s'
      ∧ (∀ c : Nat × Nat, s'.grid c.1 c.2 = s.grid c.1 c.2
          ∨ (c = c' ∧ rip_up_matches s0 r c'
              ∧ s'.grid c.1 c.2 = ripped_tile empty_type (s0.grid c.1 c.2)))
      ∧ (rip_up_matches s0 r c' →
          s'.grid c'.1 c'.2 = ripped_tile empty_type (s0.grid c'.1 c'.2)) := by
  have hnot : s.grid c'.1 c'.2 = ripped_tile empty_type (s0.grid c'.1 c'.2) →
      ¬ (s.grid c'.1 c'.2).type = r.type := by
    intro e ht
    rw [e] at ht
    exact hr ht.symm
  unfold rip_up_cell
  dsimp only
  by_cases hm : (s.grid c'.1 c'.2).type = r.type ∧ (s.grid c'.1 c'.2).width_offset = size_t_sub c'.1 r.x
      ∧ (s.grid c'.1 c'.2).height_offset = size_t_sub c'.2 r.y
  · rw [if_pos hm]
    simp only [Option.map_some', he.1, he.2, not_true_eq_false, if_false]
    have hs0 : s.grid c'.1 c'.2 = s0.grid c'.1 c'.2 := by
      rcases hF1 c' with e | e
      · exact e
      · exact absurd hm.1 (hnot e)
    have hm0 : rip_up_matches s0 r c' := by
      unfold rip_up_matches
      rw [← hs0]
      exact hm
    refine ⟨_, rfl, ?_, ?_⟩
    · intro c
      dsimp only
      by_cases hc : c.1 = c'.1 ∧ c.2 = c'.2
      · rw [if_pos hc]
        have e : c = c' := Prod.ext hc.1 hc.2
        subst e
        refine Or.inr ⟨rfl, hm0, ?_⟩
        rw [hs0]
        rfl
      · rw [if_neg hc]
        exact Or.inl rfl
    · intro _
      dsimp only
      rw [if_pos ⟨rfl, rfl⟩, hs0]
      rfl
  · rw [if_neg hm]
    refine ⟨s, rfl, fun c => Or.inl rfl, ?_⟩
    intro hm0
    rcases hF1 c' with e | e
    · exfalso
      apply hm
      rw [e]
      exact hm0
    · exact e

/-- The rip-up loops of `set_grid_block_type`, from the marked grid `s0`: a cell is left as
it was or ripped up; a cell that changed matched one of the roots; and every cell of the
footprint of a root that matched the root is ripped up. -/
theorem rip_up_roots_spec (empty_type : t_physical_tile_type)
    (he : empty_type.width = 1 ∧ empty_type.height = 1) (roots : List TypeLocation)
    (hroots : ∀ r ∈ roots, r.type ≠ some empty_type) (s0 s' : GridBuildState)
    (h : roots.foldlM (rip_up_root (some empty_type)) s0 = .ok s') :
    (∀ c : Nat × Nat, s'.grid c.1 c.2 = s0.grid c.1 c.2
        ∨ s'.grid c.1 c.2 = ripped_tile empty_type (s0.grid c.1 c.2))
      ∧ (∀ c : Nat × Nat, s'.grid c.1 c.2 ≠ s0.grid c.1 c.2 →
          ∃ r ∈ roots, c ∈ r.footprint ∧ rip_up_matches s0 r c)
      ∧ ∀ r ∈ roots, ∀ c ∈ r.footprint, rip_up_matches s0 r c →
          s'.grid c.1 c.2 = ripped_tile empty_type (s0.grid c.1 c.2) := by
  have hout := foldlM_except_prefix (rip_up_root (some empty_type)) (fun r => r ∈ roots)
    (fun pre s =>
      (∀ c : Nat × Nat, s.grid c.1 c.2 = s0.grid c.1 c.2
          ∨ s.grid c.1 c.2 = ripped_tile empty_type (s0.grid c.1 c.2))
        ∧ (∀ c : Nat × Nat, s.grid c.1 c.2 ≠ s0.grid c.1 c.2 →
            ∃ r ∈ roots, c ∈ r.footprint ∧ rip_up_matches s0 r c)
        ∧ ∀ r ∈ pre, ∀ c ∈ r.footprint, rip_up_matches s0 r c →
            s.grid c.1 c.2 = ripped_tile empty_type (s0.grid c.1 c.2))
    ?_ roots [] s0 s' (fun r hr => hr)
    ⟨fun c => Or.inl rfl, fun c hc => absurd rfl hc, fun r hr => absurd hr (List.not_mem_nil r)⟩ h
  · rw [List.nil_append] at hout
    exact hout
  · intro pre r s s1 hr hs hstep
    have hin := foldlM_except_prefix (rip_up_cell (some empty_type) r) (fun c => c ∈ r.footprint)
      (fun cpre s =>
        (∀ c : Nat × Nat, s.grid c.1 c.2 = s0.grid c.1 c.2
            ∨ s.grid c.1 c.2 = ripped_tile empty_type (s0.grid c.1 c.2))
          ∧ (∀ c : Nat × Nat, s.grid c.1 c.2 ≠ s0.grid c.1 c.2 →
              ∃ r ∈ roots, c ∈ r.footprint ∧ rip_up_matches s0 r c)
          ∧ (∀ r0 ∈ pre, ∀ c ∈ r0.footprint, rip_up_matches s0 r0 c →
              s.grid c.1 c.2 = ripped_tile empty_type (s0.grid c.1 c.2))
          ∧ ∀ c ∈ cpre, rip_up_matches s0 r c →
              s.grid c.1 c.2 = ripped_tile empty_type (s0.grid c.1 c.2))
      ?_ r.footprint [] s s1 (fun c hc => hc)
      ⟨hs.1, hs.2.1, hs.2.2, fun c hc => absurd hc (List.not_mem_nil c)⟩ hstep
    · rw [List.nil_append] at hin
      refine ⟨hin.1, hin.2.1, ?_⟩
      intro r0 hr0 c hc hm
      rcases List.mem_append.mp hr0 with h0 | h0
      · exact hin.2.2.1 r0 h0 c hc hm
      · rw [List.mem_singleton] at h0
        subst h0
        exact hin.2.2.2 c hc hm
    · intro cpre c' t t1 hc' ht hst
      obtain ⟨t2, e2, a, b⟩ := rip_up_cell_step empty_type he s0 t r c' (hroots r hr) ht.1
      rw [e2] at hst
      cases hst
      have hkeep : ∀ c : Nat × Nat, t.grid c.1 c.2 = ripped_tile empty_type (s0.grid c.1 c.2) →
          t1.grid c.1 c.2 = ripped_tile empty_type (s0.grid c.1 c.2) := by
        intro c e
        rcases a c with a1 | a1
        · rw [a1]
          exact e
        · exact a1.2.2
      refine ⟨?_, ?_, ?_, ?_⟩
      · intro c
        rcases a c with a1 | a1
        · rw [a1]
          exact ht.1 c
        · exact Or.inr a1.2.2
      · intro c hne
        rcases a c with a1 | a1
        · rw [a1] at hne
          exact ht.2.1 c hne
        · rw [a1.1]
          exact ⟨r, hr, hc', a1.2.1⟩
      · intro r0 hr0 c hc hm
        exact hkeep c (ht.2.2.1 r0 hr0 c hc hm)
      · intro c hc hm
        rcases List.mem_append.mp hc with h0 | h0
        · exact hkeep c (ht.2.2.2 c h0 hm)
        · rw [List.mem_singleton] at h0
          subst h0
          exact b hm

theorem mem_insert_root {roots : List TypeLocation} {q r : TypeLocation}
    (h : r ∈ insert_root roots q) : r ∈ roots ∨ r = q := by
  unfold insert_root at h
  split at h
  · exact Or.inl h
  · rcases List.mem_append.mp h with h' | h'
    · exact Or.inl h'
    · exact Or.inr (List.mem_singleton.mp h')

theorem insert_root_subset {roots : List TypeLocation} {q r : TypeLocation} (h : r ∈ roots) :
    r ∈ insert_root roots q := by
  unfold insert_root
  split
  · exact h
  · exact List.mem_append_left _ h

theorem insert_root_has (roots : List TypeLocation) (q : TypeLocation) :
    ∃ r ∈ insert_root roots q, r.x = q.x ∧ r.y = q.y ∧ r.type = q.type := by
  unfold insert_root
  split
  · rename_i hany
    obtain ⟨r, hr, hp⟩ := List.any_eq_true.mp hany
    simp only [decide_eq_true_eq] at hp
    exact ⟨r, hr, hp⟩
  · exact ⟨q, List.mem_append_right _ (List.mem_singleton_self _), rfl, rfl, rfl⟩

/-- One cell of the marking loops: the other cells stay, and the roots recorded are the
former ones and, for a cell that held a block, the root of that block. -/
theorem mark_cell_step (empty_type : Option t_physical_tile_type) (priority : Int)
    (type : t_physical_tile_type) (x_root y_root : Nat) (meta : Option Nat)
    (grid_width grid_height : Nat) (acc acc1 : GridBuildState × List TypeLocation) (a : Nat × Nat)
    (h : mark_cell empty_type priority type x_root y_root meta grid_width grid_height acc a
      = .ok acc1) :
    (∀ c : Nat × Nat, c ≠ a → acc1.1.grid c.1 c.2 = acc.1.grid c.1 c.2)
      ∧ (∀ r ∈ acc1.2, r ∈ acc.2
          ∨ ((acc.1.grid a.1 a.2).type ≠ none ∧ (acc.1.grid a.1 a.2).type ≠ empty_type
              ∧ r.x = size_t_sub a.1 (acc.1.grid a.1 a.2).width_offset
              ∧ r.y = size_t_sub a.2 (acc.1.grid a.1 a.2).height_offset
              ∧ r.type = (acc.1.grid a.1 a.2).type))
      ∧ (∀ r ∈ acc.2, r ∈ acc1.2)
      ∧ ((acc.1.grid a.1 a.2).type ≠ none → (acc.1.grid a.1 a.2).type ≠ empty_type →
          ∃ r ∈ acc1.2, r.x = size_t_sub a.1 (acc.1.grid a.1 a.2).width_offset
            ∧ r.y = size_t_sub a.2 (acc.1.grid a.1 a.2).height_offset
            ∧ r.type = (acc.1.grid a.1 a.2).type) := by
  unfold mark_cell at h
  dsimp only at h
  split at h
  · cases h
  · split at h
    · cases h
    · split at h
      · cases h
      · cases h
        refine ⟨?_, ?_, ?_, ?_⟩
        · intro c hc
          have hne : ¬ (c.1 = a.1 ∧ c.2 = a.2) := fun h' => hc (Prod.ext h'.1 h'.2)
          dsimp only
          rw [if_neg hne]
        · intro r hr
          dsimp only at hr
          split at hr
          · rename_i hcond
            rcases mem_insert_root hr with h' | h'
            · exact Or.inl h'
            · subst h'
              exact Or.inr ⟨hcond.1, hcond.2, rfl, rfl, rfl⟩
          · exact Or.inl hr
        · intro r hr
          dsimp only
          split
          · exact insert_root_subset hr
          · exact hr
        · intro h1 h2
          dsimp only
          rw [if_pos ⟨h1, h2⟩]
          exact insert_root_has _ _

/-- The roots recorded by the marking loops of `set_grid_block_type` over distinct cells:
every root recorded is a former one or the root of a block found at a visited cell, and the
root of every block found at a visited cell is recorded. -/
theorem mark_cells_roots (empty_type : Option t_physical_tile_type) (priority : Int)
    (type : t_physical_tile_type) (x_root y_root : Nat) (meta : Option Nat)
    (grid_width grid_height : Nat) :
    ∀ (l : List (Nat × Nat)) (acc acc' : GridBuildState × List TypeLocation), l.Nodup →
      l.foldlM (mark_cell empty_type priority type x_root y_root meta grid_width grid_height) acc
        = .ok acc' →
      (∀ r ∈ acc'.2, r ∈ acc.2
          ∨ ∃ c ∈ l, (acc.1.grid c.1 c.2).type ≠ none ∧ (acc.1.grid c.1 c.2).type ≠ empty_type
              ∧ r.x = size_t_sub c.1 (acc.1.grid c.1 c.2).width_offset
              ∧ r.y = size_t_sub c.2 (acc.1.grid c.1 c.2).height_offset
              ∧ r.type = (acc.1.grid c.1 c.2).type)
        ∧ (∀ r ∈ acc.2, r ∈ acc'.2)
        ∧ ∀ c ∈ l, (acc.1.grid c.1 c.2).type ≠ none → (acc.1.grid c.1 c.2).type ≠ empty_type →
            ∃ r ∈ acc'.2, r.x = size_t_sub c.1 (acc.1.grid c.1 c.2).width_offset
              ∧ r.y = size_t_sub c.2 (acc.1.grid c.1 c.2).height_offset
              ∧ r.type = (acc.1.grid c.1 c.2).type
  | [], acc, acc', _, h => by
    cases h
    exact ⟨fun r hr => Or.inl hr, fun r hr => hr, fun c hc => absurd hc (List.not_mem_nil c)⟩
  | a :: as, acc, acc', hnd, h => by
    obtain ⟨hna, hnd'⟩ := List.nodup_cons.mp hnd
    rw [List.foldlM_cons] at h
    cases h1 : mark_cell empty_type priority type x_root y_root meta grid_width grid_height acc a with
    | error e => rw [h1] at h; cases h
    | ok acc1 =>
      rw [h1] at h
      obtain ⟨m1, m2, m3, m4⟩ := mark_cell_step empty_type priority type x_root y_root meta
        grid_width grid_height acc acc1 a h1
      obtain ⟨i1, i2, i3⟩ := mark_cells_roots empty_type priority type x_root y_root meta
        grid_width grid_height as acc1 acc' hnd' h
      have hsame : ∀ c ∈ as, acc1.1.grid c.1 c.2 = acc.1.grid c.1 c.2 :=
        fun c hc => m1 c (fun e => hna (e ▸ hc))
      refine ⟨?_, fun r hr => i2 r (m3 r hr), ?_⟩
      · intro r hr
        rcases i1 r hr with h' | ⟨c, hc, k⟩
        · rcases m2 r h' with h'' | h''
          · exact Or.inl h''
          · exact Or.inr ⟨a, List.mem_cons_self _ _, h''⟩
        · rw [hsame c hc] at k
          exact Or.inr ⟨c, List.mem_cons_of_mem _ hc, k⟩
      · intro c hc k1 k2
        rcases List.mem_cons.mp hc with e | e
        · subst e
          obtain ⟨r, hr, k⟩ := m4 k1 k2
          exact ⟨r, i2 r hr, k⟩
        · have := i3 c e (by rw [hsame c e]; exact k1) (by rw [hsame c e]; exact k2)
          rw [hsame c e] at this
          exact this

theorem footprint_cells_ge {i j w h : Nat} {c : Nat × Nat} (hc : c ∈ footprint_cells i j w h) :
    i ≤ c.1 ∧ c.1 < 2 ^ 64 ∧ j ≤ c.2 ∧ c.2 < 2 ^ 64 ∧ (i, j) ∈ footprint_cells i j w h := by
  unfold footprint_cells at hc ⊢
  obtain ⟨x, hx, hcx⟩ := List.mem_flatMap.mp hc
  obtain ⟨y, hy, e⟩ := List.mem_map.mp hcx
  subst e
  rw [List.mem_range'_1] at hx hy
  have hxm : (i + w) % 2 ^ 64 < 2 ^ 64 := Nat.mod_lt _ (by decide)
  have hym : (j + h) % 2 ^ 64 < 2 ^ 64 := Nat.mod_lt _ (by decide)
  refine ⟨hx.1, by dsimp only; omega, hy.1, by dsimp only; omega, ?_⟩
  exact List.mem_flatMap.mpr ⟨i, List.mem_range'_1.mpr (by omega),
    List.mem_map.mpr ⟨j, List.mem_range'_1.mpr (by omega), rfl⟩⟩

theorem size_t_sub_of_le {a b : Nat} (h : b ≤ a) (ha : a < 2 ^ 64) : size_t_sub a b = a - b := by
  unfold size_t_sub
  omega

theorem footprint_of_root {r : TypeLocation} {i j : Nat} {t : t_physical_tile_type}
    (hx : r.x = i) (hy : r.y = j) (ht : r.type = some t) :
    r.footprint = footprint_cells i j t.width t.height := by
  unfold TypeLocation.footprint
  rw [hx, hy, ht]
  rfl

theorem foldlM_unit_ok_iff {ι ε : Type} (f : ι → Except ε Unit) (l : List ι) :
    l.foldlM (fun _ c => f c) () = .ok () ↔ ∀ c ∈ l, f c = .ok () := by
  induction l with
  | nil => exact ⟨fun _ c hc => absurd hc (List.not_mem_nil c), fun _ => rfl⟩
  | cons a as ih =>
    rw [List.foldlM_cons]
    cases ha : f a with
    | error e =>
      constructor
      · intro h
        cases h
      · intro h
        have := h a (List.mem_cons_self _ _)
        rw [ha] at this
        cases this
    | ok u =>
      constructor
      · intro h c hc
        rcases List.mem_cons.mp hc with e | hc'
        · rw [e, ha]
        · exact ih.mp h c hc'
      · intro h
        exact ih.mpr (fun c hc => h c (List.mem_cons_of_mem _ hc))

theorem check_grid_covered_ok_iff (grid : t_device_grid) (type : t_physical_tile_type) (i j : Nat)
    (c : Nat × Nat) :
    check_grid_covered grid type i j c = .ok ()
      ↔ (grid.tiles c.1 c.2).type = some type ∧ (grid.tiles c.1 c.2).width_offset = size_t_sub c.1 i
        ∧ (grid.tiles c.1 c.2).height_offset = size_t_sub c.2 j := by
  unfold check_grid_covered
  dsimp only
  constructor
  · intro h
    split_ifs at h with h1 h2 h3
    exact ⟨not_not.mp h1, not_not.mp h2, not_not.mp h3⟩
  · rintro ⟨h1, h2, h3⟩
    rw [if_neg (not_not.mpr h1), if_neg (not_not.mpr h2), if_neg (not_not.mpr h3)]

theorem check_grid_cell_ok_iff (name : String) (grid_width grid_height : Nat) (s : GridBuildState)
    (i j : Nat) :
    check_grid_cell ⟨name, grid_width, grid_height, s.grid⟩ (i, j) = .ok () ↔ grid_cell_valid s i j := by
  unfold check_grid_cell grid_cell_valid
  dsimp only
  cases ht : (s.grid i j).type with
  | none =>
    dsimp only
    constructor
    · intro h
      cases h
    · rintro ⟨t, h, _⟩
      cases h
  | some type =>
    dsimp only
    have hcov : (footprint_cells i j type.width type.height).foldlM
          (fun _ c => check_grid_covered ⟨name, grid_width, grid_height, s.grid⟩ type i j c) ()
          = .ok ()
        ↔ ∀ c ∈ footprint_cells i j type.width type.height,
            (s.grid c.1 c.2).type = some type ∧ (s.grid c.1 c.2).width_offset = c.1 - i
              ∧ (s.grid c.1 c.2).height_offset = c.2 - j := by
      rw [foldlM_unit_ok_iff]
      refine forall_congr' (fun c => forall_congr' (fun hc => ?_))
      obtain ⟨a1, a2, a3, a4, _⟩ := footprint_cells_ge hc
      rw [check_grid_covered_ok_iff, size_t_sub_of_le a1 a2, size_t_sub_of_le a3 a4]
    constructor
    · intro h
      split_ifs at h with h1 h2 h3
      · exact ⟨type, rfl, by omega, by omega, fun _ => hcov.mp h⟩
      · exact ⟨type, rfl, by omega, by omega, fun h' => absurd h' h3⟩
    · rintro ⟨t, e, v2, v3, v4⟩
      cases e
      rw [if_neg (by omega), if_neg (by omega)]
      split_ifs with h3
      · exact hcov.mpr (v4 h3)
      · rfl

/-- The function `CheckGrid` accepts the tiles of a construction state exactly when the
state is valid in the sense of `grid_valid`. -/
theorem CheckGrid_ok_iff_grid_valid (name : String) (grid_width grid_height : Nat)
    (s : GridBuildState) :
    CheckGrid ⟨name, grid_width, grid_height, s.grid⟩ = .ok () ↔ grid_valid grid_width grid_height s := by
  unfold CheckGrid grid_valid
  dsimp only
  rw [foldlM_unit_ok_iff]
  constructor
  · intro h i j hi hj
    rw [← check_grid_cell_ok_iff name grid_width grid_height s i j]
    exact h (i, j) (List.mem_flatMap.mpr ⟨i, List.mem_range.mpr hi,
      List.mem_map.mpr ⟨j, List.mem_range.mpr hj, rfl⟩⟩)
  · intro h c hc
    obtain ⟨i, hi, hc'⟩ := List.mem_flatMap.mp hc
    obtain ⟨j, hj, e⟩ := List.mem_map.mp hc'
    subst e
    rw [check_grid_cell_ok_iff]
    exact h i j (List.mem_range.mp hi) (List.mem_range.mp hj)

/-- The tiles stay valid through `set_grid_block_type`, and the blocks that the new block
overwrote in part are ripped up to the empty type with zero offsets. -/
theorem set_grid_block_type_valid_core (empty_type : t_physical_tile_type)
    (he : empty_type.width = 1 ∧ empty_type.height = 1) (grid_width grid_height : Nat)
    (priority : Int) (type : t_physical_tile_type) (x_root y_root : Nat) (meta : Option Nat)
    (s : GridBuildState) (hw : 0 < type.width) (hh : 0 < type.height)
    (hx : x_root + type.width ≤ grid_width) (hy : y_root + type.height ≤ grid_height)
    (hW : grid_width < 2 ^ 31) (hH : grid_height < 2 ^ 31)
    (hvalid : grid_valid grid_width grid_height s) :
    ∃ s', set_grid_block_type (some empty_type) grid_width grid_height priority type x_root y_root
        meta s = .ok s'
      ∧ grid_valid grid_width grid_height s'
      ∧ ((∀ c ∈ footprint_cells x_root y_root type.width type.height,
            s.grid_priorities c.1 c.2 ≤ priority) →
          ∀ i j (t : t_physical_tile_type), i < grid_width → j < grid_height →
            (s.grid i j).type = some t → (s.grid i j).width_offset = 0 →
            (s.grid i j).height_offset = 0 → t ≠ empty_type →
            (∃ c ∈ footprint_cells i j t.width t.height,
              c ∈ footprint_cells x_root y_root type.width type.height) →
            ∀ c ∈ footprint_cells i j t.width t.height,
              c ∉ footprint_cells x_root y_root type.width type.height →
              s'.grid c.1 c.2 = ripped_tile empty_type (s.grid c.1 c.2)) := by
  have hmem : ∀ c, c ∈ footprint_cells x_root y_root type.width type.height
      ↔ (x_root ≤ c.1 ∧ c.1 < x_root + type.width) ∧ (y_root ≤ c.2 ∧ c.2 < y_root + type.height) :=
    fun c => mem_footprint_cells (by omega) (by omega)
  obtain ⟨s', hcall⟩ := set_grid_block_type_ok empty_type he grid_width grid_height priority type
    x_root y_root meta s hw hh hx hy hW hH
  refine ⟨s', hcall, ?_⟩
  unfold set_grid_block_type at hcall
  dsimp only at hcall
  cases hm : max_priority s (footprint_cells x_root y_root type.width type.height) with
  | none => rw [hm] at hcall; cases hcall
  | some m =>
    rw [hm] at hcall
    dsimp only at hcall
    by_cases hp : priority < m
    · rw [if_pos hp] at hcall
      cases hcall
      refine ⟨hvalid, ?_⟩
      intro hprio
      exact absurd (max_priority_le hm hprio) (by omega)
    · rw [if_neg hp] at hcall
      have hge := max_priority_ge hm
      obtain ⟨marked, hmark, g1, g2, _⟩ := mark_cells_spec (some empty_type) priority type x_root
        y_root meta grid_width grid_height (fun _ => True)
        (footprint_cells x_root y_root type.width type.height) (s, [])
        (nodup_footprint_cells _ _ _ _)
        (fun c hc => by
          have hc' := (hmem c).mp hc
          exact ⟨by omega, by omega, Int.le_trans (hge c hc) (Int.not_lt.mp hp), fun _ => trivial⟩)
        (fun _ _ => trivial)
      rw [hmark] at hcall
      obtain ⟨r1, _, r3⟩ := mark_cells_roots (some empty_type) priority type x_root y_root meta
        grid_width grid_height _ (s, []) marked (nodup_footprint_cells _ _ _ _) hmark
      have hroots : ∀ r ∈ marked.2, r.type ≠ some empty_type := by
        intro r hr
        rcases r1 r hr with h' | ⟨c, _, _, k2, _, _, k5⟩
        · exact absurd h' (List.not_mem_nil r)
        · rw [k5]
          exact k2
      obtain ⟨f1, f2, f3⟩ := rip_up_roots_spec empty_type he marked.2 hroots marked.1 s' hcall
      have hG1 : ∀ c ∈ footprint_cells x_root y_root type.width type.height,
          marked.1.grid c.1 c.2 = ⟨some type, c.1 - x_root, c.2 - y_root, meta⟩ := by
        intro c hc
        have hc' := (hmem c).mp hc
        rw [(g1 c hc).1, size_t_sub_of_le hc'.1.1 (by omega), size_t_sub_of_le hc'.2.1 (by omega)]
      have hG2 : ∀ c, c ∉ footprint_cells x_root y_root type.width type.height →
          marked.1.grid c.1 c.2 = s.grid c.1 c.2 := fun c hc => (g2 c hc).1
      /- a root recorded for a cell of an old block rooted at (i, j) rips the root cell up -/
      have hrip : ∀ (i j : Nat) (t : t_physical_tile_type) (r : TypeLocation), r ∈ marked.2 →
          r.x = i → r.y = j → r.type = some t →
          (i, j) ∈ footprint_cells i j t.width t.height → i < 2 ^ 64 → j < 2 ^ 64 →
          (marked.1.grid i j).type = some t → (marked.1.grid i j).width_offset = 0 →
          (marked.1.grid i j).height_offset = 0 →
          s'.grid i j = ripped_tile empty_type (marked.1.grid i j) := by
        intro i j t r hr e1 e2 e3 hroot hi hj k1 k2 k3
        refine f3 r hr (i, j) (by rw [footprint_of_root e1 e2 e3]; exact hroot) ?_
        unfold rip_up_matches
        dsimp only
        rw [k1, k2, k3, e1, e2, e3, size_t_sub_of_le (Nat.le_refl _) hi,
          size_t_sub_of_le (Nat.le_refl _) hj]
        simp
      /- a cell that matches a recorded root points to that root -/
      have hpoint : ∀ (r : TypeLocation) (c : Nat × Nat) (i j : Nat), c ∈ r.footprint →
          i ≤ c.1 → j ≤ c.2 → size_t_sub c.1 r.x = c.1 - i → size_t_sub c.2 r.y = c.2 - j →
          r.x = i ∧ r.y = j := by
        intro r c i j hc hi hj e1 e2
        unfold TypeLocation.footprint at hc
        obtain ⟨a1, a2, a3, a4, _⟩ := footprint_cells_ge hc
        rw [size_t_sub_of_le a1 a2] at e1
        rw [size_t_sub_of_le a3 a4] at e2
        omega
      refine ⟨?_, ?_⟩
      · intro i j hi hj
        by_cases hfin : s'.grid i j = marked.1.grid i j
        · by_cases hF : (i, j) ∈ footprint_cells x_root y_root type.width type.height
          · have hF' := (hmem (i, j)).mp hF
            dsimp only at hF'
            have hGij := hG1 (i, j) hF
            dsimp only at hGij
            refine ⟨type, by rw [hfin, hGij], by rw [hfin, hGij]; dsimp only; omega,
              by rw [hfin, hGij]; dsimp only; omega, ?_⟩
            rw [hfin, hGij]
            dsimp only
            intro hoff c hc
            have ei : i = x_root := by omega
            have ej : j = y_root := by omega
            subst ei ej
            have hfc : s'.grid c.1 c.2 = marked.1.grid c.1 c.2 := by
              by_contra hne
              obtain ⟨r, hr, hcr, hmr⟩ := f2 c hne
              unfold rip_up_matches at hmr
              rw [hG1 c hc] at hmr
              dsimp only at hmr
              have hc' := (hmem c).mp hc
              obtain ⟨p1, p2⟩ := hpoint r c i j hcr hc'.1.1 hc'.2.1 hmr.2.1.symm hmr.2.2.symm
              have := hrip i j type r hr p1 p2 hmr.1.symm hF (by omega) (by omega)
                (by rw [hGij]) (by rw [hGij]; dsimp only; omega) (by rw [hGij]; dsimp only; omega)
              rw [hfin, hGij] at this
              have ht : some type = some empty_type := congrArg t_grid_tile.type this
              exact hroots r hr (by rw [← hmr.1]; exact ht)
            rw [hfc, hG1 c hc]
            exact ⟨rfl, rfl, rfl⟩
          · have hGij := hG2 (i, j) hF
            dsimp only at hGij
            obtain ⟨t, v1, v2, v3, v4⟩ := hvalid i j hi hj
            refine ⟨t, by rw [hfin, hGij]; exact v1, by rw [hfin, hGij]; exact v2,
              by rw [hfin, hGij]; exact v3, ?_⟩
            rw [hfin, hGij]
            intro hoff c hc
            have hold := v4 hoff c hc
            obtain ⟨a1, a2, a3, a4, hroot⟩ := footprint_cells_ge hc
            /- the old root at (i, j) has not been ripped up -/
            have hnorip : ∀ r ∈ marked.2, ¬ (r.x = i ∧ r.y = j ∧ r.type = some t) := by
              rintro r hr ⟨e1, e2, e3⟩
              have := hrip i j t r hr e1 e2 e3 hroot (by omega) (by omega)
                (by rw [hGij]; exact v1) (by rw [hGij]; exact hoff.1) (by rw [hGij]; exact hoff.2)
              rw [hfin] at this
              have ht : (marked.1.grid i j).type = some empty_type :=
                (congrArg t_grid_tile.type this).trans rfl
              rw [hGij, v1] at ht
              exact hroots r hr (by rw [e3]; exact ht)
            have hcF : c ∉ footprint_cells x_root y_root type.width type.height := by
              intro hcF
              by_cases hte : t = empty_type
              · rw [hte, he.1, he.2] at hc
                have hc1 : (i ≤ c.1 ∧ c.1 < i + 1) ∧ (j ≤ c.2 ∧ c.2 < j + 1) :=
                  (mem_footprint_cells (by omega) (by omega)).mp hc
                have : c = (i, j) := Prod.ext (by dsimp only; omega) (by dsimp only; omega)
                rw [this] at hcF
                exact hF hcF
              · obtain ⟨r, hr, k1, k2, k3⟩ := r3 c hcF (by dsimp only; rw [hold.1]; simp)
                  (by dsimp only; rw [hold.1]; intro e; exact hte (Option.some.inj e))
                dsimp only at k1 k2 k3
                rw [hold.2.1, size_t_sub_of_le (Nat.sub_le _ _) a2] at k1
                rw [hold.2.2, size_t_sub_of_le (Nat.sub_le _ _) a4] at k2
                rw [hold.1] at k3
                exact hnorip r hr ⟨by omega, by omega, k3⟩
            have hfc : s'.grid c.1 c.2 = marked.1.grid c.1 c.2 := by
              by_contra hne
              obtain ⟨r, hr, hcr, hmr⟩ := f2 c hne
              unfold rip_up_matches at hmr
              rw [hG2 c hcF, hold.1, hold.2.1, hold.2.2] at hmr
              obtain ⟨p1, p2⟩ := hpoint r c i j hcr a1 a3 hmr.2.1.symm hmr.2.2.symm
              exact hnorip r hr ⟨p1, p2, hmr.1.symm⟩
            rw [hfc, hG2 c hcF]
            exact hold
        · have hrip' : s'.grid i j = ripped_tile empty_type (marked.1.grid i j) := by
            rcases f1 (i, j) with e | e
            · exact absurd e hfin
            · exact e
          refine ⟨empty_type, by rw [hrip']; rfl, by rw [hrip']; unfold ripped_tile; dsimp only; omega,
            by rw [hrip']; unfold ripped_tile; dsimp only; omega, ?_⟩
          intro _ c hc
          rw [he.1, he.2] at hc
          have hc1 : (i ≤ c.1 ∧ c.1 < i + 1) ∧ (j ≤ c.2 ∧ c.2 < j + 1) :=
            (mem_footprint_cells (by omega) (by omega)).mp hc
          have : c = (i, j) := Prod.ext (by dsimp only; omega) (by dsimp only; omega)
          subst this
          dsimp only
          rw [hrip']
          exact ⟨rfl, by unfold ripped_tile; dsimp only; omega, by unfold ripped_tile; dsimp only; omega⟩
      · intro _ i j t hi hj k1 k2 k3 hte ⟨c0, hc0, hc0F⟩ c hc hcF
        obtain ⟨t', v1, _, _, v4⟩ := hvalid i j hi hj
        rw [k1] at v1
        cases v1
        have hold0 := v4 ⟨k2, k3⟩ c0 hc0
        have hold := v4 ⟨k2, k3⟩ c hc
        obtain ⟨a1, a2, a3, a4, _⟩ := footprint_cells_ge hc0
        obtain ⟨b1, b2, b3, b4, _⟩ := footprint_cells_ge hc
        obtain ⟨r, hr, m1, m2, m3⟩ := r3 c0 hc0F (by dsimp only; rw [hold0.1]; simp)
          (by dsimp only; rw [hold0.1]; intro e; exact hte (Option.some.inj e))
        dsimp only at m1 m2 m3
        rw [hold0.2.1, size_t_sub_of_le (Nat.sub_le _ _) a2] at m1
        rw [hold0.2.2, size_t_sub_of_le (Nat.sub_le _ _) a4] at m2
        rw [hold0.1] at m3
        have ex : r.x = i := by omega
        have ey : r.y = j := by omega
        have := f3 r hr c (by rw [footprint_of_root ex ey m3]; exact hc) (by
          unfold rip_up_matches
          rw [hG2 c hcF, hold.1, hold.2.1, hold.2.2, m3, ex, ey, size_t_sub_of_le b1 b2,
            size_t_sub_of_le b3 b4]
          exact ⟨rfl, rfl, rfl⟩)
        rw [this, hG2 c hcF]

/-- C26. `set_grid_block_type` preserves the grid validity that `CheckGrid` checks. If
before the call every cell of the grid has a non-null type with width_offset < type.width
and height_offset < type.height and every root cell's footprint cells carry the root's type
and the matching offsets (`grid_valid`), and the new block's footprint lies inside the grid,
then the call returns, the same holds after the call, and `CheckGrid` accepts the tiles.
When the call does not leave the grid alone for a lower priority, every previously placed
block, of another type than the empty one, that the new block overwrote in part is ripped
up: its cells outside the new footprint hold the empty type with zero offsets. The empty
tile is one cell, as the code asserts, and the dimensions are positive and fit an `int`. -/
theorem set_grid_block_type_preserves_validity (empty_type : t_physical_tile_type)
    (he : empty_type.width = 1 ∧ empty_type.height = 1) (grid_width grid_height : Nat)
    (priority : Int) (type : t_physical_tile_type) (x_root y_root : Nat) (meta : Option Nat)
    (s : GridBuildState) (hw : 0 < type.width) (hh : 0 < type.height)
    (hx : x_root + type.width ≤ grid_width) (hy : y_root + type.height ≤ grid_height)
    (hW : grid_width < 2 ^ 31) (hH : grid_height < 2 ^ 31)
    (hvalid : grid_valid grid_width grid_height s) :
    ∃ s', set_grid_block_type (some empty_type) grid_width grid_height priority type x_root y_root
        meta s = .ok s'
      ∧ grid_valid grid_width grid_height s'
      ∧ (∀ name, CheckGrid ⟨name, grid_width, grid_height, s'.grid⟩ = .ok ())
      ∧ ((∀ c ∈ footprint_cells x_root y_root type.width type.height,
            s.grid_priorities c.1 c.2 ≤ priority) →
          ∀ i j (t : t_physical_tile_type), i < grid_width → j < grid_height →
            (s.grid i j).type = some t → (s.grid i j).width_offset = 0 →
            (s.grid i j).height_offset = 0 → t ≠ empty_type →
            (∃ c ∈ footprint_cells i j t.width t.height,
              c ∈ footprint_cells x_root y_root type.width type.height) →
            ∀ c ∈ footprint_cells i j t.width t.height,
              c ∉ footprint_cells x_root y_root type.width type.height →
              s'.grid c.1 c.2 = ripped_tile empty_type (s.grid c.1 c.2)) := by
  obtain ⟨s', h1, h2, h3⟩ := set_grid_block_type_valid_core empty_type he grid_width grid_height
    priority type x_root y_root meta s hw hh hx hy hW hH hvalid
  exact ⟨s', h1, h2, fun name => (CheckGrid_ok_iff_grid_valid name grid_width grid_height s').mpr h2,
    h3⟩

theorem ex_wide_device_valid : grid_valid 3 1 ex_wide_device := by
  refine (CheckGrid_ok_iff_grid_valid "" 3 1 ex_wide_device).mp ?_
  have h : (CheckGrid ⟨"", 3, 1, ex_wide_device.grid⟩).toOption = some () := by decide
  cases hc : CheckGrid ⟨"", 3, 1, ex_wide_device.grid⟩ with
  | error e => rw [hc] at h; cases h
  | ok u => rfl

/-- Witness for C26: on `ex_wide_device`, valid with its "wide" block over (0, 0) and
(1, 0), a "clb" of priority 2 is placed at (1, 0). -/
theorem set_grid_block_type_preserves_validity_witness :
    grid_valid 3 1 ex_wide_device
      ∧ ∃ s', set_grid_block_type (some ex_empty_tile) 3 1 2 ex_clb_tile 1 0 none ex_wide_device
          = .ok s'
        ∧ grid_valid 3 1 s'
        ∧ (∀ name, CheckGrid ⟨name, 3, 1, s'.grid⟩ = .ok ())
        ∧ ((∀ c ∈ footprint_cells 1 0 ex_clb_tile.width ex_clb_tile.height,
              ex_wide_device.grid_priorities c.1 c.2 ≤ 2) →
            ∀ i j (t : t_physical_tile_type), i < 3 → j < 1 →
              (ex_wide_device.grid i j).type = some t → (ex_wide_device.grid i j).width_offset = 0 →
              (ex_wide_device.grid i j).height_offset = 0 → t ≠ ex_empty_tile →
              (∃ c ∈ footprint_cells i j t.width t.height,
                c ∈ footprint_cells 1 0 ex_clb_tile.width ex_clb_tile.height) →
              ∀ c ∈ footprint_cells i j t.width t.height,
                c ∉ footprint_cells 1 0 ex_clb_tile.width ex_clb_tile.height →
                s'.grid c.1 c.2 = ripped_tile ex_empty_tile (ex_wide_device.grid c.1 c.2)) :=
  ⟨ex_wide_device_valid,
    set_grid_block_type_preserves_validity ex_empty_tile ⟨rfl, rfl⟩ 3 1 2 ex_clb_tile 1 0 none
      ex_wide_device (by decide) (by decide) (by decide) (by decide) (by decide) (by decide)
      ex_wide_device_valid⟩

/-- The run of the witness for C26: the "wide" block is ripped up at (0, 0), the "clb" takes
(1, 0), and the result passes `CheckGrid`. -/
theorem set_grid_block_type_rip_up_run :
    (set_grid_block_type (some ex_empty_tile) 3 1 2 ex_clb_tile 1 0 none ex_wide_device).toOption.map
        (fun s => ((List.range 3).map (fun x => ((s.grid x 0).type, (s.grid x 0).width_offset)),
          (CheckGrid ⟨"", 3, 1, s.grid⟩).toOption))
      = some ([(some ex_empty_tile, 0), (some ex_clb_tile, 0), (some ex_empty_tile, 0)], some ()) := by
  set_option maxRecDepth 100000 in decide

/-! ## The tiles with many pins -/

theorem node_at_ex_fanin_graph_pin (k x0 i : Nat) (h : i < k) :
    node_at (ex_fanin_graph k x0) (i + 1) = ex_fanin_ipin x0 i := by
  unfold node_at ex_fanin_graph
  simp [List.getD_eq_getElem?_getD, List.getElem?_map, List.getElem?_range h]

theorem filter_eq_self_of_forall {α : Type} (p : α → Bool) (l : List α) (h : ∀ a ∈ l, p a = true) :
    l.filter p = l :=
  List.filter_eq_self.mpr h

theorem map_succ_range (k d : Nat) : (List.range k).map (fun i => i + d) = List.range' d k := by
  rw [List.range'_eq_map_range]
  exact List.map_congr_left (fun i _ => Nat.add_comm i d)

theorem sink_ipins_ex_fanin_graph (k x0 : Nat) :
    sink_ipins (ex_fanin_graph k x0) 0 x0 0 (x0 + 1) 0 = List.range' 1 k := by
  have hsrc : fan_in_sources (ex_fanin_graph k x0) 0 = List.range' 1 k := by
    unfold fan_in_sources ex_fanin_graph
    dsimp only
    rw [filter_eq_self_of_forall _ _ (fun e he => by
      obtain ⟨i, _, rfl⟩ := List.mem_map.mp he
      simp), List.map_map]
    exact map_succ_range k 1
  unfold sink_ipins
  rw [hsrc, filter_eq_self_of_forall _ _ (fun pin hp => by
    rw [List.mem_range'_1] at hp
    obtain ⟨i, rfl⟩ : ∃ i, pin = i + 1 := ⟨pin - 1, by omega⟩
    rw [node_at_ex_fanin_graph_pin k x0 i (by omega)]
    simp [ex_fanin_ipin])]
  exact (List.nodup_range' 1 k).dedup

theorem map_eq_replicate_of_forall {α β : Type} (f : α → β) (b : β) (l : List α)
    (h : ∀ a ∈ l, f a = b) : l.map f = List.replicate l.length b := by
  induction l with
  | nil => rfl
  | cons a as ih =>
    rw [List.map_cons, h a (List.mem_cons_self _ _),
      ih (fun x hx => h x (List.mem_cons_of_mem _ hx)), List.length_cons, List.replicate_succ]

theorem ex_fanin_graph_coords (k x0 : Nat) :
    (List.range' 1 k).map (fun pin => (node_at (ex_fanin_graph k x0) pin).xlow)
        = List.replicate k (x0 + 1)
      ∧ (List.range' 1 k).map (fun pin => (node_at (ex_fanin_graph k x0) pin).ylow)
        = List.replicate k 0 := by
  have hp : ∀ pin ∈ List.range' 1 k, node_at (ex_fanin_graph k x0) pin = ex_fanin_ipin x0 (pin - 1) := by
    intro pin hp
    rw [List.mem_range'_1] at hp
    obtain ⟨i, rfl⟩ : ∃ i, pin = i + 1 := ⟨pin - 1, by omega⟩
    exact node_at_ex_fanin_graph_pin k x0 i (by omega)
  constructor
  · have := map_eq_replicate_of_forall (fun pin => (node_at (ex_fanin_graph k x0) pin).xlow) (x0 + 1)
      (List.range' 1 k) (fun pin h => by dsimp only; rw [hp pin h]; rfl)
    rw [List.length_range'] at this
    exact this
  · have := map_eq_replicate_of_forall (fun pin => (node_at (ex_fanin_graph k x0) pin).ylow) 0
      (List.range' 1 k) (fun pin h => by dsimp only; rw [hp pin h]; rfl)
    rw [List.length_range'] at this
    exact this

theorem float_avg_far_pins : float_avg (List.replicate 1400 24575) = 24576 := by
  decide!

theorem float_avg_replicate_zero (k : Nat) : float_avg (List.replicate k 0) = 0 := by
  unfold float_avg round_double_div
  rw [float_accumulate_exact _ (by simp), if_pos (Or.inl (by simp))]

theorem replicate_ne_nil {α : Type} (k : Nat) (a : α) (hk : 0 < k) : List.replicate k a ≠ [] := by
  intro e
  have := congrArg List.length e
  rw [List.length_replicate, List.length_nil] at this
  omega

theorem sum_replicate_nat (k a : Nat) : (List.replicate k a).sum = k * a := by
  rw [List.sum_replicate, smul_eq_mul]

/-- The first node of the loop of `set_sink_locs`: after the whole run the node 0 and the
index cells that hold it are as the first run of the loop body leaves them. -/
theorem set_sink_locs_first_node (st : RRBuildState) (grid : DeviceGrid) (h : 0 < st.nodes.length) :
    node_at (set_sink_locs st grid) 0
        = node_at (set_sink_locs_node grid { st := st, physical_type_offsets := fun _ _ => none } 0).st 0
      ∧ ∀ (t : t_rr_type) (la i j : Nat) (sd : e_side) (p : Nat),
          (set_sink_locs st grid).node_lookup t la i j sd p = some 0
            ↔ (set_sink_locs_node grid { st := st, physical_type_offsets := fun _ _ => none }
                0).st.node_lookup t la i j sd p = some 0 := by
  have hrun : set_sink_locs st grid
      = ((List.range' 1 (st.nodes.length - 0 - 1)).foldl (set_sink_locs_node grid)
          (set_sink_locs_node grid { st := st, physical_type_offsets := fun _ _ => none } 0)).st := by
    unfold set_sink_locs
    rw [range_split st.nodes.length 0 h, List.range_zero, List.nil_append, List.foldl_cons]
  rw [hrun]
  exact foldl_set_sink_locs_node_other grid 0 _
    (fun m hm => by
      have := (List.mem_range'_1.mp hm).1
      omega) _

/-- The computed branch of the loop body on the graph of one tile with `k` pins on its
second cell. -/
theorem set_sink_locs_node_ex_fanin_graph (grid : DeviceGrid) (k x0 : Nat) (hk : 0 < k)
    (hx : x0 + 1 < 2 ^ 15) :
    node_at (set_sink_locs_node grid
        { st := ex_fanin_graph k x0, physical_type_offsets := fun _ _ => none } 0).st 0
        = { ex_fanin_sink k x0 with
            xlow := float_avg (List.replicate k (x0 + 1)), ylow := 0,
            xhigh := float_avg (List.replicate k (x0 + 1)), yhigh := 0 }
      ∧ (set_sink_locs_node grid
          { st := ex_fanin_graph k x0, physical_type_offsets := fun _ _ => none } 0).st.node_lookup
        = remove_old_indices (ex_fanin_graph k x0).node_lookup 0 0 x0 0 (x0 + 1) 0
            (float_avg (List.replicate k (x0 + 1))) 0 0
      ∧ (set_sink_locs_node grid
          { st := ex_fanin_graph k x0, physical_type_offsets := fun _ _ => none }
          0).physical_type_offsets (grid.get_physical_type ⟨x0, 0, 0⟩) 0
        = some (size_t_sub (float_avg (List.replicate k (x0 + 1))) x0, 0) := by
  have hne : List.range' 1 k ≠ [] := by
    intro e
    have := congrArg List.length e
    rw [List.length_range'] at this
    simp at this
    omega
  have hlen : 0 < (ex_fanin_graph k x0).nodes.length := by
    unfold ex_fanin_graph
    simp
  obtain ⟨c1, c2⟩ := set_sink_locs_node_computed grid
    { st := ex_fanin_graph k x0, physical_type_offsets := fun _ _ => none } 0 (ex_fanin_sink k x0)
    (List.range' 1 k) hlen rfl rfl (Or.inl (Nat.lt_succ_self x0)) hx
    (show (0 : Nat) < 2 ^ 15 by decide) rfl
    (sink_ipins_ex_fanin_graph k x0) hne
  obtain ⟨m1, _⟩ := set_sink_locs_node_computed_memo grid
    { st := ex_fanin_graph k x0, physical_type_offsets := fun _ _ => none } 0 (ex_fanin_sink k x0)
    (List.range' 1 k) rfl rfl (Or.inl (Nat.lt_succ_self x0)) hx
    (show (0 : Nat) < 2 ^ 15 by decide) rfl
    (sink_ipins_ex_fanin_graph k x0) hne
  obtain ⟨ex, ey⟩ := ex_fanin_graph_coords k x0
  have ex' : (List.range' 1 k).map (fun pin =>
      (node_at ({ st := ex_fanin_graph k x0, physical_type_offsets := fun _ _ => none }
        : SinkLocState).st pin).xlow) = List.replicate k (x0 + 1) := ex
  have ey' : (List.range' 1 k).map (fun pin =>
      (node_at ({ st := ex_fanin_graph k x0, physical_type_offsets := fun _ _ => none }
        : SinkLocState).st pin).ylow) = List.replicate k 0 := ey
  rw [ex', ey', float_avg_replicate_zero] at c1 c2 m1
  refine ⟨c1, c2, ?_⟩
  have hz : size_t_sub 0 (ex_fanin_sink k x0).ylow = 0 := by
    show size_t_sub 0 0 = 0
    decide
  rw [hz] at m1
  exact m1

/-- On the graph of one tile the removal loops leave no entry of the sink when the location
lies beyond the tile. -/
theorem ex_fanin_graph_entries_removed (k x0 x_avg : Nat) (hx : x0 + 1 < x_avg) (i j : Nat) :
    remove_old_indices (ex_fanin_graph k x0).node_lookup 0 0 x0 0 (x0 + 1) 0 x_avg 0 0 .SINK 0 i j
      SIDES_0 0 ≠ some 0 := by
  intro h1
  obtain ⟨hA, hB⟩ := remove_old_indices_lookup (ex_fanin_graph k x0).node_lookup 0 0 x0 0
    (x0 + 1) 0 x_avg 0 0 .SINK 0 i j SIDES_0 0
  by_cases hc : (t_rr_type.SINK = .SINK ∧ 0 = 0 ∧ x0 ≤ i ∧ i ≤ x0 + 1 ∧ 0 ≤ j ∧ j ≤ 0
      ∧ ¬ (i = x_avg ∧ j = 0) ∧ SIDES_0 = SIDES_0 ∧ 0 = 0)
      ∧ (ex_fanin_graph k x0).node_lookup .SINK 0 i j SIDES_0 0 = some 0
  · rw [hA hc] at h1
    cases h1
  · rw [hB hc] at h1
    apply hc
    refine ⟨?_, h1⟩
    have h2 : (i = x0 ∨ i = x0 + 1) ∧ j = 0 := by
      unfold ex_fanin_graph at h1
      simp only [true_and, and_true] at h1
      split_ifs at h1 with h2 h3
      · exact h2
      · exact absurd h3.1 (fun e => by cases e)
    refine ⟨rfl, rfl, ?_, ?_, ?_, ?_, ?_, rfl, rfl⟩ <;> omega

/-- The run of `set_sink_locs` on the graph of one tile with `k` pins on its second cell,
for the value `x_avg` that the code computes from the x coordinates of the pins: the sink
is moved to (x_avg, 0) and the offset from the tile origin is memoized; when `x_avg` lies
beyond the tile, no index entry of the sink is left. -/
theorem set_sink_locs_ex_fanin_graph (grid : DeviceGrid) (k x0 x_avg : Nat) (hk : 0 < k)
    (hx : x0 + 1 < 2 ^ 15) (hf : float_avg (List.replicate k (x0 + 1)) = x_avg) :
    node_at (set_sink_locs_node grid
        { st := ex_fanin_graph k x0, physical_type_offsets := fun _ _ => none } 0).st 0
        = { ex_fanin_sink k x0 with xlow := x_avg, ylow := 0, xhigh := x_avg, yhigh := 0 }
      ∧ node_at (set_sink_locs (ex_fanin_graph k x0) grid) 0
        = { ex_fanin_sink k x0 with xlow := x_avg, ylow := 0, xhigh := x_avg, yhigh := 0 }
      ∧ (set_sink_locs_node grid
          { st := ex_fanin_graph k x0, physical_type_offsets := fun _ _ => none }
          0).physical_type_offsets (grid.get_physical_type ⟨x0, 0, 0⟩) 0
        = some (size_t_sub x_avg x0, 0)
      ∧ (x0 + 1 < x_avg → ∀ (i j : Nat) (side : e_side),
          (set_sink_locs (ex_fanin_graph k x0) grid).node_lookup.find_node 0 i j .SINK 0 side
            ≠ some 0) := by
  obtain ⟨c1, c2, m1⟩ := set_sink_locs_node_ex_fanin_graph grid k x0 hk hx
  rw [hf] at c1 c2 m1
  have hlen : 0 < (ex_fanin_graph k x0).nodes.length := by
    unfold ex_fanin_graph
    simp
  obtain ⟨r1, r2⟩ := set_sink_locs_first_node (ex_fanin_graph k x0) grid hlen
  refine ⟨c1, r1.trans c1, m1, ?_⟩
  intro hbeyond i j side
  unfold RRSpatialLookup.find_node
  simp only [reduceCtorEq, or_self, if_false]
  intro hsome
  have h1 := (r2 .SINK 0 i j SIDES_0 0).mp hsome
  rw [c2] at h1
  exact ex_fanin_graph_entries_removed k x0 x_avg hbeyond i j h1

/-- C4 fails on the code. In the graph `ex_fanin_graph 1400 24574` the SINK of the tile over
(24574, 0) and (24575, 0), node 0, has no memoized offset and 1400 distinct fan-in pins
inside its footprint, all at (24575, 0). The mean of the x coordinates is 24575, and so is
its rounded value; the `float` sum of the code is 34405716 instead of 34405000, and
`set_sink_locs` sets the bounding box of the sink to the single cell (24576, 0), in the
first run of the loop body and after the whole run. -/
theorem set_sink_locs_float_sum_misses_mean :
    (node_at (ex_fanin_graph 1400 24574) 0).type = .SINK
      ∧ ((node_at (ex_fanin_graph 1400 24574) 0).xlow, (node_at (ex_fanin_graph 1400 24574) 0).ylow,
          (node_at (ex_fanin_graph 1400 24574) 0).xhigh,
          (node_at (ex_fanin_graph 1400 24574) 0).yhigh) = (24574, 0, 24575, 0)
      ∧ sink_ipins (ex_fanin_graph 1400 24574) 0 24574 0 24575 0 = List.range' 1 1400
      ∧ (List.range' 1 1400).map (fun pin => (node_at (ex_fanin_graph 1400 24574) pin).xlow)
        = List.replicate 1400 24575
      ∧ (List.range' 1 1400).map (fun pin => (node_at (ex_fanin_graph 1400 24574) pin).ylow)
        = List.replicate 1400 0
      ∧ round ((((List.replicate 1400 24575).sum : Nat) : ℚ)
          / (((List.replicate 1400 24575).length : Nat) : ℚ)) = 24575
      ∧ (List.replicate 1400 24575).sum = 34405000
      ∧ float_accumulate (List.replicate 1400 24575) = 34405716
      ∧ node_at (set_sink_locs_node ex_fanin_grid
            { st := ex_fanin_graph 1400 24574, physical_type_offsets := fun _ _ => none } 0).st 0
          = { ex_fanin_sink 1400 24574 with xlow := 24576, ylow := 0, xhigh := 24576, yhigh := 0 }
      ∧ node_at (set_sink_locs (ex_fanin_graph 1400 24574) ex_fanin_grid) 0
          = { ex_fanin_sink 1400 24574 with xlow := 24576, ylow := 0, xhigh := 24576, yhigh := 0 } := by
  obtain ⟨c1, r1, _, _⟩ := set_sink_locs_ex_fanin_graph ex_fanin_grid 1400 24574 24576 (by decide)
    (by decide) float_avg_far_pins
  have hround : round ((((List.replicate 1400 24575).sum : Nat) : ℚ)
      / (((List.replicate 1400 24575).length : Nat) : ℚ)) = 24575 := by
    rw [← round_avg_eq_round (List.replicate 1400 24575) (replicate_ne_nil 1400 24575 (by decide))]
    have : round_avg (List.replicate 1400 24575) = 24575 := by
      unfold round_avg
      rw [sum_replicate_nat, List.length_replicate]
    rw [this]
    rfl
  exact ⟨rfl, rfl, sink_ipins_ex_fanin_graph 1400 24574, (ex_fanin_graph_coords 1400 24574).1,
    (ex_fanin_graph_coords 1400 24574).2, hround, sum_replicate_nat 1400 24575, by decide!, c1, r1⟩

/-- C27 fails on the code, by the defect of C4. In the graph `ex_fanin_graph 1400 24574` the
tile of the SINK (node 0) covers x = 24574 to 24575, and the location that `set_sink_locs`
computes from the 1400 fan-in pins of the sink, all at (24575, 0), is (24576, 0): x_avg
lies beyond tile_xhigh. The removal loops skip no cell, so the sink is left without an
index entry, where it had one at each cell of its footprint, and the memoized offset is
(2, 0), whose first component is not smaller than the width of the tile. -/
theorem set_sink_locs_location_outside_footprint :
    ((node_at (ex_fanin_graph 1400 24574) 0).xlow, (node_at (ex_fanin_graph 1400 24574) 0).xhigh)
        = (24574, 24575)
      ∧ sink_ipins (ex_fanin_graph 1400 24574) 0 24574 0 24575 0 = List.range' 1 1400
      ∧ node_at (set_sink_locs_node ex_fanin_grid
            { st := ex_fanin_graph 1400 24574, physical_type_offsets := fun _ _ => none } 0).st 0
          = { ex_fanin_sink 1400 24574 with xlow := 24576, ylow := 0, xhigh := 24576, yhigh := 0 }
      ∧ node_at (set_sink_locs (ex_fanin_graph 1400 24574) ex_fanin_grid) 0
          = { ex_fanin_sink 1400 24574 with xlow := 24576, ylow := 0, xhigh := 24576, yhigh := 0 }
      ∧ ¬ (24576 ≤ (node_at (ex_fanin_graph 1400 24574) 0).xhigh)
      ∧ (ex_fanin_graph 1400 24574).node_lookup.find_node 0 24574 0 .SINK 0 .NUM_SIDES = some 0
      ∧ (ex_fanin_graph 1400 24574).node_lookup.find_node 0 24575 0 .SINK 0 .NUM_SIDES = some 0
      ∧ (∀ (i j : Nat) (side : e_side),
          (set_sink_locs (ex_fanin_graph 1400 24574) ex_fanin_grid).node_lookup.find_node 0 i j
            .SINK 0 side ≠ some 0)
      ∧ (set_sink_locs_node ex_fanin_grid
            { st := ex_fanin_graph 1400 24574, physical_type_offsets := fun _ _ => none }
            0).physical_type_offsets (ex_fanin_grid.get_physical_type ⟨24574, 0, 0⟩) 0
          = some (size_t_sub 24576 24574, 0)
      ∧ ex_fanin_grid.get_physical_type ⟨24574, 0, 0⟩ = ex_fanin_tile
      ∧ size_t_sub 24576 24574 = 2
      ∧ ¬ (2 < ex_fanin_tile.width) := by
  obtain ⟨c1, r1, m1, g1⟩ := set_sink_locs_ex_fanin_graph ex_fanin_grid 1400 24574 24576
    (by decide) (by decide) float_avg_far_pins
  exact ⟨rfl, sink_ipins_ex_fanin_graph 1400 24574, c1, r1, by decide, rfl, rfl, g1 (by decide), m1,
    rfl, by decide, by decide⟩

/-! ## Two tiles of one type with many pins -/

theorem node_at_ex_twin_graph_first (k xa xb i : Nat) (h : i < k) :
    node_at (ex_twin_graph k xa xb) (i + 2) = ex_fanin_ipin xa i := by
  unfold node_at ex_twin_graph
  simp [List.getD_eq_getElem?_getD, List.getElem?_append_left, List.getElem?_map,
    List.getElem?_range h, h]

theorem node_at_ex_twin_graph_second (k xa xb i : Nat) (h : i < k) :
    node_at (ex_twin_graph k xa xb) (i + k + 2) = ex_fanin_ipin xb i := by
  unfold node_at ex_twin_graph
  have e : i + k = k + i := Nat.add_comm i k
  simp [List.getD_eq_getElem?_getD, List.getElem?_append_right, List.getElem?_map,
    List.getElem?_range h, e]

theorem filter_eq_nil_of_forall {α : Type} (p : α → Bool) (l : List α) (h : ∀ a ∈ l, p a = false) :
    l.filter p = [] :=
  List.filter_eq_nil_iff.mpr (fun a ha => by rw [h a ha]; decide)

theorem fan_in_sources_ex_twin_graph (k xa xb : Nat) :
    fan_in_sources (ex_twin_graph k xa xb) 0 = List.range' 2 k
      ∧ fan_in_sources (ex_twin_graph k xa xb) 1 = List.range' (k + 2) k := by
  constructor
  · unfold fan_in_sources ex_twin_graph
    dsimp only
    rw [List.filter_append, filter_eq_self_of_forall _ ((List.range k).map (fun i => (i + 2, 0)))
        (fun e he => by
          obtain ⟨i, _, rfl⟩ := List.mem_map.mp he
          simp),
      filter_eq_nil_of_forall _ ((List.range k).map (fun i => (i + k + 2, 1)))
        (fun e he => by
          obtain ⟨i, _, rfl⟩ := List.mem_map.mp he
          simp),
      List.append_nil, List.map_map]
    exact map_succ_range k 2
  · unfold fan_in_sources ex_twin_graph
    dsimp only
    rw [List.filter_append, filter_eq_nil_of_forall _ ((List.range k).map (fun i => (i + 2, 0)))
        (fun e he => by
          obtain ⟨i, _, rfl⟩ := List.mem_map.mp he
          simp),
      filter_eq_self_of_forall _ ((List.range k).map (fun i => (i + k + 2, 1)))
        (fun e he => by
          obtain ⟨i, _, rfl⟩ := List.mem_map.mp he
          simp),
      List.nil_append, List.map_map]
    have := map_succ_range k (k + 2)
    rw [← this]
    exact List.map_congr_left (fun i _ => by simp [Nat.add_assoc])

/-- The pins of the two sinks of `ex_twin_graph`, in any state that has the edges and the
pin nodes of the graph. -/
theorem sink_ipins_ex_twin_graph (k xa xb : Nat) (st : RRBuildState)
    (he : st.edges = (ex_twin_graph k xa xb).edges)
    (hn : ∀ pin, 2 ≤ pin → node_at st pin = node_at (ex_twin_graph k xa xb) pin) :
    sink_ipins st 0 xa 0 (xa + 1) 0 = List.range' 2 k
      ∧ sink_ipins st 1 xb 0 (xb + 1) 0 = List.range' (k + 2) k
      ∧ (List.range' 2 k).map (fun pin => (node_at st pin).xlow) = List.replicate k (xa + 1)
      ∧ (List.range' 2 k).map (fun pin => (node_at st pin).ylow) = List.replicate k 0
      ∧ (List.range' (k + 2) k).map (fun pin => (node_at st pin).xlow) = List.replicate k (xb + 1)
      ∧ (List.range' (k + 2) k).map (fun pin => (node_at st pin).ylow) = List.replicate k 0
      ∧ (List.range' 2 k).map (fun pin => ((node_at st pin).xlow - xa, (node_at st pin).ylow - 0))
        = List.replicate k (1, 0)
      ∧ (List.range' (k + 2) k).map
          (fun pin => ((node_at st pin).xlow - xb, (node_at st pin).ylow - 0))
        = List.replicate k (1, 0) := by
  obtain ⟨f0, f1⟩ := fan_in_sources_ex_twin_graph k xa xb
  have hpa : ∀ pin ∈ List.range' 2 k, node_at st pin = ex_fanin_ipin xa (pin - 2) := by
    intro pin hp
    rw [List.mem_range'_1] at hp
    rw [hn pin hp.1]
    obtain ⟨i, rfl⟩ : ∃ i, pin = i + 2 := ⟨pin - 2, by omega⟩
    exact node_at_ex_twin_graph_first k xa xb i (by omega)
  have hpb : ∀ pin ∈ List.range' (k + 2) k, node_at st pin = ex_fanin_ipin xb (pin - (k + 2)) := by
    intro pin hp
    rw [List.mem_range'_1] at hp
    rw [hn pin (by omega)]
    obtain ⟨i, rfl⟩ : ∃ i, pin = i + k + 2 := ⟨pin - (k + 2), by omega⟩
    have e : i + k + 2 - (k + 2) = i := by omega
    rw [e]
    exact node_at_ex_twin_graph_second k xa xb i (by omega)
  have hsrc0 : fan_in_sources st 0 = List.range' 2 k := by
    unfold fan_in_sources
    rw [he]
    exact f0
  have hsrc1 : fan_in_sources st 1 = List.range' (k + 2) k := by
    unfold fan_in_sources
    rw [he]
    exact f1
  refine ⟨?_, ?_, ?_, ?_, ?_, ?_, ?_, ?_⟩
  · unfold sink_ipins
    rw [hsrc0, filter_eq_self_of_forall _ _ (fun pin hp => by
      rw [hpa pin hp]
      simp [ex_fanin_ipin])]
    exact (List.nodup_range' 2 k).dedup
  · unfold sink_ipins
    rw [hsrc1, filter_eq_self_of_forall _ _ (fun pin hp => by
      rw [hpb pin hp]
      simp [ex_fanin_ipin])]
    exact (List.nodup_range' (k + 2) k).dedup
  · have := map_eq_replicate_of_forall (fun pin => (node_at st pin).xlow) (xa + 1)
      (List.range' 2 k) (fun pin h => by dsimp only; rw [hpa pin h]; rfl)
    rw [List.length_range'] at this
    exact this
  · have := map_eq_replicate_of_forall (fun pin => (node_at st pin).ylow) 0
      (List.range' 2 k) (fun pin h => by dsimp only; rw [hpa pin h]; rfl)
    rw [List.length_range'] at this
    exact this
  · have := map_eq_replicate_of_forall (fun pin => (node_at st pin).xlow) (xb + 1)
      (List.range' (k + 2) k) (fun pin h => by dsimp only; rw [hpb pin h]; rfl)
    rw [List.length_range'] at this
    exact this
  · have := map_eq_replicate_of_forall (fun pin => (node_at st pin).ylow) 0
      (List.range' (k + 2) k) (fun pin h => by dsimp only; rw [hpb pin h]; rfl)
    rw [List.length_range'] at this
    exact this
  · have := map_eq_replicate_of_forall
      (fun pin => ((node_at st pin).xlow - xa, (node_at st pin).ylow - 0)) (1, 0)
      (List.range' 2 k) (fun pin h => by
        dsimp only
        rw [hpa pin h]
        exact Prod.ext (Nat.add_sub_cancel_left _ _) rfl)
    rw [List.length_range'] at this
    exact this
  · have := map_eq_replicate_of_forall
      (fun pin => ((node_at st pin).xlow - xb, (node_at st pin).ylow - 0)) (1, 0)
      (List.range' (k + 2) k) (fun pin h => by
        dsimp only
        rw [hpb pin h]
        exact Prod.ext (Nat.add_sub_cancel_left _ _) rfl)
    rw [List.length_range'] at this
    exact this

theorem set_sink_locs_node_length (grid : DeviceGrid) (s : SinkLocState) (node : Nat) :
    (set_sink_locs_node grid s node).st.nodes.length = s.st.nodes.length := by
  unfold set_sink_locs_node
  dsimp only
  split
  · rfl
  · split
    · rfl
    · split
      · simp [set_node_coordinates, modify_node]
      · split
        · rfl
        · simp [set_node_coordinates, modify_node]

/-- The run of `set_sink_locs` on the graph of two tiles of one type with `k` pins each on
the second cell, for the values `fa` and `fb` that the code computes from the x coordinates
of the pins of the first and of the second tile: the first sink is computed and memoizes its
offset, the second sink is placed by that offset at `loc`, in the loop body and after the
whole run, while the computation from its own pins places it at `fb`. -/
theorem set_sink_locs_ex_twin_graph (grid : DeviceGrid) (k xa xb fa fb loc : Nat) (hk : 0 < k)
    (hxa : xa + 1 < 2 ^ 15) (hxb : xb + 1 < 2 ^ 15)
    (htype : grid.get_physical_type ⟨xb, 0, 0⟩ = grid.get_physical_type ⟨xa, 0, 0⟩)
    (hfa : float_avg (List.replicate k (xa + 1)) = fa)
    (hfb : float_avg (List.replicate k (xb + 1)) = fb)
    (hloc : (xb + size_t_sub fa xa) % 2 ^ 64 = loc) :
    node_at (set_sink_locs_node grid
        { st := ex_twin_graph k xa xb, physical_type_offsets := fun _ _ => none } 0).st 0
        = { ex_fanin_sink k xa with xlow := fa, ylow := 0, xhigh := fa, yhigh := 0 }
      ∧ (set_sink_locs_node grid
          { st := ex_twin_graph k xa xb, physical_type_offsets := fun _ _ => none }
          0).physical_type_offsets (grid.get_physical_type ⟨xa, 0, 0⟩) 0
        = some (size_t_sub fa xa, 0)
      ∧ node_at (set_sink_locs_node grid
          { st := ex_twin_graph k xa xb, physical_type_offsets := fun _ _ => none } 0).st 1
        = ex_fanin_sink k xb
      ∧ sink_ipins (set_sink_locs_node grid
          { st := ex_twin_graph k xa xb, physical_type_offsets := fun _ _ => none } 0).st 1
          xb 0 (xb + 1) 0 = List.range' (k + 2) k
      ∧ (List.range' (k + 2) k).map (fun pin =>
          ((node_at (set_sink_locs_node grid
              { st := ex_twin_graph k xa xb, physical_type_offsets := fun _ _ => none } 0).st
              pin).xlow - xb,
           (node_at (set_sink_locs_node grid
              { st := ex_twin_graph k xa xb, physical_type_offsets := fun _ _ => none } 0).st
              pin).ylow - 0))
        = List.replicate k (1, 0)
      ∧ node_at (set_sink_locs_node grid
          (set_sink_locs_node grid
            { st := ex_twin_graph k xa xb, physical_type_offsets := fun _ _ => none } 0) 1).st 1
        = { ex_fanin_sink k xb with xlow := loc, ylow := 0, xhigh := loc, yhigh := 0 }
      ∧ node_at (set_sink_locs (ex_twin_graph k xa xb) grid) 1
        = { ex_fanin_sink k xb with xlow := loc, ylow := 0, xhigh := loc, yhigh := 0 }
      ∧ node_at (set_sink_locs_node grid
          { set_sink_locs_node grid
              { st := ex_twin_graph k xa xb, physical_type_offsets := fun _ _ => none } 0 with
            physical_type_offsets := fun _ _ => none } 1).st 1
        = { ex_fanin_sink k xb with xlow := fb, ylow := 0, xhigh := fb, yhigh := 0 } := by
  have hlenG : (ex_twin_graph k xa xb).nodes.length = 2 * k + 2 := by
    unfold ex_twin_graph
    simp
    omega
  obtain ⟨p0, _, x0, y0, _, _, _, _⟩ := sink_ipins_ex_twin_graph k xa xb (ex_twin_graph k xa xb) rfl
    (fun _ _ => rfl)
  have hne : ∀ a, List.range' a k ≠ [] := by
    intro a e
    have := congrArg List.length e
    rw [List.length_range'] at this
    simp at this
    omega
  obtain ⟨c1, _⟩ := set_sink_locs_node_computed grid
    { st := ex_twin_graph k xa xb, physical_type_offsets := fun _ _ => none } 0 (ex_fanin_sink k xa)
    (List.range' 2 k) (by rw [hlenG]; omega) rfl rfl (Or.inl (Nat.lt_succ_self xa)) hxa
    (show (0 : Nat) < 2 ^ 15 by decide) rfl p0 (hne 2)
  obtain ⟨m1, _⟩ := set_sink_locs_node_computed_memo grid
    { st := ex_twin_graph k xa xb, physical_type_offsets := fun _ _ => none } 0 (ex_fanin_sink k xa)
    (List.range' 2 k) rfl rfl (Or.inl (Nat.lt_succ_self xa)) hxa
    (show (0 : Nat) < 2 ^ 15 by decide) rfl p0 (hne 2)
  have x0' : (List.range' 2 k).map (fun pin =>
      (node_at ({ st := ex_twin_graph k xa xb, physical_type_offsets := fun _ _ => none }
        : SinkLocState).st pin).xlow) = List.replicate k (xa + 1) := x0
  have y0' : (List.range' 2 k).map (fun pin =>
      (node_at ({ st := ex_twin_graph k xa xb, physical_type_offsets := fun _ _ => none }
        : SinkLocState).st pin).ylow) = List.replicate k 0 := y0
  have hz : size_t_sub 0 (ex_fanin_sink k xa).ylow = 0 := by
    show size_t_sub 0 0 = 0
    decide
  rw [x0', y0', float_avg_replicate_zero, hfa] at c1 m1
  rw [hz] at m1
  have m1' : (set_sink_locs_node grid
      { st := ex_twin_graph k xa xb, physical_type_offsets := fun _ _ => none }
      0).physical_type_offsets (grid.get_physical_type ⟨xa, 0, 0⟩) 0
      = some (size_t_sub fa xa, 0) := m1
  have hother : ∀ node, 0 ≠ node →
      node_at (set_sink_locs_node grid
        { st := ex_twin_graph k xa xb, physical_type_offsets := fun _ _ => none } 0).st node
        = node_at (ex_twin_graph k xa xb) node :=
    fun node h => (set_sink_locs_node_other grid
      { st := ex_twin_graph k xa xb, physical_type_offsets := fun _ _ => none } 0 node h).1
  have hedges := (set_sink_locs_node_other grid
      { st := ex_twin_graph k xa xb, physical_type_offsets := fun _ _ => none } 0 1
      (by decide)).2.1
  obtain ⟨_, p1, _, _, x1, y1, _, o1⟩ := sink_ipins_ex_twin_graph k xa xb
    (set_sink_locs_node grid
      { st := ex_twin_graph k xa xb, physical_type_offsets := fun _ _ => none } 0).st hedges
    (fun pin hp => hother pin (by omega))
  have hn1 : node_at (set_sink_locs_node grid
      { st := ex_twin_graph k xa xb, physical_type_offsets := fun _ _ => none } 0).st 1
      = ex_fanin_sink k xb := hother 1 (by decide)
  have hlen1 : 1 < (set_sink_locs_node grid
      { st := ex_twin_graph k xa xb, physical_type_offsets := fun _ _ => none } 0).st.nodes.length := by
    rw [set_sink_locs_node_length]
    show 1 < (ex_twin_graph k xa xb).nodes.length
    rw [hlenG]
    omega
  have hmemo2 : (set_sink_locs_node grid
      { st := ex_twin_graph k xa xb, physical_type_offsets := fun _ _ => none }
      0).physical_type_offsets (grid.get_physical_type ⟨xb, 0, 0⟩) 0
      = some (size_t_sub fa xa, 0) := by
    rw [htype]
    exact m1'
  obtain ⟨a1, _⟩ := set_sink_locs_node_memoized grid
    (set_sink_locs_node grid
      { st := ex_twin_graph k xa xb, physical_type_offsets := fun _ _ => none } 0) 1
    (ex_fanin_sink k xb) (size_t_sub fa xa, 0) hlen1 hn1 rfl (Or.inl (Nat.lt_succ_self xb)) hxb
    (show (0 : Nat) < 2 ^ 15 by decide) hmemo2
  have hloc' : ((ex_fanin_sink k xb).xlow + (size_t_sub fa xa, 0).1) % 2 ^ 64 = loc := hloc
  have hzero : ((ex_fanin_sink k xb).ylow + (size_t_sub fa xa, 0).2) % 2 ^ 64 = 0 := by
    show (0 + 0) % 2 ^ 64 = 0
    decide
  rw [hloc', hzero] at a1
  obtain ⟨b1, _⟩ := set_sink_locs_node_computed grid
    { set_sink_locs_node grid
        { st := ex_twin_graph k xa xb, physical_type_offsets := fun _ _ => none } 0 with
      physical_type_offsets := fun _ _ => none } 1 (ex_fanin_sink k xb)
    (List.range' (k + 2) k) hlen1 hn1 rfl (Or.inl (Nat.lt_succ_self xb)) hxb
    (show (0 : Nat) < 2 ^ 15 by decide) rfl p1 (hne (k + 2))
  have x1' : (List.range' (k + 2) k).map (fun pin =>
      (node_at ({ set_sink_locs_node grid
          { st := ex_twin_graph k xa xb, physical_type_offsets := fun _ _ => none } 0 with
        physical_type_offsets := fun _ _ => none } : SinkLocState).st pin).xlow)
      = List.replicate k (xb + 1) := x1
  have y1' : (List.range' (k + 2) k).map (fun pin =>
      (node_at ({ set_sink_locs_node grid
          { st := ex_twin_graph k xa xb, physical_type_offsets := fun _ _ => none } 0 with
        physical_type_offsets := fun _ _ => none } : SinkLocState).st pin).ylow)
      = List.replicate k 0 := y1
  rw [x1', y1', float_avg_replicate_zero, hfb] at b1
  have hrun : set_sink_locs (ex_twin_graph k xa xb) grid
      = ((List.range' 2 ((ex_twin_graph k xa xb).nodes.length - 1 - 1)).foldl
          (set_sink_locs_node grid)
          (set_sink_locs_node grid
            (set_sink_locs_node grid
              { st := ex_twin_graph k xa xb, physical_type_offsets := fun _ _ => none } 0) 1)).st := by
    unfold set_sink_locs
    rw [range_split (ex_twin_graph k xa xb).nodes.length 1 (by rw [hlenG]; omega),
      show List.range 1 = [0] from rfl]
    simp only [List.foldl_append, List.foldl_cons, List.foldl_nil]
  have hfull := (foldl_set_sink_locs_node_other grid 1
    (List.range' 2 ((ex_twin_graph k xa xb).nodes.length - 1 - 1))
    (fun m hm => by
      have := (List.mem_range'_1.mp hm).1
      omega)
    (set_sink_locs_node grid
      (set_sink_locs_node grid
        { st := ex_twin_graph k xa xb, physical_type_offsets := fun _ _ => none } 0) 1)).1
  refine ⟨c1, m1', hn1, p1, o1, a1, ?_, b1⟩
  rw [hrun]
  exact hfull.trans a1

theorem float_avg_near_pins : float_avg (List.replicate 1400 1) = 1 := by
  decide!

/-- C13 fails on the code, by the defect of C4. In the graph `ex_twin_graph 1400 0 24574`
two tiles of one physical type are rooted at (0, 0) and at (24574, 0); their SINKs, the
nodes 0 and 1, have the class number 0, and each has 1400 fan-in pins inside its footprint,
all at the offset (1, 0) from the tile origin. The first sink is relocated by computation to
(1, 0) and the offset (1, 0) is memoized. From the memoized offset `set_sink_locs` places
the second sink at (24575, 0), in the loop body and after the whole run; the computation
from the second sink's own pins (the same state with an empty memo) places it at
(24576, 0). -/
theorem set_sink_locs_memoized_differs_from_computed :
    node_at (ex_twin_graph 1400 0 24574) 0 = ex_fanin_sink 1400 0
      ∧ node_at (ex_twin_graph 1400 0 24574) 1 = ex_fanin_sink 1400 24574
      ∧ ex_fanin_grid.get_physical_type ⟨24574, 0, 0⟩ = ex_fanin_grid.get_physical_type ⟨0, 0, 0⟩
      ∧ (ex_fanin_sink 1400 24574).ptc_num = (ex_fanin_sink 1400 0).ptc_num
      ∧ sink_ipins (ex_twin_graph 1400 0 24574) 0 0 0 1 0 = List.range' 2 1400
      ∧ (List.range' 2 1400).map (fun pin =>
          ((node_at (ex_twin_graph 1400 0 24574) pin).xlow - 0,
           (node_at (ex_twin_graph 1400 0 24574) pin).ylow - 0))
        = List.replicate 1400 (1, 0)
      ∧ sink_ipins (set_sink_locs_node ex_fanin_grid
          { st := ex_twin_graph 1400 0 24574, physical_type_offsets := fun _ _ => none } 0).st 1
          24574 0 24575 0 = List.range' 1402 1400
      ∧ (List.range' 1402 1400).map (fun pin =>
          ((node_at (set_sink_locs_node ex_fanin_grid
              { st := ex_twin_graph 1400 0 24574, physical_type_offsets := fun _ _ => none } 0).st
              pin).xlow - 24574,
           (node_at (set_sink_locs_node ex_fanin_grid
              { st := ex_twin_graph 1400 0 24574, physical_type_offsets := fun _ _ => none } 0).st
              pin).ylow - 0))
        = List.replicate 1400 (1, 0)
      ∧ node_at (set_sink_locs_node ex_fanin_grid
          { st := ex_twin_graph 1400 0 24574, physical_type_offsets := fun _ _ => none } 0).st 0
        = { ex_fanin_sink 1400 0 with xlow := 1, ylow := 0, xhigh := 1, yhigh := 0 }
      ∧ (set_sink_locs_node ex_fanin_grid
          { st := ex_twin_graph 1400 0 24574, physical_type_offsets := fun _ _ => none }
          0).physical_type_offsets (ex_fanin_grid.get_physical_type ⟨0, 0, 0⟩) 0
        = some (size_t_sub 1 0, 0)
      ∧ size_t_sub 1 0 = 1
      ∧ node_at (set_sink_locs_node ex_fanin_grid
          (set_sink_locs_node ex_fanin_grid
            { st := ex_twin_graph 1400 0 24574, physical_type_offsets := fun _ _ => none } 0) 1).st 1
        = { ex_fanin_sink 1400 24574 with xlow := 24575, ylow := 0, xhigh := 24575, yhigh := 0 }
      ∧ node_at (set_sink_locs (ex_twin_graph 1400 0 24574) ex_fanin_grid) 1
        = { ex_fanin_sink 1400 24574 with xlow := 24575, ylow := 0, xhigh := 24575, yhigh := 0 }
      ∧ node_at (set_sink_locs_node ex_fanin_grid
          { set_sink_locs_node ex_fanin_grid
              { st := ex_twin_graph 1400 0 24574, physical_type_offsets := fun _ _ => none } 0 with
            physical_type_offsets := fun _ _ => none } 1).st 1
        = { ex_fanin_sink 1400 24574 with xlow := 24576, ylow := 0, xhigh := 24576, yhigh := 0 }
      ∧ ({ ex_fanin_sink 1400 24574 with xlow := 24575, ylow := 0, xhigh := 24575, yhigh := 0 }
          : t_rr_node)
        ≠ { ex_fanin_sink 1400 24574 with xlow := 24576, ylow := 0, xhigh := 24576, yhigh := 0 } := by
  obtain ⟨p0, _, _, _, _, _, o0, _⟩ := sink_ipins_ex_twin_graph 1400 0 24574
    (ex_twin_graph 1400 0 24574) rfl (fun _ _ => rfl)
  obtain ⟨c1, m1, _, p1, o1, a1, r1, b1⟩ := set_sink_locs_ex_twin_graph ex_fanin_grid 1400 0 24574 1
    24576 24575 (by decide) (by decide) (by decide) rfl float_avg_near_pins float_avg_far_pins
    (by decide)
  exact ⟨rfl, rfl, rfl, rfl, p0, o0, p1, o1, c1, m1, by decide, a1, r1, b1, by decide⟩

end Vtr
